import Mathlib

/-!
# VulkanDemos (triangle): frame lifecycle and synchronisation engine

A shallow embedding of `VulkanBase.cpp` / `Triangle.cpp` and the properties
proved about it.  Unsigned 32-bit quantities are natural numbers, reduced
modulo `2 ^ 32` wherever the C++ arithmetic can wrap.  `VkResult` values are
integers.  Constants of the Vulkan headers carry their standard values.
-/

namespace VulkanDemos

/-! ## Constants of the Vulkan headers -/

/-- Modulus of `uint32_t` arithmetic. -/
def UINT32_MOD : Nat := 2 ^ 32

def VK_SUCCESS : Int := 0
def VK_SUBOPTIMAL_KHR : Int := 1000001003
def VK_ERROR_OUT_OF_DATE_KHR : Int := -1000001004

def VK_FORMAT_UNDEFINED : Nat := 0
def VK_FORMAT_R8G8B8A8_UNORM : Nat := 37
def VK_FORMAT_B8G8R8A8_UNORM : Nat := 44
def VK_FORMAT_D16_UNORM : Nat := 124
def VK_FORMAT_D32_SFLOAT : Nat := 126
def VK_FORMAT_D16_UNORM_S8_UINT : Nat := 128
def VK_FORMAT_D24_UNORM_S8_UINT : Nat := 129
def VK_FORMAT_D32_SFLOAT_S8_UINT : Nat := 130

def VK_FORMAT_FEATURE_DEPTH_STENCIL_ATTACHMENT_BIT : Nat := 0x200
def VK_IMAGE_ASPECT_DEPTH_BIT : Nat := 0x2
def VK_IMAGE_ASPECT_STENCIL_BIT : Nat := 0x4
def VK_MEMORY_PROPERTY_DEVICE_LOCAL_BIT : Nat := 0x1
def VK_QUEUE_GRAPHICS_BIT : Nat := 0x1
def VK_IMAGE_ASPECT_COLOR_BIT : Nat := 0x1
def VK_NULL_HANDLE : Nat := 0

/-- Maximum number of concurrent frames (`VulkanBase.hpp`). -/
def MAX_CONCURRENT_FRAMES : Nat := 2

/-! ## Device memory types: `getMemoryTypeIndex` -/

/-- One entry of `VkPhysicalDeviceMemoryProperties::memoryTypes`. -/
structure VkMemoryType where
  propertyFlags : Nat
  heapIndex : Nat
  deriving DecidableEq

/-- The memory-type table queried once in `createDevice`. -/
structure VkPhysicalDeviceMemoryProperties where
  memoryTypeCount : Nat
  memoryTypes : List VkMemoryType
  deriving DecidableEq

/-- Read of `memoryTypes[i].propertyFlags`. -/
def VkPhysicalDeviceMemoryProperties.flagsAt
    (mp : VkPhysicalDeviceMemoryProperties) (i : Nat) : Nat :=
  (mp.memoryTypes[i]?.map VkMemoryType.propertyFlags).getD 0

/-- The `for` loop of `getMemoryTypeIndex`: `fuel` iterations remain, `i` is the
loop counter and `typeBits` the shifted mask.  `some i` is the `return i` inside
the loop, `none` means the loop ran to its end. -/
def getMemoryTypeIndexLoop (mp : VkPhysicalDeviceMemoryProperties) (properties : Nat) :
    Nat → Nat → Nat → Option Nat
  | 0, _, _ => none
  | fuel + 1, i, typeBits =>
    if typeBits &&& 1 = 1 then
      if mp.flagsAt i &&& properties = properties then
        some i
      else
        getMemoryTypeIndexLoop mp properties fuel (i + 1) (typeBits >>> 1)
    else
      getMemoryTypeIndexLoop mp properties fuel (i + 1) (typeBits >>> 1)

/-- `VulkanExampleBase::getMemoryTypeIndex`: the first matching index, or `0`
after the error log when the loop finds none. -/
def getMemoryTypeIndex (mp : VkPhysicalDeviceMemoryProperties)
    (typeBits : Nat) (properties : Nat) : Nat :=
  match getMemoryTypeIndexLoop mp properties mp.memoryTypeCount 0 typeBits with
  | some i => i
  | none => 0

/-- Index `i` is a match: bit `i` of the mask is set and every required flag
bit is among the property flags of memory type `i`. -/
def MemoryTypeMatches (mp : VkPhysicalDeviceMemoryProperties)
    (typeBits properties i : Nat) : Prop :=
  typeBits.testBit i = true ∧
    ∀ b : Nat, properties.testBit b = true → (mp.flagsAt i).testBit b = true

/-! ## Depth format selection (`setupDepthStencil`) -/

/-- The fixed priority list `depthFormats` of `setupDepthStencil`. -/
def depthFormats : List Nat :=
  [VK_FORMAT_D32_SFLOAT_S8_UINT, VK_FORMAT_D32_SFLOAT, VK_FORMAT_D24_UNORM_S8_UINT,
   VK_FORMAT_D16_UNORM_S8_UINT, VK_FORMAT_D16_UNORM]

/-- The selection loop of `setupDepthStencil`.  `optimalTilingFeatures format` is
what `vkGetPhysicalDeviceFormatProperties` reports for `format`; the second
argument is the value `depthFormat` holds when the loop is entered. -/
def selectDepthFormatLoop (optimalTilingFeatures : Nat → Nat) : List Nat → Nat → Nat
  | [], depthFormat => depthFormat
  | format :: rest, depthFormat =>
    if optimalTilingFeatures format &&& VK_FORMAT_FEATURE_DEPTH_STENCIL_ATTACHMENT_BIT ≠ 0 then
      format
    else
      selectDepthFormatLoop optimalTilingFeatures rest depthFormat

/-- Value of `depthFormat` after the selection loop of `setupDepthStencil`. -/
def selectDepthFormat (optimalTilingFeatures : Nat → Nat) (depthFormat : Nat) : Nat :=
  selectDepthFormatLoop optimalTilingFeatures depthFormats depthFormat

/-- The aspect mask of the depth view built by `setupDepthStencil`. -/
def depthAspectMask (depthFormat : Nat) : Nat :=
  if depthFormat ≥ VK_FORMAT_D16_UNORM_S8_UINT then
    VK_IMAGE_ASPECT_DEPTH_BIT ||| VK_IMAGE_ASPECT_STENCIL_BIT
  else
    VK_IMAGE_ASPECT_DEPTH_BIT

/-- A format is marked supported when the depth-stencil-attachment feature
(bit 9) is among its optimal-tiling features. -/
def DepthFormatSupported (optimalTilingFeatures : Nat → Nat) (format : Nat) : Prop :=
  (optimalTilingFeatures format).testBit 9 = true

/-! ## Swapchain parameters (`createSwapChain`) -/

/-- The part of `VkSurfaceCapabilitiesKHR` read by `createSwapChain`. -/
structure VkSurfaceCapabilitiesKHR where
  minImageCount : Nat
  maxImageCount : Nat
  currentExtentWidth : Nat
  currentExtentHeight : Nat
  deriving DecidableEq

structure VkSurfaceFormatKHR where
  format : Nat
  colorSpace : Nat
  deriving DecidableEq

/-- The number of images `createSwapChain` puts in
`swapchainCI.minImageCount`; the sum is a `uint32_t` sum. -/
def desiredImageCount (minImageCount maxImageCount : Nat) : Nat :=
  let desiredImageCount := (minImageCount + 1) % UINT32_MOD
  if maxImageCount > 0 ∧ desiredImageCount > maxImageCount then
    maxImageCount
  else
    desiredImageCount

/-- The range-`for` of the format selection in `createSwapChain`; the pair is
`(colorFormat, colorSpace)`. -/
def selectSurfaceFormatLoop : List VkSurfaceFormatKHR → Nat × Nat → Nat × Nat
  | [], selected => selected
  | format :: rest, selected =>
    if format.format = VK_FORMAT_R8G8B8A8_UNORM then
      (format.format, format.colorSpace)
    else
      selectSurfaceFormatLoop rest selected

/-- The format selection of `createSwapChain`, giving `(colorFormat, colorSpace)`.
Reading `surfaceFormats[0]` of an empty vector has no defined result: `none`. -/
def selectSurfaceFormat (surfaceFormats : List VkSurfaceFormatKHR) : Option (Nat × Nat) :=
  match surfaceFormats with
  | [] => none
  | first :: _ =>
    some (selectSurfaceFormatLoop surfaceFormats (VK_FORMAT_R8G8B8A8_UNORM, first.colorSpace))

/-! ## Frame index -/

/-- The last statement of `submitFrame`:
`currentFrame = (currentFrame + 1) % MAX_CONCURRENT_FRAMES` on `uint32_t`. -/
def advanceFrame (currentFrame : Nat) : Nat :=
  ((currentFrame + 1) % UINT32_MOD) % MAX_CONCURRENT_FRAMES

/-! ## Program state, driver answers and the call log

The program runs on one control thread.  Every function of the program is a
function from the program state (and the answers the driver gives during the
call) to a `Step`: the new state, the calls issued, and whether the process
was terminated by a failed assertion.  Each logged call carries a snapshot of
the driver-side state of the per-slot fences at the moment the call is issued.
Floating-point data (`rotation`, the matrices) is left out: no control flow
depends on it. -/

/-- State of one element of `waitFences`: a null handle, or a fence that is
signaled, unsignaled with nothing queued to signal it, or unsignaled with a
queue submission pending that signals it on completion. -/
inductive FenceStatus
  | null
  | signaled
  | unsignaled
  | pending
  deriving DecidableEq

/-- Commands delivered to `handleAppCommandInternal`; `other` stands for every
value that is none of the four `case` labels. -/
inductive AppCmd
  | APP_CMD_INIT_WINDOW
  | APP_CMD_TERM_WINDOW
  | APP_CMD_GAINED_FOCUS
  | APP_CMD_LOST_FOCUS
  | other (cmd : Int)
  deriving DecidableEq

/-- Calls and log lines the program issues, and the completion of a submission
by the GPU.  Slot arguments are indices into the
per-frame arrays (`waitFences`, `presentCompleteSemaphores`,
`renderCompleteSemaphores`, `commandBuffers`, `uniformBuffers`). -/
inductive Op
  -- frame
  | logFirstFrame
  | vkWaitForFences (fence : Nat)
  | vkResetFences (fence : Nat)
  | vkAcquireNextImageKHR (semaphore : Nat)
  | logSwapchainStale
  | updateUniformBuffer (uniformBuffer : Nat)
  | vkResetCommandBuffer (commandBuffer : Nat)
  | vkBeginCommandBuffer (commandBuffer : Nat)
  | vkCmdBeginRenderPass (commandBuffer frameBuffer width height : Nat)
  | vkCmdSetViewport (commandBuffer width height : Nat)
  | vkCmdSetScissor (commandBuffer width height : Nat)
  | vkCmdBindPipeline (commandBuffer : Nat)
  | vkCmdBindDescriptorSets (commandBuffer uniformBuffer : Nat)
  | vkCmdBindVertexBuffers (commandBuffer : Nat)
  | vkCmdBindIndexBuffer (commandBuffer : Nat)
  | vkCmdDrawIndexed (commandBuffer : Nat)
  | vkCmdEndRenderPass (commandBuffer : Nat)
  | vkEndCommandBuffer (commandBuffer : Nat)
  | vkQueueSubmit (commandBuffer waitSemaphore signalSemaphore fence : Nat)
  | vkQueuePresentKHR (waitSemaphore imageIndex : Nat)
  | setCurrentFrame (value : Nat)
  -- VK_CHECK_RESULT and assert
  | logVulkanError (res : Int)
  | assertFailed
  -- lifecycle
  | logAppCmd (cmd : AppCmd)
  | logWindowNull
  | logExitRenderLoop
  | vkDeviceWaitIdle
  -- bring-up
  | vkCreateInstance
  | vkCreateAndroidSurfaceKHR
  | vkEnumeratePhysicalDevices (withData : Bool)
  | vkCreateDevice (queueFamilyIndex queueCount : Nat)
  | vkGetDeviceQueue (queueFamilyIndex queueIndex : Nat)
  | vkGetPhysicalDeviceSurfaceCapabilitiesKHR
  | vkGetPhysicalDeviceSurfaceFormatsKHR (withData : Bool)
  | undefinedRead
  | vkGetPhysicalDeviceSurfacePresentModesKHR (withData : Bool)
  | vkCreateSwapchainKHR (minImageCount imageFormat imageColorSpace width height : Nat)
  | vkGetSwapchainImagesKHR (withData : Bool)
  | vkCreateImageView (image format aspectMask : Nat)
  | vkCreateCommandPool (queueFamilyIndex : Nat)
  | vkAllocateCommandBuffers (commandBufferCount : Nat)
  | vkCreateFence (fence : Nat)
  | vkCreatePresentCompleteSemaphore (semaphore : Nat)
  | vkCreateRenderCompleteSemaphore (semaphore : Nat)
  | vkCreatePipelineCache
  | vkCreateImage (format width height : Nat)
  | vkAllocateMemory (memoryTypeIndex : Nat)
  | vkBindImageMemory
  | vkCreateRenderPass (colorFormat depthFormat : Nat)
  | vkCreateFramebuffer (index : Nat) (attachments : List Nat) (width height : Nat)
  | logPreparationComplete
  | createVertexBuffer
  | vkQueueSubmitStagingCopy
  | vkWaitForStagingFence
  | createUniformBuffers
  | createDescriptors
  | createPipeline
  -- the GPU
  | fenceSignaled (fence : Nat)
  -- shader loading and pipeline creation
  | vkCreatePipelineLayout
  | AAssetManager_open
  | logCouldNotOpenShaderFile
  | vkCreateShaderModule
  | vkCreateGraphicsPipelines (vertShaderModule fragShaderModule : Nat)
  | vkDestroyShaderModule (shaderModule : Nat)

/-- Flat record of an operation: constructor number and arguments by kind. -/
structure OpCode where
  tag : Nat
  nats : List Nat
  int : Int := 0
  flag : Bool := false
  cmd : AppCmd := AppCmd.other 0
  list : List Nat := []
  deriving DecidableEq

/-- The flat record of an operation. -/
def Op.encode : Op → OpCode
  | Op.logFirstFrame => { tag := 0, nats := [] }
  | Op.vkWaitForFences fence => { tag := 1, nats := [fence] }
  | Op.vkResetFences fence => { tag := 2, nats := [fence] }
  | Op.vkAcquireNextImageKHR semaphore => { tag := 3, nats := [semaphore] }
  | Op.logSwapchainStale => { tag := 4, nats := [] }
  | Op.updateUniformBuffer uniformBuffer => { tag := 5, nats := [uniformBuffer] }
  | Op.vkResetCommandBuffer commandBuffer => { tag := 6, nats := [commandBuffer] }
  | Op.vkBeginCommandBuffer commandBuffer => { tag := 7, nats := [commandBuffer] }
  | Op.vkCmdBeginRenderPass commandBuffer frameBuffer width height => { tag := 8, nats := [commandBuffer, frameBuffer, width, height] }
  | Op.vkCmdSetViewport commandBuffer width height => { tag := 9, nats := [commandBuffer, width, height] }
  | Op.vkCmdSetScissor commandBuffer width height => { tag := 10, nats := [commandBuffer, width, height] }
  | Op.vkCmdBindPipeline commandBuffer => { tag := 11, nats := [commandBuffer] }
  | Op.vkCmdBindDescriptorSets commandBuffer uniformBuffer => { tag := 12, nats := [commandBuffer, uniformBuffer] }
  | Op.vkCmdBindVertexBuffers commandBuffer => { tag := 13, nats := [commandBuffer] }
  | Op.vkCmdBindIndexBuffer commandBuffer => { tag := 14, nats := [commandBuffer] }
  | Op.vkCmdDrawIndexed commandBuffer => { tag := 15, nats := [commandBuffer] }
  | Op.vkCmdEndRenderPass commandBuffer => { tag := 16, nats := [commandBuffer] }
  | Op.vkEndCommandBuffer commandBuffer => { tag := 17, nats := [commandBuffer] }
  | Op.vkQueueSubmit commandBuffer waitSemaphore signalSemaphore fence => { tag := 18, nats := [commandBuffer, waitSemaphore, signalSemaphore, fence] }
  | Op.vkQueuePresentKHR waitSemaphore imageIndex => { tag := 19, nats := [waitSemaphore, imageIndex] }
  | Op.setCurrentFrame value => { tag := 20, nats := [value] }
  | Op.logVulkanError res => { tag := 21, nats := [], int := res }
  | Op.assertFailed => { tag := 22, nats := [] }
  | Op.logAppCmd cmd => { tag := 23, nats := [], cmd := cmd }
  | Op.logWindowNull => { tag := 24, nats := [] }
  | Op.logExitRenderLoop => { tag := 25, nats := [] }
  | Op.vkDeviceWaitIdle => { tag := 26, nats := [] }
  | Op.vkCreateInstance => { tag := 27, nats := [] }
  | Op.vkCreateAndroidSurfaceKHR => { tag := 28, nats := [] }
  | Op.vkEnumeratePhysicalDevices withData => { tag := 29, nats := [], flag := withData }
  | Op.vkCreateDevice queueFamilyIndex queueCount => { tag := 30, nats := [queueFamilyIndex, queueCount] }
  | Op.vkGetDeviceQueue queueFamilyIndex queueIndex => { tag := 31, nats := [queueFamilyIndex, queueIndex] }
  | Op.vkGetPhysicalDeviceSurfaceCapabilitiesKHR => { tag := 32, nats := [] }
  | Op.vkGetPhysicalDeviceSurfaceFormatsKHR withData => { tag := 33, nats := [], flag := withData }
  | Op.undefinedRead => { tag := 34, nats := [] }
  | Op.vkGetPhysicalDeviceSurfacePresentModesKHR withData => { tag := 35, nats := [], flag := withData }
  | Op.vkCreateSwapchainKHR minImageCount imageFormat imageColorSpace width height => { tag := 36, nats := [minImageCount, imageFormat, imageColorSpace, width, height] }
  | Op.vkGetSwapchainImagesKHR withData => { tag := 37, nats := [], flag := withData }
  | Op.vkCreateImageView image format aspectMask => { tag := 38, nats := [image, format, aspectMask] }
  | Op.vkCreateCommandPool queueFamilyIndex => { tag := 39, nats := [queueFamilyIndex] }
  | Op.vkAllocateCommandBuffers commandBufferCount => { tag := 40, nats := [commandBufferCount] }
  | Op.vkCreateFence fence => { tag := 41, nats := [fence] }
  | Op.vkCreatePresentCompleteSemaphore semaphore => { tag := 42, nats := [semaphore] }
  | Op.vkCreateRenderCompleteSemaphore semaphore => { tag := 43, nats := [semaphore] }
  | Op.vkCreatePipelineCache => { tag := 44, nats := [] }
  | Op.vkCreateImage format width height => { tag := 45, nats := [format, width, height] }
  | Op.vkAllocateMemory memoryTypeIndex => { tag := 46, nats := [memoryTypeIndex] }
  | Op.vkBindImageMemory => { tag := 47, nats := [] }
  | Op.vkCreateRenderPass colorFormat depthFormat => { tag := 48, nats := [colorFormat, depthFormat] }
  | Op.vkCreateFramebuffer index attachments width height => { tag := 49, nats := [index, width, height], list := attachments }
  | Op.logPreparationComplete => { tag := 50, nats := [] }
  | Op.createVertexBuffer => { tag := 51, nats := [] }
  | Op.vkQueueSubmitStagingCopy => { tag := 52, nats := [] }
  | Op.vkWaitForStagingFence => { tag := 53, nats := [] }
  | Op.createUniformBuffers => { tag := 54, nats := [] }
  | Op.createDescriptors => { tag := 55, nats := [] }
  | Op.createPipeline => { tag := 56, nats := [] }
  | Op.fenceSignaled fence => { tag := 57, nats := [fence] }
  | Op.vkCreatePipelineLayout => { tag := 58, nats := [] }
  | Op.AAssetManager_open => { tag := 59, nats := [] }
  | Op.logCouldNotOpenShaderFile => { tag := 60, nats := [] }
  | Op.vkCreateShaderModule => { tag := 61, nats := [] }
  | Op.vkCreateGraphicsPipelines vertShaderModule fragShaderModule => { tag := 62, nats := [vertShaderModule, fragShaderModule] }
  | Op.vkDestroyShaderModule shaderModule => { tag := 63, nats := [shaderModule] }

/-- The operation a flat record stands for. -/
def Op.decode (c : OpCode) : Option Op :=
  match c.tag, c.nats with
  | 0, [] => some Op.logFirstFrame
  | 1, [fence] => some (Op.vkWaitForFences fence)
  | 2, [fence] => some (Op.vkResetFences fence)
  | 3, [semaphore] => some (Op.vkAcquireNextImageKHR semaphore)
  | 4, [] => some Op.logSwapchainStale
  | 5, [uniformBuffer] => some (Op.updateUniformBuffer uniformBuffer)
  | 6, [commandBuffer] => some (Op.vkResetCommandBuffer commandBuffer)
  | 7, [commandBuffer] => some (Op.vkBeginCommandBuffer commandBuffer)
  | 8, [commandBuffer, frameBuffer, width, height] => some (Op.vkCmdBeginRenderPass commandBuffer frameBuffer width height)
  | 9, [commandBuffer, width, height] => some (Op.vkCmdSetViewport commandBuffer width height)
  | 10, [commandBuffer, width, height] => some (Op.vkCmdSetScissor commandBuffer width height)
  | 11, [commandBuffer] => some (Op.vkCmdBindPipeline commandBuffer)
  | 12, [commandBuffer, uniformBuffer] => some (Op.vkCmdBindDescriptorSets commandBuffer uniformBuffer)
  | 13, [commandBuffer] => some (Op.vkCmdBindVertexBuffers commandBuffer)
  | 14, [commandBuffer] => some (Op.vkCmdBindIndexBuffer commandBuffer)
  | 15, [commandBuffer] => some (Op.vkCmdDrawIndexed commandBuffer)
  | 16, [commandBuffer] => some (Op.vkCmdEndRenderPass commandBuffer)
  | 17, [commandBuffer] => some (Op.vkEndCommandBuffer commandBuffer)
  | 18, [commandBuffer, waitSemaphore, signalSemaphore, fence] => some (Op.vkQueueSubmit commandBuffer waitSemaphore signalSemaphore fence)
  | 19, [waitSemaphore, imageIndex] => some (Op.vkQueuePresentKHR waitSemaphore imageIndex)
  | 20, [value] => some (Op.setCurrentFrame value)
  | 21, [] => some (Op.logVulkanError c.int)
  | 22, [] => some Op.assertFailed
  | 23, [] => some (Op.logAppCmd c.cmd)
  | 24, [] => some Op.logWindowNull
  | 25, [] => some Op.logExitRenderLoop
  | 26, [] => some Op.vkDeviceWaitIdle
  | 27, [] => some Op.vkCreateInstance
  | 28, [] => some Op.vkCreateAndroidSurfaceKHR
  | 29, [] => some (Op.vkEnumeratePhysicalDevices c.flag)
  | 30, [queueFamilyIndex, queueCount] => some (Op.vkCreateDevice queueFamilyIndex queueCount)
  | 31, [queueFamilyIndex, queueIndex] => some (Op.vkGetDeviceQueue queueFamilyIndex queueIndex)
  | 32, [] => some Op.vkGetPhysicalDeviceSurfaceCapabilitiesKHR
  | 33, [] => some (Op.vkGetPhysicalDeviceSurfaceFormatsKHR c.flag)
  | 34, [] => some Op.undefinedRead
  | 35, [] => some (Op.vkGetPhysicalDeviceSurfacePresentModesKHR c.flag)
  | 36, [minImageCount, imageFormat, imageColorSpace, width, height] => some (Op.vkCreateSwapchainKHR minImageCount imageFormat imageColorSpace width height)
  | 37, [] => some (Op.vkGetSwapchainImagesKHR c.flag)
  | 38, [image, format, aspectMask] => some (Op.vkCreateImageView image format aspectMask)
  | 39, [queueFamilyIndex] => some (Op.vkCreateCommandPool queueFamilyIndex)
  | 40, [commandBufferCount] => some (Op.vkAllocateCommandBuffers commandBufferCount)
  | 41, [fence] => some (Op.vkCreateFence fence)
  | 42, [semaphore] => some (Op.vkCreatePresentCompleteSemaphore semaphore)
  | 43, [semaphore] => some (Op.vkCreateRenderCompleteSemaphore semaphore)
  | 44, [] => some Op.vkCreatePipelineCache
  | 45, [format, width, height] => some (Op.vkCreateImage format width height)
  | 46, [memoryTypeIndex] => some (Op.vkAllocateMemory memoryTypeIndex)
  | 47, [] => some Op.vkBindImageMemory
  | 48, [colorFormat, depthFormat] => some (Op.vkCreateRenderPass colorFormat depthFormat)
  | 49, [index, width, height] => some (Op.vkCreateFramebuffer index c.list width height)
  | 50, [] => some Op.logPreparationComplete
  | 51, [] => some Op.createVertexBuffer
  | 52, [] => some Op.vkQueueSubmitStagingCopy
  | 53, [] => some Op.vkWaitForStagingFence
  | 54, [] => some Op.createUniformBuffers
  | 55, [] => some Op.createDescriptors
  | 56, [] => some Op.createPipeline
  | 57, [fence] => some (Op.fenceSignaled fence)
  | 58, [] => some Op.vkCreatePipelineLayout
  | 59, [] => some Op.AAssetManager_open
  | 60, [] => some Op.logCouldNotOpenShaderFile
  | 61, [] => some Op.vkCreateShaderModule
  | 62, [vertShaderModule, fragShaderModule] => some (Op.vkCreateGraphicsPipelines vertShaderModule fragShaderModule)
  | 63, [shaderModule] => some (Op.vkDestroyShaderModule shaderModule)
  | _, _ => none

/-- Equality of operations is decided on their flat records. -/
instance : DecidableEq Op := fun a b =>
  decidable_of_iff (a.encode = b.encode)
    ⟨fun h => by
      have hd : ∀ x : Op, Op.decode x.encode = some x := by
        intro x; cases x <;> rfl
      have h2 : some a = some b := by rw [← hd a, ← hd b, h]
      exact Option.some.inj h2,
     fun h => congrArg Op.encode h⟩

/-- A logged call with the fence states at the moment it is issued. -/
structure LogEntry where
  op : Op
  fences : List FenceStatus
  deriving DecidableEq

/-- An element of `swapChainBuffers`: image and view handles. -/
structure SwapChainBuffer where
  image : Nat := VK_NULL_HANDLE
  view : Nat := VK_NULL_HANDLE
  deriving DecidableEq

/-- A created framebuffer, kept as the create info it was created from. -/
structure FramebufferInfo where
  attachments : List Nat
  width : Nat
  height : Nat
  deriving DecidableEq

/-- The fields of `VulkanExampleBase` (and the static `firstFrame` of
`Triangle::render`) that the modelled code reads or writes, with the
initial values of the class definition.  Handles are numbers, `VK_NULL_HANDLE`
being 0 (`none` in `frameBuffers`); `device` tells whether the device handle is
non-null; `waitFences` holds the driver-side state of the fences instead of
their handles. -/
structure VulkanExampleBase where
  androidApp : Bool := false
  physicalDevice : Nat := VK_NULL_HANDLE
  device : Bool := false
  queueFamilyIndex : Nat := 0
  deviceMemoryProperties : VkPhysicalDeviceMemoryProperties :=
    { memoryTypeCount := 0, memoryTypes := [] }
  colorFormat : Nat := VK_FORMAT_UNDEFINED
  colorSpace : Nat := 0
  swapChainBuffers : List SwapChainBuffer := []
  imageCount : Nat := 0
  depthFormat : Nat := VK_FORMAT_UNDEFINED
  depthStencilView : Nat := VK_NULL_HANDLE
  frameBuffers : List (Option FramebufferInfo) := []
  waitFences : List FenceStatus := [FenceStatus.null, FenceStatus.null]
  prepared : Bool := false
  paused : Bool := false
  width : Nat := 0
  height : Nat := 0
  currentFrame : Nat := 0
  currentBuffer : Nat := 0
  firstFrame : Bool := true
  deriving DecidableEq

/-- Result of running a piece of the program. -/
structure Step where
  st : VulkanExampleBase
  ops : List LogEntry
  aborted : Bool
  deriving DecidableEq

/-- Sequencing: the second part runs only when the first did not terminate the
process. -/
def Step.andThen (a : Step) (f : VulkanExampleBase → Step) : Step :=
  if a.aborted then a
  else
    let b := f a.st
    { st := b.st, ops := a.ops ++ b.ops, aborted := b.aborted }

/-- Nothing happens. -/
def skip (st : VulkanExampleBase) : Step :=
  { st := st, ops := [], aborted := false }

/-- A call or log line that leaves the modelled state unchanged. -/
def emit (op : Op) (st : VulkanExampleBase) : Step :=
  { st := st, ops := [{ op := op, fences := st.waitFences }], aborted := false }

/-- A call, or an assignment recorded in the log, with its effect on the
modelled state. -/
def vkCall (op : Op) (effect : VulkanExampleBase → VulkanExampleBase)
    (st : VulkanExampleBase) : Step :=
  { st := effect st, ops := [{ op := op, fences := st.waitFences }], aborted := false }

/-- The macro `VK_CHECK_RESULT` applied to a call that answered `res`: a status
other than `VK_SUCCESS` is logged and fails the assertion, which terminates the
process (assertions enabled). -/
def VK_CHECK_RESULT (res : Int) (st : VulkanExampleBase) : Step :=
  if res ≠ VK_SUCCESS then
    { st := st,
      ops := [{ op := Op.logVulkanError res, fences := st.waitFences },
              { op := Op.assertFailed, fences := st.waitFences }],
      aborted := true }
  else skip st

/-- The statement `VK_CHECK_RESULT(call)`: the call is issued, takes effect when
it succeeds, and its status is checked. -/
def checkedCall (op : Op) (res : Int) (effect : VulkanExampleBase → VulkanExampleBase)
    (st : VulkanExampleBase) : Step :=
  (vkCall op (fun s => if res = VK_SUCCESS then effect s else s) st).andThen
    (VK_CHECK_RESULT res)

/-- Driver effect on one fence. -/
def setFence (fence : Nat) (status : FenceStatus) (st : VulkanExampleBase) :
    VulkanExampleBase :=
  { st with waitFences := st.waitFences.set fence status }

/-- What the driver answers during one frame: the status of every call that
returns one, and the image index written by a successful acquire. -/
structure FrameEnv where
  waitForFences : Int := VK_SUCCESS
  resetFences : Int := VK_SUCCESS
  acquireNextImage : Int := VK_SUCCESS
  imageIndex : Nat := 0
  resetCommandBuffer : Int := VK_SUCCESS
  beginCommandBuffer : Int := VK_SUCCESS
  endCommandBuffer : Int := VK_SUCCESS
  queueSubmit : Int := VK_SUCCESS
  queuePresent : Int := VK_SUCCESS
  deriving DecidableEq

/-- `VulkanExampleBase::prepareFrame`. A successful wait returns with the fence
signaled; a successful reset leaves it unsignaled; an acquire that answers
`VK_SUCCESS` or `VK_SUBOPTIMAL_KHR` writes the image index to `currentBuffer`.
The status of the acquire is not passed to `VK_CHECK_RESULT`. -/
def prepareFrame (env : FrameEnv) (st : VulkanExampleBase) : Step :=
  (checkedCall (Op.vkWaitForFences st.currentFrame) env.waitForFences
    (setFence st.currentFrame FenceStatus.signaled) st).andThen fun st =>
  (checkedCall (Op.vkResetFences st.currentFrame) env.resetFences
    (setFence st.currentFrame FenceStatus.unsignaled) st).andThen fun st =>
  (vkCall (Op.vkAcquireNextImageKHR st.currentFrame)
    (fun s =>
      if env.acquireNextImage = VK_SUCCESS ∨ env.acquireNextImage = VK_SUBOPTIMAL_KHR then
        { s with currentBuffer := env.imageIndex % UINT32_MOD }
      else s) st).andThen fun st =>
  if env.acquireNextImage = VK_ERROR_OUT_OF_DATE_KHR ∨
      env.acquireNextImage = VK_SUBOPTIMAL_KHR then
    emit Op.logSwapchainStale st
  else skip st

/-- `VulkanExampleBase::submitFrame`. A successful submit leaves the fence
pending; the status of the present is ignored. -/
def submitFrame (env : FrameEnv) (st : VulkanExampleBase) : Step :=
  (checkedCall
    (Op.vkQueueSubmit st.currentFrame st.currentFrame st.currentFrame st.currentFrame)
    env.queueSubmit (setFence st.currentFrame FenceStatus.pending) st).andThen fun st =>
  (emit (Op.vkQueuePresentKHR st.currentFrame st.currentBuffer) st).andThen fun st =>
  vkCall (Op.setCurrentFrame (advanceFrame st.currentFrame))
    (fun s => { s with currentFrame := advanceFrame s.currentFrame }) st

/-- `Triangle::updateUniformBuffer`: the copy into
`uniformBuffers[currentFrame].mapped`. -/
def updateUniformBuffer (st : VulkanExampleBase) : Step :=
  emit (Op.updateUniformBuffer st.currentFrame) st

/-- The block "Build command buffer" of `Triangle::render`: reset, begin, the
recorded commands, end. -/
def buildCommandBuffer (env : FrameEnv) (st : VulkanExampleBase) : Step :=
  (checkedCall (Op.vkResetCommandBuffer st.currentFrame) env.resetCommandBuffer id st).andThen
    fun st =>
  (checkedCall (Op.vkBeginCommandBuffer st.currentFrame) env.beginCommandBuffer id st).andThen
    fun st =>
  (emit (Op.vkCmdBeginRenderPass st.currentFrame st.currentBuffer st.width st.height)
    st).andThen fun st =>
  (emit (Op.vkCmdSetViewport st.currentFrame st.width st.height) st).andThen fun st =>
  (emit (Op.vkCmdSetScissor st.currentFrame st.width st.height) st).andThen fun st =>
  (emit (Op.vkCmdBindPipeline st.currentFrame) st).andThen fun st =>
  (emit (Op.vkCmdBindDescriptorSets st.currentFrame st.currentFrame) st).andThen fun st =>
  (emit (Op.vkCmdBindVertexBuffers st.currentFrame) st).andThen fun st =>
  (emit (Op.vkCmdBindIndexBuffer st.currentFrame) st).andThen fun st =>
  (emit (Op.vkCmdDrawIndexed st.currentFrame) st).andThen fun st =>
  (emit (Op.vkCmdEndRenderPass st.currentFrame) st).andThen fun st =>
  checkedCall (Op.vkEndCommandBuffer st.currentFrame) env.endCommandBuffer id st

/-- The first-frame log line of `Triangle::render` (static flag `firstFrame`). -/
def logFirstFrame (st : VulkanExampleBase) : Step :=
  if st.firstFrame then
    vkCall Op.logFirstFrame (fun s => { s with firstFrame := false }) st
  else skip st

/-- `Triangle::render`. -/
def render (env : FrameEnv) (st : VulkanExampleBase) : Step :=
  (logFirstFrame st).andThen fun st =>
  (prepareFrame env st).andThen fun st =>
  (updateUniformBuffer st).andThen fun st =>
  (buildCommandBuffer env st).andThen fun st =>
  submitFrame env st

/-- Consecutive invocations of `render`, one per element of `envs`, stopping when
the process is terminated. -/
def renderFrames : List FrameEnv → VulkanExampleBase → Step
  | [], st => skip st
  | env :: envs, st => (render env st).andThen (renderFrames envs)

/-- The state right after bring-up as far as the frame code reads it: both
fences created signaled, frame index 0. -/
def preparedState : VulkanExampleBase :=
  { androidApp := true, device := true, prepared := true,
    waitFences := [FenceStatus.signaled, FenceStatus.signaled] }

/-! ## Bring-up, lifecycle events and the render loop

The functions of `VulkanBase.cpp` are modelled call by call.  The four set-up
functions of `Triangle` (`createVertexBuffer`, `createUniformBuffers`,
`createDescriptors`, `createPipeline`) are one logged step each, whose status
is that of the first of its checked calls that fails; of their inner calls
only the queue submission of the staging copy and the wait for it are logged
separately. -/

/-- What the host and the driver answer while a window-created command is
handled. -/
structure BringUpEnv where
  /-- Whether `androidApp->window` is non-null. -/
  window : Bool
  /-- Status answered to a call. -/
  result : Op → Int
  /-- Handles of the enumerated physical devices. -/
  physicalDevices : List Nat
  memoryProperties : VkPhysicalDeviceMemoryProperties
  /-- The `queueFlags` of the queue families of the selected device. -/
  queueFamilies : List Nat
  surfaceCaps : VkSurfaceCapabilitiesKHR
  surfaceFormats : List VkSurfaceFormatKHR
  /-- Handles of the images of the created swapchain. -/
  swapchainImages : List Nat
  /-- Handle of the view created for an image. -/
  imageView : Nat → Nat
  optimalTilingFeatures : Nat → Nat
  /-- Handle of the depth image. -/
  depthImage : Nat
  /-- The `memoryTypeBits` required by the depth image. -/
  depthMemoryTypeBits : Nat

/-- Termination of the process by a failed `assert`. -/
def assertFail (st : VulkanExampleBase) : Step :=
  { st := st, ops := [{ op := Op.assertFailed, fences := st.waitFences }], aborted := true }

/-- A read with no defined result (an element of an empty vector); the model
stops there. -/
def undefinedRead (st : VulkanExampleBase) : Step :=
  { st := st, ops := [{ op := Op.undefinedRead, fences := st.waitFences }], aborted := true }

/-- `std::vector::resize`: keeps the first `n` elements and fills up with `d`. -/
def resize {α : Type} (l : List α) (n : Nat) (d : α) : List α :=
  l.take n ++ List.replicate (n - l.length) d

/-- `VulkanExampleBase::createInstance`. -/
def createInstance (env : BringUpEnv) (st : VulkanExampleBase) : Step :=
  checkedCall Op.vkCreateInstance (env.result Op.vkCreateInstance) id st

/-- `VulkanExampleBase::createSurface`. -/
def createSurface (env : BringUpEnv) (st : VulkanExampleBase) : Step :=
  checkedCall Op.vkCreateAndroidSurfaceKHR (env.result Op.vkCreateAndroidSurfaceKHR) id st

/-- The queue family loop of `createDevice` from index `i`: the first family whose
flags contain the graphics bit is assigned to `queueFamilyIndex`, which keeps its
value when there is none. -/
def selectQueueFamilyLoop : List Nat → Nat → Nat → Nat
  | [], _, queueFamilyIndex => queueFamilyIndex
  | queueFlags :: rest, i, queueFamilyIndex =>
    if queueFlags &&& VK_QUEUE_GRAPHICS_BIT ≠ 0 then i
    else selectQueueFamilyLoop rest (i + 1) queueFamilyIndex

/-- `VulkanExampleBase::createDevice`. -/
def createDevice (env : BringUpEnv) (st : VulkanExampleBase) : Step :=
  (checkedCall (Op.vkEnumeratePhysicalDevices false)
    (env.result (Op.vkEnumeratePhysicalDevices false)) id st).andThen fun st =>
  (if env.physicalDevices.length > 0 then skip st else assertFail st).andThen fun st =>
  (checkedCall (Op.vkEnumeratePhysicalDevices true)
    (env.result (Op.vkEnumeratePhysicalDevices true)) id st).andThen fun st =>
  (skip { st with
    physicalDevice := env.physicalDevices.headD VK_NULL_HANDLE,
    deviceMemoryProperties := env.memoryProperties,
    queueFamilyIndex := selectQueueFamilyLoop env.queueFamilies 0 st.queueFamilyIndex }).andThen
    fun st =>
  (checkedCall (Op.vkCreateDevice st.queueFamilyIndex 1)
    (env.result (Op.vkCreateDevice st.queueFamilyIndex 1))
    (fun s => { s with device := true }) st).andThen fun st =>
  emit (Op.vkGetDeviceQueue st.queueFamilyIndex 0) st

/-- `VulkanExampleBase::initVulkan`. -/
def initVulkan (env : BringUpEnv) (st : VulkanExampleBase) : Step :=
  (skip { st with androidApp := true }).andThen fun st =>
  (createInstance env st).andThen fun st =>
  (createSurface env st).andThen fun st =>
  createDevice env st

/-- The image view loop of `createSwapChain` from index `i`, `n` iterations
remaining, over the images `images`. -/
def createImageViewsLoop (env : BringUpEnv) (images : List Nat) :
    Nat → Nat → VulkanExampleBase → Step
  | 0, _, st => skip st
  | n + 1, i, st =>
    (skip { st with
      swapChainBuffers := st.swapChainBuffers.set i
        { (st.swapChainBuffers.getD i {}) with image := images.getD i VK_NULL_HANDLE } }).andThen
      fun st =>
    (checkedCall
      (Op.vkCreateImageView (images.getD i VK_NULL_HANDLE) st.colorFormat
        VK_IMAGE_ASPECT_COLOR_BIT)
      (env.result (Op.vkCreateImageView (images.getD i VK_NULL_HANDLE) st.colorFormat
        VK_IMAGE_ASPECT_COLOR_BIT))
      (fun s => { s with
        swapChainBuffers := s.swapChainBuffers.set i
          { (s.swapChainBuffers.getD i {}) with
            view := env.imageView (images.getD i VK_NULL_HANDLE) } }) st).andThen fun st =>
    createImageViewsLoop env images n (i + 1) st

/-- `VulkanExampleBase::createSwapChain`. -/
def createSwapChain (env : BringUpEnv) (st : VulkanExampleBase) : Step :=
  (checkedCall Op.vkGetPhysicalDeviceSurfaceCapabilitiesKHR
    (env.result Op.vkGetPhysicalDeviceSurfaceCapabilitiesKHR) id st).andThen fun st =>
  (checkedCall (Op.vkGetPhysicalDeviceSurfaceFormatsKHR false)
    (env.result (Op.vkGetPhysicalDeviceSurfaceFormatsKHR false)) id st).andThen fun st =>
  (checkedCall (Op.vkGetPhysicalDeviceSurfaceFormatsKHR true)
    (env.result (Op.vkGetPhysicalDeviceSurfaceFormatsKHR true)) id st).andThen fun st =>
  (match selectSurfaceFormat env.surfaceFormats with
    | none => undefinedRead st
    | some selected =>
      skip { st with colorFormat := selected.1, colorSpace := selected.2 }).andThen fun st =>
  (checkedCall (Op.vkGetPhysicalDeviceSurfacePresentModesKHR false)
    (env.result (Op.vkGetPhysicalDeviceSurfacePresentModesKHR false)) id st).andThen fun st =>
  (checkedCall (Op.vkGetPhysicalDeviceSurfacePresentModesKHR true)
    (env.result (Op.vkGetPhysicalDeviceSurfacePresentModesKHR true)) id st).andThen fun st =>
  (skip { st with
    width := env.surfaceCaps.currentExtentWidth,
    height := env.surfaceCaps.currentExtentHeight }).andThen fun st =>
  (checkedCall
    (Op.vkCreateSwapchainKHR
      (desiredImageCount env.surfaceCaps.minImageCount env.surfaceCaps.maxImageCount)
      st.colorFormat st.colorSpace st.width st.height)
    (env.result (Op.vkCreateSwapchainKHR
      (desiredImageCount env.surfaceCaps.minImageCount env.surfaceCaps.maxImageCount)
      st.colorFormat st.colorSpace st.width st.height)) id st).andThen fun st =>
  (checkedCall (Op.vkGetSwapchainImagesKHR false)
    (env.result (Op.vkGetSwapchainImagesKHR false))
    (fun s => { s with imageCount := env.swapchainImages.length }) st).andThen fun st =>
  (checkedCall (Op.vkGetSwapchainImagesKHR true)
    (env.result (Op.vkGetSwapchainImagesKHR true)) id st).andThen fun st =>
  (skip { st with
    swapChainBuffers := resize st.swapChainBuffers st.imageCount {} }).andThen fun st =>
  createImageViewsLoop env env.swapchainImages st.imageCount 0 st

/-- `VulkanExampleBase::createCommandPool`. -/
def createCommandPool (env : BringUpEnv) (st : VulkanExampleBase) : Step :=
  checkedCall (Op.vkCreateCommandPool st.queueFamilyIndex)
    (env.result (Op.vkCreateCommandPool st.queueFamilyIndex)) id st

/-- `VulkanExampleBase::createCommandBuffers`. -/
def createCommandBuffers (env : BringUpEnv) (st : VulkanExampleBase) : Step :=
  checkedCall (Op.vkAllocateCommandBuffers MAX_CONCURRENT_FRAMES)
    (env.result (Op.vkAllocateCommandBuffers MAX_CONCURRENT_FRAMES)) id st

/-- The loop of `VulkanExampleBase::createSynchronizationPrimitives` from index
`i`, `n` iterations remaining; fences are created signaled. -/
def createSynchronizationPrimitivesLoop (env : BringUpEnv) :
    Nat → Nat → VulkanExampleBase → Step
  | 0, _, st => skip st
  | n + 1, i, st =>
    (checkedCall (Op.vkCreateFence i) (env.result (Op.vkCreateFence i))
      (setFence i FenceStatus.signaled) st).andThen fun st =>
    (checkedCall (Op.vkCreatePresentCompleteSemaphore i)
      (env.result (Op.vkCreatePresentCompleteSemaphore i)) id st).andThen fun st =>
    (checkedCall (Op.vkCreateRenderCompleteSemaphore i)
      (env.result (Op.vkCreateRenderCompleteSemaphore i)) id st).andThen fun st =>
    createSynchronizationPrimitivesLoop env n (i + 1) st

/-- `VulkanExampleBase::createSynchronizationPrimitives`. -/
def createSynchronizationPrimitives (env : BringUpEnv) (st : VulkanExampleBase) : Step :=
  createSynchronizationPrimitivesLoop env MAX_CONCURRENT_FRAMES 0 st

/-- `VulkanExampleBase::createPipelineCache`. -/
def createPipelineCache (env : BringUpEnv) (st : VulkanExampleBase) : Step :=
  checkedCall Op.vkCreatePipelineCache (env.result Op.vkCreatePipelineCache) id st

/-- `VulkanExampleBase::setupDepthStencil`. -/
def setupDepthStencil (env : BringUpEnv) (st : VulkanExampleBase) : Step :=
  (skip { st with
    depthFormat := selectDepthFormat env.optimalTilingFeatures st.depthFormat }).andThen
    fun st =>
  (checkedCall (Op.vkCreateImage st.depthFormat st.width st.height)
    (env.result (Op.vkCreateImage st.depthFormat st.width st.height)) id st).andThen fun st =>
  (checkedCall
    (Op.vkAllocateMemory
      (getMemoryTypeIndex st.deviceMemoryProperties (env.depthMemoryTypeBits % UINT32_MOD)
        VK_MEMORY_PROPERTY_DEVICE_LOCAL_BIT))
    (env.result (Op.vkAllocateMemory
      (getMemoryTypeIndex st.deviceMemoryProperties (env.depthMemoryTypeBits % UINT32_MOD)
        VK_MEMORY_PROPERTY_DEVICE_LOCAL_BIT))) id st).andThen fun st =>
  (checkedCall Op.vkBindImageMemory (env.result Op.vkBindImageMemory) id st).andThen fun st =>
  checkedCall (Op.vkCreateImageView env.depthImage st.depthFormat (depthAspectMask st.depthFormat))
    (env.result
      (Op.vkCreateImageView env.depthImage st.depthFormat (depthAspectMask st.depthFormat)))
    (fun s => { s with depthStencilView := env.imageView env.depthImage }) st

/-- `VulkanExampleBase::setupRenderPass`: one render pass whose two attachments
have the colour format and the depth format. -/
def setupRenderPass (env : BringUpEnv) (st : VulkanExampleBase) : Step :=
  checkedCall (Op.vkCreateRenderPass st.colorFormat st.depthFormat)
    (env.result (Op.vkCreateRenderPass st.colorFormat st.depthFormat)) id st

/-- The loop of `VulkanExampleBase::setupFrameBuffer` from index `i`, `n`
iterations remaining. -/
def setupFrameBufferLoop (env : BringUpEnv) : Nat → Nat → VulkanExampleBase → Step
  | 0, _, st => skip st
  | n + 1, i, st =>
    (checkedCall
      (Op.vkCreateFramebuffer i [(st.swapChainBuffers.getD i {}).view, st.depthStencilView]
        st.width st.height)
      (env.result
        (Op.vkCreateFramebuffer i [(st.swapChainBuffers.getD i {}).view, st.depthStencilView]
          st.width st.height))
      (fun s => { s with
        frameBuffers := s.frameBuffers.set i
          (some { attachments := [(s.swapChainBuffers.getD i {}).view, s.depthStencilView],
                  width := s.width, height := s.height }) }) st).andThen fun st =>
    setupFrameBufferLoop env n (i + 1) st

/-- `VulkanExampleBase::setupFrameBuffer`. -/
def setupFrameBuffer (env : BringUpEnv) (st : VulkanExampleBase) : Step :=
  (skip { st with frameBuffers := resize st.frameBuffers st.imageCount none }).andThen fun st =>
  setupFrameBufferLoop env st.imageCount 0 st

/-- `VulkanExampleBase::prepare`. -/
def VulkanExampleBase.prepare (env : BringUpEnv) (st : VulkanExampleBase) : Step :=
  (createSwapChain env st).andThen fun st =>
  (createCommandPool env st).andThen fun st =>
  (createCommandBuffers env st).andThen fun st =>
  (createSynchronizationPrimitives env st).andThen fun st =>
  (createPipelineCache env st).andThen fun st =>
  (setupDepthStencil env st).andThen fun st =>
  (setupRenderPass env st).andThen fun st =>
  (setupFrameBuffer env st).andThen fun st =>
  vkCall Op.logPreparationComplete (fun s => { s with prepared := true }) st

/-- `Triangle::createVertexBuffer`: buffer setup, then the staging copy is
submitted to the queue and waited for on a fence of its own. -/
def createVertexBuffer (env : BringUpEnv) (st : VulkanExampleBase) : Step :=
  (checkedCall Op.createVertexBuffer (env.result Op.createVertexBuffer) id st).andThen fun st =>
  (checkedCall Op.vkQueueSubmitStagingCopy (env.result Op.vkQueueSubmitStagingCopy) id
    st).andThen fun st =>
  checkedCall Op.vkWaitForStagingFence (env.result Op.vkWaitForStagingFence) id st

/-- `Triangle::prepare`. -/
def Triangle.prepare (env : BringUpEnv) (st : VulkanExampleBase) : Step :=
  (VulkanExampleBase.prepare env st).andThen fun st =>
  (createVertexBuffer env st).andThen fun st =>
  (checkedCall Op.createUniformBuffers (env.result Op.createUniformBuffers) id st).andThen
    fun st =>
  (checkedCall Op.createDescriptors (env.result Op.createDescriptors) id st).andThen fun st =>
  checkedCall Op.createPipeline (env.result Op.createPipeline) id st

/-- `VulkanExampleBase::cleanup` (`Triangle::cleanup` only calls it). -/
def cleanup (st : VulkanExampleBase) : Step :=
  skip { st with prepared := false }

/-- `VulkanExampleBase::handleAppCommandInternal`. -/
def handleAppCommandInternal (cmd : AppCmd) (env : BringUpEnv) (st : VulkanExampleBase) :
    Step :=
  match cmd with
  | AppCmd.APP_CMD_INIT_WINDOW =>
    (emit (Op.logAppCmd AppCmd.APP_CMD_INIT_WINDOW) st).andThen fun st =>
    if env.window then
      (initVulkan env st).andThen (Triangle.prepare env)
    else
      emit Op.logWindowNull st
  | AppCmd.APP_CMD_TERM_WINDOW =>
    (emit (Op.logAppCmd AppCmd.APP_CMD_TERM_WINDOW) st).andThen cleanup
  | AppCmd.APP_CMD_GAINED_FOCUS =>
    (emit (Op.logAppCmd AppCmd.APP_CMD_GAINED_FOCUS) st).andThen fun st =>
    skip { st with paused := false }
  | AppCmd.APP_CMD_LOST_FOCUS =>
    (emit (Op.logAppCmd AppCmd.APP_CMD_LOST_FOCUS) st).andThen fun st =>
    skip { st with paused := true }
  | AppCmd.other c =>
    emit (Op.logAppCmd (AppCmd.other c)) st

/-- `VulkanExampleBase::handleAppCommand`, the callback registered with the
host (the example object is the registered user data). -/
def handleAppCommand (cmd : AppCmd) (env : BringUpEnv) (st : VulkanExampleBase) : Step :=
  handleAppCommandInternal cmd env { st with androidApp := true }

/-- What one iteration of the loop of `renderLoop` receives: the command the
poll delivers, if any, the answers to a bring-up and to a frame should they
run, and the value of `destroyRequested` at the loop test. -/
structure LoopInput where
  event : Option AppCmd
  bringUp : BringUpEnv
  frame : FrameEnv
  destroyRequested : Bool

/-- The poll of one loop iteration: the command it delivers, if any, reaches
`handleAppCommand`. -/
def processEvent (inp : LoopInput) (st : VulkanExampleBase) : Step :=
  match inp.event with
  | some cmd => handleAppCommand cmd inp.bringUp st
  | none => skip st

/-- Body of the `do ... while` of `renderLoop`: one polled event is processed,
then a frame is rendered if `prepared && !paused`.  The input-buffer swap
touches no modelled state. -/
def loopBody (inp : LoopInput) (st : VulkanExampleBase) : Step :=
  (processEvent inp st).andThen fun st =>
  if st.prepared = true ∧ st.paused = false then render inp.frame st else skip st

/-- The code of `renderLoop` after the loop. -/
def exitRenderLoop (st : VulkanExampleBase) : Step :=
  (emit Op.logExitRenderLoop st).andThen fun st =>
  (if st.device then emit Op.vkDeviceWaitIdle st else skip st).andThen cleanup

/-- `VulkanExampleBase::renderLoop` over the iterations described by the list
(a run that is still in the loop when the list ends stops there). -/
def renderLoop : List LoopInput → VulkanExampleBase → Step
  | [], st => skip st
  | inp :: rest, st =>
    (loopBody inp st).andThen fun st =>
    if st.androidApp = false ∨ inp.destroyRequested = false then renderLoop rest st
    else exitRenderLoop st

/-- Operations issued by `render` (including `prepareFrame` and `submitFrame`). -/
def Op.isFrameOp : Op → Bool
  | Op.logFirstFrame => true
  | Op.vkWaitForFences _ => true
  | Op.vkResetFences _ => true
  | Op.vkAcquireNextImageKHR _ => true
  | Op.logSwapchainStale => true
  | Op.updateUniformBuffer _ => true
  | Op.vkResetCommandBuffer _ => true
  | Op.vkBeginCommandBuffer _ => true
  | Op.vkCmdBeginRenderPass _ _ _ _ => true
  | Op.vkCmdSetViewport _ _ _ => true
  | Op.vkCmdSetScissor _ _ _ => true
  | Op.vkCmdBindPipeline _ => true
  | Op.vkCmdBindDescriptorSets _ _ => true
  | Op.vkCmdBindVertexBuffers _ => true
  | Op.vkCmdBindIndexBuffer _ => true
  | Op.vkCmdDrawIndexed _ => true
  | Op.vkCmdEndRenderPass _ => true
  | Op.vkEndCommandBuffer _ => true
  | Op.vkQueueSubmit _ _ _ _ => true
  | Op.vkQueuePresentKHR _ _ => true
  | Op.setCurrentFrame _ => true
  | _ => false

/-- Slot indices (fence, semaphores, command buffer, uniform buffer) an
operation refers to. -/
def Op.slots : Op → List Nat
  | Op.vkWaitForFences f => [f]
  | Op.vkResetFences f => [f]
  | Op.vkAcquireNextImageKHR s => [s]
  | Op.updateUniformBuffer u => [u]
  | Op.vkResetCommandBuffer c => [c]
  | Op.vkBeginCommandBuffer c => [c]
  | Op.vkCmdBeginRenderPass c _ _ _ => [c]
  | Op.vkCmdSetViewport c _ _ => [c]
  | Op.vkCmdSetScissor c _ _ => [c]
  | Op.vkCmdBindPipeline c => [c]
  | Op.vkCmdBindDescriptorSets c u => [c, u]
  | Op.vkCmdBindVertexBuffers c => [c]
  | Op.vkCmdBindIndexBuffer c => [c]
  | Op.vkCmdDrawIndexed c => [c]
  | Op.vkCmdEndRenderPass c => [c]
  | Op.vkEndCommandBuffer c => [c]
  | Op.vkQueueSubmit c w s f => [c, w, s, f]
  | Op.vkQueuePresentKHR w _ => [w]
  | _ => []

/-- Position of a frame operation in the order wait, fence reset, acquire,
(uniform update,) command-buffer reset, recording, submit, present, advance;
log lines have none. -/
def Op.frameStep : Op → Option Nat
  | Op.vkWaitForFences _ => some 0
  | Op.vkResetFences _ => some 1
  | Op.vkAcquireNextImageKHR _ => some 2
  | Op.updateUniformBuffer _ => some 3
  | Op.vkResetCommandBuffer _ => some 4
  | Op.vkBeginCommandBuffer _ => some 5
  | Op.vkCmdBeginRenderPass _ _ _ _ => some 6
  | Op.vkCmdSetViewport _ _ _ => some 7
  | Op.vkCmdSetScissor _ _ _ => some 8
  | Op.vkCmdBindPipeline _ => some 9
  | Op.vkCmdBindDescriptorSets _ _ => some 10
  | Op.vkCmdBindVertexBuffers _ => some 11
  | Op.vkCmdBindIndexBuffer _ => some 12
  | Op.vkCmdDrawIndexed _ => some 13
  | Op.vkCmdEndRenderPass _ => some 14
  | Op.vkEndCommandBuffer _ => some 15
  | Op.vkQueueSubmit _ _ _ _ => some 16
  | Op.vkQueuePresentKHR _ _ => some 17
  | Op.setCurrentFrame _ => some 18
  | _ => none

/-- The fence a wait refers to. -/
def Op.waitedFence : Op → Option Nat
  | Op.vkWaitForFences f => some f
  | _ => none

/-- The operations of a run, without the fence snapshots. -/
def Step.trace (a : Step) : List Op :=
  a.ops.map LogEntry.op

/-- Queue submissions: the per-frame submit of `submitFrame` and the staging
copy of `createVertexBuffer`. -/
def Op.isQueueSubmission : Op → Bool
  | Op.vkQueueSubmit _ _ _ _ => true
  | Op.vkQueueSubmitStagingCopy => true
  | _ => false

/-- Scan of a trace that tracks whether the last focus command logged was
focus-lost; the scan fails (`none`) at a frame operation logged while it was. -/
def focusMonitor : List Op → Bool → Option Bool
  | [], lost => some lost
  | op :: rest, lost =>
    if op = Op.logAppCmd AppCmd.APP_CMD_LOST_FOCUS then focusMonitor rest true
    else if op = Op.logAppCmd AppCmd.APP_CMD_GAINED_FOCUS then focusMonitor rest false
    else if op.isFrameOp = true ∧ lost = true then none
    else focusMonitor rest lost

/-- Value of `currentBuffer` after the acquire of a frame that starts in `st`. -/
def acquiredBuffer (env : FrameEnv) (st : VulkanExampleBase) : Nat :=
  if env.acquireNextImage = VK_SUCCESS ∨ env.acquireNextImage = VK_SUBOPTIMAL_KHR then
    env.imageIndex % UINT32_MOD
  else st.currentBuffer

/-- A memory-type table with three types. -/
def exampleMemoryProperties : VkPhysicalDeviceMemoryProperties :=
  { memoryTypeCount := 3,
    memoryTypes :=
      [{ propertyFlags := 1, heapIndex := 0 }, { propertyFlags := 6, heapIndex := 1 },
       { propertyFlags := 7, heapIndex := 1 }] }

/-- Answers of a host and driver where every call succeeds: one adapter with
one graphics queue family and the three-type memory table, a surface with 2 to
3 images of 1080 x 1920 offering `R8G8B8A8_UNORM`, a swapchain of three images
(handles 11, 12, 13, the view of an image having its handle plus 100), every
depth format supported. -/
def exampleBringUp : BringUpEnv :=
  { window := true,
    result := fun _ => VK_SUCCESS,
    physicalDevices := [1],
    memoryProperties := exampleMemoryProperties,
    queueFamilies := [VK_QUEUE_GRAPHICS_BIT],
    surfaceCaps :=
      { minImageCount := 2, maxImageCount := 3,
        currentExtentWidth := 1080, currentExtentHeight := 1920 },
    surfaceFormats := [{ format := VK_FORMAT_R8G8B8A8_UNORM, colorSpace := 0 }],
    swapchainImages := [11, 12, 13],
    imageView := fun image => image + 100,
    optimalTilingFeatures := fun _ => VK_FORMAT_FEATURE_DEPTH_STENCIL_ATTACHMENT_BIT,
    depthImage := 20,
    depthMemoryTypeBits := 7 }

/-- One loop iteration that delivers `cmd`, with every call succeeding. -/
def exampleInput (cmd : Option AppCmd) : LoopInput :=
  { event := cmd, bringUp := exampleBringUp, frame := {}, destroyRequested := false }

/-- Three loop iterations from the initial state, every call succeeding: a
window is created (bring-up, first frame), focus is lost, and a window is
created again before focus returns. -/
def windowRecreatedWhilePaused : List LoopInput :=
  [exampleInput (some AppCmd.APP_CMD_INIT_WINDOW),
   exampleInput (some AppCmd.APP_CMD_LOST_FOCUS),
   exampleInput (some AppCmd.APP_CMD_INIT_WINDOW)]

/-! ## Predicates used in the proofs -/

/-- Every logged entry of the step satisfies `P`, and the state satisfies `Q` when
the step completes. -/
def Step.Sat (a : Step) (P : LogEntry → Prop) (Q : VulkanExampleBase → Prop) : Prop :=
  (∀ e ∈ a.ops, P e) ∧ (a.aborted = false → Q a.st)

/-- Entries logged by a failing `VK_CHECK_RESULT` satisfy `P`. -/
def CheckLogs (P : LogEntry → Prop) : Prop :=
  ∀ (fs : List FenceStatus),
    (∀ res, P { op := Op.logVulkanError res, fences := fs }) ∧
      P { op := Op.assertFailed, fences := fs }

/-- What holds of every entry logged by a frame that runs on slot `c` with `len`
fences: it refers to no other slot, it is no lifecycle log line, and a
command-buffer reset finds the fence of the slot (when it exists) unsignaled
with nothing pending, in a snapshot of all `len` fences. -/
def FrameEntryOK (c len : Nat) (e : LogEntry) : Prop :=
  (∀ s ∈ e.op.slots, s = c) ∧ (∀ cmd, e.op ≠ Op.logAppCmd cmd) ∧
    (∀ s, e.op = Op.vkResetCommandBuffer s → c < len →
      e.fences[s]? = some FenceStatus.unsignaled)

/-- Fields a frame leaves alone before its last statement. -/
def FrameInv (st s : VulkanExampleBase) : Prop :=
  s.currentFrame = st.currentFrame ∧ s.paused = st.paused ∧ s.prepared = st.prepared ∧
    s.waitFences.length = st.waitFences.length

/-- The fence of slot `c`, if the slot exists, is unsignaled with nothing pending. -/
def FenceIdle (c : Nat) (s : VulkanExampleBase) : Prop :=
  c < s.waitFences.length → s.waitFences[c]? = some FenceStatus.unsignaled

/-- The frame steps logged by `a` are strictly increasing and lie in `[lo, hi)`. -/
def Step.Ranked (a : Step) (lo hi : Nat) : Prop :=
  List.Pairwise (fun x y => x < y) (a.trace.filterMap Op.frameStep) ∧
    ∀ r ∈ a.trace.filterMap Op.frameStep, lo ≤ r ∧ r < hi

/-- The scan of the trace of `a` succeeds from every flag consistent with the
initial value `p0` of `paused`, and ends consistent with the final value. -/
def Step.Mon (a : Step) (p0 : Bool) : Prop :=
  ∀ lost : Bool, (lost = true → p0 = true) →
    ∃ lost2, focusMonitor a.trace lost = some lost2 ∧
      (a.aborted = false → lost2 = true → a.st.paused = true)

/-- Entries that are neither frame operations nor focus log lines. -/
def PlainEntry (e : LogEntry) : Prop :=
  e.op.isFrameOp = false ∧ e.op ≠ Op.logAppCmd AppCmd.APP_CMD_LOST_FOCUS ∧
    e.op ≠ Op.logAppCmd AppCmd.APP_CMD_GAINED_FOCUS


/-! ## Further constants and create infos -/

def VK_ERROR_DEVICE_LOST : Int := -4
def VK_QUEUE_COMPUTE_BIT : Nat := 0x2
def VK_PIPELINE_STAGE_COLOR_ATTACHMENT_OUTPUT_BIT : Nat := 0x400

/-- The `VkDeviceQueueCreateInfo` that `createDevice` fills in; the priority is
the constant `1.0f`. -/
structure VkDeviceQueueCreateInfo where
  queueFamilyIndex : Nat
  queueCount : Nat
  queuePriority : Rat
  deriving DecidableEq

/-- The local `queueCI` of `createDevice`, built from the value of
`queueFamilyIndex` after the queue family loop. -/
def queueCI (st : VulkanExampleBase) : VkDeviceQueueCreateInfo :=
  { queueFamilyIndex := st.queueFamilyIndex, queueCount := 1, queuePriority := 1 }

/-- The `VkSubmitInfo` that `submitFrame` fills in; semaphores, command buffer
and fence are given by their slot. -/
structure VkSubmitInfo where
  waitDstStageMask : Nat
  waitSemaphoreCount : Nat
  waitSemaphore : Nat
  signalSemaphoreCount : Nat
  signalSemaphore : Nat
  commandBufferCount : Nat
  commandBuffer : Nat
  deriving DecidableEq

/-- The local `submitInfo` of `submitFrame`. -/
def submitInfo (st : VulkanExampleBase) : VkSubmitInfo :=
  { waitDstStageMask := VK_PIPELINE_STAGE_COLOR_ATTACHMENT_OUTPUT_BIT,
    waitSemaphoreCount := 1,
    waitSemaphore := st.currentFrame,
    signalSemaphoreCount := 1,
    signalSemaphore := st.currentFrame,
    commandBufferCount := 1,
    commandBuffer := st.currentFrame }

/-- The `VkPresentInfoKHR` that `submitFrame` fills in. -/
structure VkPresentInfoKHR where
  waitSemaphoreCount : Nat
  waitSemaphore : Nat
  swapchainCount : Nat
  imageIndex : Nat
  deriving DecidableEq

/-- The local `presentInfo` of `submitFrame`. -/
def presentInfo (st : VulkanExampleBase) : VkPresentInfoKHR :=
  { waitSemaphoreCount := 1,
    waitSemaphore := st.currentFrame,
    swapchainCount := 1,
    imageIndex := st.currentBuffer }

/-- A queue family advertises graphics capability: the test of the queue family
loop of `createDevice`. -/
def QueueFamilySupportsGraphics (queueFlags : Nat) : Prop :=
  queueFlags &&& VK_QUEUE_GRAPHICS_BIT ≠ 0

instance (queueFlags : Nat) : Decidable (QueueFamilySupportsGraphics queueFlags) := by
  unfold QueueFamilySupportsGraphics
  infer_instance

/-- The formats with a depth and a stencil component. -/
def isCombinedDepthStencil (format : Nat) : Bool :=
  format = VK_FORMAT_D16_UNORM_S8_UINT || format = VK_FORMAT_D24_UNORM_S8_UINT ||
    format = VK_FORMAT_D32_SFLOAT_S8_UINT

/-- The state reached from the initial state when a window is created and every
call of bring-up and of the first frame succeeds. -/
def stateAfterBringUp : VulkanExampleBase :=
  (renderLoop [exampleInput (some AppCmd.APP_CMD_INIT_WINDOW)] {}).st

/-- Answers like `exampleBringUp` for an adapter whose only queue family is a
compute family. -/
def computeOnlyBringUp : BringUpEnv :=
  { exampleBringUp with queueFamilies := [VK_QUEUE_COMPUTE_BIT] }

/-- Answers like `exampleBringUp` for an adapter on which, of the candidate
depth formats, only `VK_FORMAT_D24_UNORM_S8_UINT` can be a depth attachment. -/
def d24BringUp : BringUpEnv :=
  { exampleBringUp with
    optimalTilingFeatures := fun format =>
      if format = VK_FORMAT_D24_UNORM_S8_UINT then VK_FORMAT_FEATURE_DEPTH_STENCIL_ATTACHMENT_BIT
      else 0 }

/-- Answers like `exampleBringUp` on a machine where no physical adapter is
enumerated. -/
def noAdapterBringUp : BringUpEnv :=
  { exampleBringUp with physicalDevices := [] }

/-- The component whose bring-up a call belongs to, numbered 0 Device Context
(the calls of `initVulkan`), 1 Swapchain Manager (the calls of
`createSwapChain`, whose views have the colour aspect), 2 Frame Resource Ring
(the calls of `createCommandPool`, `createCommandBuffers` and
`createSynchronizationPrimitives`), 3 Render Target Set (the calls of
`setupDepthStencil`, whose view has a depth aspect, of `setupRenderPass` and of
`setupFrameBuffer`). -/
def Op.component : Op → Option Nat
  | Op.vkCreateInstance => some 0
  | Op.vkCreateAndroidSurfaceKHR => some 0
  | Op.vkEnumeratePhysicalDevices _ => some 0
  | Op.vkCreateDevice _ _ => some 0
  | Op.vkGetDeviceQueue _ _ => some 0
  | Op.vkGetPhysicalDeviceSurfaceCapabilitiesKHR => some 1
  | Op.vkGetPhysicalDeviceSurfaceFormatsKHR _ => some 1
  | Op.vkGetPhysicalDeviceSurfacePresentModesKHR _ => some 1
  | Op.vkCreateSwapchainKHR _ _ _ _ _ => some 1
  | Op.vkGetSwapchainImagesKHR _ => some 1
  | Op.vkCreateImageView _ _ aspectMask =>
    if aspectMask = VK_IMAGE_ASPECT_COLOR_BIT then some 1 else some 3
  | Op.vkCreateCommandPool _ => some 2
  | Op.vkAllocateCommandBuffers _ => some 2
  | Op.vkCreateFence _ => some 2
  | Op.vkCreatePresentCompleteSemaphore _ => some 2
  | Op.vkCreateRenderCompleteSemaphore _ => some 2
  | Op.vkCreateImage _ _ _ => some 3
  | Op.vkAllocateMemory _ => some 3
  | Op.vkBindImageMemory => some 3
  | Op.vkCreateRenderPass _ _ => some 3
  | Op.vkCreateFramebuffer _ _ _ _ => some 3
  | _ => none

/-- The component numbers of the calls logged by `a` never decrease and lie in
`[lo, hi]`. -/
def Step.Phased (a : Step) (lo hi : Nat) : Prop :=
  List.Pairwise (fun x y => x ≤ y) (a.trace.filterMap Op.component) ∧
    ∀ c ∈ a.trace.filterMap Op.component, lo ≤ c ∧ c ≤ hi

/-! ## The GPU and the blocking fence wait -/

/-- Modelled from the spec: the GPU completes the submission that signals the
fence of `slot` at some time after the submit; a pending fence becomes
signaled. The GPU is not code of the repository. -/
def gpuSignal (slot : Nat) (st : VulkanExampleBase) : Step :=
  vkCall (Op.fenceSignaled slot) (setFence slot FenceStatus.signaled) st

/-- What happens next: the program runs a frame, or the GPU signals a fence. -/
inductive Activity
  | frame (env : FrameEnv)
  | fenceSignaled (slot : Nat)

/-- Modelled from the spec: one activity, when it can happen. The wait of
`prepareFrame` has no timeout (`UINT64_MAX`) and blocks until the fence of the
current slot is signaled, so a frame is scheduled at the moment its wait
returns: when that fence is signaled. The GPU signals a fence only while a
submission on it is pending. -/
def runActivity : Activity → VulkanExampleBase → Option Step
  | Activity.frame env, st =>
    if st.waitFences[st.currentFrame]? = some FenceStatus.signaled then some (render env st)
    else none
  | Activity.fenceSignaled slot, st =>
    if st.waitFences[slot]? = some FenceStatus.pending then some (gpuSignal slot st)
    else none

/-- A schedule of activities from `st`, if each of them can happen in its turn;
it ends when the process is terminated. -/
def runActivities : List Activity → VulkanExampleBase → Option Step
  | [], st => some (skip st)
  | a :: rest, st =>
    match runActivity a st with
    | none => none
    | some r1 =>
      if r1.aborted then some r1
      else
        match runActivities rest r1.st with
        | none => none
        | some r2 => some { st := r2.st, ops := r1.ops ++ r2.ops, aborted := r2.aborted }

/-- The fence a queue submission signals. -/
def Op.submittedFence : Op → Option Nat
  | Op.vkQueueSubmit _ _ _ f => some f
  | _ => none

/-- The fence the GPU signals. -/
def Op.signaledFence : Op → Option Nat
  | Op.fenceSignaled f => some f
  | _ => none

/-- The number of submissions in `trace` that signal `fence` and whose signal
has not happened in `trace`. -/
def inFlight (trace : List Op) (fence : Nat) : Nat :=
  trace.countP (fun o => o.submittedFence == some fence) -
    trace.countP (fun o => o.signaledFence == some fence)

/-- Where the fence of a slot is in its cycle: signaled and free, waited for and
reset by a frame that has not submitted yet, or pending on a submission. -/
inductive FencePhase
  | idle
  | recording
  | busy
  deriving DecidableEq

/-- One operation seen by the cycle of `fence`: a wait is accepted when the
fence is free, a submission when the frame has waited, a signal when a
submission is pending; operations on other fences are passed over. -/
def fenceStep (fence : Nat) (q : FencePhase) (o : Op) : Option FencePhase :=
  if o.waitedFence = some fence then
    (if q = FencePhase.idle then some FencePhase.recording else none)
  else if o.submittedFence = some fence then
    (if q = FencePhase.recording then some FencePhase.busy else none)
  else if o.signaledFence = some fence then
    (if q = FencePhase.busy then some FencePhase.idle else none)
  else some q

/-- The scan of a trace by the cycle of `fence`. -/
def fenceProtocol (fence : Nat) : List Op → FencePhase → Option FencePhase
  | [], q => some q
  | o :: rest, q =>
    match fenceStep fence q o with
    | none => none
    | some q2 => fenceProtocol fence rest q2

/-- The phase that the status of the fence of `fence` stands for between
frames. -/
def phaseOf (fence : Nat) (st : VulkanExampleBase) : FencePhase :=
  if st.waitFences[fence]? = some FenceStatus.pending then FencePhase.busy
  else FencePhase.idle

/-- The number of submissions a phase stands for. -/
def FencePhase.outstanding : FencePhase → Nat
  | FencePhase.busy => 1
  | _ => 0

/-- A schedule: two frames, the GPU completes the first, a third frame. -/
def exampleSchedule : List Activity :=
  [Activity.frame {}, Activity.frame {}, Activity.fenceSignaled 0, Activity.frame {}]

/-- The run of `exampleSchedule` after bring-up. -/
def exampleRun : Step :=
  (runActivities exampleSchedule preparedState).getD (skip preparedState)


/-- The answers of `env` with the acquire answering success and image
`imageIndex`. -/
def FrameEnv.asSuccess (env : FrameEnv) (imageIndex : Nat) : FrameEnv :=
  { env with acquireNextImage := VK_SUCCESS, imageIndex := imageIndex }

/-- The extent is `W` x `H`, and there are `n` swapchain images with one entry of
`swapChainBuffers` each. -/
def SwapchainShape (W H n : Nat) (s : VulkanExampleBase) : Prop :=
  s.width = W ∧ s.height = H ∧ s.imageCount = n ∧ s.swapChainBuffers.length = n

/-- The framebuffer that `setupFrameBuffer` creates for image `i` in state `s`. -/
def expectedFramebuffer (s : VulkanExampleBase) (i : Nat) : FramebufferInfo :=
  { attachments := [(s.swapChainBuffers.getD i {}).view, s.depthStencilView],
    width := s.width, height := s.height }

/-- The state has the shape of a swapchain of `n` images of `W` x `H`, and one
framebuffer per image, each the expected one. -/
def FramebuffersReady (W H n : Nat) (s : VulkanExampleBase) : Prop :=
  SwapchainShape W H n s ∧ s.frameBuffers.length = n ∧
    ∀ j : Nat, j < n → s.frameBuffers[j]? = some (some (expectedFramebuffer s j))

/-- A call that creates the swapchain, an image or a framebuffer does so with
extent `W` x `H`. -/
def ExtentOp (W H : Nat) : Op → Prop
  | Op.vkCreateSwapchainKHR _ _ _ w h => w = W ∧ h = H
  | Op.vkCreateImage _ w h => w = W ∧ h = H
  | Op.vkCreateFramebuffer _ _ w h => w = W ∧ h = H
  | _ => True

/-- The call of a log entry satisfies `ExtentOp`. -/
def ExtentEntry (W H : Nat) (e : LogEntry) : Prop :=
  ExtentOp W H e.op
/-! ## Shader loading and pipeline creation, call by call -/

/-- What the asset manager and the driver answer during
`Triangle::createPipeline`. -/
structure PipelineEnv where
  /-- Status of `vkCreatePipelineLayout`. -/
  createPipelineLayout : Int := VK_SUCCESS
  /-- Whether `AAssetManager_open` returns an asset for the file name. -/
  assetOpens : String → Bool := fun _ => true
  /-- Status of `vkCreateShaderModule` for the code read from the file. -/
  createShaderModule : String → Int := fun _ => VK_SUCCESS
  /-- Handle the driver gives to the module created from the file. -/
  shaderModule : String → Nat := fun _ => 1
  /-- Status of `vkCreateGraphicsPipelines`. -/
  createGraphicsPipelines : Int := VK_SUCCESS

/-- `VulkanExampleBase::loadShader`: what it does and the handle it returns.
When the asset is not opened, two error lines are logged and `VK_NULL_HANDLE`
is returned. -/
def loadShader (env : PipelineEnv) (filename : String) (st : VulkanExampleBase) :
    Step × Nat :=
  if env.assetOpens filename then
    ((emit Op.AAssetManager_open st).andThen fun st =>
      checkedCall Op.vkCreateShaderModule (env.createShaderModule filename) id st,
     env.shaderModule filename)
  else
    ((emit Op.AAssetManager_open st).andThen fun st =>
      emit Op.logCouldNotOpenShaderFile st,
     VK_NULL_HANDLE)

/-- `Triangle::createPipeline` call by call (in `Triangle.prepare` it is the one
step `Op.createPipeline`).  The handles returned by `loadShader` go into the
two shader stages without a test. -/
def Triangle.createPipeline (env : PipelineEnv) (st : VulkanExampleBase) : Step :=
  (checkedCall Op.vkCreatePipelineLayout env.createPipelineLayout id st).andThen fun st =>
  let vertShaderModule := loadShader env "shaders/triangle.vert.spv" st
  vertShaderModule.1.andThen fun st =>
  let fragShaderModule := loadShader env "shaders/triangle.frag.spv" st
  fragShaderModule.1.andThen fun st =>
  (checkedCall (Op.vkCreateGraphicsPipelines vertShaderModule.2 fragShaderModule.2)
    env.createGraphicsPipelines id st).andThen fun st =>
  (emit (Op.vkDestroyShaderModule vertShaderModule.2) st).andThen fun st =>
  emit (Op.vkDestroyShaderModule fragShaderModule.2) st

/-- No shader asset can be opened. -/
def missingShaders : PipelineEnv :=
  { assetOpens := fun _ => false }

/-- The assets open, creating a shader module fails. -/
def brokenShaders : PipelineEnv :=
  { createShaderModule := fun _ => VK_ERROR_DEVICE_LOST }
/-! ## Teardown: the destructors

`main` ends with `delete vulkanExample`, which runs `Triangle::~Triangle` and
then `VulkanExampleBase::~VulkanExampleBase`.  Every call of the two
destructors is one `TeardownCall`, named after the member it destroys. -/

/-- The calls made by the destructors.  `vkDestroyBuffer`, `vkFreeMemory`,
`vkDestroySemaphore` and `vkDestroyImageView` occur for several members and
carry the member in their name; members of arrays and vectors carry the
index. -/
inductive TeardownCall
  | vkDeviceWaitIdle
  | vkDestroyPipeline
  | vkDestroyPipelineLayout
  | vkDestroyDescriptorSetLayout
  | vkDestroyDescriptorPool
  | vkDestroyUniformBuffer (index : Nat)
  | vkFreeUniformBufferMemory (index : Nat)
  | vkDestroyVertexBuffer
  | vkFreeVertexBufferMemory
  | vkDestroyIndexBuffer
  | vkFreeIndexBufferMemory
  | vkDestroyFence (index : Nat)
  | vkDestroyPresentCompleteSemaphore (index : Nat)
  | vkDestroyRenderCompleteSemaphore (index : Nat)
  | vkDestroyFramebuffer (index : Nat)
  | vkDestroyDepthStencilView
  | vkDestroyDepthStencilImage
  | vkFreeDepthStencilMemory
  | vkDestroyRenderPass
  | vkDestroySwapChainImageView (index : Nat)
  | vkDestroySwapchainKHR
  | vkDestroyCommandPool
  | vkDestroyPipelineCache
  | vkDestroyDevice
  | vkDestroySurfaceKHR
  | vkDestroyInstance

/-- Number of the call and its index (0 when it has none). -/
def TeardownCall.code : TeardownCall → Nat × Nat
  | TeardownCall.vkDeviceWaitIdle => (0, 0)
  | TeardownCall.vkDestroyPipeline => (1, 0)
  | TeardownCall.vkDestroyPipelineLayout => (2, 0)
  | TeardownCall.vkDestroyDescriptorSetLayout => (3, 0)
  | TeardownCall.vkDestroyDescriptorPool => (4, 0)
  | TeardownCall.vkDestroyUniformBuffer index => (5, index)
  | TeardownCall.vkFreeUniformBufferMemory index => (6, index)
  | TeardownCall.vkDestroyVertexBuffer => (7, 0)
  | TeardownCall.vkFreeVertexBufferMemory => (8, 0)
  | TeardownCall.vkDestroyIndexBuffer => (9, 0)
  | TeardownCall.vkFreeIndexBufferMemory => (10, 0)
  | TeardownCall.vkDestroyFence index => (11, index)
  | TeardownCall.vkDestroyPresentCompleteSemaphore index => (12, index)
  | TeardownCall.vkDestroyRenderCompleteSemaphore index => (13, index)
  | TeardownCall.vkDestroyFramebuffer index => (14, index)
  | TeardownCall.vkDestroyDepthStencilView => (15, 0)
  | TeardownCall.vkDestroyDepthStencilImage => (16, 0)
  | TeardownCall.vkFreeDepthStencilMemory => (17, 0)
  | TeardownCall.vkDestroyRenderPass => (18, 0)
  | TeardownCall.vkDestroySwapChainImageView index => (19, index)
  | TeardownCall.vkDestroySwapchainKHR => (20, 0)
  | TeardownCall.vkDestroyCommandPool => (21, 0)
  | TeardownCall.vkDestroyPipelineCache => (22, 0)
  | TeardownCall.vkDestroyDevice => (23, 0)
  | TeardownCall.vkDestroySurfaceKHR => (24, 0)
  | TeardownCall.vkDestroyInstance => (25, 0)

/-- Inverse of `TeardownCall.code`. -/
def TeardownCall.ofCode : Nat × Nat → Option TeardownCall
  | (0, _) => some TeardownCall.vkDeviceWaitIdle
  | (1, _) => some TeardownCall.vkDestroyPipeline
  | (2, _) => some TeardownCall.vkDestroyPipelineLayout
  | (3, _) => some TeardownCall.vkDestroyDescriptorSetLayout
  | (4, _) => some TeardownCall.vkDestroyDescriptorPool
  | (5, index) => some (TeardownCall.vkDestroyUniformBuffer index)
  | (6, index) => some (TeardownCall.vkFreeUniformBufferMemory index)
  | (7, _) => some TeardownCall.vkDestroyVertexBuffer
  | (8, _) => some TeardownCall.vkFreeVertexBufferMemory
  | (9, _) => some TeardownCall.vkDestroyIndexBuffer
  | (10, _) => some TeardownCall.vkFreeIndexBufferMemory
  | (11, index) => some (TeardownCall.vkDestroyFence index)
  | (12, index) => some (TeardownCall.vkDestroyPresentCompleteSemaphore index)
  | (13, index) => some (TeardownCall.vkDestroyRenderCompleteSemaphore index)
  | (14, index) => some (TeardownCall.vkDestroyFramebuffer index)
  | (15, _) => some TeardownCall.vkDestroyDepthStencilView
  | (16, _) => some TeardownCall.vkDestroyDepthStencilImage
  | (17, _) => some TeardownCall.vkFreeDepthStencilMemory
  | (18, _) => some TeardownCall.vkDestroyRenderPass
  | (19, index) => some (TeardownCall.vkDestroySwapChainImageView index)
  | (20, _) => some TeardownCall.vkDestroySwapchainKHR
  | (21, _) => some TeardownCall.vkDestroyCommandPool
  | (22, _) => some TeardownCall.vkDestroyPipelineCache
  | (23, _) => some TeardownCall.vkDestroyDevice
  | (24, _) => some TeardownCall.vkDestroySurfaceKHR
  | (25, _) => some TeardownCall.vkDestroyInstance
  | _ => none

/-- Equality of teardown calls is decided on their codes. -/
instance : DecidableEq TeardownCall := fun a b =>
  decidable_of_iff (a.code = b.code)
    ⟨fun h => by
      have hd : ∀ x : TeardownCall, TeardownCall.ofCode x.code = some x := by
        intro x; cases x <;> rfl
      have h2 : some a = some b := by rw [← hd a, ← hd b, h]
      exact Option.some.inj h2,
     fun h => congrArg TeardownCall.code h⟩

/-- The struct `VulkanBuffer` of `Triangle.hpp`. -/
structure VulkanBuffer where
  memory : Nat := VK_NULL_HANDLE
  handle : Nat := VK_NULL_HANDLE
  deriving DecidableEq

/-- The handle members read by the destructors that `VulkanExampleBase` does
not carry.  The member `instance` is the field `instanceHandle`; the depth
view is `depthStencilView` of the state, the fences are `waitFences` of the
state. -/
structure Handles where
  instanceHandle : Nat := VK_NULL_HANDLE
  surface : Nat := VK_NULL_HANDLE
  swapChain : Nat := VK_NULL_HANDLE
  depthStencilImage : Nat := VK_NULL_HANDLE
  depthStencilMemory : Nat := VK_NULL_HANDLE
  renderPass : Nat := VK_NULL_HANDLE
  commandPool : Nat := VK_NULL_HANDLE
  presentCompleteSemaphores : List Nat := [VK_NULL_HANDLE, VK_NULL_HANDLE]
  renderCompleteSemaphores : List Nat := [VK_NULL_HANDLE, VK_NULL_HANDLE]
  pipelineCache : Nat := VK_NULL_HANDLE
  vertexBuffer : VulkanBuffer := {}
  indexBuffer : VulkanBuffer := {}
  uniformBuffers : List VulkanBuffer := [{}, {}]
  descriptorSetLayout : Nat := VK_NULL_HANDLE
  descriptorPool : Nat := VK_NULL_HANDLE
  pipelineLayout : Nat := VK_NULL_HANDLE
  pipeline : Nat := VK_NULL_HANDLE

/-- The statement `if (c) call;`. -/
def callIf (c : Bool) (call : TeardownCall) : List TeardownCall :=
  if c then [call] else []

/-- `Triangle::~Triangle`. -/
def Triangle.destructor (h : Handles) (st : VulkanExampleBase) : List TeardownCall :=
  if st.device then
    [TeardownCall.vkDeviceWaitIdle] ++
    callIf (h.pipeline != VK_NULL_HANDLE) TeardownCall.vkDestroyPipeline ++
    callIf (h.pipelineLayout != VK_NULL_HANDLE) TeardownCall.vkDestroyPipelineLayout ++
    callIf (h.descriptorSetLayout != VK_NULL_HANDLE)
      TeardownCall.vkDestroyDescriptorSetLayout ++
    callIf (h.descriptorPool != VK_NULL_HANDLE) TeardownCall.vkDestroyDescriptorPool ++
    ((List.range MAX_CONCURRENT_FRAMES).flatMap fun i =>
      callIf ((h.uniformBuffers.getD i {}).handle != VK_NULL_HANDLE)
        (TeardownCall.vkDestroyUniformBuffer i) ++
      callIf ((h.uniformBuffers.getD i {}).memory != VK_NULL_HANDLE)
        (TeardownCall.vkFreeUniformBufferMemory i)) ++
    callIf (h.vertexBuffer.handle != VK_NULL_HANDLE) TeardownCall.vkDestroyVertexBuffer ++
    callIf (h.vertexBuffer.memory != VK_NULL_HANDLE) TeardownCall.vkFreeVertexBufferMemory ++
    callIf (h.indexBuffer.handle != VK_NULL_HANDLE) TeardownCall.vkDestroyIndexBuffer ++
    callIf (h.indexBuffer.memory != VK_NULL_HANDLE) TeardownCall.vkFreeIndexBufferMemory
  else []

/-- `VulkanExampleBase::~VulkanExampleBase`.  The framebuffers and the
swapchain image views are destroyed without a test of the handle. -/
def VulkanExampleBase.destructor (h : Handles) (st : VulkanExampleBase) :
    List TeardownCall :=
  (if st.device then
    [TeardownCall.vkDeviceWaitIdle] ++
    ((List.range MAX_CONCURRENT_FRAMES).flatMap fun i =>
      callIf (st.waitFences.getD i FenceStatus.null != FenceStatus.null)
        (TeardownCall.vkDestroyFence i) ++
      callIf (h.presentCompleteSemaphores.getD i VK_NULL_HANDLE != VK_NULL_HANDLE)
        (TeardownCall.vkDestroyPresentCompleteSemaphore i) ++
      callIf (h.renderCompleteSemaphores.getD i VK_NULL_HANDLE != VK_NULL_HANDLE)
        (TeardownCall.vkDestroyRenderCompleteSemaphore i)) ++
    (List.range st.frameBuffers.length).map TeardownCall.vkDestroyFramebuffer ++
    callIf (st.depthStencilView != VK_NULL_HANDLE) TeardownCall.vkDestroyDepthStencilView ++
    callIf (h.depthStencilImage != VK_NULL_HANDLE) TeardownCall.vkDestroyDepthStencilImage ++
    callIf (h.depthStencilMemory != VK_NULL_HANDLE) TeardownCall.vkFreeDepthStencilMemory ++
    callIf (h.renderPass != VK_NULL_HANDLE) TeardownCall.vkDestroyRenderPass ++
    (List.range st.swapChainBuffers.length).map TeardownCall.vkDestroySwapChainImageView ++
    callIf (h.swapChain != VK_NULL_HANDLE) TeardownCall.vkDestroySwapchainKHR ++
    callIf (h.commandPool != VK_NULL_HANDLE) TeardownCall.vkDestroyCommandPool ++
    callIf (h.pipelineCache != VK_NULL_HANDLE) TeardownCall.vkDestroyPipelineCache ++
    [TeardownCall.vkDestroyDevice]
  else []) ++
  callIf (h.surface != VK_NULL_HANDLE) TeardownCall.vkDestroySurfaceKHR ++
  callIf (h.instanceHandle != VK_NULL_HANDLE) TeardownCall.vkDestroyInstance

/-- The statement `delete vulkanExample` of `main`: the destructor of `Triangle`
followed by the destructor of its base class. -/
def deleteExample (h : Handles) (st : VulkanExampleBase) : List TeardownCall :=
  Triangle.destructor h st ++ VulkanExampleBase.destructor h st

/-- The destroy calls whose object was created on the device. -/
def TeardownCall.isDeviceOwned : TeardownCall → Bool
  | TeardownCall.vkDeviceWaitIdle => false
  | TeardownCall.vkDestroyDevice => false
  | TeardownCall.vkDestroySurfaceKHR => false
  | TeardownCall.vkDestroyInstance => false
  | _ => true

/-- The dependencies among the destroyed objects, as the creation calls set
them up: `a.dependsOn b` when the object destroyed by `a` was created from the
object destroyed by `b`, is a view of it, is bound to it, or was created on
it.  A framebuffer has the render pass, the depth view and the view of its
swapchain image; the pipeline has its layout, the render pass and the
pipeline cache; a buffer or image has the memory bound to it. -/
def TeardownCall.dependsOn (a b : TeardownCall) : Bool :=
  (a.isDeviceOwned && b == TeardownCall.vkDestroyDevice) ||
  match a with
  | TeardownCall.vkDestroyFramebuffer i =>
    b == TeardownCall.vkDestroyRenderPass || b == TeardownCall.vkDestroyDepthStencilView ||
    b == TeardownCall.vkDestroySwapChainImageView i
  | TeardownCall.vkDestroyDepthStencilView => b == TeardownCall.vkDestroyDepthStencilImage
  | TeardownCall.vkDestroyDepthStencilImage => b == TeardownCall.vkFreeDepthStencilMemory
  | TeardownCall.vkDestroySwapChainImageView _ => b == TeardownCall.vkDestroySwapchainKHR
  | TeardownCall.vkDestroySwapchainKHR => b == TeardownCall.vkDestroySurfaceKHR
  | TeardownCall.vkDestroySurfaceKHR => b == TeardownCall.vkDestroyInstance
  | TeardownCall.vkDestroyDevice => b == TeardownCall.vkDestroyInstance
  | TeardownCall.vkDestroyPipeline =>
    b == TeardownCall.vkDestroyPipelineLayout || b == TeardownCall.vkDestroyRenderPass ||
    b == TeardownCall.vkDestroyPipelineCache
  | TeardownCall.vkDestroyPipelineLayout => b == TeardownCall.vkDestroyDescriptorSetLayout
  | TeardownCall.vkDestroyUniformBuffer i => b == TeardownCall.vkFreeUniformBufferMemory i
  | TeardownCall.vkDestroyVertexBuffer => b == TeardownCall.vkFreeVertexBufferMemory
  | TeardownCall.vkDestroyIndexBuffer => b == TeardownCall.vkFreeIndexBufferMemory
  | _ => false

/-- Whether the member destroyed by a call holds something to destroy at
teardown: the handle is not null (for a vector element: the index is in
range), and for everything but the surface and the instance the device is
not null. -/
def Handles.holds (h : Handles) (st : VulkanExampleBase) : TeardownCall → Bool
  | TeardownCall.vkDeviceWaitIdle => st.device
  | TeardownCall.vkDestroyPipeline => st.device && h.pipeline != VK_NULL_HANDLE
  | TeardownCall.vkDestroyPipelineLayout => st.device && h.pipelineLayout != VK_NULL_HANDLE
  | TeardownCall.vkDestroyDescriptorSetLayout =>
    st.device && h.descriptorSetLayout != VK_NULL_HANDLE
  | TeardownCall.vkDestroyDescriptorPool => st.device && h.descriptorPool != VK_NULL_HANDLE
  | TeardownCall.vkDestroyUniformBuffer i =>
    st.device && decide (i < MAX_CONCURRENT_FRAMES) &&
      (h.uniformBuffers.getD i {}).handle != VK_NULL_HANDLE
  | TeardownCall.vkFreeUniformBufferMemory i =>
    st.device && decide (i < MAX_CONCURRENT_FRAMES) &&
      (h.uniformBuffers.getD i {}).memory != VK_NULL_HANDLE
  | TeardownCall.vkDestroyVertexBuffer => st.device && h.vertexBuffer.handle != VK_NULL_HANDLE
  | TeardownCall.vkFreeVertexBufferMemory =>
    st.device && h.vertexBuffer.memory != VK_NULL_HANDLE
  | TeardownCall.vkDestroyIndexBuffer => st.device && h.indexBuffer.handle != VK_NULL_HANDLE
  | TeardownCall.vkFreeIndexBufferMemory => st.device && h.indexBuffer.memory != VK_NULL_HANDLE
  | TeardownCall.vkDestroyFence i =>
    st.device && decide (i < MAX_CONCURRENT_FRAMES) &&
      st.waitFences.getD i FenceStatus.null != FenceStatus.null
  | TeardownCall.vkDestroyPresentCompleteSemaphore i =>
    st.device && decide (i < MAX_CONCURRENT_FRAMES) &&
      h.presentCompleteSemaphores.getD i VK_NULL_HANDLE != VK_NULL_HANDLE
  | TeardownCall.vkDestroyRenderCompleteSemaphore i =>
    st.device && decide (i < MAX_CONCURRENT_FRAMES) &&
      h.renderCompleteSemaphores.getD i VK_NULL_HANDLE != VK_NULL_HANDLE
  | TeardownCall.vkDestroyFramebuffer i => st.device && decide (i < st.frameBuffers.length)
  | TeardownCall.vkDestroyDepthStencilView => st.device && st.depthStencilView != VK_NULL_HANDLE
  | TeardownCall.vkDestroyDepthStencilImage =>
    st.device && h.depthStencilImage != VK_NULL_HANDLE
  | TeardownCall.vkFreeDepthStencilMemory =>
    st.device && h.depthStencilMemory != VK_NULL_HANDLE
  | TeardownCall.vkDestroyRenderPass => st.device && h.renderPass != VK_NULL_HANDLE
  | TeardownCall.vkDestroySwapChainImageView i =>
    st.device && decide (i < st.swapChainBuffers.length)
  | TeardownCall.vkDestroySwapchainKHR => st.device && h.swapChain != VK_NULL_HANDLE
  | TeardownCall.vkDestroyCommandPool => st.device && h.commandPool != VK_NULL_HANDLE
  | TeardownCall.vkDestroyPipelineCache => st.device && h.pipelineCache != VK_NULL_HANDLE
  | TeardownCall.vkDestroyDevice => st.device
  | TeardownCall.vkDestroySurfaceKHR => h.surface != VK_NULL_HANDLE
  | TeardownCall.vkDestroyInstance => h.instanceHandle != VK_NULL_HANDLE

/-- Position of a call in the program text of the destructors, `Triangle`
first; the two idle waits have none.  Used to prove the order of the calls. -/
def TeardownCall.rank : TeardownCall → Option Nat
  | TeardownCall.vkDeviceWaitIdle => none
  | TeardownCall.vkDestroyPipeline => some 1
  | TeardownCall.vkDestroyPipelineLayout => some 2
  | TeardownCall.vkDestroyDescriptorSetLayout => some 3
  | TeardownCall.vkDestroyDescriptorPool => some 4
  | TeardownCall.vkDestroyUniformBuffer i => some (5 + 2 * min i 1)
  | TeardownCall.vkFreeUniformBufferMemory i => some (6 + 2 * min i 1)
  | TeardownCall.vkDestroyVertexBuffer => some 9
  | TeardownCall.vkFreeVertexBufferMemory => some 10
  | TeardownCall.vkDestroyIndexBuffer => some 11
  | TeardownCall.vkFreeIndexBufferMemory => some 12
  | TeardownCall.vkDestroyFence _ => some 13
  | TeardownCall.vkDestroyPresentCompleteSemaphore _ => some 13
  | TeardownCall.vkDestroyRenderCompleteSemaphore _ => some 13
  | TeardownCall.vkDestroyFramebuffer _ => some 14
  | TeardownCall.vkDestroyDepthStencilView => some 15
  | TeardownCall.vkDestroyDepthStencilImage => some 16
  | TeardownCall.vkFreeDepthStencilMemory => some 17
  | TeardownCall.vkDestroyRenderPass => some 18
  | TeardownCall.vkDestroySwapChainImageView _ => some 19
  | TeardownCall.vkDestroySwapchainKHR => some 20
  | TeardownCall.vkDestroyCommandPool => some 21
  | TeardownCall.vkDestroyPipelineCache => some 22
  | TeardownCall.vkDestroyDevice => some 23
  | TeardownCall.vkDestroySurfaceKHR => some 24
  | TeardownCall.vkDestroyInstance => some 25

/-- The ranks of the calls of `l` lie in `[lo, hi]` and do not decrease along
`l`. -/
def RankedWithin (lo hi : Nat) (l : List TeardownCall) : Prop :=
  lo ≤ hi ∧
  l.Pairwise (fun x y => ∀ rx ry : Nat, x.rank = some rx → y.rank = some ry → rx ≤ ry) ∧
  ∀ x ∈ l, ∀ r : Nat, x.rank = some r → lo ≤ r ∧ r ≤ hi

/-- Handles as they are after a bring-up: every member holds an object. -/
def exampleHandles : Handles :=
  { instanceHandle := 1, surface := 2, swapChain := 3, depthStencilImage := 4,
    depthStencilMemory := 5, renderPass := 6, commandPool := 7,
    presentCompleteSemaphores := [8, 9], renderCompleteSemaphores := [10, 11],
    pipelineCache := 12,
    vertexBuffer := { memory := 13, handle := 14 },
    indexBuffer := { memory := 15, handle := 16 },
    uniformBuffers := [{ memory := 17, handle := 18 }, { memory := 19, handle := 20 }],
    descriptorSetLayout := 21, descriptorPool := 22, pipelineLayout := 23, pipeline := 24 }

/-! ## Lifecycle commands between frames -/

/-- What happens next in the running program: a frame or a GPU signal, or the
host delivers a command to the callback. -/
inductive Event
  | activity (a : Activity)
  | command (cmd : AppCmd) (env : BringUpEnv)

/-- A window-created command with a non-null window: its handler runs the
bring-up. -/
def Event.isBringUp : Event → Bool
  | Event.command AppCmd.APP_CMD_INIT_WINDOW env => env.window
  | _ => false

/-- One event, when it can happen.  The loop of `renderLoop` renders a frame
only if `prepared && !paused`, and the frame waits for its fence as in
`runActivity`; a command is handled whenever it is delivered. -/
def runEvent : Event → VulkanExampleBase → Option Step
  | Event.activity (Activity.frame env), st =>
    if st.prepared = true ∧ st.paused = false then runActivity (Activity.frame env) st
    else none
  | Event.activity (Activity.fenceSignaled slot), st =>
    runActivity (Activity.fenceSignaled slot) st
  | Event.command cmd env, st => some (handleAppCommand cmd env st)

/-- A schedule of events from `st`, if each of them can happen in its turn; it
ends when the process is terminated. -/
def runEvents : List Event → VulkanExampleBase → Option Step
  | [], st => some (skip st)
  | e :: rest, st =>
    match runEvent e st with
    | none => none
    | some r1 =>
      if r1.aborted then some r1
      else
        match runEvents rest r1.st with
        | none => none
        | some r2 => some { st := r2.st, ops := r1.ops ++ r2.ops, aborted := r2.aborted }

/-- Operations that are no wait on a frame fence, no frame submission and no
GPU signal. -/
def FenceQuiet (e : LogEntry) : Prop :=
  e.op.waitedFence = none ∧ e.op.submittedFence = none ∧ e.op.signaledFence = none

/-- A schedule: bring-up, two frames, a second window-created command while
both submissions are pending, a third frame. -/
def bringUpDuringFlight : List Event :=
  [Event.command AppCmd.APP_CMD_INIT_WINDOW exampleBringUp,
   Event.activity (Activity.frame {}), Event.activity (Activity.frame {}),
   Event.command AppCmd.APP_CMD_INIT_WINDOW exampleBringUp,
   Event.activity (Activity.frame {})]

/-- The run of `bringUpDuringFlight` from the initial state. -/
def bringUpDuringFlightRun : Step :=
  (runEvents bringUpDuringFlight {}).getD (skip {})

/-- A schedule with one bring-up: two frames, the GPU completes the first,
focus is lost and gained again, a third frame. -/
def exampleEvents : List Event :=
  [Event.command AppCmd.APP_CMD_INIT_WINDOW exampleBringUp,
   Event.activity (Activity.frame {}), Event.activity (Activity.frame {}),
   Event.activity (Activity.fenceSignaled 0),
   Event.command AppCmd.APP_CMD_LOST_FOCUS exampleBringUp,
   Event.command AppCmd.APP_CMD_GAINED_FOCUS exampleBringUp,
   Event.activity (Activity.frame {})]

/-- When the step completes, it has issued a call that satisfies `p`. -/
def Step.Issues (a : Step) (p : Op → Prop) : Prop :=
  a.aborted = false → ∃ o ∈ a.trace, p o

/-! # Theorems -/

/-! ## Sequencing lemmas -/

theorem andThen_ops (a : Step) (f : VulkanExampleBase → Step) :
    (a.andThen f).ops = if a.aborted then a.ops else a.ops ++ (f a.st).ops := by
  unfold Step.andThen
  split <;> rfl

theorem andThen_aborted (a : Step) (f : VulkanExampleBase → Step) :
    (a.andThen f).aborted = if a.aborted then true else (f a.st).aborted := by
  unfold Step.andThen
  split
  · assumption
  · rfl

theorem andThen_st (a : Step) (f : VulkanExampleBase → Step) :
    (a.andThen f).st = if a.aborted then a.st else (f a.st).st := by
  unfold Step.andThen
  split <;> rfl

theorem sat_andThen {a : Step} {f : VulkanExampleBase → Step} {P : LogEntry → Prop}
    {Q R : VulkanExampleBase → Prop}
    (ha : a.Sat P Q) (hf : ∀ s, Q s → (f s).Sat P R) : (a.andThen f).Sat P R := by
  unfold Step.Sat
  rw [andThen_ops, andThen_aborted, andThen_st]
  cases hab : a.aborted
  · have hq := ha.2 hab
    simp only [Bool.false_eq_true, if_false, List.mem_append]
    refine ⟨?_, (hf _ hq).2⟩
    rintro e (he | he)
    · exact ha.1 e he
    · exact (hf _ hq).1 e he
  · simp only [if_true]
    exact ⟨ha.1, by simp⟩

theorem sat_skip {P : LogEntry → Prop} {Q : VulkanExampleBase → Prop}
    {st : VulkanExampleBase} (hq : Q st) : (skip st).Sat P Q := by
  simp [Step.Sat, skip, hq]

theorem sat_emit {P : LogEntry → Prop} {Q : VulkanExampleBase → Prop} {op : Op}
    {st : VulkanExampleBase} (hp : P { op := op, fences := st.waitFences }) (hq : Q st) :
    (emit op st).Sat P Q := by
  simp [Step.Sat, emit, hp, hq]

theorem sat_vkCall {P : LogEntry → Prop} {Q : VulkanExampleBase → Prop} {op : Op}
    {effect : VulkanExampleBase → VulkanExampleBase}
    {st : VulkanExampleBase} (hp : P { op := op, fences := st.waitFences })
    (hq : Q (effect st)) : (vkCall op effect st).Sat P Q := by
  simp [Step.Sat, vkCall, hp, hq]

theorem sat_check {P : LogEntry → Prop} {Q : VulkanExampleBase → Prop} {res : Int}
    {st : VulkanExampleBase} (hp : CheckLogs P)
    (hq : res = VK_SUCCESS → Q st) : (VK_CHECK_RESULT res st).Sat P Q := by
  unfold VK_CHECK_RESULT
  by_cases h : res = VK_SUCCESS
  · simp [h, Step.Sat, skip, hq]
  · simp only [ne_eq, h, not_false_eq_true, if_true, Step.Sat]
    refine ⟨?_, by simp⟩
    intro e he
    simp only [List.mem_cons, List.mem_singleton, List.not_mem_nil, or_false] at he
    rcases he with rfl | rfl
    · exact (hp _).1 res
    · exact (hp _).2

theorem sat_checkedCall {P : LogEntry → Prop} {Q : VulkanExampleBase → Prop} {op : Op}
    {res : Int} {effect : VulkanExampleBase → VulkanExampleBase} {st : VulkanExampleBase}
    (hp : P { op := op, fences := st.waitFences }) (hlog : CheckLogs P)
    (hq : res = VK_SUCCESS → Q (effect st)) : (checkedCall op res effect st).Sat P Q := by
  unfold checkedCall
  refine sat_andThen (Q := fun s => res = VK_SUCCESS → Q s) (sat_vkCall hp ?_) ?_
  · intro h; simp [h, hq h]
  · intro s hs
    exact sat_check hlog hs

theorem sat_weaken {a : Step} {P P2 : LogEntry → Prop} {Q Q2 : VulkanExampleBase → Prop}
    (h : a.Sat P Q) (hp : ∀ e, P e → P2 e) (hq : ∀ s, Q s → Q2 s) : a.Sat P2 Q2 :=
  ⟨fun e he => hp e (h.1 e he), fun hab => hq _ (h.2 hab)⟩

theorem checkLogs_frameEntryOK (c len : Nat) : CheckLogs (FrameEntryOK c len) := by
  intro fs
  simp [FrameEntryOK, Op.slots]

theorem logFirstFrame_sat (st : VulkanExampleBase) :
    (logFirstFrame st).Sat (FrameEntryOK st.currentFrame st.waitFences.length)
      (fun s => FrameInv st s ∧ s.waitFences = st.waitFences) := by
  unfold logFirstFrame
  split
  · apply sat_vkCall
    · simp [FrameEntryOK, Op.slots]
    · simp [FrameInv]
  · apply sat_skip
    simp [FrameInv]

theorem prepareFrame_sat (env : FrameEnv) (st : VulkanExampleBase) :
    (prepareFrame env st).Sat (FrameEntryOK st.currentFrame st.waitFences.length)
      (fun s => FrameInv st s ∧ FenceIdle st.currentFrame s) := by
  unfold prepareFrame
  refine sat_andThen (Q := fun s => FrameInv st s) ?_ ?_
  · apply sat_checkedCall
    · simp [FrameEntryOK, Op.slots]
    · exact checkLogs_frameEntryOK _ _
    · intro _; simp [FrameInv, setFence]
  intro s1 h1
  refine sat_andThen (Q := fun s => FrameInv st s ∧ FenceIdle st.currentFrame s) ?_ ?_
  · apply sat_checkedCall
    · simp [FrameEntryOK, Op.slots, h1.1]
    · exact checkLogs_frameEntryOK _ _
    · intro _
      refine ⟨?_, ?_⟩
      · simpa [FrameInv, setFence] using h1
      · intro hlt
        simp only [setFence, List.length_set] at hlt
        simp [setFence, h1.1, hlt]
  intro s2 h2
  refine sat_andThen (Q := fun s => FrameInv st s ∧ FenceIdle st.currentFrame s) ?_ ?_
  · apply sat_vkCall
    · simp [FrameEntryOK, Op.slots, h2.1.1]
    · split
      · exact ⟨by simpa [FrameInv] using h2.1, by simpa [FenceIdle] using h2.2⟩
      · exact h2
  intro s3 h3
  split
  · apply sat_emit
    · simp [FrameEntryOK, Op.slots]
    · exact h3
  · exact sat_skip h3

theorem buildCommandBuffer_sat (env : FrameEnv) (st : VulkanExampleBase) (c len : Nat)
    (hc : st.currentFrame = c) (hlen : st.waitFences.length = len) (hidle : FenceIdle c st) :
    (buildCommandBuffer env st).Sat (FrameEntryOK c len)
      (fun s => FrameInv st s ∧ s.waitFences = st.waitFences) := by
  subst hc
  subst hlen
  have hE : ∀ (s : VulkanExampleBase) (op : Op), FrameInv st s ∧ s.waitFences = st.waitFences →
      (∀ x ∈ op.slots, x = st.currentFrame) → (∀ cmd, op ≠ Op.logAppCmd cmd) →
      (∀ x, op ≠ Op.vkResetCommandBuffer x) →
      (emit op s).Sat (FrameEntryOK st.currentFrame st.waitFences.length)
        (fun s => FrameInv st s ∧ s.waitFences = st.waitFences) := by
    intro s op hs h1 h2 h3
    apply sat_emit _ hs
    exact ⟨h1, h2, fun x hx => absurd hx (h3 x)⟩
  have hC : ∀ (s : VulkanExampleBase) (op : Op) (res : Int),
      FrameInv st s ∧ s.waitFences = st.waitFences →
      (∀ x ∈ op.slots, x = st.currentFrame) → (∀ cmd, op ≠ Op.logAppCmd cmd) →
      (∀ x, op ≠ Op.vkResetCommandBuffer x) →
      (checkedCall op res id s).Sat (FrameEntryOK st.currentFrame st.waitFences.length)
        (fun s => FrameInv st s ∧ s.waitFences = st.waitFences) := by
    intro s op res hs h1 h2 h3
    apply sat_checkedCall _ (checkLogs_frameEntryOK _ _) (fun _ => hs)
    exact ⟨h1, h2, fun x hx => absurd hx (h3 x)⟩
  unfold buildCommandBuffer
  refine sat_andThen (Q := fun s => FrameInv st s ∧ s.waitFences = st.waitFences) ?_ ?_
  · apply sat_checkedCall _ (checkLogs_frameEntryOK _ _)
    · intro _; simp [FrameInv]
    · refine ⟨by simp [Op.slots], by simp, ?_⟩
      intro s hs hlt
      simp only [Op.vkResetCommandBuffer.injEq] at hs
      subst hs
      exact hidle hlt
  intro s1 h1
  refine sat_andThen (hC s1 _ _ h1 (by simp [Op.slots, h1.1.1]) (by simp) (by simp)) ?_
  intro s2 h2
  refine sat_andThen (hE s2 _ h2 (by simp [Op.slots, h2.1.1]) (by simp) (by simp)) ?_
  intro s3 h3
  refine sat_andThen (hE s3 _ h3 (by simp [Op.slots, h3.1.1]) (by simp) (by simp)) ?_
  intro s4 h4
  refine sat_andThen (hE s4 _ h4 (by simp [Op.slots, h4.1.1]) (by simp) (by simp)) ?_
  intro s5 h5
  refine sat_andThen (hE s5 _ h5 (by simp [Op.slots, h5.1.1]) (by simp) (by simp)) ?_
  intro s6 h6
  refine sat_andThen (hE s6 _ h6 (by simp [Op.slots, h6.1.1]) (by simp) (by simp)) ?_
  intro s7 h7
  refine sat_andThen (hE s7 _ h7 (by simp [Op.slots, h7.1.1]) (by simp) (by simp)) ?_
  intro s8 h8
  refine sat_andThen (hE s8 _ h8 (by simp [Op.slots, h8.1.1]) (by simp) (by simp)) ?_
  intro s9 h9
  refine sat_andThen (hE s9 _ h9 (by simp [Op.slots, h9.1.1]) (by simp) (by simp)) ?_
  intro s10 h10
  refine sat_andThen (hE s10 _ h10 (by simp [Op.slots, h10.1.1]) (by simp) (by simp)) ?_
  intro s11 h11
  exact hC s11 _ _ h11 (by simp [Op.slots, h11.1.1]) (by simp) (by simp)

theorem submitFrame_sat (env : FrameEnv) (st : VulkanExampleBase) :
    (submitFrame env st).Sat (FrameEntryOK st.currentFrame st.waitFences.length)
      (fun s => s.currentFrame = advanceFrame st.currentFrame ∧ s.paused = st.paused ∧
        s.prepared = st.prepared ∧ s.waitFences.length = st.waitFences.length) := by
  unfold submitFrame
  refine sat_andThen (Q := fun s => FrameInv st s) ?_ ?_
  · apply sat_checkedCall _ (checkLogs_frameEntryOK _ _)
    · intro _; simp [FrameInv, setFence]
    · simp [FrameEntryOK, Op.slots]
  intro s1 h1
  refine sat_andThen (Q := fun s => FrameInv st s) ?_ ?_
  · apply sat_emit _ h1
    simp [FrameEntryOK, Op.slots, h1.1]
  intro s2 h2
  apply sat_vkCall
  · simp [FrameEntryOK, Op.slots]
  · obtain ⟨a, b, c, d⟩ := h2
    simp [a, b, c, d]

theorem render_sat (env : FrameEnv) (st : VulkanExampleBase) :
    (render env st).Sat (FrameEntryOK st.currentFrame st.waitFences.length)
      (fun s => s.currentFrame = advanceFrame st.currentFrame ∧ s.paused = st.paused ∧
        s.prepared = st.prepared ∧ s.waitFences.length = st.waitFences.length) := by
  unfold render
  refine sat_andThen (logFirstFrame_sat st) ?_
  intro s1 h1
  have e1 : s1.currentFrame = st.currentFrame := h1.1.1
  have l1 : s1.waitFences.length = st.waitFences.length := h1.1.2.2.2
  refine sat_andThen (Q := fun s => FrameInv st s ∧ FenceIdle st.currentFrame s) ?_ ?_
  · have := prepareFrame_sat env s1
    rw [e1, l1] at this
    refine sat_weaken this (fun _ h => h) ?_
    rintro s ⟨⟨a, b, c, d⟩, e⟩
    obtain ⟨⟨a1, b1, c1, d1⟩, _⟩ := h1
    exact ⟨⟨a.trans a1, b.trans b1, c.trans c1, d.trans d1⟩, e⟩
  intro s2 h2
  refine sat_andThen (Q := fun s => FrameInv st s ∧ FenceIdle st.currentFrame s) ?_ ?_
  · unfold updateUniformBuffer
    apply sat_emit _ h2
    simp [FrameEntryOK, Op.slots, h2.1.1]
  intro s3 h3
  refine sat_andThen (Q := fun s => FrameInv st s) ?_ ?_
  · refine sat_weaken
      (buildCommandBuffer_sat env s3 st.currentFrame st.waitFences.length h3.1.1 h3.1.2.2.2 h3.2)
      (fun _ h => h) ?_
    rintro s ⟨⟨a, b, c, d⟩, _⟩
    obtain ⟨⟨a1, b1, c1, d1⟩, _⟩ := h3
    exact ⟨a.trans a1, b.trans b1, c.trans c1, d.trans d1⟩
  intro s4 h4
  have := submitFrame_sat env s4
  obtain ⟨a1, b1, c1, d1⟩ := h4
  rw [a1, d1] at this
  refine sat_weaken this (fun _ h => h) ?_
  rintro s ⟨a, b, c, d⟩
  exact ⟨a, b.trans b1, c.trans c1, d⟩

theorem checkedCall_success (op : Op) (effect : VulkanExampleBase → VulkanExampleBase)
    (st : VulkanExampleBase) :
    checkedCall op VK_SUCCESS effect st =
      { st := effect st, ops := [{ op := op, fences := st.waitFences }], aborted := false } := by
  simp [checkedCall, vkCall, VK_CHECK_RESULT, Step.andThen, skip]

theorem andThen_ok (s : VulkanExampleBase) (l : List LogEntry) (f : VulkanExampleBase → Step) :
    Step.andThen { st := s, ops := l, aborted := false } f =
      { st := (f s).st, ops := l ++ (f s).ops, aborted := (f s).aborted } := by
  simp [Step.andThen]

theorem prepareFrame_success (env : FrameEnv) (st : VulkanExampleBase)
    (h1 : env.waitForFences = VK_SUCCESS) (h2 : env.resetFences = VK_SUCCESS) :
    prepareFrame env st =
      { st := { st with
          waitFences := (st.waitFences.set st.currentFrame FenceStatus.signaled).set
            st.currentFrame FenceStatus.unsignaled,
          currentBuffer := acquiredBuffer env st },
        ops :=
          [{ op := Op.vkWaitForFences st.currentFrame, fences := st.waitFences },
           { op := Op.vkResetFences st.currentFrame,
             fences := st.waitFences.set st.currentFrame FenceStatus.signaled },
           { op := Op.vkAcquireNextImageKHR st.currentFrame,
             fences := (st.waitFences.set st.currentFrame FenceStatus.signaled).set
               st.currentFrame FenceStatus.unsignaled }] ++
          (if env.acquireNextImage = VK_ERROR_OUT_OF_DATE_KHR ∨
              env.acquireNextImage = VK_SUBOPTIMAL_KHR then
            [{ op := Op.logSwapchainStale,
               fences := (st.waitFences.set st.currentFrame FenceStatus.signaled).set
                 st.currentFrame FenceStatus.unsignaled }]
           else []),
        aborted := false } := by
  simp only [prepareFrame, h1, h2, checkedCall_success, andThen_ok, vkCall, setFence,
    acquiredBuffer]
  by_cases hs : env.acquireNextImage = VK_ERROR_OUT_OF_DATE_KHR ∨
      env.acquireNextImage = VK_SUBOPTIMAL_KHR
  · by_cases ha : env.acquireNextImage = VK_SUCCESS ∨ env.acquireNextImage = VK_SUBOPTIMAL_KHR
    · simp [hs, ha, emit]
    · simp [hs, ha, emit]
  · by_cases ha : env.acquireNextImage = VK_SUCCESS ∨ env.acquireNextImage = VK_SUBOPTIMAL_KHR
    · simp [hs, ha, skip]
    · simp [hs, ha, skip]

theorem render_trace_success (env : FrameEnv) (st : VulkanExampleBase)
    (h1 : env.waitForFences = VK_SUCCESS) (h2 : env.resetFences = VK_SUCCESS)
    (h3 : env.resetCommandBuffer = VK_SUCCESS) (h4 : env.beginCommandBuffer = VK_SUCCESS)
    (h5 : env.endCommandBuffer = VK_SUCCESS) (h6 : env.queueSubmit = VK_SUCCESS) :
    (render env st).aborted = false ∧
    (render env st).trace.filter (fun o => o.frameStep.isSome) =
      [Op.vkWaitForFences st.currentFrame, Op.vkResetFences st.currentFrame,
       Op.vkAcquireNextImageKHR st.currentFrame, Op.updateUniformBuffer st.currentFrame,
       Op.vkResetCommandBuffer st.currentFrame, Op.vkBeginCommandBuffer st.currentFrame,
       Op.vkCmdBeginRenderPass st.currentFrame (acquiredBuffer env st) st.width st.height,
       Op.vkCmdSetViewport st.currentFrame st.width st.height,
       Op.vkCmdSetScissor st.currentFrame st.width st.height,
       Op.vkCmdBindPipeline st.currentFrame,
       Op.vkCmdBindDescriptorSets st.currentFrame st.currentFrame,
       Op.vkCmdBindVertexBuffers st.currentFrame, Op.vkCmdBindIndexBuffer st.currentFrame,
       Op.vkCmdDrawIndexed st.currentFrame, Op.vkCmdEndRenderPass st.currentFrame,
       Op.vkEndCommandBuffer st.currentFrame,
       Op.vkQueueSubmit st.currentFrame st.currentFrame st.currentFrame st.currentFrame,
       Op.vkQueuePresentKHR st.currentFrame (acquiredBuffer env st),
       Op.setCurrentFrame (advanceFrame st.currentFrame)] := by
  have hacq : ∀ s : VulkanExampleBase, s.currentBuffer = st.currentBuffer →
      acquiredBuffer env s = acquiredBuffer env st := by
    intro s hs; simp [acquiredBuffer, hs]
  by_cases hf : st.firstFrame = true <;>
  by_cases hs : env.acquireNextImage = VK_ERROR_OUT_OF_DATE_KHR ∨
      env.acquireNextImage = VK_SUBOPTIMAL_KHR <;>
  simp [render, submitFrame, buildCommandBuffer, updateUniformBuffer,
    logFirstFrame, prepareFrame_success, h1, h2, h3, h4, h5, h6, checkedCall_success,
    Step.trace, hf, hs, vkCall, emit, skip, andThen_ok, setFence, Op.frameStep, hacq]


theorem checkedCall_aborted (op : Op) (res : Int)
    (effect : VulkanExampleBase → VulkanExampleBase) (st : VulkanExampleBase) :
    (checkedCall op res effect st).aborted = decide (res ≠ VK_SUCCESS) := by
  by_cases h : res = VK_SUCCESS <;>
  simp [checkedCall, vkCall, VK_CHECK_RESULT, Step.andThen, skip, h]

theorem andThen_aborted_false {a : Step} {f : VulkanExampleBase → Step}
    (h : (a.andThen f).aborted = false) : a.aborted = false ∧ (f a.st).aborted = false := by
  rw [andThen_aborted] at h
  cases ha : a.aborted <;> simp [ha] at h ⊢
  exact h

theorem render_completes (env : FrameEnv) (st : VulkanExampleBase)
    (h : (render env st).aborted = false) :
    env.waitForFences = VK_SUCCESS ∧ env.resetFences = VK_SUCCESS ∧
    env.resetCommandBuffer = VK_SUCCESS ∧ env.beginCommandBuffer = VK_SUCCESS ∧
    env.endCommandBuffer = VK_SUCCESS ∧ env.queueSubmit = VK_SUCCESS := by
  unfold render at h
  obtain ⟨_, h⟩ := andThen_aborted_false h
  obtain ⟨hp, h⟩ := andThen_aborted_false h
  obtain ⟨_, h⟩ := andThen_aborted_false h
  obtain ⟨hb, hs⟩ := andThen_aborted_false h
  unfold prepareFrame at hp
  obtain ⟨p1, hp⟩ := andThen_aborted_false hp
  obtain ⟨p2, hp⟩ := andThen_aborted_false hp
  unfold buildCommandBuffer at hb
  obtain ⟨b1, hb⟩ := andThen_aborted_false hb
  obtain ⟨b2, hb⟩ := andThen_aborted_false hb
  iterate 9 (obtain ⟨_, hb⟩ := andThen_aborted_false hb)
  unfold submitFrame at hs
  obtain ⟨s1, hs⟩ := andThen_aborted_false hs
  rw [checkedCall_aborted] at p1 p2 b1 b2 hb s1
  simp only [ne_eq, decide_not, Bool.not_eq_false', decide_eq_true_eq] at p1 p2 b1 b2 hb s1
  exact ⟨p1, p2, b1, b2, hb, s1⟩


theorem andThen_trace (a : Step) (f : VulkanExampleBase → Step) :
    (a.andThen f).trace = if a.aborted then a.trace else a.trace ++ (f a.st).trace := by
  unfold Step.trace
  rw [andThen_ops]
  split <;> simp

theorem ranked_andThen (lo mid hi : Nat) {a : Step} {f : VulkanExampleBase → Step}
    (h1 : lo ≤ mid) (h2 : mid ≤ hi)
    (ha : a.Ranked lo mid) (hf : ∀ s, (f s).Ranked mid hi) : (a.andThen f).Ranked lo hi := by
  unfold Step.Ranked
  rw [andThen_trace]
  cases hab : a.aborted
  · simp only [Bool.false_eq_true, if_false, List.filterMap_append, List.pairwise_append,
      List.mem_append]
    refine ⟨⟨ha.1, (hf _).1, ?_⟩, ?_⟩
    · intro x hx y hy
      have := ha.2 x hx
      have := (hf _).2 y hy
      omega
    · rintro r (hr | hr)
      · have := ha.2 r hr; omega
      · have := (hf _).2 r hr; omega
  · simp only [if_true]
    refine ⟨ha.1, ?_⟩
    intro r hr
    have := ha.2 r hr
    omega

theorem ranked_skip (lo hi : Nat) (st : VulkanExampleBase) : (skip st).Ranked lo hi := by
  simp [Step.Ranked, skip, Step.trace]

theorem ranked_vkCall (k : Nat) (op : Op) (effect : VulkanExampleBase → VulkanExampleBase)
    (st : VulkanExampleBase) (h : op.frameStep = some k) :
    (vkCall op effect st).Ranked k (k + 1) := by
  simp [Step.Ranked, vkCall, Step.trace, h]

theorem ranked_emit (k : Nat) (op : Op) (st : VulkanExampleBase) (h : op.frameStep = some k) :
    (emit op st).Ranked k (k + 1) := by
  simp [Step.Ranked, emit, Step.trace, h]

theorem ranked_log (lo hi : Nat) (a : Step) (h : ∀ o ∈ a.trace, o.frameStep = none) :
    a.Ranked lo hi := by
  have : a.trace.filterMap Op.frameStep = [] := by
    rw [List.filterMap_eq_nil_iff]
    exact h
  simp [Step.Ranked, this]

theorem ranked_checkedCall (k : Nat) (op : Op) (res : Int)
    (effect : VulkanExampleBase → VulkanExampleBase)
    (st : VulkanExampleBase) (h : op.frameStep = some k) :
    (checkedCall op res effect st).Ranked k (k + 1) := by
  unfold checkedCall
  apply ranked_andThen k (k + 1) (k + 1) (by omega) (by omega) (ranked_vkCall k _ _ _ h)
  intro s
  apply ranked_log
  intro o ho
  unfold VK_CHECK_RESULT at ho
  split at ho
  · simp [Step.trace] at ho
    rcases ho with rfl | rfl <;> rfl
  · simp [Step.trace, skip] at ho

theorem logFirstFrame_ranked (lo hi : Nat) (st : VulkanExampleBase) :
    (logFirstFrame st).Ranked lo hi := by
  unfold logFirstFrame
  split
  · apply ranked_log; intro o ho; simp [vkCall, Step.trace] at ho; subst ho; rfl
  · exact ranked_skip _ _ _

theorem prepareFrame_ranked (env : FrameEnv) (st : VulkanExampleBase) :
    (prepareFrame env st).Ranked 0 3 := by
  unfold prepareFrame
  apply ranked_andThen 0 1 3 (by omega) (by omega) (ranked_checkedCall 0 _ _ _ _ (by rfl))
  intro s
  apply ranked_andThen 1 2 3 (by omega) (by omega) (ranked_checkedCall 1 _ _ _ _ (by rfl))
  intro s
  apply ranked_andThen 2 3 3 (by omega) (by omega) (ranked_vkCall 2 _ _ _ (by rfl))
  intro s
  split
  · apply ranked_log; intro o ho; simp [emit, Step.trace] at ho; subst ho; rfl
  · exact ranked_skip _ _ _

theorem buildCommandBuffer_ranked (env : FrameEnv) (st : VulkanExampleBase) :
    (buildCommandBuffer env st).Ranked 4 16 := by
  unfold buildCommandBuffer
  apply ranked_andThen 4 5 16 (by omega) (by omega) (ranked_checkedCall 4 _ _ _ _ (by rfl))
  intro s
  apply ranked_andThen 5 6 16 (by omega) (by omega) (ranked_checkedCall 5 _ _ _ _ (by rfl))
  intro s
  apply ranked_andThen 6 7 16 (by omega) (by omega) (ranked_emit 6 _ _ (by rfl))
  intro s
  apply ranked_andThen 7 8 16 (by omega) (by omega) (ranked_emit 7 _ _ (by rfl))
  intro s
  apply ranked_andThen 8 9 16 (by omega) (by omega) (ranked_emit 8 _ _ (by rfl))
  intro s
  apply ranked_andThen 9 10 16 (by omega) (by omega) (ranked_emit 9 _ _ (by rfl))
  intro s
  apply ranked_andThen 10 11 16 (by omega) (by omega) (ranked_emit 10 _ _ (by rfl))
  intro s
  apply ranked_andThen 11 12 16 (by omega) (by omega) (ranked_emit 11 _ _ (by rfl))
  intro s
  apply ranked_andThen 12 13 16 (by omega) (by omega) (ranked_emit 12 _ _ (by rfl))
  intro s
  apply ranked_andThen 13 14 16 (by omega) (by omega) (ranked_emit 13 _ _ (by rfl))
  intro s
  apply ranked_andThen 14 15 16 (by omega) (by omega) (ranked_emit 14 _ _ (by rfl))
  intro s
  exact ranked_checkedCall 15 _ _ _ _ (by rfl)

theorem submitFrame_ranked (env : FrameEnv) (st : VulkanExampleBase) :
    (submitFrame env st).Ranked 16 19 := by
  unfold submitFrame
  apply ranked_andThen 16 17 19 (by omega) (by omega) (ranked_checkedCall 16 _ _ _ _ (by rfl))
  intro s
  apply ranked_andThen 17 18 19 (by omega) (by omega) (ranked_emit 17 _ _ (by rfl))
  intro s
  exact ranked_vkCall 18 _ _ _ (by rfl)

theorem render_ranked (env : FrameEnv) (st : VulkanExampleBase) :
    (render env st).Ranked 0 19 := by
  unfold render
  apply ranked_andThen 0 0 19 (by omega) (by omega) (logFirstFrame_ranked 0 0 st)
  intro s
  apply ranked_andThen 0 3 19 (by omega) (by omega) (prepareFrame_ranked env s)
  intro s
  apply ranked_andThen 3 4 19 (by omega) (by omega) (ranked_emit 3 _ _ (by rfl))
  intro s
  apply ranked_andThen 4 16 19 (by omega) (by omega) (buildCommandBuffer_ranked env s)
  intro s
  exact submitFrame_ranked env s

/-! ## Lifecycle lemmas -/

theorem focusMonitor_append (a b : List Op) (lost : Bool) :
    focusMonitor (a ++ b) lost = (focusMonitor a lost).bind (focusMonitor b) := by
  induction a generalizing lost with
  | nil => simp [focusMonitor]
  | cons op rest ih =>
    simp only [List.cons_append, focusMonitor]
    split
    · exact ih _
    · split
      · exact ih _
      · split
        · rfl
        · exact ih _

theorem focusMonitor_lost (mid : List Op) :
    ∀ (r : Option Bool), focusMonitor mid true = r → r ≠ none →
      Op.logAppCmd AppCmd.APP_CMD_GAINED_FOCUS ∉ mid →
      ∀ x ∈ mid, x.isFrameOp = false := by
  induction mid with
  | nil => intro r _ _ _ x hx; simp at hx
  | cons op rest ih =>
    intro r hr hne hg x hx
    simp only [List.mem_cons, not_or] at hg
    simp only [focusMonitor] at hr
    by_cases h1 : op = Op.logAppCmd AppCmd.APP_CMD_LOST_FOCUS
    · simp only [h1, if_true] at hr
      rcases List.mem_cons.1 hx with rfl | hx
      · rw [h1]; rfl
      · exact ih r hr hne hg.2 x hx
    · have h2 : op ≠ Op.logAppCmd AppCmd.APP_CMD_GAINED_FOCUS := fun h => hg.1 h.symm
      simp only [h1, h2, if_false, and_true] at hr
      by_cases h3 : op.isFrameOp = true
      · simp only [h3, if_true] at hr
        exact absurd hr.symm hne
      · simp only [h3, if_false] at hr
        rcases List.mem_cons.1 hx with rfl | hx
        · simpa using h3
        · exact ih r hr hne hg.2 x hx

theorem focusMonitor_decomp (ops pre mid post : List Op) (lost lost2 : Bool)
    (h : focusMonitor ops lost = some lost2)
    (hd : ops = pre ++ Op.logAppCmd AppCmd.APP_CMD_LOST_FOCUS :: (mid ++ post))
    (hg : Op.logAppCmd AppCmd.APP_CMD_GAINED_FOCUS ∉ mid) :
    ∀ x ∈ mid, x.isFrameOp = false := by
  subst hd
  rw [focusMonitor_append] at h
  cases h1 : focusMonitor pre lost with
  | none => simp [h1] at h
  | some l1 =>
    simp only [h1, Option.some_bind, focusMonitor, if_true] at h
    rw [focusMonitor_append] at h
    cases h2 : focusMonitor mid true with
    | none => simp [h2] at h
    | some l2 => exact focusMonitor_lost mid _ h2 (by simp) hg

theorem mon_andThen {a : Step} {f : VulkanExampleBase → Step} {p0 : Bool}
    (ha : a.Mon p0) (hf : ∀ s, (f s).Mon s.paused) : (a.andThen f).Mon p0 := by
  intro lost hl
  obtain ⟨l1, h1, h1p⟩ := ha lost hl
  rw [andThen_trace, andThen_aborted, andThen_st]
  cases hab : a.aborted
  · simp only [Bool.false_eq_true, if_false]
    obtain ⟨l2, h2, h2p⟩ := hf a.st l1 (h1p hab)
    refine ⟨l2, ?_, h2p⟩
    rw [focusMonitor_append, h1]
    exact h2
  · simp only [if_true]
    exact ⟨l1, h1, by simp⟩

theorem focusMonitor_plain (ops : List Op) (lost : Bool)
    (h : ∀ o ∈ ops, o.isFrameOp = false ∧ o ≠ Op.logAppCmd AppCmd.APP_CMD_LOST_FOCUS ∧
      o ≠ Op.logAppCmd AppCmd.APP_CMD_GAINED_FOCUS) :
    focusMonitor ops lost = some lost := by
  induction ops with
  | nil => rfl
  | cons op rest ih =>
    have ho := h op (List.mem_cons_self _ _)
    simp only [focusMonitor, ho.2.1, ho.2.2, ho.1, if_false, Bool.false_eq_true, false_and]
    exact ih (fun o hm => h o (List.mem_cons_of_mem _ hm))

theorem mon_of_plain {a : Step} {p0 : Bool}
    (h : a.Sat PlainEntry (fun s => s.paused = p0)) : a.Mon p0 := by
  intro lost hl
  refine ⟨lost, ?_, ?_⟩
  · apply focusMonitor_plain
    intro o ho
    simp only [Step.trace, List.mem_map] at ho
    obtain ⟨e, he, rfl⟩ := ho
    exact h.1 e he
  · intro hab hlost
    rw [h.2 hab]
    exact hl hlost

theorem focusMonitor_frame (ops : List Op)
    (h : ∀ o ∈ ops, ∀ cmd, o ≠ Op.logAppCmd cmd) :
    focusMonitor ops false = some false := by
  induction ops with
  | nil => rfl
  | cons op rest ih =>
    have ho := h op (List.mem_cons_self _ _)
    simp only [focusMonitor, ho _, if_false, Bool.false_eq_true, and_false]
    exact ih (fun o hm => h o (List.mem_cons_of_mem _ hm))

theorem render_mon (env : FrameEnv) (st : VulkanExampleBase) (hp : st.paused = false) :
    (render env st).Mon st.paused := by
  intro lost hl
  have hlost : lost = false := by
    cases lost
    · rfl
    · have := hl rfl; rw [hp] at this; exact absurd this (by simp)
  subst hlost
  refine ⟨false, ?_, by simp⟩
  apply focusMonitor_frame
  intro o ho
  simp only [Step.trace, List.mem_map] at ho
  obtain ⟨e, he, rfl⟩ := ho
  exact ((render_sat env st).1 e he).2.1


theorem checkLogs_plain : CheckLogs PlainEntry := by
  intro fs
  simp [PlainEntry, Op.isFrameOp]

theorem plain_checkedCall (op : Op) (res : Int)
    (effect : VulkanExampleBase → VulkanExampleBase) (st : VulkanExampleBase) (p : Bool)
    (hop : PlainEntry { op := op, fences := st.waitFences })
    (hst : st.paused = p) (heff : ∀ s, (effect s).paused = s.paused) :
    (checkedCall op res effect st).Sat PlainEntry (fun s => s.paused = p) :=
  sat_checkedCall hop checkLogs_plain (fun _ => by rw [heff]; exact hst)

theorem plain_then {a : Step} {f : VulkanExampleBase → Step} {p : Bool}
    (ha : a.Sat PlainEntry (fun s => s.paused = p))
    (hf : ∀ s, s.paused = p → (f s).Sat PlainEntry (fun s => s.paused = p)) :
    (a.andThen f).Sat PlainEntry (fun s => s.paused = p) :=
  sat_andThen ha hf

theorem plain_abort (op : Op) (st : VulkanExampleBase) (p : Bool)
    (hop : PlainEntry { op := op, fences := st.waitFences }) :
    Step.Sat { st := st, ops := [{ op := op, fences := st.waitFences }], aborted := true }
      PlainEntry (fun s => s.paused = p) := by
  refine ⟨?_, by simp⟩
  intro e he
  simp only [List.mem_singleton] at he
  rw [he]
  exact hop

theorem createDevice_plain (env : BringUpEnv) (st : VulkanExampleBase) :
    (createDevice env st).Sat PlainEntry (fun s => s.paused = st.paused) := by
  unfold createDevice
  refine plain_then
    (plain_checkedCall _ _ _ _ _ (by simp [PlainEntry, Op.isFrameOp]) rfl (fun _ => rfl)) ?_
  intro s1 h1
  refine plain_then (a := if env.physicalDevices.length > 0 then skip s1 else assertFail s1)
    ?_ ?_
  · split
    · exact sat_skip h1
    · exact plain_abort _ _ _ (by simp [PlainEntry, Op.isFrameOp])
  intro s2 h2
  refine plain_then
    (plain_checkedCall _ _ _ _ _ (by simp [PlainEntry, Op.isFrameOp]) h2 (fun _ => rfl)) ?_
  intro s3 h3
  refine plain_then (p := st.paused) (sat_skip h3) ?_
  intro s4 h4
  refine plain_then
    (plain_checkedCall _ _ _ _ _ (by simp [PlainEntry, Op.isFrameOp]) h4 (fun _ => rfl)) ?_
  intro s5 h5
  exact sat_emit (by simp [PlainEntry, Op.isFrameOp]) h5

theorem initVulkan_plain (env : BringUpEnv) (st : VulkanExampleBase) :
    (initVulkan env st).Sat PlainEntry (fun s => s.paused = st.paused) := by
  unfold initVulkan
  refine plain_then (p := st.paused) (sat_skip rfl) ?_
  intro s1 h1
  refine plain_then ?_ ?_
  · exact plain_checkedCall _ _ _ _ _ (by simp [PlainEntry, Op.isFrameOp]) h1 (fun _ => rfl)
  intro s2 h2
  refine plain_then ?_ ?_
  · exact plain_checkedCall _ _ _ _ _ (by simp [PlainEntry, Op.isFrameOp]) h2 (fun _ => rfl)
  intro s3 h3
  rw [← h3]
  exact createDevice_plain env s3

theorem createImageViewsLoop_plain (env : BringUpEnv) (images : List Nat) :
    ∀ (n i : Nat) (st : VulkanExampleBase),
      (createImageViewsLoop env images n i st).Sat PlainEntry
        (fun s => s.paused = st.paused) := by
  intro n
  induction n with
  | zero => intro i st; exact sat_skip rfl
  | succ n ih =>
    intro i st
    unfold createImageViewsLoop
    refine plain_then (p := st.paused) (sat_skip rfl) ?_
    intro s1 h1
    refine plain_then
      (plain_checkedCall _ _ _ _ _ (by simp [PlainEntry, Op.isFrameOp]) h1 (fun _ => rfl)) ?_
    intro s2 h2
    rw [← h2]
    exact ih (i + 1) s2

theorem createSwapChain_plain (env : BringUpEnv) (st : VulkanExampleBase) :
    (createSwapChain env st).Sat PlainEntry (fun s => s.paused = st.paused) := by
  unfold createSwapChain
  refine plain_then
    (plain_checkedCall _ _ _ _ _ (by simp [PlainEntry, Op.isFrameOp]) rfl (fun _ => rfl)) ?_
  intro s1 h1
  refine plain_then
    (plain_checkedCall _ _ _ _ _ (by simp [PlainEntry, Op.isFrameOp]) h1 (fun _ => rfl)) ?_
  intro s2 h2
  refine plain_then
    (plain_checkedCall _ _ _ _ _ (by simp [PlainEntry, Op.isFrameOp]) h2 (fun _ => rfl)) ?_
  intro s3 h3
  refine plain_then (p := st.paused) ?_ ?_
  · split
    · exact plain_abort _ _ _ (by simp [PlainEntry, Op.isFrameOp])
    · exact sat_skip h3
  intro s4 h4
  refine plain_then
    (plain_checkedCall _ _ _ _ _ (by simp [PlainEntry, Op.isFrameOp]) h4 (fun _ => rfl)) ?_
  intro s5 h5
  refine plain_then
    (plain_checkedCall _ _ _ _ _ (by simp [PlainEntry, Op.isFrameOp]) h5 (fun _ => rfl)) ?_
  intro s6 h6
  refine plain_then (p := st.paused) (sat_skip h6) ?_
  intro s7 h7
  refine plain_then
    (plain_checkedCall _ _ _ _ _ (by simp [PlainEntry, Op.isFrameOp]) h7 (fun _ => rfl)) ?_
  intro s8 h8
  refine plain_then
    (plain_checkedCall _ _ _ _ _ (by simp [PlainEntry, Op.isFrameOp]) h8 (fun _ => rfl)) ?_
  intro s9 h9
  refine plain_then
    (plain_checkedCall _ _ _ _ _ (by simp [PlainEntry, Op.isFrameOp]) h9 (fun _ => rfl)) ?_
  intro s10 h10
  refine plain_then (p := st.paused) (sat_skip h10) ?_
  intro s11 h11
  rw [← h11]
  exact createImageViewsLoop_plain env _ _ _ s11

theorem createSynchronizationPrimitivesLoop_plain (env : BringUpEnv) :
    ∀ (n i : Nat) (st : VulkanExampleBase),
      (createSynchronizationPrimitivesLoop env n i st).Sat PlainEntry
        (fun s => s.paused = st.paused) := by
  intro n
  induction n with
  | zero => intro i st; exact sat_skip rfl
  | succ n ih =>
    intro i st
    unfold createSynchronizationPrimitivesLoop
    refine plain_then ?_ ?_
    · exact plain_checkedCall _ _ _ _ _ (by simp [PlainEntry, Op.isFrameOp]) rfl
        (fun _ => by simp [setFence])
    intro s1 h1
    refine plain_then ?_ ?_
    · exact plain_checkedCall _ _ _ _ _ (by simp [PlainEntry, Op.isFrameOp]) h1 (fun _ => rfl)
    intro s2 h2
    refine plain_then ?_ ?_
    · exact plain_checkedCall _ _ _ _ _ (by simp [PlainEntry, Op.isFrameOp]) h2 (fun _ => rfl)
    intro s3 h3
    rw [← h3]
    exact ih (i + 1) s3

theorem setupDepthStencil_plain (env : BringUpEnv) (st : VulkanExampleBase) :
    (setupDepthStencil env st).Sat PlainEntry (fun s => s.paused = st.paused) := by
  unfold setupDepthStencil
  refine plain_then (p := st.paused) (sat_skip rfl) ?_
  intro s1 h1
  refine plain_then
    (plain_checkedCall _ _ _ _ _ (by simp [PlainEntry, Op.isFrameOp]) h1 (fun _ => rfl)) ?_
  intro s2 h2
  refine plain_then
    (plain_checkedCall _ _ _ _ _ (by simp [PlainEntry, Op.isFrameOp]) h2 (fun _ => rfl)) ?_
  intro s3 h3
  refine plain_then
    (plain_checkedCall _ _ _ _ _ (by simp [PlainEntry, Op.isFrameOp]) h3 (fun _ => rfl)) ?_
  intro s4 h4
  exact plain_checkedCall _ _ _ _ _ (by simp [PlainEntry, Op.isFrameOp]) h4 (fun _ => rfl)

theorem setupFrameBufferLoop_plain (env : BringUpEnv) :
    ∀ (n i : Nat) (st : VulkanExampleBase),
      (setupFrameBufferLoop env n i st).Sat PlainEntry (fun s => s.paused = st.paused) := by
  intro n
  induction n with
  | zero => intro i st; exact sat_skip rfl
  | succ n ih =>
    intro i st
    unfold setupFrameBufferLoop
    refine plain_then
      (plain_checkedCall _ _ _ _ _ (by simp [PlainEntry, Op.isFrameOp]) rfl (fun _ => rfl)) ?_
    intro s1 h1
    rw [← h1]
    exact ih (i + 1) s1

theorem setupFrameBuffer_plain (env : BringUpEnv) (st : VulkanExampleBase) :
    (setupFrameBuffer env st).Sat PlainEntry (fun s => s.paused = st.paused) := by
  unfold setupFrameBuffer
  refine plain_then (p := st.paused) (sat_skip rfl) ?_
  intro s1 h1
  rw [← h1]
  exact setupFrameBufferLoop_plain env _ _ s1

theorem basePrepare_plain (env : BringUpEnv) (st : VulkanExampleBase) :
    (VulkanExampleBase.prepare env st).Sat PlainEntry (fun s => s.paused = st.paused) := by
  unfold VulkanExampleBase.prepare
  refine plain_then (createSwapChain_plain env st) ?_
  intro s1 h1
  refine plain_then ?_ ?_
  · exact plain_checkedCall _ _ _ _ _ (by simp [PlainEntry, Op.isFrameOp]) h1 (fun _ => rfl)
  intro s2 h2
  refine plain_then ?_ ?_
  · exact plain_checkedCall _ _ _ _ _ (by simp [PlainEntry, Op.isFrameOp]) h2 (fun _ => rfl)
  intro s3 h3
  refine plain_then ?_ ?_
  · rw [← h3]; exact createSynchronizationPrimitivesLoop_plain env _ _ s3
  intro s4 h4
  refine plain_then ?_ ?_
  · exact plain_checkedCall _ _ _ _ _ (by simp [PlainEntry, Op.isFrameOp]) h4 (fun _ => rfl)
  intro s5 h5
  refine plain_then ?_ ?_
  · rw [← h5]; exact setupDepthStencil_plain env s5
  intro s6 h6
  refine plain_then ?_ ?_
  · exact plain_checkedCall _ _ _ _ _ (by simp [PlainEntry, Op.isFrameOp]) h6 (fun _ => rfl)
  intro s7 h7
  refine plain_then ?_ ?_
  · rw [← h7]; exact setupFrameBuffer_plain env s7
  intro s8 h8
  exact sat_vkCall (by simp [PlainEntry, Op.isFrameOp]) h8

theorem trianglePrepare_plain (env : BringUpEnv) (st : VulkanExampleBase) :
    (Triangle.prepare env st).Sat PlainEntry (fun s => s.paused = st.paused) := by
  unfold Triangle.prepare
  refine plain_then (basePrepare_plain env st) ?_
  intro s1 h1
  refine plain_then ?_ ?_
  · unfold createVertexBuffer
    refine plain_then ?_ ?_
    · exact plain_checkedCall _ _ _ _ _ (by simp [PlainEntry, Op.isFrameOp]) h1 (fun _ => rfl)
    intro t1 g1
    refine plain_then ?_ ?_
    · exact plain_checkedCall _ _ _ _ _ (by simp [PlainEntry, Op.isFrameOp]) g1 (fun _ => rfl)
    intro t2 g2
    exact plain_checkedCall _ _ _ _ _ (by simp [PlainEntry, Op.isFrameOp]) g2 (fun _ => rfl)
  intro s2 h2
  refine plain_then ?_ ?_
  · exact plain_checkedCall _ _ _ _ _ (by simp [PlainEntry, Op.isFrameOp]) h2 (fun _ => rfl)
  intro s3 h3
  refine plain_then ?_ ?_
  · exact plain_checkedCall _ _ _ _ _ (by simp [PlainEntry, Op.isFrameOp]) h3 (fun _ => rfl)
  intro s4 h4
  exact plain_checkedCall _ _ _ _ _ (by simp [PlainEntry, Op.isFrameOp]) h4 (fun _ => rfl)

/-- Entries logged while a command is handled are no frame operations. -/
theorem handleAppCommandInternal_noFrame (cmd : AppCmd) (env : BringUpEnv)
    (st : VulkanExampleBase) :
    (handleAppCommandInternal cmd env st).Sat (fun e => e.op.isFrameOp = false)
      (fun _ => True) := by
  cases cmd with
  | APP_CMD_INIT_WINDOW =>
    unfold handleAppCommandInternal
    refine sat_andThen (Q := fun _ => True) (sat_emit rfl trivial) ?_
    intro s _
    split
    · refine sat_andThen (Q := fun _ => True)
        (sat_weaken (initVulkan_plain env s) (fun e h => h.1) (fun _ _ => trivial)) ?_
      intro s2 _
      exact sat_weaken (trianglePrepare_plain env s2) (fun e h => h.1) (fun _ _ => trivial)
    · exact sat_emit rfl trivial
  | APP_CMD_TERM_WINDOW =>
    unfold handleAppCommandInternal
    refine sat_andThen (Q := fun _ => True) (sat_emit rfl trivial) ?_
    intro s _
    exact sat_skip trivial
  | APP_CMD_GAINED_FOCUS =>
    unfold handleAppCommandInternal
    refine sat_andThen (Q := fun _ => True) (sat_emit rfl trivial) ?_
    intro s _
    exact sat_skip trivial
  | APP_CMD_LOST_FOCUS =>
    unfold handleAppCommandInternal
    refine sat_andThen (Q := fun _ => True) (sat_emit rfl trivial) ?_
    intro s _
    exact sat_skip trivial
  | other c =>
    unfold handleAppCommandInternal
    exact sat_emit rfl trivial

theorem handleAppCommandInternal_mon (cmd : AppCmd) (env : BringUpEnv)
    (st : VulkanExampleBase) : (handleAppCommandInternal cmd env st).Mon st.paused := by
  cases cmd with
  | APP_CMD_INIT_WINDOW =>
    apply mon_of_plain
    unfold handleAppCommandInternal
    refine sat_andThen (Q := fun s => s.paused = st.paused)
      (sat_emit (by simp [PlainEntry, Op.isFrameOp]) rfl) ?_
    intro s hs
    split
    · refine sat_andThen (Q := fun s => s.paused = st.paused) ?_ ?_
      · rw [← hs]; exact initVulkan_plain env s
      · intro s2 h2; rw [← h2]; exact trianglePrepare_plain env s2
    · exact sat_emit (by simp [PlainEntry, Op.isFrameOp]) hs
  | APP_CMD_TERM_WINDOW =>
    apply mon_of_plain
    unfold handleAppCommandInternal
    refine sat_andThen (Q := fun s => s.paused = st.paused)
      (sat_emit (by simp [PlainEntry, Op.isFrameOp]) rfl) ?_
    intro s hs
    exact sat_skip hs
  | APP_CMD_GAINED_FOCUS =>
    intro lost _
    refine ⟨false, ?_, by simp⟩
    simp [handleAppCommandInternal, andThen_trace, emit, skip, Step.trace, focusMonitor]
  | APP_CMD_LOST_FOCUS =>
    intro lost _
    refine ⟨true, ?_, ?_⟩
    · simp [handleAppCommandInternal, andThen_trace, emit, skip, Step.trace, focusMonitor]
    · intro _ _
      simp [handleAppCommandInternal, andThen_st, emit, skip]
  | other c =>
    apply mon_of_plain
    unfold handleAppCommandInternal
    exact sat_emit (by simp [PlainEntry, Op.isFrameOp]) rfl

theorem processEvent_mon (inp : LoopInput) (st : VulkanExampleBase) :
    (processEvent inp st).Mon st.paused := by
  unfold processEvent
  split
  · exact handleAppCommandInternal_mon _ _ _
  · exact mon_of_plain (sat_skip rfl)

theorem loopBody_mon (inp : LoopInput) (st : VulkanExampleBase) :
    (loopBody inp st).Mon st.paused := by
  unfold loopBody
  refine mon_andThen (processEvent_mon inp st) ?_
  intro s
  split
  · rename_i h
    exact render_mon inp.frame s h.2
  · exact mon_of_plain (sat_skip rfl)

theorem exitRenderLoop_mon (st : VulkanExampleBase) : (exitRenderLoop st).Mon st.paused := by
  apply mon_of_plain
  unfold exitRenderLoop
  refine sat_andThen (Q := fun s => s.paused = st.paused)
    (sat_emit (by simp [PlainEntry, Op.isFrameOp]) rfl) ?_
  intro s hs
  refine sat_andThen (Q := fun s => s.paused = st.paused) ?_ ?_
  · split
    · exact sat_emit (by simp [PlainEntry, Op.isFrameOp]) hs
    · exact sat_skip hs
  · intro s2 h2
    exact sat_skip h2

theorem renderLoop_mon (inputs : List LoopInput) :
    ∀ st : VulkanExampleBase, (renderLoop inputs st).Mon st.paused := by
  induction inputs with
  | nil => intro st; exact mon_of_plain (sat_skip rfl)
  | cons inp rest ih =>
    intro st
    unfold renderLoop
    refine mon_andThen (loopBody_mon inp st) ?_
    intro s
    split
    · exact ih s
    · exact exitRenderLoop_mon s


/-! ## Memory type selection -/

theorem and_one_eq_one_iff (x : Nat) : x &&& 1 = 1 ↔ x.testBit 0 = true := by
  rw [Nat.and_one_is_mod, Nat.testBit_zero]
  simp

theorem and_eq_right_iff (a p : Nat) :
    a &&& p = p ↔ ∀ b : Nat, p.testBit b = true → a.testBit b = true := by
  constructor
  · intro h b hb
    have h2 : (a &&& p).testBit b = true := by rw [h]; exact hb
    rw [Nat.testBit_and] at h2
    simp at h2
    exact h2.1
  · intro h
    apply Nat.eq_of_testBit_eq
    intro b
    rw [Nat.testBit_and]
    cases hp : p.testBit b
    · simp
    · simp [h b hp]

theorem getMemoryTypeIndexLoop_some (mp : VkPhysicalDeviceMemoryProperties)
    (typeBits properties : Nat) :
    ∀ (fuel i r : Nat),
      getMemoryTypeIndexLoop mp properties fuel i (typeBits >>> i) = some r →
      i ≤ r ∧ r < i + fuel ∧ MemoryTypeMatches mp typeBits properties r ∧
        ∀ j, i ≤ j → j < r → ¬ MemoryTypeMatches mp typeBits properties j := by
  intro fuel
  induction fuel with
  | zero => intro i r h; simp [getMemoryTypeIndexLoop] at h
  | succ n ih =>
    intro i r h
    unfold getMemoryTypeIndexLoop at h
    have hshift : (typeBits >>> i) >>> 1 = typeBits >>> (i + 1) := by
      rw [← Nat.shiftRight_add]
    rw [hshift] at h
    have hbit : (typeBits >>> i).testBit 0 = typeBits.testBit i := by
      rw [Nat.testBit_shiftRight]; simp
    by_cases h1 : typeBits >>> i &&& 1 = 1
    · by_cases h2 : mp.flagsAt i &&& properties = properties
      · simp only [h1, h2, if_true] at h
        cases h
        refine ⟨le_refl _, by omega, ⟨?_, ?_⟩, ?_⟩
        · rw [← hbit]; exact (and_one_eq_one_iff _).1 h1
        · exact (and_eq_right_iff _ _).1 h2
        · intro j hj1 hj2; omega
      · simp only [h1, h2, if_true, if_false] at h
        obtain ⟨a, b, c, d⟩ := ih (i + 1) r h
        refine ⟨by omega, by omega, c, ?_⟩
        intro j hj1 hj2
        by_cases hji : j = i
        · subst hji
          intro hm
          exact h2 ((and_eq_right_iff _ _).2 hm.2)
        · exact d j (by omega) hj2
    · simp only [h1, if_false] at h
      obtain ⟨a, b, c, d⟩ := ih (i + 1) r h
      refine ⟨by omega, by omega, c, ?_⟩
      intro j hj1 hj2
      by_cases hji : j = i
      · subst hji
        intro hm
        apply h1
        rw [and_one_eq_one_iff, hbit]
        exact hm.1
      · exact d j (by omega) hj2

theorem getMemoryTypeIndexLoop_none (mp : VkPhysicalDeviceMemoryProperties)
    (typeBits properties : Nat) :
    ∀ (fuel i : Nat),
      getMemoryTypeIndexLoop mp properties fuel i (typeBits >>> i) = none →
        ∀ j, i ≤ j → j < i + fuel → ¬ MemoryTypeMatches mp typeBits properties j := by
  intro fuel
  induction fuel with
  | zero => intro i _ j h1 h2; omega
  | succ n ih =>
    intro i h
    unfold getMemoryTypeIndexLoop at h
    have hshift : (typeBits >>> i) >>> 1 = typeBits >>> (i + 1) := by
      rw [← Nat.shiftRight_add]
    rw [hshift] at h
    have hbit : (typeBits >>> i).testBit 0 = typeBits.testBit i := by
      rw [Nat.testBit_shiftRight]; simp
    by_cases h1 : typeBits >>> i &&& 1 = 1
    · by_cases h2 : mp.flagsAt i &&& properties = properties
      · simp [h1, h2] at h
      · simp only [h1, h2, if_true, if_false] at h
        intro j hj1 hj2
        by_cases hji : j = i
        · subst hji
          intro hm
          exact h2 ((and_eq_right_iff _ _).2 hm.2)
        · exact ih (i + 1) h j (by omega) (by omega)
    · simp only [h1, if_false] at h
      intro j hj1 hj2
      by_cases hji : j = i
      · subst hji
        intro hm
        apply h1
        rw [and_one_eq_one_iff, hbit]
        exact hm.1
      · exact ih (i + 1) h j (by omega) (by omega)

/-- C1: for every memory-type table, mask and set of required flags,
`getMemoryTypeIndex` returns the smallest index below `memoryTypeCount` whose
mask bit is set and whose property flags contain all required flags, and
returns 0 when there is no such index. -/
theorem getMemoryTypeIndex_first_match (mp : VkPhysicalDeviceMemoryProperties)
    (typeBits properties : Nat) :
    ((∃ i, i < mp.memoryTypeCount ∧ MemoryTypeMatches mp typeBits properties i) →
      getMemoryTypeIndex mp typeBits properties < mp.memoryTypeCount ∧
      MemoryTypeMatches mp typeBits properties (getMemoryTypeIndex mp typeBits properties) ∧
      ∀ j, j < getMemoryTypeIndex mp typeBits properties →
        ¬ MemoryTypeMatches mp typeBits properties j) ∧
    ((∀ i, i < mp.memoryTypeCount → ¬ MemoryTypeMatches mp typeBits properties i) →
      getMemoryTypeIndex mp typeBits properties = 0) := by
  have hs := getMemoryTypeIndexLoop_some mp typeBits properties mp.memoryTypeCount 0
  have hn := getMemoryTypeIndexLoop_none mp typeBits properties mp.memoryTypeCount 0
  simp only [Nat.shiftRight_zero, Nat.zero_add] at hs hn
  unfold getMemoryTypeIndex
  cases hl : getMemoryTypeIndexLoop mp properties mp.memoryTypeCount 0 typeBits with
  | none =>
    refine ⟨?_, fun _ => rfl⟩
    rintro ⟨i, hi, hm⟩
    exact absurd hm (hn hl i (Nat.zero_le _) hi)
  | some r =>
    obtain ⟨_, b, c, d⟩ := hs r hl
    refine ⟨fun _ => ⟨b, c, fun j hj => d j (Nat.zero_le _) hj⟩, ?_⟩
    intro hno
    exact absurd c (hno r b)

/-- Witness for C1: in the three-type example table, mask `0b110` with required
flags `0b110` has the match 1, and the function returns a match below the count
with none before it. -/
theorem getMemoryTypeIndex_first_match_witness :
    getMemoryTypeIndex exampleMemoryProperties 6 6 < 3 ∧
    MemoryTypeMatches exampleMemoryProperties 6 6
      (getMemoryTypeIndex exampleMemoryProperties 6 6) ∧
    ∀ j, j < getMemoryTypeIndex exampleMemoryProperties 6 6 →
      ¬ MemoryTypeMatches exampleMemoryProperties 6 6 j :=
  (getMemoryTypeIndex_first_match exampleMemoryProperties 6 6).1
    ⟨1, by decide, by decide, (and_eq_right_iff _ _).1 (by decide)⟩

/-! ## Depth format selection -/

theorem depthBit_iff (x : Nat) :
    x &&& VK_FORMAT_FEATURE_DEPTH_STENCIL_ATTACHMENT_BIT ≠ 0 ↔ x.testBit 9 = true := by
  have h512 : VK_FORMAT_FEATURE_DEPTH_STENCIL_ATTACHMENT_BIT = 2 ^ 9 := by
    unfold VK_FORMAT_FEATURE_DEPTH_STENCIL_ATTACHMENT_BIT; norm_num
  rw [h512]
  constructor
  · intro h
    by_contra hb
    apply h
    apply Nat.eq_of_testBit_eq
    intro i
    rw [Nat.testBit_and, Nat.testBit_two_pow]
    by_cases hi : 9 = i
    · subst hi; simp [hb]
    · simp [hi]
  · intro hb h0
    have : (x &&& 2 ^ 9).testBit 9 = true := by
      rw [Nat.testBit_and, hb, Nat.testBit_two_pow_self]; rfl
    rw [h0] at this
    simp at this

theorem selectDepthFormatLoop_spec (feat : Nat → Nat) (d : Nat) :
    ∀ l : List Nat,
      (∀ (k f : Nat), l[k]? = some f → DepthFormatSupported feat f →
        (∀ (j g : Nat), j < k → l[j]? = some g → ¬ DepthFormatSupported feat g) →
        selectDepthFormatLoop feat l d = f) ∧
      ((∀ f ∈ l, ¬ DepthFormatSupported feat f) → selectDepthFormatLoop feat l d = d) := by
  intro l
  induction l with
  | nil =>
    refine ⟨?_, fun _ => rfl⟩
    intro k f hk; simp at hk
  | cons x rest ih =>
    refine ⟨?_, ?_⟩
    · intro k f hk hf hmin
      unfold selectDepthFormatLoop
      cases k with
      | zero =>
        simp only [List.getElem?_cons_zero, Option.some.injEq] at hk
        subst hk
        have := (depthBit_iff (feat x)).2 hf
        simp [this]
      | succ k =>
        simp only [List.getElem?_cons_succ] at hk
        have hx : ¬ DepthFormatSupported feat x := hmin 0 x (by omega) (by simp)
        have hx2 : ¬ (feat x &&& VK_FORMAT_FEATURE_DEPTH_STENCIL_ATTACHMENT_BIT ≠ 0) :=
          fun h => hx ((depthBit_iff _).1 h)
        simp only [hx2, if_false]
        apply ih.1 k f hk hf
        intro j g hj hg
        exact hmin (j + 1) g (by omega) (by simpa using hg)
    · intro hno
      unfold selectDepthFormatLoop
      have hx : ¬ DepthFormatSupported feat x := hno x (List.mem_cons_self _ _)
      have hx2 : ¬ (feat x &&& VK_FORMAT_FEATURE_DEPTH_STENCIL_ATTACHMENT_BIT ≠ 0) :=
        fun h => hx ((depthBit_iff _).1 h)
      simp only [hx2, if_false]
      exact ih.2 (fun f hf => hno f (List.mem_cons_of_mem _ hf))

/-- C2: whatever formats are marked supported, the depth format selected by
`setupDepthStencil` is the first supported format of the priority list
D32_SFLOAT_S8_UINT, D32_SFLOAT, D24_UNORM_S8_UINT, D16_UNORM_S8_UINT, D16_UNORM,
and is the value `depthFormat` held before when none of the five is supported. -/
theorem selectDepthFormat_first_supported (optimalTilingFeatures : Nat → Nat)
    (depthFormat : Nat) :
    depthFormats =
      [VK_FORMAT_D32_SFLOAT_S8_UINT, VK_FORMAT_D32_SFLOAT, VK_FORMAT_D24_UNORM_S8_UINT,
       VK_FORMAT_D16_UNORM_S8_UINT, VK_FORMAT_D16_UNORM] ∧
    (∀ (k f : Nat), depthFormats[k]? = some f → DepthFormatSupported optimalTilingFeatures f →
      (∀ (j g : Nat), j < k → depthFormats[j]? = some g →
        ¬ DepthFormatSupported optimalTilingFeatures g) →
      selectDepthFormat optimalTilingFeatures depthFormat = f) ∧
    ((∀ f ∈ depthFormats, ¬ DepthFormatSupported optimalTilingFeatures f) →
      selectDepthFormat optimalTilingFeatures depthFormat = depthFormat) :=
  ⟨rfl, selectDepthFormatLoop_spec optimalTilingFeatures depthFormat depthFormats⟩

/-- Witness for C2: when only D24_UNORM_S8_UINT and D16_UNORM carry the
feature bit, D24_UNORM_S8_UINT (position 2) is selected. -/
theorem selectDepthFormat_first_supported_witness :
    selectDepthFormat
      (fun f => if f = VK_FORMAT_D24_UNORM_S8_UINT ∨ f = VK_FORMAT_D16_UNORM then 0x200 else 0)
      VK_FORMAT_UNDEFINED = VK_FORMAT_D24_UNORM_S8_UINT :=
  (selectDepthFormat_first_supported
    (fun f => if f = VK_FORMAT_D24_UNORM_S8_UINT ∨ f = VK_FORMAT_D16_UNORM then 0x200 else 0)
    VK_FORMAT_UNDEFINED).2.1 2 VK_FORMAT_D24_UNORM_S8_UINT (by decide)
    (by unfold DepthFormatSupported; decide)
    (by
      intro j g hj hg
      have hj2 : j = 0 ∨ j = 1 := by omega
      rcases hj2 with rfl | rfl
      · have : g = VK_FORMAT_D32_SFLOAT_S8_UINT := by
          simpa [depthFormats] using hg.symm
        subst this; unfold DepthFormatSupported; decide
      · have : g = VK_FORMAT_D32_SFLOAT := by
          simpa [depthFormats] using hg.symm
        subst this; unfold DepthFormatSupported; decide)

/-! ## Swapchain image count and surface format -/

/-- C3, as stated, fails: the sum `minImageCount + 1` is a `uint32_t` sum. With
`minImageCount = 2 ^ 32 - 1` it wraps to 0, so the count requested is 0 where
the claim gives `minImageCount + 1 = 2 ^ 32` for an unbounded maximum and
`min (minImageCount + 1) 3 = 3` for `maxImageCount = 3`. -/
theorem desiredImageCount_wraps :
    desiredImageCount 4294967295 0 = 0 ∧
    desiredImageCount 4294967295 0 ≠ 4294967295 + 1 ∧
    desiredImageCount 4294967295 3 = 0 ∧
    desiredImageCount 4294967295 3 ≠ min (4294967295 + 1) 3 := by
  decide

/-- C3, amended: the image count requested by `createSwapChain` is the minimum of
`s` and `maxImageCount` when `maxImageCount` is nonzero, and `s` when it is 0,
where `s` is the 32-bit sum `minImageCount + 1` of the code: the plain sum
whenever `minImageCount + 1 < 2 ^ 32`, and 0 at `minImageCount = 2 ^ 32 - 1`,
where the count requested is 0; (2, 3) and (2, 0) both request 3 images. -/
theorem desiredImageCount_eq (minImageCount maxImageCount : Nat) :
    (maxImageCount ≠ 0 →
      desiredImageCount minImageCount maxImageCount =
        min ((minImageCount + 1) % 2 ^ 32) maxImageCount) ∧
    (maxImageCount = 0 →
      desiredImageCount minImageCount maxImageCount = (minImageCount + 1) % 2 ^ 32) ∧
    (minImageCount + 1 < 2 ^ 32 → maxImageCount ≠ 0 →
      desiredImageCount minImageCount maxImageCount = min (minImageCount + 1) maxImageCount) ∧
    (minImageCount + 1 < 2 ^ 32 → maxImageCount = 0 →
      desiredImageCount minImageCount maxImageCount = minImageCount + 1) ∧
    desiredImageCount 2 3 = 3 ∧ desiredImageCount 2 0 = 3 ∧
    (minImageCount + 1 = 2 ^ 32 → desiredImageCount minImageCount maxImageCount = 0) := by
  have hmod : UINT32_MOD = 2 ^ 32 := rfl
  unfold desiredImageCount
  simp only [hmod]
  refine ⟨?_, ?_, ?_, ?_, by decide, by decide, ?_⟩
  · intro h
    split_ifs with hc
    · omega
    · omega
  · intro h
    split_ifs with hc
    · omega
    · rfl
  · intro hlt h
    rw [Nat.mod_eq_of_lt hlt]
    split_ifs with hc
    · omega
    · omega
  · intro hlt h
    rw [Nat.mod_eq_of_lt hlt]
    split_ifs with hc
    · omega
    · rfl
  · intro hw
    rw [hw, Nat.mod_self]
    split_ifs with hc
    · omega
    · rfl

/-- Witness for the amended C3 at a surface reporting 2 to 3 images. -/
theorem desiredImageCount_eq_witness :
    desiredImageCount 2 3 = min (2 + 1) 3 :=
  (desiredImageCount_eq 2 3).2.2.1 (by decide) (by decide)

/-- C4, as stated, fails: with `minImageCount = 3, maxImageCount = 2` the
requested count is 2, and with `minImageCount = 2 ^ 32 - 1` (unbounded maximum)
the 32-bit sum wraps and the requested count is 0; both are below
`minImageCount`. -/
theorem desiredImageCount_below_min :
    desiredImageCount 3 2 = 2 ∧ ¬ (3 ≤ desiredImageCount 3 2) ∧
    desiredImageCount 4294967295 0 = 0 ∧ ¬ (4294967295 ≤ desiredImageCount 4294967295 0) := by
  decide

/-- C4, amended: the requested count never exceeds a nonzero `maxImageCount`;
it is at least `minImageCount` whenever `minImageCount + 1` does not wrap and
`maxImageCount` is 0 or at least `minImageCount`. -/
theorem desiredImageCount_bounds (minImageCount maxImageCount : Nat) :
    (maxImageCount ≠ 0 → desiredImageCount minImageCount maxImageCount ≤ maxImageCount) ∧
    (minImageCount + 1 < 2 ^ 32 → (maxImageCount = 0 ∨ minImageCount ≤ maxImageCount) →
      minImageCount ≤ desiredImageCount minImageCount maxImageCount) := by
  have hmod : UINT32_MOD = 2 ^ 32 := rfl
  unfold desiredImageCount
  simp only [hmod]
  refine ⟨?_, ?_⟩
  · intro h
    split_ifs with hc
    · exact le_refl _
    · omega
  · intro hlt h
    rw [Nat.mod_eq_of_lt hlt]
    split_ifs with hc
    · omega
    · omega

/-- Witness for the amended C4 at capabilities (2, 3). -/
theorem desiredImageCount_bounds_witness :
    desiredImageCount 2 3 ≤ 3 ∧ 2 ≤ desiredImageCount 2 3 :=
  ⟨(desiredImageCount_bounds 2 3).1 (by decide),
   (desiredImageCount_bounds 2 3).2 (by decide) (Or.inr (by decide))⟩

/-- C5 fails on the code: for a surface whose only format is B8G8R8A8_UNORM the
code selects colour format R8G8B8A8_UNORM, which is not the format of the first
entry and is no entry of the list, together with the colour space of the first
entry. -/
theorem selectSurfaceFormat_missing_fallback :
    selectSurfaceFormat [{ format := VK_FORMAT_B8G8R8A8_UNORM, colorSpace := 0 }] =
      some (VK_FORMAT_R8G8B8A8_UNORM, 0) ∧
    VK_FORMAT_R8G8B8A8_UNORM ≠ VK_FORMAT_B8G8R8A8_UNORM := by
  decide

/-! ## Frame index -/

/-- C6: for `currentFrame` in {0, 1}, applying the advance step of `submitFrame`
exactly `MAX_CONCURRENT_FRAMES = 2` times gives back the original value, both
for the assignment itself and for two completed calls of `submitFrame`. -/
theorem currentFrame_round_trip (currentFrame : Nat)
    (h : currentFrame < MAX_CONCURRENT_FRAMES) :
    Nat.iterate advanceFrame MAX_CONCURRENT_FRAMES currentFrame = currentFrame ∧
    ∀ (env1 env2 : FrameEnv) (st : VulkanExampleBase), st.currentFrame = currentFrame →
      (submitFrame env1 st).aborted = false →
      (submitFrame env2 (submitFrame env1 st).st).aborted = false →
      (submitFrame env2 (submitFrame env1 st).st).st.currentFrame = currentFrame := by
  have hrt : advanceFrame (advanceFrame currentFrame) = currentFrame := by
    unfold advanceFrame UINT32_MOD
    unfold MAX_CONCURRENT_FRAMES at h ⊢
    omega
  refine ⟨hrt, ?_⟩
  intro env1 env2 st hst h1 h2
  have e1 := ((submitFrame_sat env1 st).2 h1).1
  have e2 := ((submitFrame_sat env2 (submitFrame env1 st).st).2 h2).1
  rw [e2, e1, hst]
  exact hrt

/-- Witness for C6 at `currentFrame = 1`. -/
theorem currentFrame_round_trip_witness :
    Nat.iterate advanceFrame MAX_CONCURRENT_FRAMES 1 = 1 :=
  (currentFrame_round_trip 1 (by decide)).1

/-! ## Frames -/

theorem advanceFrame_mod (k : Nat) : advanceFrame (k % 2) = (k + 1) % 2 := by
  unfold advanceFrame UINT32_MOD MAX_CONCURRENT_FRAMES
  omega

theorem renderFrames_currentFrame (envs : List FrameEnv) :
    ∀ (st : VulkanExampleBase) (k : Nat), st.currentFrame = k % 2 →
      (renderFrames envs st).aborted = false →
      (renderFrames envs st).st.currentFrame = (k + envs.length) % 2 := by
  induction envs with
  | nil => intro st k hk _; simpa [renderFrames, skip] using hk
  | cons env rest ih =>
    intro st k hk hab
    unfold renderFrames at hab ⊢
    obtain ⟨h1, h2⟩ := andThen_aborted_false hab
    rw [andThen_st, h1]
    simp only [Bool.false_eq_true, if_false, List.length_cons]
    have hc : (render env st).st.currentFrame = (k + 1) % 2 := by
      rw [((render_sat env st).2 h1).1, hk, advanceFrame_mod]
    rw [ih _ (k + 1) hc h2]
    congr 1
    omega

theorem renderFrames_snoc (envs : List FrameEnv) (env : FrameEnv) :
    ∀ st : VulkanExampleBase, (renderFrames envs st).aborted = false →
      (renderFrames (envs ++ [env]) st).ops =
        (renderFrames envs st).ops ++ (render env (renderFrames envs st).st).ops := by
  induction envs with
  | nil =>
    intro st _
    simp [renderFrames, skip, andThen_ops]
  | cons e rest ih =>
    intro st hab
    have hab2 : ((render e st).andThen (renderFrames rest)).aborted = false := hab
    obtain ⟨h1, h2⟩ := andThen_aborted_false hab2
    have e1 : renderFrames ((e :: rest) ++ [env]) st =
        (render e st).andThen (renderFrames (rest ++ [env])) := rfl
    have e2 : renderFrames (e :: rest) st = (render e st).andThen (renderFrames rest) := rfl
    rw [e1, e2, andThen_ops, andThen_ops, andThen_st, h1]
    simp only [Bool.false_eq_true, if_false]
    rw [ih _ h2, List.append_assoc]

/-- C7: starting from a state with `currentFrame = 0`, after `k` completed frames
the frame index is `k mod 2`, and the next frame, the k-th counted from 0,
whose operations are appended to the log, refers to slot `k mod 2` only, for
its fence, semaphores, command buffer and uniform buffer; five consecutive
frames wait on the fences of slots 0, 1, 0, 1, 0. -/
theorem render_frame_slots (envs : List FrameEnv) (st0 : VulkanExampleBase)
    (h0 : st0.currentFrame = 0) (hok : (renderFrames envs st0).aborted = false) :
    (renderFrames envs st0).st.currentFrame = envs.length % 2 ∧
    (∀ env : FrameEnv,
      (renderFrames (envs ++ [env]) st0).ops =
        (renderFrames envs st0).ops ++ (render env (renderFrames envs st0).st).ops ∧
      ∀ e ∈ (render env (renderFrames envs st0).st).ops, ∀ s ∈ e.op.slots,
        s = envs.length % 2) ∧
    (renderFrames (List.replicate 5 {}) preparedState).trace.filterMap Op.waitedFence =
      [0, 1, 0, 1, 0] := by
  have hc := renderFrames_currentFrame envs st0 0 (by simpa using h0) hok
  simp only [Nat.zero_add] at hc
  refine ⟨hc, ?_, by decide⟩
  intro env
  refine ⟨renderFrames_snoc envs env st0 hok, ?_⟩
  intro e he s hs
  rw [← hc]
  exact ((render_sat env _).1 e he).1 s hs

/-- Witness for C7: after three completed frames from the prepared state the
frame index is 1. -/
theorem render_frame_slots_witness :
    (renderFrames (List.replicate 3 {}) preparedState).st.currentFrame = 3 % 2 :=
  (render_frame_slots (List.replicate 3 {}) preparedState (by decide) (by decide)).1

/-- C8: in every invocation of `render` the operations on the current slot are
issued in the order wait on the fence, reset the fence, acquire, (uniform
update,) reset, begin, record and end the command buffer, submit, present, and
the assignment to `currentFrame` last: the steps logged are strictly increasing
in that order whether or not the frame is cut short by a failed check, they
refer to the slot `currentFrame` held on entry, and a frame that completes
consists of exactly the listed operations. -/
theorem render_step_order (env : FrameEnv) (st : VulkanExampleBase) :
    List.Pairwise (fun x y => x < y) ((render env st).trace.filterMap Op.frameStep) ∧
    (∀ e ∈ (render env st).ops, ∀ s ∈ e.op.slots, s = st.currentFrame) ∧
    ((render env st).aborted = false →
      (render env st).trace.filter (fun o => o.frameStep.isSome) =
        [Op.vkWaitForFences st.currentFrame, Op.vkResetFences st.currentFrame,
         Op.vkAcquireNextImageKHR st.currentFrame, Op.updateUniformBuffer st.currentFrame,
         Op.vkResetCommandBuffer st.currentFrame, Op.vkBeginCommandBuffer st.currentFrame,
         Op.vkCmdBeginRenderPass st.currentFrame (acquiredBuffer env st) st.width st.height,
         Op.vkCmdSetViewport st.currentFrame st.width st.height,
         Op.vkCmdSetScissor st.currentFrame st.width st.height,
         Op.vkCmdBindPipeline st.currentFrame,
         Op.vkCmdBindDescriptorSets st.currentFrame st.currentFrame,
         Op.vkCmdBindVertexBuffers st.currentFrame, Op.vkCmdBindIndexBuffer st.currentFrame,
         Op.vkCmdDrawIndexed st.currentFrame, Op.vkCmdEndRenderPass st.currentFrame,
         Op.vkEndCommandBuffer st.currentFrame,
         Op.vkQueueSubmit st.currentFrame st.currentFrame st.currentFrame st.currentFrame,
         Op.vkQueuePresentKHR st.currentFrame (acquiredBuffer env st),
         Op.setCurrentFrame (advanceFrame st.currentFrame)] ∧
      (render env st).st.currentFrame = advanceFrame st.currentFrame) := by
  refine ⟨(render_ranked env st).1, fun e he => ((render_sat env st).1 e he).1, ?_⟩
  intro hab
  obtain ⟨h1, h2, h3, h4, h5, h6⟩ := render_completes env st hab
  exact ⟨(render_trace_success env st h1 h2 h3 h4 h5 h6).2, ((render_sat env st).2 hab).1⟩

/-- Witness for C8: the first frame from the prepared state, every call
succeeding, completes and advances the frame index from 0 to 1. -/
theorem render_step_order_witness :
    (render {} preparedState).aborted = false ∧
    (render {} preparedState).st.currentFrame = advanceFrame preparedState.currentFrame :=
  ⟨by decide, ((render_step_order {} preparedState).2.2 (by decide)).2⟩

/-- C9, as stated, fails: in the first frame from the prepared state (both
fences created signaled, every call succeeding) it is not the case that every
`vkResetCommandBuffer` finds the fence of its slot signaled; `prepareFrame` has
reset that fence before. -/
theorem resetCommandBuffer_fence_not_signaled :
    ¬ (∀ e ∈ (render {} preparedState).ops, ∀ s, e.op = Op.vkResetCommandBuffer s →
        e.fences[s]? = some FenceStatus.signaled) := by
  intro h
  have := h { op := Op.vkResetCommandBuffer 0,
              fences := [FenceStatus.unsignaled, FenceStatus.signaled] } (by decide) 0 rfl
  simp at this

theorem prepareFrame_no_reset (env : FrameEnv) (st : VulkanExampleBase) (e : LogEntry)
    (s : Nat) (he : e ∈ (prepareFrame env st).ops) : e.op ≠ Op.vkResetCommandBuffer s := by
  intro hop
  have hm : (4 : Nat) ∈ (prepareFrame env st).trace.filterMap Op.frameStep := by
    rw [List.mem_filterMap]
    exact ⟨e.op, List.mem_map.2 ⟨e, he, rfl⟩, by rw [hop]; rfl⟩
  have := (prepareFrame_ranked env st).2 4 hm
  omega

theorem logFirstFrame_ops (st : VulkanExampleBase) (e : LogEntry)
    (he : e ∈ (logFirstFrame st).ops) : e.op = Op.logFirstFrame := by
  unfold logFirstFrame at he
  split at he
  · simp [vkCall] at he; rw [he]
  · simp [skip] at he

/-- C9, amended: whenever `render` resets the command buffer of a slot, the slot
is the current one, the frame has before that waited on the fence of the slot
and then reset it, the reset finding the fence signaled, and at the moment of
the command-buffer reset the fence is unsignaled with no submission pending on
it. -/
theorem resetCommandBuffer_after_fence_wait (env : FrameEnv) (st : VulkanExampleBase)
    (hc : st.currentFrame < st.waitFences.length) :
    ∀ e ∈ (render env st).ops, ∀ s, e.op = Op.vkResetCommandBuffer s →
      s = st.currentFrame ∧ e.fences[s]? = some FenceStatus.unsignaled ∧
      ∃ w r, List.Sublist [w, r, e] (render env st).ops ∧
        w.op = Op.vkWaitForFences s ∧ r.op = Op.vkResetFences s ∧
        r.fences[s]? = some FenceStatus.signaled := by
  intro e he s hop
  obtain ⟨hslot, _, hfence⟩ := (render_sat env st).1 e he
  have hs : s = st.currentFrame := hslot s (by rw [hop]; simp [Op.slots])
  refine ⟨hs, hfence s hop hc, ?_⟩
  subst hs
  -- locate the entry after `prepareFrame`
  have hlf := logFirstFrame_sat st
  unfold render at he ⊢
  rw [andThen_ops] at he ⊢
  have hlfa : (logFirstFrame st).aborted = false := by
    unfold logFirstFrame; split <;> rfl
  simp only [hlfa, Bool.false_eq_true, if_false, List.mem_append] at he ⊢
  have hs1 := hlf.2 hlfa
  generalize (logFirstFrame st).st = s1 at he hs1 ⊢
  have hcur : s1.currentFrame = st.currentFrame := hs1.1.1
  have hwf : s1.waitFences = st.waitFences := hs1.2
  rcases he with he | he
  · have := logFirstFrame_ops st e he
    rw [hop] at this
    exact absurd this (by simp)
  rw [andThen_ops] at he ⊢
  cases hpa : (prepareFrame env s1).aborted
  · simp only [hpa, Bool.false_eq_true, if_false, List.mem_append] at he ⊢
    rcases he with he | he
    · exact absurd hop (prepareFrame_no_reset env s1 e _ he)
    have hpa2 := hpa
    unfold prepareFrame at hpa2
    obtain ⟨p1, hpa2⟩ := andThen_aborted_false hpa2
    obtain ⟨p2, _⟩ := andThen_aborted_false hpa2
    rw [checkedCall_aborted] at p1 p2
    simp only [ne_eq, decide_not, Bool.not_eq_false', decide_eq_true_eq] at p1 p2
    have hps := prepareFrame_success env s1 p1 p2
    refine ⟨{ op := Op.vkWaitForFences s1.currentFrame, fences := s1.waitFences },
      { op := Op.vkResetFences s1.currentFrame,
        fences := s1.waitFences.set s1.currentFrame FenceStatus.signaled }, ?_, ?_, ?_, ?_⟩
    · apply List.Sublist.trans _ (List.sublist_append_right _ _)
      have hsplit : ∀ (a b : LogEntry), [a, b, e] = [a, b] ++ [e] := fun _ _ => rfl
      rw [hsplit]
      apply List.Sublist.append
      · rw [hps]
        simp
      · exact List.singleton_sublist.2 he
    · simp [hcur]
    · simp [hcur]
    · simp only [hcur, hwf]
      rw [List.getElem?_set_self hc]
  · simp only [hpa, if_true] at he
    exact absurd hop (prepareFrame_no_reset env s1 e _ he)

/-- Witness for the amended C9: the command-buffer reset of the first frame from
the prepared state is on slot 0 and finds the fence of slot 0 unsignaled. -/
theorem resetCommandBuffer_after_fence_wait_witness :
    (0 : Nat) = preparedState.currentFrame ∧
    (LogEntry.mk (Op.vkResetCommandBuffer 0)
      [FenceStatus.unsignaled, FenceStatus.signaled]).fences[0]? =
        some FenceStatus.unsignaled :=
  let h := resetCommandBuffer_after_fence_wait {} preparedState (by decide)
    { op := Op.vkResetCommandBuffer 0,
      fences := [FenceStatus.unsignaled, FenceStatus.signaled] } (by decide) 0 rfl
  ⟨h.1, h.2.1⟩

/-! ## Focus and the render loop -/

theorem processEvent_noFrame (inp : LoopInput) (st : VulkanExampleBase) :
    ∀ o ∈ (processEvent inp st).trace, o.isFrameOp = false := by
  intro o ho
  simp only [Step.trace, List.mem_map] at ho
  obtain ⟨e, he, rfl⟩ := ho
  unfold processEvent at he
  split at he
  · exact (handleAppCommandInternal_noFrame _ _ _).1 e he
  · simp [skip] at he

/-- C10, as stated, fails: in the run where a window is created, focus is lost
and a window is created again, the staging copy of `createVertexBuffer` is
submitted to the queue after the focus-lost command was handled in a prepared
state and before any focus-gained command. -/
theorem staging_submission_while_paused :
    ∃ pre mid post,
      (renderLoop windowRecreatedWhilePaused {}).trace =
        pre ++ Op.logAppCmd AppCmd.APP_CMD_LOST_FOCUS :: (mid ++ post) ∧
      Op.logAppCmd AppCmd.APP_CMD_GAINED_FOCUS ∉ mid ∧
      ∃ x ∈ mid, x.isQueueSubmission = true :=
  ⟨(renderLoop windowRecreatedWhilePaused {}).trace.take 62,
   ((renderLoop windowRecreatedWhilePaused {}).trace.drop 63).take 38,
   (renderLoop windowRecreatedWhilePaused {}).trace.drop 101,
   by decide, by decide, Op.vkQueueSubmitStagingCopy, by decide, rfl⟩

/-- C10, amended: in every run of the render loop, from every state, no operation
of a frame (wait, acquire, recording, per-frame submit, present, advance) is
logged after a focus-lost command has been handled and before the next
focus-gained command is handled; and a loop iteration issues frame operations
only if, after its event has been processed, the process is alive, `prepared`
is true and `paused` is false. -/
theorem no_frame_while_paused (inputs : List LoopInput) (st0 : VulkanExampleBase) :
    (∀ pre mid post,
      (renderLoop inputs st0).trace =
        pre ++ Op.logAppCmd AppCmd.APP_CMD_LOST_FOCUS :: (mid ++ post) →
      Op.logAppCmd AppCmd.APP_CMD_GAINED_FOCUS ∉ mid →
      ∀ x ∈ mid, x.isFrameOp = false) ∧
    (∀ (inp : LoopInput) (st : VulkanExampleBase),
      (∃ o ∈ (loopBody inp st).trace, o.isFrameOp = true) →
      (processEvent inp st).aborted = false ∧ (processEvent inp st).st.prepared = true ∧
        (processEvent inp st).st.paused = false) := by
  refine ⟨?_, ?_⟩
  · intro pre mid post hd hg
    obtain ⟨l2, hm, _⟩ := renderLoop_mon inputs st0 false (by simp)
    exact focusMonitor_decomp _ pre mid post false l2 hm hd hg
  · rintro inp st ⟨o, ho, hf⟩
    unfold loopBody at ho
    rw [andThen_trace] at ho
    cases hab : (processEvent inp st).aborted
    · simp only [hab, Bool.false_eq_true, if_false, List.mem_append] at ho
      rcases ho with ho | ho
      · rw [processEvent_noFrame inp st o ho] at hf
        exact absurd hf (by simp)
      · split at ho
        · rename_i hc
          exact ⟨rfl, hc.1, hc.2⟩
        · simp [skip, Step.trace] at ho
    · simp only [hab, if_true] at ho
      rw [processEvent_noFrame inp st o ho] at hf
      exact absurd hf (by simp)

/-- Witness for the amended C10: in the run where a window is created, focus is
lost and a window is created again, the staging submission that follows the
focus-lost log line is no frame operation; and an iteration without event in
the prepared state, which renders a frame, has `prepared` true and `paused`
false. -/
theorem no_frame_while_paused_witness :
    Op.vkQueueSubmitStagingCopy.isFrameOp = false ∧
    ((processEvent (exampleInput none) preparedState).aborted = false ∧
      (processEvent (exampleInput none) preparedState).st.prepared = true ∧
      (processEvent (exampleInput none) preparedState).st.paused = false) :=
  ⟨(no_frame_while_paused windowRecreatedWhilePaused {}).1
      ((renderLoop windowRecreatedWhilePaused {}).trace.take 62)
      (((renderLoop windowRecreatedWhilePaused {}).trace.drop 63).take 38)
      ((renderLoop windowRecreatedWhilePaused {}).trace.drop 101)
      (by decide) (by decide) Op.vkQueueSubmitStagingCopy (by decide),
   (no_frame_while_paused [] {}).2 (exampleInput none) preparedState
      ⟨Op.vkQueueSubmit 0 0 0 0, by decide, rfl⟩⟩

/-! ## Membership in the trace of a sequence -/

theorem mem_trace_andThen_left {a : Step} {f : VulkanExampleBase → Step} {o : Op}
    (h : o ∈ a.trace) : o ∈ (a.andThen f).trace := by
  by_cases ha : a.aborted = true
  · simpa [Step.andThen, ha] using h
  · rw [andThen_trace]
    simp only [ha, Bool.false_eq_true, if_false, List.mem_append]
    exact Or.inl h

theorem mem_trace_andThen_right {a : Step} {f : VulkanExampleBase → Step} {o : Op}
    (ha : a.aborted = false) (h : o ∈ (f a.st).trace) : o ∈ (a.andThen f).trace := by
  rw [andThen_trace]
  simp only [ha, Bool.false_eq_true, if_false, List.mem_append]
  exact Or.inr h

theorem checkedCall_mem (op : Op) (res : Int) (effect : VulkanExampleBase → VulkanExampleBase)
    (st : VulkanExampleBase) : op ∈ (checkedCall op res effect st).trace := by
  unfold checkedCall
  exact mem_trace_andThen_left (by simp [vkCall, Step.trace])

/-! ## Window destroyed and window created -/

/-- C11, as stated, fails: in the state reached by a successful bring-up and one
frame, handling the window-destroyed command logs the command and nothing else,
so the device is not waited for, and the device, the swapchain buffers, the
framebuffers and the fences are what they were. -/
theorem termWindow_tears_nothing_down :
    (handleAppCommandInternal AppCmd.APP_CMD_TERM_WINDOW exampleBringUp stateAfterBringUp).trace =
      [Op.logAppCmd AppCmd.APP_CMD_TERM_WINDOW] ∧
    Op.vkDeviceWaitIdle ∉
      (handleAppCommandInternal AppCmd.APP_CMD_TERM_WINDOW exampleBringUp
        stateAfterBringUp).trace ∧
    (handleAppCommandInternal AppCmd.APP_CMD_TERM_WINDOW exampleBringUp
      stateAfterBringUp).st.device = true ∧
    (handleAppCommandInternal AppCmd.APP_CMD_TERM_WINDOW exampleBringUp
      stateAfterBringUp).st.frameBuffers = stateAfterBringUp.frameBuffers ∧
    stateAfterBringUp.frameBuffers.length = 3 := by
  decide

/-- C11, amended: in every state the handler of the window-destroyed command
logs the command and calls `cleanup`, which sets `prepared` to false; it issues
no other call and leaves every other field, hence every GPU resource, as it
was. -/
theorem termWindow_clears_prepared (env : BringUpEnv) (st : VulkanExampleBase) :
    handleAppCommandInternal AppCmd.APP_CMD_TERM_WINDOW env st =
      { st := { st with prepared := false },
        ops := [{ op := Op.logAppCmd AppCmd.APP_CMD_TERM_WINDOW, fences := st.waitFences }],
        aborted := false } := by
  simp [handleAppCommandInternal, cleanup, emit, skip, Step.andThen]

/-- C12, as stated, fails: in the state reached by a successful bring-up, where
`prepared` is true and the device exists, handling a window-created command
creates an instance, a surface, a device, a swapchain, a depth image, a render
pass, framebuffers and fences again. -/
theorem initWindow_repeats_bringUp :
    stateAfterBringUp.prepared = true ∧ stateAfterBringUp.device = true ∧
    (∀ op ∈ [Op.vkCreateInstance, Op.vkCreateAndroidSurfaceKHR, Op.vkCreateDevice 0 1,
        Op.vkCreateSwapchainKHR 3 VK_FORMAT_R8G8B8A8_UNORM 0 1080 1920,
        Op.vkCreateImage VK_FORMAT_D32_SFLOAT_S8_UINT 1080 1920,
        Op.vkCreateRenderPass VK_FORMAT_R8G8B8A8_UNORM VK_FORMAT_D32_SFLOAT_S8_UINT,
        Op.vkCreateFramebuffer 0 [111, 120] 1080 1920,
        Op.vkAllocateCommandBuffers 2, Op.vkCreateFence 0, Op.vkCreateFence 1],
      op ∈ (handleAppCommandInternal AppCmd.APP_CMD_INIT_WINDOW exampleBringUp
        stateAfterBringUp).trace) := by
  decide

/-! ## Statuses of acquire and present -/

/-- C14: failing input. With every other call succeeding, an acquire that
answers `VK_ERROR_DEVICE_LOST` does not end the frame: nothing is asserted, the
frame goes on to record, submit and present, and the frame index advances. The
same holds when the present answers `VK_ERROR_DEVICE_LOST`, whereas the same
answer from the submit takes the abort path. -/
theorem render_continues_after_failed_acquire :
    (render { acquireNextImage := VK_ERROR_DEVICE_LOST } preparedState).aborted = false ∧
    Op.assertFailed ∉ (render { acquireNextImage := VK_ERROR_DEVICE_LOST } preparedState).trace ∧
    Op.vkQueueSubmit 0 0 0 0 ∈
      (render { acquireNextImage := VK_ERROR_DEVICE_LOST } preparedState).trace ∧
    (render { acquireNextImage := VK_ERROR_DEVICE_LOST } preparedState).st.currentFrame = 1 ∧
    (render { queuePresent := VK_ERROR_DEVICE_LOST } preparedState).aborted = false ∧
    Op.assertFailed ∉ (render { queuePresent := VK_ERROR_DEVICE_LOST } preparedState).trace ∧
    (render { queuePresent := VK_ERROR_DEVICE_LOST } preparedState).st.currentFrame = 1 ∧
    (render { queueSubmit := VK_ERROR_DEVICE_LOST } preparedState).aborted = true ∧
    Op.assertFailed ∈ (render { queueSubmit := VK_ERROR_DEVICE_LOST } preparedState).trace := by
  decide

/-! ## Queue family selection -/

theorem selectQueueFamilyLoop_none (l : List Nat) (i q : Nat)
    (h : ∀ f ∈ l, ¬ QueueFamilySupportsGraphics f) : selectQueueFamilyLoop l i q = q := by
  induction l generalizing i with
  | nil => rfl
  | cons f rest ih =>
    have hf : ¬ (f &&& VK_QUEUE_GRAPHICS_BIT ≠ 0) := h f (List.mem_cons_self _ _)
    simp only [selectQueueFamilyLoop, hf, if_false]
    exact ih (i + 1) fun g hg => h g (List.mem_cons_of_mem _ hg)

theorem selectQueueFamilyLoop_first (l : List Nat) (i q k f : Nat)
    (hk : l[k]? = some f) (hf : QueueFamilySupportsGraphics f)
    (hmin : ∀ (j g : Nat), j < k → l[j]? = some g → ¬ QueueFamilySupportsGraphics g) :
    selectQueueFamilyLoop l i q = i + k := by
  induction l generalizing i k with
  | nil => simp at hk
  | cons g rest ih =>
    cases k with
    | zero =>
      simp only [List.getElem?_cons_zero, Option.some.injEq] at hk
      subst hk
      have hf2 : g &&& VK_QUEUE_GRAPHICS_BIT ≠ 0 := hf
      simp [selectQueueFamilyLoop, hf2]
    | succ k =>
      have hg : ¬ (g &&& VK_QUEUE_GRAPHICS_BIT ≠ 0) := hmin 0 g (Nat.succ_pos k) (by simp)
      simp only [selectQueueFamilyLoop, hg, if_false]
      rw [ih (i + 1) k (by simpa using hk)
        (fun j g2 hj hg2 => hmin (j + 1) g2 (Nat.succ_lt_succ hj) (by simpa using hg2))]
      omega

/-- C16: failing input. On an adapter whose only queue family is a compute
family, `createDevice` completes with `queueFamilyIndex` 0, the value the field
had before the loop, and creates the device with one queue of priority 1 from
family 0, which does not support graphics; the first adapter is selected. -/
theorem createDevice_selects_family_without_graphics :
    computeOnlyBringUp.queueFamilies[0]? = some VK_QUEUE_COMPUTE_BIT ∧
    ¬ QueueFamilySupportsGraphics VK_QUEUE_COMPUTE_BIT ∧
    selectQueueFamilyLoop computeOnlyBringUp.queueFamilies 0 0 = 0 ∧
    (createDevice computeOnlyBringUp {}).st.queueFamilyIndex = 0 ∧
    (createDevice computeOnlyBringUp {}).st.physicalDevice = 1 ∧
    queueCI (createDevice computeOnlyBringUp {}).st =
      { queueFamilyIndex := 0, queueCount := 1, queuePriority := 1 } := by
  decide

/-- C17: failing input. On an adapter whose only queue family is a compute
family, `createDevice` does not terminate the process: no assertion fails, the
logical device is created with a queue of family 0 and the queue is fetched. -/
theorem createDevice_no_abort_without_graphics_family :
    (∀ f ∈ computeOnlyBringUp.queueFamilies, ¬ QueueFamilySupportsGraphics f) ∧
    (createDevice computeOnlyBringUp {}).aborted = false ∧
    (createDevice computeOnlyBringUp {}).st.device = true ∧
    (createDevice computeOnlyBringUp {}).trace =
      [Op.vkEnumeratePhysicalDevices false, Op.vkEnumeratePhysicalDevices true,
       Op.vkCreateDevice 0 1, Op.vkGetDeviceQueue 0 0] := by
  decide

/-! ## Aspect of the depth view -/

theorem mem_trace_andThen {a : Step} {f : VulkanExampleBase → Step} {o : Op}
    (h : o ∈ (a.andThen f).trace) : o ∈ a.trace ∨ o ∈ (f a.st).trace := by
  rw [andThen_trace] at h
  by_cases ha : a.aborted = true
  · simp only [ha, if_true] at h
    exact Or.inl h
  · simp only [ha, Bool.false_eq_true, if_false, List.mem_append] at h
    exact h

theorem checkedCall_trace_mem {op o : Op} {res : Int}
    {effect : VulkanExampleBase → VulkanExampleBase} {st : VulkanExampleBase}
    (h : o ∈ (checkedCall op res effect st).trace) :
    o = op ∨ o = Op.logVulkanError res ∨ o = Op.assertFailed := by
  by_cases hr : res = VK_SUCCESS
  · subst hr
    rw [checkedCall_success] at h
    simp only [Step.trace, List.map_cons, List.map_nil, List.mem_singleton] at h
    exact Or.inl h
  · simp only [checkedCall, vkCall, VK_CHECK_RESULT, hr, Step.trace, andThen_ops,
      ne_eq, not_false_eq_true, if_true, Bool.false_eq_true, if_false, List.map_append,
      List.map_cons, List.map_nil, List.mem_append, List.mem_cons, List.mem_singleton,
      List.not_mem_nil, or_false] at h
    exact h

theorem checkedCall_id_st (op : Op) (res : Int) (st : VulkanExampleBase) :
    (checkedCall op res id st).st = st := by
  by_cases hr : res = VK_SUCCESS <;>
  simp [checkedCall, vkCall, VK_CHECK_RESULT, Step.andThen, skip, hr]

/-- C20, as stated, fails: `VK_FORMAT_D32_SFLOAT_S8_UINT` is the first combined
depth-stencil format of the priority list, and on an adapter that supports only
`VK_FORMAT_D24_UNORM_S8_UINT` the depth view is created with that format and
with the stencil aspect, although its enum value is below that of
`VK_FORMAT_D32_SFLOAT_S8_UINT`. -/
theorem depthView_stencil_below_first_combined :
    depthFormats.find? isCombinedDepthStencil = some VK_FORMAT_D32_SFLOAT_S8_UINT ∧
    Op.vkCreateImageView 20 VK_FORMAT_D24_UNORM_S8_UINT
        (VK_IMAGE_ASPECT_DEPTH_BIT ||| VK_IMAGE_ASPECT_STENCIL_BIT) ∈
      (setupDepthStencil d24BringUp preparedState).trace ∧
    (VK_IMAGE_ASPECT_DEPTH_BIT ||| VK_IMAGE_ASPECT_STENCIL_BIT) &&& VK_IMAGE_ASPECT_STENCIL_BIT =
      VK_IMAGE_ASPECT_STENCIL_BIT ∧
    ¬ (VK_FORMAT_D24_UNORM_S8_UINT ≥ VK_FORMAT_D32_SFLOAT_S8_UINT) := by
  decide

/-- C20, amended: every view that `setupDepthStencil` creates is a view of the
selected depth format, has the depth aspect, and has the stencil aspect exactly
when the enum value of the format is at least that of
`VK_FORMAT_D16_UNORM_S8_UINT`, the last combined depth-stencil format of the
priority list; a `setupDepthStencil` that completes creates such a view. -/
theorem depthView_aspect (env : BringUpEnv) (st : VulkanExampleBase) :
    (∀ (image format aspect : Nat),
      Op.vkCreateImageView image format aspect ∈ (setupDepthStencil env st).trace →
      format = selectDepthFormat env.optimalTilingFeatures st.depthFormat ∧
      aspect &&& VK_IMAGE_ASPECT_DEPTH_BIT = VK_IMAGE_ASPECT_DEPTH_BIT ∧
      (aspect &&& VK_IMAGE_ASPECT_STENCIL_BIT = VK_IMAGE_ASPECT_STENCIL_BIT ↔
        format ≥ VK_FORMAT_D16_UNORM_S8_UINT)) ∧
    ((setupDepthStencil env st).aborted = false →
      ∃ aspect, Op.vkCreateImageView env.depthImage
        (selectDepthFormat env.optimalTilingFeatures st.depthFormat) aspect ∈
          (setupDepthStencil env st).trace) ∧
    depthFormats.getLast? = some VK_FORMAT_D16_UNORM ∧
    (depthFormats.filter isCombinedDepthStencil).getLast? = some VK_FORMAT_D16_UNORM_S8_UINT := by
  have hmask : ∀ f : Nat,
      depthAspectMask f &&& VK_IMAGE_ASPECT_DEPTH_BIT = VK_IMAGE_ASPECT_DEPTH_BIT ∧
      (depthAspectMask f &&& VK_IMAGE_ASPECT_STENCIL_BIT = VK_IMAGE_ASPECT_STENCIL_BIT ↔
        f ≥ VK_FORMAT_D16_UNORM_S8_UINT) := by
    intro f
    unfold depthAspectMask
    by_cases hf : f ≥ VK_FORMAT_D16_UNORM_S8_UINT
    · simp only [hf, if_true, iff_true]
      decide
    · simp only [hf, if_false, iff_false]
      decide
  refine ⟨?_, ?_, by decide, by decide⟩
  · intro image format aspect h
    unfold setupDepthStencil at h
    rcases mem_trace_andThen h with h | h
    · simp [skip, Step.trace] at h
    rcases mem_trace_andThen h with h | h
    · rcases checkedCall_trace_mem h with h | h | h <;> simp at h
    rcases mem_trace_andThen h with h | h
    · rcases checkedCall_trace_mem h with h | h | h <;> simp at h
    rcases mem_trace_andThen h with h | h
    · rcases checkedCall_trace_mem h with h | h | h <;> simp at h
    rcases checkedCall_trace_mem h with h | h | h
    · simp only [checkedCall_id_st, skip, Op.vkCreateImageView.injEq] at h
      obtain ⟨-, h2, h3⟩ := h
      subst h2 h3
      exact ⟨rfl, hmask _⟩
    · simp at h
    · simp at h
  · intro h
    refine ⟨depthAspectMask (selectDepthFormat env.optimalTilingFeatures st.depthFormat), ?_⟩
    unfold setupDepthStencil at h ⊢
    obtain ⟨h0, h⟩ := andThen_aborted_false h
    obtain ⟨h1, h⟩ := andThen_aborted_false h
    obtain ⟨h2, h⟩ := andThen_aborted_false h
    obtain ⟨h3, h⟩ := andThen_aborted_false h
    refine mem_trace_andThen_right h0 (mem_trace_andThen_right h1 (mem_trace_andThen_right h2
      (mem_trace_andThen_right h3 ?_)))
    simp only [checkedCall_id_st, skip]
    exact checkedCall_mem _ _ _ _

/-- Witness for the amended C20: with the example answers the view of the depth
image has format `VK_FORMAT_D32_SFLOAT_S8_UINT` and both aspects. -/
theorem depthView_aspect_witness :
    Op.vkCreateImageView 20 VK_FORMAT_D32_SFLOAT_S8_UINT 6 ∈
      (setupDepthStencil exampleBringUp preparedState).trace ∧
    (VK_FORMAT_D32_SFLOAT_S8_UINT =
      selectDepthFormat exampleBringUp.optimalTilingFeatures preparedState.depthFormat ∧
    6 &&& VK_IMAGE_ASPECT_DEPTH_BIT = VK_IMAGE_ASPECT_DEPTH_BIT ∧
    (6 &&& VK_IMAGE_ASPECT_STENCIL_BIT = VK_IMAGE_ASPECT_STENCIL_BIT ↔
      VK_FORMAT_D32_SFLOAT_S8_UINT ≥ VK_FORMAT_D16_UNORM_S8_UINT)) :=
  ⟨by decide, (depthView_aspect exampleBringUp preparedState).1 20
    VK_FORMAT_D32_SFLOAT_S8_UINT 6 (by decide)⟩

/-! ## Failure of device bring-up -/

theorem abortEnd_andThen {a : Step} {f : VulkanExampleBase → Step}
    (ha : a.aborted = true → a.trace.getLast? = some Op.assertFailed)
    (hf : ∀ s, (f s).aborted = true → (f s).trace.getLast? = some Op.assertFailed)
    (h : (a.andThen f).aborted = true) :
    (a.andThen f).trace.getLast? = some Op.assertFailed := by
  rw [andThen_trace]
  rw [andThen_aborted] at h
  by_cases hab : a.aborted = true
  · simp only [hab, if_true]
    exact ha hab
  · simp only [hab, Bool.false_eq_true, if_false] at h ⊢
    rw [List.getLast?_append, hf _ h]
    rfl

theorem abortEnd_checkedCall (op : Op) (res : Int)
    (effect : VulkanExampleBase → VulkanExampleBase) (st : VulkanExampleBase)
    (h : (checkedCall op res effect st).aborted = true) :
    (checkedCall op res effect st).trace.getLast? = some Op.assertFailed := by
  by_cases hr : res = VK_SUCCESS
  · rw [checkedCall_aborted] at h
    simp [hr] at h
  · simp [checkedCall, vkCall, VK_CHECK_RESULT, hr, Step.trace, andThen_ops]

theorem abortEnd_createDevice (env : BringUpEnv) (st : VulkanExampleBase)
    (h : (createDevice env st).aborted = true) :
    (createDevice env st).trace.getLast? = some Op.assertFailed := by
  unfold createDevice at h ⊢
  refine abortEnd_andThen (abortEnd_checkedCall _ _ _ _) (fun s => ?_) h
  refine abortEnd_andThen ?_ (fun s => ?_)
  · split
    · intro h0
      simp [skip] at h0
    · intro _
      simp [assertFail, Step.trace]
  refine abortEnd_andThen (abortEnd_checkedCall _ _ _ _) (fun s => ?_)
  refine abortEnd_andThen (fun h0 => by simp [skip] at h0) (fun s => ?_)
  refine abortEnd_andThen (abortEnd_checkedCall _ _ _ _) (fun s => ?_)
  intro h0
  simp [emit] at h0

theorem abortEnd_initVulkan (env : BringUpEnv) (st : VulkanExampleBase)
    (h : (initVulkan env st).aborted = true) :
    (initVulkan env st).trace.getLast? = some Op.assertFailed := by
  unfold initVulkan at h ⊢
  refine abortEnd_andThen (fun h0 => by simp [skip] at h0) (fun s => ?_) h
  refine abortEnd_andThen (abortEnd_checkedCall _ _ _ _) (fun s => ?_)
  refine abortEnd_andThen (abortEnd_checkedCall _ _ _ _) (fun s => ?_)
  exact abortEnd_createDevice env s

theorem initVulkan_aborted_iff (env : BringUpEnv) (st : VulkanExampleBase) :
    (initVulkan env st).aborted = true ↔
      (env.result Op.vkCreateInstance ≠ VK_SUCCESS ∨
       env.result Op.vkCreateAndroidSurfaceKHR ≠ VK_SUCCESS ∨
       env.result (Op.vkEnumeratePhysicalDevices false) ≠ VK_SUCCESS ∨
       env.physicalDevices.length = 0 ∨
       env.result (Op.vkEnumeratePhysicalDevices true) ≠ VK_SUCCESS ∨
       env.result (Op.vkCreateDevice
         (selectQueueFamilyLoop env.queueFamilies 0 st.queueFamilyIndex) 1) ≠ VK_SUCCESS) := by
  simp only [initVulkan, createInstance, createSurface, createDevice, andThen_aborted,
    andThen_st, checkedCall_aborted, checkedCall_id_st, skip, emit]
  by_cases h1 : env.result Op.vkCreateInstance = VK_SUCCESS <;>
  by_cases h2 : env.result Op.vkCreateAndroidSurfaceKHR = VK_SUCCESS <;>
  by_cases h3 : env.result (Op.vkEnumeratePhysicalDevices false) = VK_SUCCESS <;>
  by_cases h4 : env.physicalDevices = [] <;>
  by_cases h5 : env.result (Op.vkEnumeratePhysicalDevices true) = VK_SUCCESS <;>
  simp [h1, h2, h3, h4, h5, assertFail, skip, checkedCall_id_st, List.length_pos]

theorem andThen_of_aborted {a : Step} (f : VulkanExampleBase → Step) (h : a.aborted = true) :
    a.andThen f = a := by
  simp [Step.andThen, h]

/-- C15: `initVulkan` terminates the process exactly when one of its checked
calls (instance, surface, the two adapter enumerations, device) answers a
status other than `VK_SUCCESS` or no adapter is enumerated. When it does, the
failed assertion is the last thing that happens in it, and the handler of the
window-created command consists of its log line and that `initVulkan` alone:
nothing of `prepare` runs. -/
theorem initVulkan_failure_is_fatal (env : BringUpEnv) (st : VulkanExampleBase) :
    ((env.result Op.vkCreateInstance ≠ VK_SUCCESS ∨
      env.result Op.vkCreateAndroidSurfaceKHR ≠ VK_SUCCESS ∨
      env.result (Op.vkEnumeratePhysicalDevices false) ≠ VK_SUCCESS ∨
      env.physicalDevices.length = 0 ∨
      env.result (Op.vkEnumeratePhysicalDevices true) ≠ VK_SUCCESS ∨
      env.result (Op.vkCreateDevice
        (selectQueueFamilyLoop env.queueFamilies 0 st.queueFamilyIndex) 1) ≠ VK_SUCCESS) ↔
      (initVulkan env st).aborted = true) ∧
    ((initVulkan env st).aborted = true →
      (initVulkan env st).trace.getLast? = some Op.assertFailed ∧
      (env.window = true →
        handleAppCommandInternal AppCmd.APP_CMD_INIT_WINDOW env st =
          { st := (initVulkan env st).st,
            ops := { op := Op.logAppCmd AppCmd.APP_CMD_INIT_WINDOW, fences := st.waitFences } ::
              (initVulkan env st).ops,
            aborted := true })) := by
  refine ⟨(initVulkan_aborted_iff env st).symm, fun h => ⟨abortEnd_initVulkan env st h, ?_⟩⟩
  intro hw
  simp only [handleAppCommandInternal, hw, if_true, emit, andThen_ok,
    andThen_of_aborted (Triangle.prepare env) h, h, List.singleton_append]

/-- Witness for C15: with no adapter enumerated `initVulkan` ends at the failed
assertion on the adapter count. -/
theorem initVulkan_failure_is_fatal_witness :
    noAdapterBringUp.physicalDevices.length = 0 ∧
    (initVulkan noAdapterBringUp {}).aborted = true ∧
    (initVulkan noAdapterBringUp {}).trace.getLast? = some Op.assertFailed ∧
    (initVulkan noAdapterBringUp {}).trace =
      [Op.vkCreateInstance, Op.vkCreateAndroidSurfaceKHR, Op.vkEnumeratePhysicalDevices false,
        Op.assertFailed] :=
  ⟨by decide,
   (initVulkan_failure_is_fatal noAdapterBringUp {}).1.1 (Or.inr (Or.inr (Or.inr (Or.inl rfl)))),
   ((initVulkan_failure_is_fatal noAdapterBringUp {}).2 (by decide)).1, by decide⟩

/-! ## Submission and presentation of one frame -/

theorem filter_frameStep (l : List Op) (k : Nat) :
    l.filter (fun o => o.frameStep == some k) =
      (l.filter (fun o => o.frameStep.isSome)).filter (fun o => o.frameStep == some k) := by
  rw [List.filter_filter]
  congr 1
  funext o
  cases o.frameStep <;> simp

/-- C18: in a frame that completes, with `s` the value of `currentFrame` at its
start, the only wait is on fence `s`, the only acquire signals semaphore `s`,
the only uniform buffer written is that of `s` and the only descriptor set
bound is that of `s`, in command buffer `s`; there is one submission, of
command buffer `s` alone, waiting on the acquire semaphore of `s` at the
color-attachment-output stage and signalling the render-complete semaphore of
`s` and fence `s`; there is one present, waiting on the render-complete
semaphore of `s`, of the image index that this frame's acquire left in
`currentBuffer`, which is the index it answered when it answered success or
suboptimal. -/
theorem frame_submit_and_present (env : FrameEnv) (st : VulkanExampleBase)
    (h : (render env st).aborted = false) :
    (render env st).trace.filter (fun o => o.frameStep == some 0) =
      [Op.vkWaitForFences st.currentFrame] ∧
    (render env st).trace.filter (fun o => o.frameStep == some 2) =
      [Op.vkAcquireNextImageKHR (submitInfo st).waitSemaphore] ∧
    (render env st).trace.filter (fun o => o.frameStep == some 3) =
      [Op.updateUniformBuffer st.currentFrame] ∧
    (render env st).trace.filter (fun o => o.frameStep == some 10) =
      [Op.vkCmdBindDescriptorSets (submitInfo st).commandBuffer st.currentFrame] ∧
    (render env st).trace.filter (fun o => o.frameStep == some 16) =
      [Op.vkQueueSubmit (submitInfo st).commandBuffer (submitInfo st).waitSemaphore
        (submitInfo st).signalSemaphore st.currentFrame] ∧
    submitInfo st =
      { waitDstStageMask := VK_PIPELINE_STAGE_COLOR_ATTACHMENT_OUTPUT_BIT,
        waitSemaphoreCount := 1, waitSemaphore := st.currentFrame,
        signalSemaphoreCount := 1, signalSemaphore := st.currentFrame,
        commandBufferCount := 1, commandBuffer := st.currentFrame } ∧
    (render env st).trace.filter (fun o => o.frameStep == some 17) =
      [Op.vkQueuePresentKHR (submitInfo st).signalSemaphore (acquiredBuffer env st)] ∧
    presentInfo { st with currentBuffer := acquiredBuffer env st } =
      { waitSemaphoreCount := 1, waitSemaphore := st.currentFrame,
        swapchainCount := 1, imageIndex := acquiredBuffer env st } ∧
    (env.acquireNextImage = VK_SUCCESS ∨ env.acquireNextImage = VK_SUBOPTIMAL_KHR →
      acquiredBuffer env st = env.imageIndex % UINT32_MOD) := by
  obtain ⟨h1, h2, h3, h4, h5, h6⟩ := render_completes env st h
  have ht := (render_trace_success env st h1 h2 h3 h4 h5 h6).2
  refine ⟨?_, ?_, ?_, ?_, ?_, rfl, ?_, rfl, ?_⟩
  · rw [filter_frameStep, ht]; simp [List.filter, Op.frameStep]
  · rw [filter_frameStep, ht]; simp [List.filter, Op.frameStep, submitInfo]
  · rw [filter_frameStep, ht]; simp [List.filter, Op.frameStep]
  · rw [filter_frameStep, ht]; simp [List.filter, Op.frameStep, submitInfo]
  · rw [filter_frameStep, ht]; simp [List.filter, Op.frameStep, submitInfo]
  · rw [filter_frameStep, ht]; simp [List.filter, Op.frameStep, submitInfo]
  · intro ha
    simp [acquiredBuffer, ha]

/-- Witness for C18: the first frame after bring-up, every call succeeding and
the acquire answering image 2, submits the resources of slot 0 and presents
image 2. -/
theorem frame_submit_and_present_witness :
    (render { imageIndex := 2 } preparedState).aborted = false ∧
    (render { imageIndex := 2 } preparedState).trace.filter (fun o => o.frameStep == some 16) =
      [Op.vkQueueSubmit 0 0 0 0] ∧
    (render { imageIndex := 2 } preparedState).trace.filter (fun o => o.frameStep == some 17) =
      [Op.vkQueuePresentKHR 0 2] :=
  ⟨by decide,
   (frame_submit_and_present { imageIndex := 2 } preparedState (by decide)).2.2.2.2.1,
   (frame_submit_and_present { imageIndex := 2 } preparedState (by decide)).2.2.2.2.2.2.1⟩

/-! ## Order of the components in bring-up -/

theorem phased_andThen (lo mid hi : Nat) {a : Step} {f : VulkanExampleBase → Step}
    (h1 : lo ≤ mid) (h2 : mid ≤ hi)
    (ha : a.Phased lo mid) (hf : ∀ s, (f s).Phased mid hi) : (a.andThen f).Phased lo hi := by
  unfold Step.Phased
  rw [andThen_trace]
  cases hab : a.aborted
  · simp only [Bool.false_eq_true, if_false, List.filterMap_append, List.pairwise_append,
      List.mem_append]
    refine ⟨⟨ha.1, (hf _).1, ?_⟩, ?_⟩
    · intro x hx y hy
      have := ha.2 x hx
      have := (hf _).2 y hy
      omega
    · rintro r (hr | hr)
      · have := ha.2 r hr; omega
      · have := (hf _).2 r hr; omega
  · simp only [if_true]
    refine ⟨ha.1, ?_⟩
    intro r hr
    have := ha.2 r hr
    omega

theorem phased_none (lo hi : Nat) (a : Step) (h : ∀ o ∈ a.trace, o.component = none) :
    a.Phased lo hi := by
  have : a.trace.filterMap Op.component = [] := by
    rw [List.filterMap_eq_nil_iff]
    exact h
  simp [Step.Phased, this]

theorem phased_skip (lo hi : Nat) (st : VulkanExampleBase) : (skip st).Phased lo hi := by
  simp [Step.Phased, skip, Step.trace]

theorem phased_weaken {a : Step} {lo hi : Nat} (lo2 hi2 : Nat) (h1 : lo2 ≤ lo) (h2 : hi ≤ hi2)
    (ha : a.Phased lo hi) : a.Phased lo2 hi2 := by
  refine ⟨ha.1, fun c hc => ?_⟩
  have := ha.2 c hc
  omega

theorem phased_checkedCall (k : Nat) (op : Op) (res : Int)
    (effect : VulkanExampleBase → VulkanExampleBase)
    (st : VulkanExampleBase) (h : op.component = some k) :
    (checkedCall op res effect st).Phased k k := by
  unfold checkedCall
  apply phased_andThen k k k (le_refl _) (le_refl _)
  · simp [Step.Phased, vkCall, Step.trace, h]
  intro s
  apply phased_none
  intro o ho
  unfold VK_CHECK_RESULT at ho
  split at ho
  · simp [Step.trace] at ho
    rcases ho with rfl | rfl <;> rfl
  · simp [Step.trace, skip] at ho

theorem phased_checkedCall_none (lo hi : Nat) (op : Op) (res : Int)
    (effect : VulkanExampleBase → VulkanExampleBase)
    (st : VulkanExampleBase) (h : op.component = none) :
    (checkedCall op res effect st).Phased lo hi := by
  apply phased_none
  intro o ho
  rcases checkedCall_trace_mem ho with rfl | rfl | rfl
  · exact h
  · rfl
  · rfl

theorem createDevice_phased (env : BringUpEnv) (st : VulkanExampleBase) :
    (createDevice env st).Phased 0 0 := by
  unfold createDevice
  refine phased_andThen 0 0 0 (le_refl _) (le_refl _) (phased_checkedCall 0 _ _ _ _ (by rfl))
    (fun s => ?_)
  refine phased_andThen 0 0 0 (le_refl _) (le_refl _) ?_ (fun s => ?_)
  · split
    · exact phased_skip _ _ _
    · apply phased_none; intro o ho; simp [assertFail, Step.trace] at ho; subst ho; rfl
  refine phased_andThen 0 0 0 (le_refl _) (le_refl _) (phased_checkedCall 0 _ _ _ _ (by rfl))
    (fun s => ?_)
  refine phased_andThen 0 0 0 (le_refl _) (le_refl _) (phased_skip _ _ _) (fun s => ?_)
  refine phased_andThen 0 0 0 (le_refl _) (le_refl _) (phased_checkedCall 0 _ _ _ _ (by rfl))
    (fun s => ?_)
  simp [Step.Phased, emit, Step.trace, Op.component]

theorem initVulkan_phased (env : BringUpEnv) (st : VulkanExampleBase) :
    (initVulkan env st).Phased 0 0 := by
  unfold initVulkan createInstance createSurface
  refine phased_andThen 0 0 0 (le_refl _) (le_refl _) (phased_skip _ _ _) (fun s => ?_)
  refine phased_andThen 0 0 0 (le_refl _) (le_refl _) (phased_checkedCall 0 _ _ _ _ (by rfl))
    (fun s => ?_)
  refine phased_andThen 0 0 0 (le_refl _) (le_refl _) (phased_checkedCall 0 _ _ _ _ (by rfl))
    (fun s => ?_)
  exact createDevice_phased env s

theorem createImageViewsLoop_phased (env : BringUpEnv) (images : List Nat) (n i : Nat)
    (st : VulkanExampleBase) : (createImageViewsLoop env images n i st).Phased 1 1 := by
  induction n generalizing i st with
  | zero => exact phased_skip _ _ _
  | succ n ih =>
    unfold createImageViewsLoop
    refine phased_andThen 1 1 1 (le_refl _) (le_refl _) (phased_skip _ _ _) (fun s => ?_)
    refine phased_andThen 1 1 1 (le_refl _) (le_refl _)
      (phased_checkedCall 1 _ _ _ _ (by rfl)) (fun s => ?_)
    exact ih _ _

theorem createSwapChain_phased (env : BringUpEnv) (st : VulkanExampleBase) :
    (createSwapChain env st).Phased 1 1 := by
  unfold createSwapChain
  refine phased_andThen 1 1 1 (le_refl _) (le_refl _) (phased_checkedCall 1 _ _ _ _ (by rfl))
    (fun s => ?_)
  refine phased_andThen 1 1 1 (le_refl _) (le_refl _) (phased_checkedCall 1 _ _ _ _ (by rfl))
    (fun s => ?_)
  refine phased_andThen 1 1 1 (le_refl _) (le_refl _) (phased_checkedCall 1 _ _ _ _ (by rfl))
    (fun s => ?_)
  refine phased_andThen 1 1 1 (le_refl _) (le_refl _) ?_ (fun s => ?_)
  · split
    · apply phased_none; intro o ho; simp [undefinedRead, Step.trace] at ho; subst ho; rfl
    · exact phased_skip _ _ _
  refine phased_andThen 1 1 1 (le_refl _) (le_refl _) (phased_checkedCall 1 _ _ _ _ (by rfl))
    (fun s => ?_)
  refine phased_andThen 1 1 1 (le_refl _) (le_refl _) (phased_checkedCall 1 _ _ _ _ (by rfl))
    (fun s => ?_)
  refine phased_andThen 1 1 1 (le_refl _) (le_refl _) (phased_skip _ _ _) (fun s => ?_)
  refine phased_andThen 1 1 1 (le_refl _) (le_refl _) (phased_checkedCall 1 _ _ _ _ (by rfl))
    (fun s => ?_)
  refine phased_andThen 1 1 1 (le_refl _) (le_refl _) (phased_checkedCall 1 _ _ _ _ (by rfl))
    (fun s => ?_)
  refine phased_andThen 1 1 1 (le_refl _) (le_refl _) (phased_checkedCall 1 _ _ _ _ (by rfl))
    (fun s => ?_)
  refine phased_andThen 1 1 1 (le_refl _) (le_refl _) (phased_skip _ _ _) (fun s => ?_)
  exact createImageViewsLoop_phased _ _ _ _ _

theorem createSynchronizationPrimitivesLoop_phased (env : BringUpEnv) (n i : Nat)
    (st : VulkanExampleBase) : (createSynchronizationPrimitivesLoop env n i st).Phased 2 2 := by
  induction n generalizing i st with
  | zero => exact phased_skip _ _ _
  | succ n ih =>
    unfold createSynchronizationPrimitivesLoop
    refine phased_andThen 2 2 2 (le_refl _) (le_refl _)
      (phased_checkedCall 2 _ _ _ _ (by rfl)) (fun s => ?_)
    refine phased_andThen 2 2 2 (le_refl _) (le_refl _)
      (phased_checkedCall 2 _ _ _ _ (by rfl)) (fun s => ?_)
    refine phased_andThen 2 2 2 (le_refl _) (le_refl _)
      (phased_checkedCall 2 _ _ _ _ (by rfl)) (fun s => ?_)
    exact ih _ _

theorem depthAspectMask_ne_color (format : Nat) :
    depthAspectMask format ≠ VK_IMAGE_ASPECT_COLOR_BIT := by
  unfold depthAspectMask
  split <;> decide

theorem setupDepthStencil_phased (env : BringUpEnv) (st : VulkanExampleBase) :
    (setupDepthStencil env st).Phased 3 3 := by
  unfold setupDepthStencil
  refine phased_andThen 3 3 3 (le_refl _) (le_refl _) (phased_skip _ _ _) (fun s => ?_)
  refine phased_andThen 3 3 3 (le_refl _) (le_refl _) (phased_checkedCall 3 _ _ _ _ (by rfl))
    (fun s => ?_)
  refine phased_andThen 3 3 3 (le_refl _) (le_refl _) (phased_checkedCall 3 _ _ _ _ (by rfl))
    (fun s => ?_)
  refine phased_andThen 3 3 3 (le_refl _) (le_refl _) (phased_checkedCall 3 _ _ _ _ (by rfl))
    (fun s => ?_)
  exact phased_checkedCall 3 _ _ _ _ (by simp [Op.component, depthAspectMask_ne_color])

theorem setupFrameBufferLoop_phased (env : BringUpEnv) (n i : Nat)
    (st : VulkanExampleBase) : (setupFrameBufferLoop env n i st).Phased 3 3 := by
  induction n generalizing i st with
  | zero => exact phased_skip _ _ _
  | succ n ih =>
    unfold setupFrameBufferLoop
    refine phased_andThen 3 3 3 (le_refl _) (le_refl _)
      (phased_checkedCall 3 _ _ _ _ (by rfl)) (fun s => ?_)
    exact ih _ _

theorem basePrepare_phased (env : BringUpEnv) (st : VulkanExampleBase) :
    (VulkanExampleBase.prepare env st).Phased 1 3 := by
  unfold VulkanExampleBase.prepare createCommandPool createCommandBuffers
    createSynchronizationPrimitives createPipelineCache setupRenderPass setupFrameBuffer
  refine phased_andThen 1 1 3 (le_refl _) (by omega) (createSwapChain_phased _ _) (fun s => ?_)
  refine phased_andThen 1 2 3 (by omega) (by omega)
    (phased_weaken 1 2 (by omega) (le_refl _) (phased_checkedCall 2 _ _ _ _ (by rfl)))
    (fun s => ?_)
  refine phased_andThen 2 2 3 (le_refl _) (by omega) (phased_checkedCall 2 _ _ _ _ (by rfl))
    (fun s => ?_)
  refine phased_andThen 2 2 3 (le_refl _) (by omega)
    (createSynchronizationPrimitivesLoop_phased _ _ _ _) (fun s => ?_)
  refine phased_andThen 2 2 3 (le_refl _) (by omega)
    (phased_checkedCall_none 2 2 _ _ _ _ (by rfl)) (fun s => ?_)
  refine phased_andThen 2 3 3 (by omega) (le_refl _)
    (phased_weaken 2 3 (by omega) (le_refl _) (setupDepthStencil_phased _ _)) (fun s => ?_)
  refine phased_andThen 3 3 3 (le_refl _) (le_refl _) (phased_checkedCall 3 _ _ _ _ (by rfl))
    (fun s => ?_)
  refine phased_andThen 3 3 3 (le_refl _) (le_refl _) ?_ (fun s => ?_)
  · exact phased_andThen 3 3 3 (le_refl _) (le_refl _) (phased_skip _ _ _)
      (fun s => setupFrameBufferLoop_phased _ _ _ _)
  · apply phased_none; intro o ho; simp [vkCall, Step.trace] at ho; subst ho; rfl

theorem trianglePrepare_phased (env : BringUpEnv) (st : VulkanExampleBase) :
    (Triangle.prepare env st).Phased 1 3 := by
  unfold Triangle.prepare createVertexBuffer
  refine phased_andThen 1 3 3 (by omega) (le_refl _) (basePrepare_phased _ _) (fun s => ?_)
  refine phased_andThen 3 3 3 (le_refl _) (le_refl _) ?_ (fun s => ?_)
  · refine phased_andThen 3 3 3 (le_refl _) (le_refl _)
      (phased_checkedCall_none 3 3 _ _ _ _ (by rfl)) (fun s => ?_)
    refine phased_andThen 3 3 3 (le_refl _) (le_refl _)
      (phased_checkedCall_none 3 3 _ _ _ _ (by rfl)) (fun s => ?_)
    exact phased_checkedCall_none 3 3 _ _ _ _ (by rfl)
  refine phased_andThen 3 3 3 (le_refl _) (le_refl _)
    (phased_checkedCall_none 3 3 _ _ _ _ (by rfl)) (fun s => ?_)
  refine phased_andThen 3 3 3 (le_refl _) (le_refl _)
    (phased_checkedCall_none 3 3 _ _ _ _ (by rfl)) (fun s => ?_)
  exact phased_checkedCall_none 3 3 _ _ _ _ (by rfl)

theorem bringUp_phased (env : BringUpEnv) (st : VulkanExampleBase) :
    (handleAppCommandInternal AppCmd.APP_CMD_INIT_WINDOW env st).Phased 0 3 := by
  simp only [handleAppCommandInternal]
  refine phased_andThen 0 0 3 (le_refl _) (by omega) ?_ (fun s => ?_)
  · apply phased_none; intro o ho; simp [emit, Step.trace] at ho; subst ho; rfl
  split
  · exact phased_andThen 0 0 3 (le_refl _) (by omega) (initVulkan_phased _ _)
      (fun s => phased_weaken 0 3 (by omega) (le_refl _) (trianglePrepare_phased _ _))
  · apply phased_none; intro o ho; simp [emit, Step.trace] at ho; subst ho; rfl

/-- C13, as stated, fails: in the bring-up with the example answers the eight
creation steps of the Frame Resource Ring (command pool, command buffers, two
fences, four semaphores) all come before the eight creation steps of the Render
Target Set; the last semaphore is created at position 25 of the log and the
depth image, the first step of the Render Target Set, at position 27. -/
theorem renderTargets_created_after_frameRing :
    (handleAppCommandInternal AppCmd.APP_CMD_INIT_WINDOW exampleBringUp {}).trace[25]? =
      some (Op.vkCreateRenderCompleteSemaphore 1) ∧
    (Op.vkCreateRenderCompleteSemaphore 1).component = some 2 ∧
    (handleAppCommandInternal AppCmd.APP_CMD_INIT_WINDOW exampleBringUp {}).trace[27]? =
      some (Op.vkCreateImage VK_FORMAT_D32_SFLOAT_S8_UINT 1080 1920) ∧
    (Op.vkCreateImage VK_FORMAT_D32_SFLOAT_S8_UINT 1080 1920).component = some 3 ∧
    (handleAppCommandInternal AppCmd.APP_CMD_INIT_WINDOW exampleBringUp {}).trace.filterMap
        Op.component =
      List.replicate 6 0 ++ List.replicate 11 1 ++ List.replicate 8 2 ++ List.replicate 8 3 := by
  decide

/-- C13, amended: bring-up on window creation runs the components in the order
Device Context, Swapchain Manager, Frame Resource Ring, Render Target Set.
With the components numbered 0 to 3 in that order, the component numbers of the
logged calls never decrease, so a call of a component of smaller number
precedes every call of a component of larger number; in particular every
creation step of the Frame Resource Ring precedes every creation step of the
Render Target Set. -/
theorem bringUp_component_order (env : BringUpEnv) (st : VulkanExampleBase) :
    ((handleAppCommandInternal AppCmd.APP_CMD_INIT_WINDOW env st).trace.filterMap
      Op.component).Pairwise (fun x y => x ≤ y) ∧
    ∀ (i j : Nat) (a b : Op) (ca cb : Nat),
      (handleAppCommandInternal AppCmd.APP_CMD_INIT_WINDOW env st).trace[i]? = some a →
      (handleAppCommandInternal AppCmd.APP_CMD_INIT_WINDOW env st).trace[j]? = some b →
      a.component = some ca → b.component = some cb → ca < cb → i < j := by
  have hp := (bringUp_phased env st).1
  refine ⟨hp, ?_⟩
  intro i j a b ca cb hi hj ha hb hlt
  rw [List.pairwise_filterMap, List.pairwise_iff_getElem] at hp
  obtain ⟨hil, hia⟩ := List.getElem?_eq_some_iff.mp hi
  obtain ⟨hjl, hjb⟩ := List.getElem?_eq_some_iff.mp hj
  by_contra hij
  rcases Nat.lt_or_eq_of_le (Nat.le_of_not_lt hij) with hji | hji
  · have := hp j i hjl hil hji cb (by rw [hjb]; exact hb) ca (by rw [hia]; exact ha)
    omega
  · subst hji
    rw [hi] at hj
    cases hj
    rw [ha] at hb
    cases hb
    omega

/-- Witness for the amended C13: with the example answers, the creation of the
last semaphore of the Frame Resource Ring (position 25) precedes the creation
of the depth image of the Render Target Set (position 27). -/
theorem bringUp_component_order_witness :
    (handleAppCommandInternal AppCmd.APP_CMD_INIT_WINDOW exampleBringUp {}).trace[25]? =
      some (Op.vkCreateRenderCompleteSemaphore 1) ∧
    (handleAppCommandInternal AppCmd.APP_CMD_INIT_WINDOW exampleBringUp {}).trace[27]? =
      some (Op.vkCreateImage VK_FORMAT_D32_SFLOAT_S8_UINT 1080 1920) ∧
    25 < 27 :=
  ⟨by decide, by decide,
   (bringUp_component_order exampleBringUp {}).2 25 27 (Op.vkCreateRenderCompleteSemaphore 1)
     (Op.vkCreateImage VK_FORMAT_D32_SFLOAT_S8_UINT 1080 1920) 2 3 (by decide) (by decide)
     rfl rfl (by decide)⟩

/-! ## Frames in flight -/

theorem fenceProtocol_append (fence : Nat) (w1 w2 : List Op) (q : FencePhase) :
    fenceProtocol fence (w1 ++ w2) q =
      (fenceProtocol fence w1 q).bind (fenceProtocol fence w2) := by
  induction w1 generalizing q with
  | nil => rfl
  | cons o rest ih =>
    simp only [List.cons_append, fenceProtocol]
    cases fenceStep fence q o with
    | none => rfl
    | some q2 => exact ih q2

theorem render_fenceProtocol (env : FrameEnv) (st : VulkanExampleBase) (fence : Nat)
    (q : FencePhase) (h : (render env st).aborted = false) :
    fenceProtocol fence (render env st).trace q =
      if st.currentFrame = fence then
        (if q = FencePhase.idle then some FencePhase.busy else none)
      else some q := by
  obtain ⟨h1, h2, h3, h4, h5, h6⟩ := render_completes env st h
  by_cases hf : st.firstFrame = true <;>
  by_cases hs : env.acquireNextImage = VK_ERROR_OUT_OF_DATE_KHR ∨
      env.acquireNextImage = VK_SUBOPTIMAL_KHR <;>
  by_cases hc : st.currentFrame = fence <;>
  cases q <;>
  simp [render, submitFrame, buildCommandBuffer, updateUniformBuffer,
    logFirstFrame, prepareFrame_success, h1, h2, h3, h4, h5, h6, checkedCall_success,
    Step.trace, hf, hs, hc, vkCall, emit, skip, andThen_ok, setFence, fenceProtocol, fenceStep,
    Op.waitedFence, Op.submittedFence, Op.signaledFence]

theorem render_success_state (env : FrameEnv) (st : VulkanExampleBase)
    (h : (render env st).aborted = false) :
    (render env st).st.waitFences = st.waitFences.set st.currentFrame FenceStatus.pending ∧
    (render env st).st.currentFrame = advanceFrame st.currentFrame := by
  obtain ⟨h1, h2, h3, h4, h5, h6⟩ := render_completes env st h
  by_cases hf : st.firstFrame = true <;>
  by_cases hs : env.acquireNextImage = VK_ERROR_OUT_OF_DATE_KHR ∨
      env.acquireNextImage = VK_SUBOPTIMAL_KHR <;>
  simp [render, submitFrame, buildCommandBuffer, updateUniformBuffer,
    logFirstFrame, prepareFrame_success, h1, h2, h3, h4, h5, h6, checkedCall_success,
    Step.trace, hf, hs, vkCall, emit, skip, andThen_ok, setFence]

theorem runActivity_protocol (fence : Nat) (a : Activity) (st : VulkanExampleBase) (r : Step)
    (hr : runActivity a st = some r) (hok : r.aborted = false)
    (hlen : st.waitFences.length = MAX_CONCURRENT_FRAMES)
    (hcf : st.currentFrame < MAX_CONCURRENT_FRAMES) :
    fenceProtocol fence r.trace (phaseOf fence st) = some (phaseOf fence r.st) ∧
    r.st.waitFences.length = MAX_CONCURRENT_FRAMES ∧
    r.st.currentFrame < MAX_CONCURRENT_FRAMES := by
  cases a with
  | frame env =>
    simp only [runActivity] at hr
    split at hr
    · rename_i hg
      cases hr
      obtain ⟨hw, hc⟩ := render_success_state env st hok
      refine ⟨?_, by rw [hw, List.length_set, hlen], ?_⟩
      · rw [render_fenceProtocol env st fence _ hok]
        by_cases hsf : st.currentFrame = fence
        · subst hsf
          have hlt : st.currentFrame < st.waitFences.length := by rw [hlen]; exact hcf
          simp [phaseOf, hg, hw, List.getElem?_set_self, hlt]
        · simp [phaseOf, hsf, hw, List.getElem?_set_ne hsf]
      · rw [hc]
        unfold advanceFrame MAX_CONCURRENT_FRAMES
        omega
    · cases hr
  | fenceSignaled slot =>
    simp only [runActivity] at hr
    split at hr
    · rename_i hg
      cases hr
      have hlt : slot < st.waitFences.length := by
        by_contra hn
        rw [List.getElem?_eq_none (Nat.le_of_not_lt hn)] at hg
        cases hg
      refine ⟨?_, by simp [gpuSignal, vkCall, setFence, hlen], by simpa [gpuSignal, vkCall, setFence] using hcf⟩
      by_cases hsf : slot = fence
      · subst hsf
        simp [gpuSignal, vkCall, setFence, Step.trace, fenceProtocol, fenceStep, phaseOf, hg,
          Op.waitedFence, Op.submittedFence, Op.signaledFence,
          List.getElem?_set_self, hlt]
      · simp [gpuSignal, vkCall, setFence, Step.trace, fenceProtocol, fenceStep, phaseOf, hsf,
          Op.waitedFence, Op.submittedFence, Op.signaledFence,
          List.getElem?_set_ne hsf]
    · cases hr

theorem checkedCall_failure (op : Op) (res : Int)
    (effect : VulkanExampleBase → VulkanExampleBase) (st : VulkanExampleBase)
    (h : res ≠ VK_SUCCESS) :
    checkedCall op res effect st =
      { st := st,
        ops := [{ op := op, fences := st.waitFences },
                { op := Op.logVulkanError res, fences := st.waitFences },
                { op := Op.assertFailed, fences := st.waitFences }],
        aborted := true } := by
  simp [checkedCall, vkCall, VK_CHECK_RESULT, Step.andThen, h]

theorem andThen_abort (s : VulkanExampleBase) (l : List LogEntry)
    (f : VulkanExampleBase → Step) :
    Step.andThen { st := s, ops := l, aborted := true } f =
      { st := s, ops := l, aborted := true } := by
  simp [Step.andThen]

theorem render_accepts (env : FrameEnv) (st : VulkanExampleBase) (fence : Nat) :
    ∃ q, fenceProtocol fence (render env st).trace
      (if st.currentFrame = fence then FencePhase.idle else phaseOf fence st) = some q := by
  by_cases hok : (render env st).aborted = false
  · rw [render_fenceProtocol env st fence _ hok]
    by_cases hc : st.currentFrame = fence <;> simp [hc]
  by_cases h1 : env.waitForFences = VK_SUCCESS
  swap
  · by_cases hf : st.firstFrame = true <;> by_cases hc : st.currentFrame = fence <;>
    simp [render, prepareFrame, logFirstFrame, checkedCall_failure _ _ _ _ h1, hf, hc,
      Step.trace, vkCall, emit, skip, andThen_ok, andThen_abort, fenceProtocol, fenceStep,
      Op.waitedFence, Op.submittedFence, Op.signaledFence]
  by_cases h2 : env.resetFences = VK_SUCCESS
  swap
  · by_cases hf : st.firstFrame = true <;> by_cases hc : st.currentFrame = fence <;>
    simp [render, prepareFrame, logFirstFrame, h1, checkedCall_success,
      checkedCall_failure _ _ _ _ h2, hf, hc, setFence,
      Step.trace, vkCall, emit, skip, andThen_ok, andThen_abort, fenceProtocol, fenceStep,
      Op.waitedFence, Op.submittedFence, Op.signaledFence]
  by_cases h3 : env.resetCommandBuffer = VK_SUCCESS
  swap
  · by_cases hf : st.firstFrame = true <;>
    by_cases hs : env.acquireNextImage = VK_ERROR_OUT_OF_DATE_KHR ∨
      env.acquireNextImage = VK_SUBOPTIMAL_KHR <;>
    by_cases hc : st.currentFrame = fence <;>
    simp [render, buildCommandBuffer, updateUniformBuffer, logFirstFrame,
      prepareFrame_success, h1, h2, checkedCall_success,
      checkedCall_failure _ _ _ _ h3, hf, hs, hc, setFence,
      Step.trace, vkCall, emit, skip, andThen_ok, andThen_abort, fenceProtocol, fenceStep,
      Op.waitedFence, Op.submittedFence, Op.signaledFence]
  by_cases h4 : env.beginCommandBuffer = VK_SUCCESS
  swap
  · by_cases hf : st.firstFrame = true <;>
    by_cases hs : env.acquireNextImage = VK_ERROR_OUT_OF_DATE_KHR ∨
      env.acquireNextImage = VK_SUBOPTIMAL_KHR <;>
    by_cases hc : st.currentFrame = fence <;>
    simp [render, buildCommandBuffer, updateUniformBuffer, logFirstFrame,
      prepareFrame_success, h1, h2, h3, checkedCall_success,
      checkedCall_failure _ _ _ _ h4, hf, hs, hc, setFence,
      Step.trace, vkCall, emit, skip, andThen_ok, andThen_abort, fenceProtocol, fenceStep,
      Op.waitedFence, Op.submittedFence, Op.signaledFence]
  by_cases h5 : env.endCommandBuffer = VK_SUCCESS
  swap
  · by_cases hf : st.firstFrame = true <;>
    by_cases hs : env.acquireNextImage = VK_ERROR_OUT_OF_DATE_KHR ∨
      env.acquireNextImage = VK_SUBOPTIMAL_KHR <;>
    by_cases hc : st.currentFrame = fence <;>
    simp [render, buildCommandBuffer, updateUniformBuffer, logFirstFrame,
      prepareFrame_success, h1, h2, h3, h4, checkedCall_success,
      checkedCall_failure _ _ _ _ h5, hf, hs, hc, setFence,
      Step.trace, vkCall, emit, skip, andThen_ok, andThen_abort, fenceProtocol, fenceStep,
      Op.waitedFence, Op.submittedFence, Op.signaledFence]
  by_cases h6 : env.queueSubmit = VK_SUCCESS
  swap
  · by_cases hf : st.firstFrame = true <;>
    by_cases hs : env.acquireNextImage = VK_ERROR_OUT_OF_DATE_KHR ∨
      env.acquireNextImage = VK_SUBOPTIMAL_KHR <;>
    by_cases hc : st.currentFrame = fence <;>
    simp [render, submitFrame, buildCommandBuffer, updateUniformBuffer, logFirstFrame,
      prepareFrame_success, h1, h2, h3, h4, h5, checkedCall_success,
      checkedCall_failure _ _ _ _ h6, hf, hs, hc, setFence,
      Step.trace, vkCall, emit, skip, andThen_ok, andThen_abort, fenceProtocol, fenceStep,
      Op.waitedFence, Op.submittedFence, Op.signaledFence]
  exact absurd (render_trace_success env st h1 h2 h3 h4 h5 h6).1 hok

theorem runActivity_accepts (fence : Nat) (a : Activity) (st : VulkanExampleBase) (r : Step)
    (hr : runActivity a st = some r) :
    ∃ q, fenceProtocol fence r.trace (phaseOf fence st) = some q := by
  cases a with
  | frame env =>
    simp only [runActivity] at hr
    split at hr
    · rename_i hg
      cases hr
      have := render_accepts env st fence
      by_cases hc : st.currentFrame = fence
      · subst hc
        simpa [phaseOf, hg] using this
      · simpa [hc] using this
    · cases hr
  | fenceSignaled slot =>
    simp only [runActivity] at hr
    split at hr
    · rename_i hg
      cases hr
      by_cases hsf : slot = fence
      · subst hsf
        simp [gpuSignal, vkCall, Step.trace, fenceProtocol, fenceStep, phaseOf, hg,
          Op.waitedFence, Op.submittedFence, Op.signaledFence]
      · simp [gpuSignal, vkCall, Step.trace, fenceProtocol, fenceStep, hsf,
          Op.waitedFence, Op.submittedFence, Op.signaledFence]
    · cases hr

theorem runActivities_accepts (fence : Nat) (acts : List Activity) :
    ∀ (st : VulkanExampleBase) (r : Step), runActivities acts st = some r →
      st.waitFences.length = MAX_CONCURRENT_FRAMES →
      st.currentFrame < MAX_CONCURRENT_FRAMES →
      ∃ q, fenceProtocol fence r.trace (phaseOf fence st) = some q := by
  induction acts with
  | nil =>
    intro st r hr _ _
    simp only [runActivities, Option.some.injEq] at hr
    subst hr
    exact ⟨_, rfl⟩
  | cons a rest ih =>
    intro st r hr hlen hcf
    simp only [runActivities] at hr
    cases h1 : runActivity a st with
    | none => simp [h1] at hr
    | some r1 =>
      simp only [h1] at hr
      cases hab : r1.aborted with
      | true =>
        simp only [hab, if_true, Option.some.injEq] at hr
        subst hr
        exact runActivity_accepts fence a st r1 h1
      | false =>
        simp only [hab, Bool.false_eq_true, if_false] at hr
        cases h2 : runActivities rest r1.st with
        | none => simp [h2] at hr
        | some r2 =>
          simp only [h2, Option.some.injEq] at hr
          subst hr
          obtain ⟨p1, l1, c1⟩ := runActivity_protocol fence a st r1 h1 hab hlen hcf
          obtain ⟨q, p2⟩ := ih r1.st r2 h2 l1 c1
          have ht : Step.trace { st := r2.st, ops := r1.ops ++ r2.ops, aborted := r2.aborted } =
              r1.trace ++ r2.trace := by
            simp [Step.trace]
          rw [ht, fenceProtocol_append, p1]
          exact ⟨q, p2⟩

theorem waitedFence_exclusive (o : Op) (f : Nat) (h : o.waitedFence = some f) :
    o.submittedFence = none ∧ o.signaledFence = none := by
  cases o <;> simp [Op.waitedFence] at h
  exact ⟨rfl, rfl⟩

theorem submittedFence_exclusive (o : Op) (f : Nat) (h : o.submittedFence = some f) :
    o.signaledFence = none := by
  cases o <;> simp [Op.submittedFence] at h
  rfl

theorem fenceProtocol_balance (fence : Nat) (w : List Op) :
    ∀ (q q2 : FencePhase), fenceProtocol fence w q = some q2 →
      q.outstanding + w.countP (fun o => o.submittedFence == some fence) =
        q2.outstanding + w.countP (fun o => o.signaledFence == some fence) := by
  induction w with
  | nil =>
    intro q q2 h
    simp only [fenceProtocol, Option.some.injEq] at h
    subst h
    rfl
  | cons o rest ih =>
    intro q q2 h
    simp only [fenceProtocol] at h
    cases hs : fenceStep fence q o with
    | none => simp [hs] at h
    | some q1 =>
      simp only [hs] at h
      have hrec := ih q1 q2 h
      unfold fenceStep at hs
      by_cases hw : o.waitedFence = some fence
      · obtain ⟨e1, e2⟩ := waitedFence_exclusive o fence hw
        simp only [hw, if_true] at hs
        split at hs
        · rename_i hq
          cases hs
          subst hq
          simp [List.countP_cons, e1, e2, FencePhase.outstanding] at hrec ⊢
          exact hrec
        · cases hs
      · simp only [hw, if_false] at hs
        by_cases hsub : o.submittedFence = some fence
        · have e2 := submittedFence_exclusive o fence hsub
          simp only [hsub, if_true] at hs
          split at hs
          · rename_i hq
            cases hs
            subst hq
            simp [List.countP_cons, hsub, e2, FencePhase.outstanding] at hrec ⊢
            omega
          · cases hs
        · simp only [hsub, if_false] at hs
          by_cases hsig : o.signaledFence = some fence
          · simp only [hsig, if_true] at hs
            split at hs
            · rename_i hq
              cases hs
              subst hq
              simp [List.countP_cons, hsub, hsig, FencePhase.outstanding] at hrec ⊢
              omega
            · cases hs
          · simp only [hsig, if_false, Option.some.injEq] at hs
            subst hs
            simp [List.countP_cons, hsub, hsig] at hrec ⊢
            exact hrec

theorem fenceProtocol_take (fence : Nat) (w : List Op) (q q2 : FencePhase) (n : Nat)
    (h : fenceProtocol fence w q = some q2) :
    ∃ q1, fenceProtocol fence (w.take n) q = some q1 := by
  rw [← List.take_append_drop n w, fenceProtocol_append] at h
  cases h1 : fenceProtocol fence (List.take n w) q with
  | none => simp [h1] at h
  | some q1 => exact ⟨q1, rfl⟩

theorem fenceProtocol_no_wait (fence : Nat) (w : List Op) :
    ∀ (q q2 : FencePhase), fenceProtocol fence w q = some q2 →
      (∀ o ∈ w, o.waitedFence ≠ some fence) →
      (q2 = q ∧ w.countP (fun o => o.submittedFence == some fence) = 0) ∨
      (q = FencePhase.recording ∧ q2 = FencePhase.busy ∧
        w.countP (fun o => o.submittedFence == some fence) = 1) ∨
      (q = FencePhase.recording ∧ q2 = FencePhase.idle ∧
        w.countP (fun o => o.submittedFence == some fence) = 1) ∨
      (q = FencePhase.busy ∧ q2 = FencePhase.idle ∧
        w.countP (fun o => o.submittedFence == some fence) = 0) := by
  induction w with
  | nil =>
    intro q q2 h _
    simp only [fenceProtocol, Option.some.injEq] at h
    exact Or.inl ⟨h.symm, rfl⟩
  | cons o rest ih =>
    intro q q2 h hnw
    simp only [fenceProtocol] at h
    have hw : o.waitedFence ≠ some fence := hnw o (List.mem_cons_self _ _)
    cases hs : fenceStep fence q o with
    | none => simp [hs] at h
    | some q1 =>
      simp only [hs] at h
      have hrec := ih q1 q2 h (fun x hx => hnw x (List.mem_cons_of_mem _ hx))
      unfold fenceStep at hs
      simp only [hw, if_false] at hs
      by_cases hsub : o.submittedFence = some fence
      · simp only [hsub, if_true] at hs
        split at hs
        · rename_i hq
          cases hs
          subst hq
          simp only [List.countP_cons, hsub, beq_self_eq_true, if_true]
          rcases hrec with ⟨rfl, hc⟩ | ⟨hq, _, _⟩ | ⟨hq, _, _⟩ | ⟨_, rfl, hc⟩
          · exact Or.inr (Or.inl ⟨trivial, rfl, by omega⟩)
          · cases hq
          · cases hq
          · exact Or.inr (Or.inr (Or.inl ⟨trivial, rfl, by omega⟩))
        · cases hs
      · simp only [hsub, if_false] at hs
        have hcount : (o :: rest).countP (fun o => o.submittedFence == some fence) =
            rest.countP (fun o => o.submittedFence == some fence) := by
          simp [List.countP_cons, hsub]
        rw [hcount]
        by_cases hsig : o.signaledFence = some fence
        · simp only [hsig, if_true] at hs
          split at hs
          · rename_i hq
            cases hs
            subst hq
            rcases hrec with ⟨rfl, hc⟩ | ⟨hq, _, _⟩ | ⟨hq, _, _⟩ | ⟨hq, _, _⟩
            · exact Or.inr (Or.inr (Or.inr ⟨rfl, rfl, hc⟩))
            · cases hq
            · cases hq
            · cases hq
          · cases hs
        · simp only [hsig, if_false, Option.some.injEq] at hs
          subst hs
          exact hrec

theorem runActivity_slots (a : Activity) (st : VulkanExampleBase) (r : Step)
    (hr : runActivity a st = some r) (hcf : st.currentFrame < MAX_CONCURRENT_FRAMES) :
    ∀ o ∈ r.trace, ∀ s ∈ o.slots, s < MAX_CONCURRENT_FRAMES := by
  intro o ho s hs
  cases a with
  | frame env =>
    simp only [runActivity] at hr
    split at hr
    · cases hr
      obtain ⟨e, he, rfl⟩ := List.mem_map.mp ho
      have := ((render_sat env st).1 e he).1 s hs
      omega
    · cases hr
  | fenceSignaled slot =>
    simp only [runActivity] at hr
    split at hr
    · cases hr
      simp [gpuSignal, vkCall, Step.trace] at ho
      subst ho
      simp [Op.slots] at hs
    · cases hr

theorem runActivities_slots (acts : List Activity) :
    ∀ (st : VulkanExampleBase) (r : Step), runActivities acts st = some r →
      st.waitFences.length = MAX_CONCURRENT_FRAMES →
      st.currentFrame < MAX_CONCURRENT_FRAMES →
      ∀ o ∈ r.trace, ∀ s ∈ o.slots, s < MAX_CONCURRENT_FRAMES := by
  induction acts with
  | nil =>
    intro st r hr _ _ o ho
    simp only [runActivities, Option.some.injEq] at hr
    subst hr
    simp [skip, Step.trace] at ho
  | cons a rest ih =>
    intro st r hr hlen hcf
    simp only [runActivities] at hr
    cases h1 : runActivity a st with
    | none => simp [h1] at hr
    | some r1 =>
      simp only [h1] at hr
      cases hab : r1.aborted with
      | true =>
        simp only [hab, if_true, Option.some.injEq] at hr
        subst hr
        exact runActivity_slots a st r1 h1 hcf
      | false =>
        simp only [hab, Bool.false_eq_true, if_false] at hr
        cases h2 : runActivities rest r1.st with
        | none => simp [h2] at hr
        | some r2 =>
          simp only [h2, Option.some.injEq] at hr
          subst hr
          obtain ⟨_, l1, c1⟩ := runActivity_protocol 0 a st r1 h1 hab hlen hcf
          have p2 := ih r1.st r2 h2 l1 c1
          intro o ho s hs
          simp only [Step.trace, List.map_append, List.mem_append] at ho
          rcases ho with ho | ho
          · exact runActivity_slots a st r1 h1 hcf o ho s hs
          · exact p2 o ho s hs

theorem waitedFence_eq (o : Op) (f : Nat) (h : o.waitedFence = some f) :
    o = Op.vkWaitForFences f := by
  cases o <;> simp [Op.waitedFence] at h
  rw [h]

theorem submittedFence_mem_slots (o : Op) (f : Nat) (h : o.submittedFence = some f) :
    f ∈ o.slots := by
  cases o <;> simp [Op.submittedFence] at h
  simp [Op.slots, h]

theorem phaseOf_created (st : VulkanExampleBase) (fence : Nat)
    (h : st.waitFences = [FenceStatus.signaled, FenceStatus.signaled]) :
    phaseOf fence st = FencePhase.idle := by
  unfold phaseOf
  rw [h]
  rcases fence with _ | _ | _ <;> simp

theorem inFlight_le_one (fence : Nat) (w : List Op) (q : FencePhase)
    (h : fenceProtocol fence w FencePhase.idle = some q) :
    w.countP (fun o => o.signaledFence == some fence) ≤
      w.countP (fun o => o.submittedFence == some fence) ∧ inFlight w fence ≤ 1 := by
  have hb := fenceProtocol_balance fence w _ _ h
  unfold inFlight
  cases q <;> simp only [FencePhase.outstanding] at hb <;> omega

theorem fenceProtocol_wait_cons (fence : Nat) (w : List Op) (q : FencePhase) :
    fenceProtocol fence (Op.vkWaitForFences fence :: w) q =
      if q = FencePhase.idle then fenceProtocol fence w FencePhase.recording else none := by
  by_cases hq : q = FencePhase.idle <;> simp [fenceProtocol, fenceStep, Op.waitedFence, hq]

theorem fence_bounds_of_protocol (w : List Op)
    (hp : ∀ fence, ∃ q, fenceProtocol fence w FencePhase.idle = some q)
    (hs : ∀ o ∈ w, ∀ f : Nat, o.submittedFence = some f → f < MAX_CONCURRENT_FRAMES) :
    (∀ (fence n : Nat),
      (w.take n).countP (fun o => o.signaledFence == some fence) ≤
        (w.take n).countP (fun o => o.submittedFence == some fence) ∧
      inFlight (w.take n) fence ≤ 1) ∧
    (∀ (fence : Nat) (pre mid post : List Op),
      w = pre ++ Op.vkWaitForFences fence :: (mid ++ Op.vkWaitForFences fence :: post) →
      Op.vkWaitForFences fence ∉ mid →
      mid.countP (fun o => o.submittedFence == some fence) = 1) ∧
    (∀ o ∈ w, ∀ (fence : Nat), o.submittedFence = some fence →
      fence < MAX_CONCURRENT_FRAMES) ∧
    (∀ n : Nat, ((List.range MAX_CONCURRENT_FRAMES).map (inFlight (w.take n))).sum ≤
      MAX_CONCURRENT_FRAMES) := by
  have h1 : ∀ (fence n : Nat),
      (w.take n).countP (fun o => o.signaledFence == some fence) ≤
        (w.take n).countP (fun o => o.submittedFence == some fence) ∧
      inFlight (w.take n) fence ≤ 1 := by
    intro fence n
    obtain ⟨q, hq⟩ := hp fence
    obtain ⟨q1, hq1⟩ := fenceProtocol_take fence w _ _ n hq
    exact inFlight_le_one fence _ q1 hq1
  refine ⟨h1, ?_, hs, ?_⟩
  · intro fence pre mid post ht hmid
    obtain ⟨q, h⟩ := hp fence
    rw [ht, fenceProtocol_append] at h
    cases ha : fenceProtocol fence pre FencePhase.idle with
    | none => simp [ha] at h
    | some qa =>
      rw [ha, Option.some_bind, fenceProtocol_wait_cons] at h
      by_cases hqa : qa = FencePhase.idle
      · rw [if_pos hqa, fenceProtocol_append] at h
        cases hb : fenceProtocol fence mid FencePhase.recording with
        | none => simp [hb] at h
        | some qb =>
          rw [hb, Option.some_bind, fenceProtocol_wait_cons] at h
          by_cases hqb : qb = FencePhase.idle
          · subst hqb
            have hnw : ∀ o ∈ mid, o.waitedFence ≠ some fence := by
              intro o ho hw
              rw [waitedFence_eq o fence hw] at ho
              exact hmid ho
            rcases fenceProtocol_no_wait fence mid _ _ hb hnw with
              ⟨hq, _⟩ | ⟨_, hq, _⟩ | ⟨_, _, hc⟩ | ⟨hq, _, _⟩
            · cases hq
            · cases hq
            · exact hc
            · cases hq
          · rw [if_neg hqb] at h
            cases h
      · rw [if_neg hqa] at h
        cases h
  · intro n
    have a0 := (h1 0 n).2
    have a1 := (h1 1 n).2
    simp only [MAX_CONCURRENT_FRAMES, List.range_succ, List.range_zero, List.nil_append,
      List.cons_append, List.map_cons, List.map_nil, List.sum_cons, List.sum_nil]
    omega

theorem runActivities_fence_bounds (acts : List Activity) (st0 : VulkanExampleBase)
    (r : Step) (h0 : st0.waitFences = [FenceStatus.signaled, FenceStatus.signaled])
    (hcf : st0.currentFrame < MAX_CONCURRENT_FRAMES)
    (hr : runActivities acts st0 = some r) :
    (∀ (fence n : Nat),
      (r.trace.take n).countP (fun o => o.signaledFence == some fence) ≤
        (r.trace.take n).countP (fun o => o.submittedFence == some fence) ∧
      inFlight (r.trace.take n) fence ≤ 1) ∧
    (∀ n : Nat, ((List.range MAX_CONCURRENT_FRAMES).map (inFlight (r.trace.take n))).sum ≤
      MAX_CONCURRENT_FRAMES) := by
  have hlen : st0.waitFences.length = MAX_CONCURRENT_FRAMES := by rw [h0]; rfl
  have key := fence_bounds_of_protocol r.trace
    (fun fence => by
      have := runActivities_accepts fence acts st0 r hr hlen hcf
      rwa [phaseOf_created st0 fence h0] at this)
    (fun o ho fence hs => runActivities_slots acts st0 r hr hlen hcf o ho fence
      (submittedFence_mem_slots o fence hs))
  exact ⟨key.1, key.2.2.2⟩

/-! ## Monotonicity of the memory type search -/

theorem getMemoryTypeIndex_of_match (mp : VkPhysicalDeviceMemoryProperties)
    (typeBits properties : Nat)
    (h : ∃ i, i < mp.memoryTypeCount ∧ MemoryTypeMatches mp typeBits properties i) :
    getMemoryTypeIndex mp typeBits properties < mp.memoryTypeCount ∧
    MemoryTypeMatches mp typeBits properties (getMemoryTypeIndex mp typeBits properties) ∧
    ∀ j, j < getMemoryTypeIndex mp typeBits properties →
      ¬ MemoryTypeMatches mp typeBits properties j := by
  have hs := getMemoryTypeIndexLoop_some mp typeBits properties mp.memoryTypeCount 0
  have hn := getMemoryTypeIndexLoop_none mp typeBits properties mp.memoryTypeCount 0
  simp only [Nat.shiftRight_zero, Nat.zero_add] at hs hn
  unfold getMemoryTypeIndex
  cases hl : getMemoryTypeIndexLoop mp properties mp.memoryTypeCount 0 typeBits with
  | none =>
    obtain ⟨i, hi, hm⟩ := h
    exact absurd hm (hn hl i (Nat.zero_le _) hi)
  | some r =>
    obtain ⟨_, b, c, d⟩ := hs r hl
    exact ⟨b, c, fun j hj => d j (Nat.zero_le _) hj⟩

/-- C30: for a fixed memory-type table and mask, when every flag of `A` is a
flag of `B` and some index below `memoryTypeCount` matches `(typeBits, B)`, the
index found for `A` is at most the index found for `B`, and it is itself a
match for `A`. -/
theorem getMemoryTypeIndex_monotone (mp : VkPhysicalDeviceMemoryProperties)
    (typeBits A B : Nat)
    (hsub : ∀ b : Nat, A.testBit b = true → B.testBit b = true)
    (hex : ∃ i, i < mp.memoryTypeCount ∧ MemoryTypeMatches mp typeBits B i) :
    getMemoryTypeIndex mp typeBits A ≤ getMemoryTypeIndex mp typeBits B ∧
    MemoryTypeMatches mp typeBits A (getMemoryTypeIndex mp typeBits A) := by
  obtain ⟨hb1, hb2, _⟩ := getMemoryTypeIndex_of_match mp typeBits B hex
  have hba : MemoryTypeMatches mp typeBits A (getMemoryTypeIndex mp typeBits B) :=
    ⟨hb2.1, fun b hb => hb2.2 b (hsub b hb)⟩
  obtain ⟨_, ha2, ha3⟩ := getMemoryTypeIndex_of_match mp typeBits A ⟨_, hb1, hba⟩
  refine ⟨?_, ha2⟩
  by_contra hlt
  exact ha3 _ (Nat.lt_of_not_le hlt) hba

/-- Witness for C30: in the example table, with all three types allowed, the
search for the device-local flag (1) finds index 0 and the search for all three
flags (7) finds index 2. -/
theorem getMemoryTypeIndex_monotone_witness :
    getMemoryTypeIndex exampleMemoryProperties 7 1 = 0 ∧
    getMemoryTypeIndex exampleMemoryProperties 7 7 = 2 ∧
    getMemoryTypeIndex exampleMemoryProperties 7 1 ≤
      getMemoryTypeIndex exampleMemoryProperties 7 7 ∧
    MemoryTypeMatches exampleMemoryProperties 7 1
      (getMemoryTypeIndex exampleMemoryProperties 7 1) :=
  ⟨by decide, by decide,
   getMemoryTypeIndex_monotone exampleMemoryProperties 7 1 7
    ((and_eq_right_iff 7 1).mp (by decide))
    ⟨2, by decide, by
      refine ⟨by decide, ?_⟩
      rw [← and_eq_right_iff]
      decide⟩⟩

/-! ## Stencil aspect of the candidate depth formats -/

theorem selectDepthFormatLoop_mem (feat : Nat → Nat) (d : Nat) (l : List Nat) :
    selectDepthFormatLoop feat l d ∈ d :: l := by
  induction l with
  | nil => simp [selectDepthFormatLoop]
  | cons x rest ih =>
    unfold selectDepthFormatLoop
    split
    · simp
    · rcases List.mem_cons.mp ih with h | h
      · rw [h]; simp
      · exact List.mem_cons_of_mem _ (List.mem_cons_of_mem _ h)

theorem setupDepthStencil_view (env : BringUpEnv) (st : VulkanExampleBase)
    (image format aspect : Nat)
    (h : Op.vkCreateImageView image format aspect ∈ (setupDepthStencil env st).trace) :
    format = selectDepthFormat env.optimalTilingFeatures st.depthFormat ∧
    aspect = depthAspectMask format := by
  unfold setupDepthStencil at h
  rcases mem_trace_andThen h with h | h
  · simp [skip, Step.trace] at h
  rcases mem_trace_andThen h with h | h
  · rcases checkedCall_trace_mem h with h | h | h <;> simp at h
  rcases mem_trace_andThen h with h | h
  · rcases checkedCall_trace_mem h with h | h | h <;> simp at h
  rcases mem_trace_andThen h with h | h
  · rcases checkedCall_trace_mem h with h | h | h <;> simp at h
  rcases checkedCall_trace_mem h with h | h | h
  · simp only [checkedCall_id_st, skip, Op.vkCreateImageView.injEq] at h
    obtain ⟨-, h2, h3⟩ := h
    subst h2
    exact ⟨rfl, h3⟩
  · simp at h
  · simp at h

/-- C28: with the Vulkan enum values UNDEFINED = 0, D16_UNORM = 124,
D32_SFLOAT = 126, D16_UNORM_S8_UINT = 128, D24_UNORM_S8_UINT = 129 and
D32_SFLOAT_S8_UINT = 130, for the default `VK_FORMAT_UNDEFINED` and each of the
five formats of the priority list the aspect mask of the depth view contains the
stencil aspect exactly when the format has a stencil component; the format of
a depth view created from the default is one of these six, so the same holds of
every depth view that `setupDepthStencil` creates from it. -/
theorem depthAspectMask_stencil_iff_combined :
    (VK_FORMAT_UNDEFINED = 0 ∧ VK_FORMAT_D16_UNORM = 124 ∧ VK_FORMAT_D32_SFLOAT = 126 ∧
      VK_FORMAT_D16_UNORM_S8_UINT = 128 ∧ VK_FORMAT_D24_UNORM_S8_UINT = 129 ∧
      VK_FORMAT_D32_SFLOAT_S8_UINT = 130) ∧
    (∀ format ∈ VK_FORMAT_UNDEFINED :: depthFormats,
      (depthAspectMask format &&& VK_IMAGE_ASPECT_STENCIL_BIT = VK_IMAGE_ASPECT_STENCIL_BIT ↔
        isCombinedDepthStencil format = true)) ∧
    (∀ (env : BringUpEnv) (st : VulkanExampleBase) (image format aspect : Nat),
      st.depthFormat = VK_FORMAT_UNDEFINED →
      Op.vkCreateImageView image format aspect ∈ (setupDepthStencil env st).trace →
      format ∈ VK_FORMAT_UNDEFINED :: depthFormats ∧
      (aspect &&& VK_IMAGE_ASPECT_STENCIL_BIT = VK_IMAGE_ASPECT_STENCIL_BIT ↔
        isCombinedDepthStencil format = true)) := by
  have h6 : ∀ format ∈ VK_FORMAT_UNDEFINED :: depthFormats,
      (depthAspectMask format &&& VK_IMAGE_ASPECT_STENCIL_BIT = VK_IMAGE_ASPECT_STENCIL_BIT ↔
        isCombinedDepthStencil format = true) := by
    decide
  refine ⟨by decide, h6, ?_⟩
  intro env st image format aspect hd hv
  obtain ⟨hf, ha⟩ := setupDepthStencil_view env st image format aspect hv
  have hm : format ∈ VK_FORMAT_UNDEFINED :: depthFormats := by
    rw [hf, hd]
    exact selectDepthFormatLoop_mem _ _ _
  rw [ha]
  exact ⟨hm, h6 format hm⟩

/-- Witness for C28: on an adapter supporting only `VK_FORMAT_D24_UNORM_S8_UINT`
the depth view created from the initial state has that format and both aspects,
and on one supporting no candidate it has format `VK_FORMAT_UNDEFINED` and the
depth aspect only. -/
theorem depthAspectMask_stencil_iff_combined_witness :
    (VK_FORMAT_D24_UNORM_S8_UINT ∈ VK_FORMAT_UNDEFINED :: depthFormats ∧
      (6 &&& VK_IMAGE_ASPECT_STENCIL_BIT = VK_IMAGE_ASPECT_STENCIL_BIT ↔
        isCombinedDepthStencil VK_FORMAT_D24_UNORM_S8_UINT = true)) ∧
    Op.vkCreateImageView 20 VK_FORMAT_UNDEFINED VK_IMAGE_ASPECT_DEPTH_BIT ∈
      (setupDepthStencil { exampleBringUp with optimalTilingFeatures := fun _ => 0 } {}).trace :=
  ⟨depthAspectMask_stencil_iff_combined.2.2 d24BringUp {} 20 VK_FORMAT_D24_UNORM_S8_UINT 6
    rfl (by decide), by decide⟩

/-! ## Selection of the surface format -/

theorem selectSurfaceFormatLoop_first (sel : Nat × Nat) :
    ∀ (l : List VkSurfaceFormatKHR) (k : Nat) (f : VkSurfaceFormatKHR),
      l[k]? = some f → f.format = VK_FORMAT_R8G8B8A8_UNORM →
      (∀ (j : Nat) (g : VkSurfaceFormatKHR), j < k → l[j]? = some g →
        g.format ≠ VK_FORMAT_R8G8B8A8_UNORM) →
      selectSurfaceFormatLoop l sel = (f.format, f.colorSpace) := by
  intro l
  induction l with
  | nil => intro k f hk; simp at hk
  | cons x rest ih =>
    intro k f hk hf hmin
    cases k with
    | zero =>
      simp only [List.getElem?_cons_zero, Option.some.injEq] at hk
      subst hk
      simp [selectSurfaceFormatLoop, hf]
    | succ k =>
      have hx : x.format ≠ VK_FORMAT_R8G8B8A8_UNORM := hmin 0 x (Nat.succ_pos k) (by simp)
      simp only [selectSurfaceFormatLoop, hx, if_false]
      exact ih k f (by simpa using hk) hf
        (fun j g hj hg => hmin (j + 1) g (Nat.succ_lt_succ hj) (by simpa using hg))

theorem selectSurfaceFormatLoop_none (sel : Nat × Nat) (l : List VkSurfaceFormatKHR)
    (h : ∀ f ∈ l, f.format ≠ VK_FORMAT_R8G8B8A8_UNORM) :
    selectSurfaceFormatLoop l sel = sel := by
  induction l with
  | nil => rfl
  | cons x rest ih =>
    have hx : x.format ≠ VK_FORMAT_R8G8B8A8_UNORM := h x (List.mem_cons_self _ _)
    simp only [selectSurfaceFormatLoop, hx, if_false]
    exact ih fun g hg => h g (List.mem_cons_of_mem _ hg)

theorem mem_trace_andThen_run {a : Step} {f : VulkanExampleBase → Step} {o : Op}
    (h : o ∈ (a.andThen f).trace) :
    o ∈ a.trace ∨ (a.aborted = false ∧ o ∈ (f a.st).trace) := by
  rw [andThen_trace] at h
  by_cases ha : a.aborted = true
  · simp only [ha, if_true] at h
    exact Or.inl h
  · simp only [ha, Bool.false_eq_true, if_false, List.mem_append] at h
    rcases h with h | h
    · exact Or.inl h
    · exact Or.inr ⟨by simpa using ha, h⟩

theorem createSwapChain_format (env : BringUpEnv) (st : VulkanExampleBase)
    (n fmt cs w h : Nat)
    (hm : Op.vkCreateSwapchainKHR n fmt cs w h ∈ (createSwapChain env st).trace) :
    selectSurfaceFormat env.surfaceFormats = some (fmt, cs) := by
  have hloop : ∀ (images : List Nat) (k i : Nat) (s : VulkanExampleBase),
      Op.vkCreateSwapchainKHR n fmt cs w h ∉ (createImageViewsLoop env images k i s).trace := by
    intro images k
    induction k with
    | zero => intro i s hx; simp [createImageViewsLoop, skip, Step.trace] at hx
    | succ k ih =>
      intro i s hx
      unfold createImageViewsLoop at hx
      rcases mem_trace_andThen hx with hx | hx
      · simp [skip, Step.trace] at hx
      rcases mem_trace_andThen hx with hx | hx
      · rcases checkedCall_trace_mem hx with hx | hx | hx <;> simp at hx
      exact ih _ _ hx
  unfold createSwapChain at hm
  rcases mem_trace_andThen hm with hm | hm
  · rcases checkedCall_trace_mem hm with hm | hm | hm <;> simp at hm
  rcases mem_trace_andThen hm with hm | hm
  · rcases checkedCall_trace_mem hm with hm | hm | hm <;> simp at hm
  rcases mem_trace_andThen hm with hm | hm
  · rcases checkedCall_trace_mem hm with hm | hm | hm <;> simp at hm
  simp only [checkedCall_id_st] at hm
  cases hsel : selectSurfaceFormat env.surfaceFormats with
  | none =>
    simp only [hsel] at hm
    rcases mem_trace_andThen_run hm with hm | ⟨hab, _⟩
    · simp [undefinedRead, Step.trace] at hm
    · simp [undefinedRead] at hab
  | some selected =>
    simp only [hsel] at hm
    rcases mem_trace_andThen hm with hm | hm
    · simp [skip, Step.trace] at hm
    rcases mem_trace_andThen hm with hm | hm
    · rcases checkedCall_trace_mem hm with hm | hm | hm <;> simp at hm
    rcases mem_trace_andThen hm with hm | hm
    · rcases checkedCall_trace_mem hm with hm | hm | hm <;> simp at hm
    rcases mem_trace_andThen hm with hm | hm
    · simp [skip, Step.trace] at hm
    rcases mem_trace_andThen hm with hm | hm
    · rcases checkedCall_trace_mem hm with hm | hm | hm
      · simp only [checkedCall_id_st, skip, Op.vkCreateSwapchainKHR.injEq] at hm
        obtain ⟨-, h2, h3, -, -⟩ := hm
        rw [h2, h3]
      · simp at hm
      · simp at hm
    rcases mem_trace_andThen hm with hm | hm
    · rcases checkedCall_trace_mem hm with hm | hm | hm <;> simp at hm
    rcases mem_trace_andThen hm with hm | hm
    · rcases checkedCall_trace_mem hm with hm | hm | hm <;> simp at hm
    rcases mem_trace_andThen hm with hm | hm
    · simp [skip, Step.trace] at hm
    exact absurd hm (hloop _ _ _ _)

/-- C29: for every list of surface formats, when its entry at position `k` has
format `R8G8B8A8_UNORM` and no earlier entry has, the selection gives the format
and colour space of that entry, which is a member of the list; when the list is
not empty and no entry has that format, the colour space selected is that of the
first entry (and the format selected is `R8G8B8A8_UNORM`); the pair selected is
the format and colour space with which `createSwapChain` creates the
swapchain. -/
theorem selectSurfaceFormat_first_rgba (surfaceFormats : List VkSurfaceFormatKHR) :
    (∀ (k : Nat) (f : VkSurfaceFormatKHR), surfaceFormats[k]? = some f →
      f.format = VK_FORMAT_R8G8B8A8_UNORM →
      (∀ (j : Nat) (g : VkSurfaceFormatKHR), j < k → surfaceFormats[j]? = some g →
        g.format ≠ VK_FORMAT_R8G8B8A8_UNORM) →
      selectSurfaceFormat surfaceFormats = some (f.format, f.colorSpace) ∧
        f ∈ surfaceFormats) ∧
    (∀ (first : VkSurfaceFormatKHR) (rest : List VkSurfaceFormatKHR),
      surfaceFormats = first :: rest →
      (∀ f ∈ surfaceFormats, f.format ≠ VK_FORMAT_R8G8B8A8_UNORM) →
      selectSurfaceFormat surfaceFormats = some (VK_FORMAT_R8G8B8A8_UNORM, first.colorSpace)) ∧
    (∀ (env : BringUpEnv) (st : VulkanExampleBase) (n fmt cs w h : Nat),
      env.surfaceFormats = surfaceFormats →
      Op.vkCreateSwapchainKHR n fmt cs w h ∈ (createSwapChain env st).trace →
      selectSurfaceFormat surfaceFormats = some (fmt, cs)) := by
  refine ⟨?_, ?_, ?_⟩
  · intro k f hk hf hmin
    refine ⟨?_, by
      obtain ⟨hlt, he⟩ := List.getElem?_eq_some_iff.mp hk
      rw [← he]
      exact List.getElem_mem hlt⟩
    cases hl : surfaceFormats with
    | nil => rw [hl] at hk; simp at hk
    | cons first rest =>
      simp only [selectSurfaceFormat]
      rw [← hl, selectSurfaceFormatLoop_first _ surfaceFormats k f hk hf hmin]
  · intro first rest hl hno
    subst hl
    simp only [selectSurfaceFormat]
    rw [selectSurfaceFormatLoop_none _ _ hno]
  · intro env st n fmt cs w h he hm
    rw [← he]
    exact createSwapChain_format env st n fmt cs w h hm

/-- Witness for C29: in a list whose second entry is the first with format
`R8G8B8A8_UNORM`, that entry is selected. -/
theorem selectSurfaceFormat_first_rgba_witness :
    selectSurfaceFormat
        [{ format := VK_FORMAT_B8G8R8A8_UNORM, colorSpace := 0 },
         { format := VK_FORMAT_R8G8B8A8_UNORM, colorSpace := 5 },
         { format := VK_FORMAT_R8G8B8A8_UNORM, colorSpace := 7 }] =
      some (VK_FORMAT_R8G8B8A8_UNORM, 5) ∧
    ({ format := VK_FORMAT_R8G8B8A8_UNORM, colorSpace := 5 } : VkSurfaceFormatKHR) ∈
        [{ format := VK_FORMAT_B8G8R8A8_UNORM, colorSpace := 0 },
         { format := VK_FORMAT_R8G8B8A8_UNORM, colorSpace := 5 },
         { format := VK_FORMAT_R8G8B8A8_UNORM, colorSpace := 7 }] :=
  (selectSurfaceFormat_first_rgba _).1 1 { format := VK_FORMAT_R8G8B8A8_UNORM, colorSpace := 5 }
    rfl rfl (by intro j g hj hg; have : j = 0 := by omega
                subst this; simp at hg; subst hg; decide)

/-! ## A stale swapchain reported by the acquire -/

theorem andThen_same_left {a a0 : Step} {K : VulkanExampleBase → Step} {p : Op → Bool}
    (h1 : a.st = a0.st) (h2 : a.aborted = a0.aborted) (h3 : a.trace.filter p = a0.trace)
    (hK : ∀ s, ∀ o ∈ (K s).trace, p o = true) :
    (a.andThen K).st = (a0.andThen K).st ∧ (a.andThen K).aborted = (a0.andThen K).aborted ∧
    (a.andThen K).trace.filter p = (a0.andThen K).trace := by
  rw [andThen_st, andThen_st, andThen_aborted, andThen_aborted, andThen_trace, andThen_trace,
    ← h2, ← h1]
  cases hab : a.aborted
  · simp only [Bool.false_eq_true, if_false, List.filter_append, h3, true_and]
    rw [List.filter_eq_self.mpr (hK a.st)]
  · simp only [if_true, h1, h3, and_self]

theorem andThen_same_right {a : Step} {f g : VulkanExampleBase → Step} {p : Op → Bool}
    (ha : ∀ o ∈ a.trace, p o = true)
    (hf : (f a.st).st = (g a.st).st ∧ (f a.st).aborted = (g a.st).aborted ∧
      (f a.st).trace.filter p = (g a.st).trace) :
    (a.andThen f).st = (a.andThen g).st ∧ (a.andThen f).aborted = (a.andThen g).aborted ∧
    (a.andThen f).trace.filter p = (a.andThen g).trace := by
  rw [andThen_st, andThen_st, andThen_aborted, andThen_aborted, andThen_trace, andThen_trace]
  obtain ⟨e1, e2, e3⟩ := hf
  cases hab : a.aborted
  · simp only [Bool.false_eq_true, if_false, List.filter_append, e1, e2, e3, true_and]
    rw [List.filter_eq_self.mpr ha]
  · simp only [if_true, true_and]
    exact List.filter_eq_self.mpr ha

theorem prepareFrame_stale_as_success (env : FrameEnv) (s : VulkanExampleBase) (b : Nat)
    (hs : env.acquireNextImage = VK_SUBOPTIMAL_KHR ∨
      env.acquireNextImage = VK_ERROR_OUT_OF_DATE_KHR)
    (hb : acquiredBuffer env s = b) (hlt : b < UINT32_MOD) :
    (prepareFrame env s).st =
      (prepareFrame (env.asSuccess b) s).st ∧
    (prepareFrame env s).aborted =
      (prepareFrame (env.asSuccess b) s).aborted ∧
    (prepareFrame env s).trace.filter (fun o => o != Op.logSwapchainStale) =
      (prepareFrame (env.asSuccess b) s).trace := by
  have hm : b % UINT32_MOD = b := Nat.mod_eq_of_lt hlt
  have e5 : VK_SUCCESS ≠ VK_ERROR_OUT_OF_DATE_KHR := by decide
  have e6 : VK_SUCCESS ≠ VK_SUBOPTIMAL_KHR := by decide
  by_cases h1 : env.waitForFences = VK_SUCCESS
  swap
  · simp [prepareFrame, checkedCall_failure _ _ _ _ h1, Step.trace, andThen_abort,
      FrameEnv.asSuccess]
  by_cases h2 : env.resetFences = VK_SUCCESS
  swap
  · simp [prepareFrame, h1, checkedCall_success, checkedCall_failure _ _ _ _ h2, Step.trace,
      andThen_ok, andThen_abort, setFence, FrameEnv.asSuccess]
  rw [prepareFrame_success env s h1 h2,
    prepareFrame_success (env.asSuccess b) s h1 h2, hb]
  have hor : env.acquireNextImage = VK_ERROR_OUT_OF_DATE_KHR ∨
      env.acquireNextImage = VK_SUBOPTIMAL_KHR := hs.symm
  simp [Step.trace, acquiredBuffer, hm, hor, e5, e6, FrameEnv.asSuccess]

theorem checkLogs_frameRest :
    CheckLogs (fun e => e.op.component = none ∧ e.op ≠ Op.logSwapchainStale) := by
  intro fs
  simp [Op.component]

theorem frameRest_sat (env : FrameEnv) (st : VulkanExampleBase) :
    ((updateUniformBuffer st).andThen fun s =>
      (buildCommandBuffer env s).andThen fun s => submitFrame env s).Sat
      (fun e => e.op.component = none ∧ e.op ≠ Op.logSwapchainStale) (fun _ => True) := by
  have hE : ∀ (s : VulkanExampleBase) (op : Op), op.component = none →
      op ≠ Op.logSwapchainStale →
      (emit op s).Sat (fun e => e.op.component = none ∧ e.op ≠ Op.logSwapchainStale)
        (fun _ => True) :=
    fun s op h1 h2 => sat_emit ⟨h1, h2⟩ trivial
  have hC : ∀ (s : VulkanExampleBase) (op : Op) (res : Int)
      (effect : VulkanExampleBase → VulkanExampleBase), op.component = none →
      op ≠ Op.logSwapchainStale →
      (checkedCall op res effect s).Sat
        (fun e => e.op.component = none ∧ e.op ≠ Op.logSwapchainStale) (fun _ => True) :=
    fun s op res effect h1 h2 => sat_checkedCall ⟨h1, h2⟩ checkLogs_frameRest (fun _ => trivial)
  unfold updateUniformBuffer buildCommandBuffer submitFrame
  refine sat_andThen (hE _ _ rfl (by simp)) fun s _ => ?_
  refine sat_andThen (Q := fun _ => True) ?_ fun s _ => ?_
  · refine sat_andThen (hC _ _ _ _ rfl (by simp)) fun s _ => ?_
    refine sat_andThen (hC _ _ _ _ rfl (by simp)) fun s _ => ?_
    refine sat_andThen (hE _ _ rfl (by simp)) fun s _ => ?_
    refine sat_andThen (hE _ _ rfl (by simp)) fun s _ => ?_
    refine sat_andThen (hE _ _ rfl (by simp)) fun s _ => ?_
    refine sat_andThen (hE _ _ rfl (by simp)) fun s _ => ?_
    refine sat_andThen (hE _ _ rfl (by simp)) fun s _ => ?_
    refine sat_andThen (hE _ _ rfl (by simp)) fun s _ => ?_
    refine sat_andThen (hE _ _ rfl (by simp)) fun s _ => ?_
    refine sat_andThen (hE _ _ rfl (by simp)) fun s _ => ?_
    refine sat_andThen (hE _ _ rfl (by simp)) fun s _ => ?_
    exact hC _ _ _ _ rfl (by simp)
  refine sat_andThen (hC _ _ _ _ rfl (by simp)) fun s _ => ?_
  refine sat_andThen (hE _ _ rfl (by simp)) fun s _ => ?_
  exact sat_vkCall ⟨rfl, by simp⟩ trivial

theorem render_no_component (env : FrameEnv) (st : VulkanExampleBase) :
    ∀ o ∈ (render env st).trace, o.component = none := by
  have h : (render env st).Sat (fun e => e.op.component = none) (fun _ => True) := by
    unfold render
    refine sat_andThen (Q := fun _ => True) ?_ fun s _ => ?_
    · unfold logFirstFrame
      split
      · exact sat_vkCall rfl trivial
      · exact sat_skip trivial
    refine sat_andThen (Q := fun _ => True) ?_ fun s _ => ?_
    · unfold prepareFrame
      refine sat_andThen (Q := fun _ => True)
        (sat_checkedCall rfl (fun fs => ⟨fun _ => rfl, rfl⟩) (fun _ => trivial)) fun s _ => ?_
      refine sat_andThen (Q := fun _ => True)
        (sat_checkedCall rfl (fun fs => ⟨fun _ => rfl, rfl⟩) (fun _ => trivial)) fun s _ => ?_
      refine sat_andThen (Q := fun _ => True) (sat_vkCall rfl trivial) fun s _ => ?_
      split
      · exact sat_emit rfl trivial
      · exact sat_skip trivial
    exact sat_weaken (frameRest_sat env s) (fun e h => h.1) (fun _ _ => trivial)
  intro o ho
  obtain ⟨e, he, rfl⟩ := List.mem_map.mp ho
  exact h.1 e he

theorem logFirstFrame_acquiredBuffer (env : FrameEnv) (st : VulkanExampleBase) :
    acquiredBuffer env (logFirstFrame st).st = acquiredBuffer env st := by
  unfold logFirstFrame
  split <;> simp [acquiredBuffer, vkCall, skip]

/-- C25: when the acquire answers suboptimal or out-of-date, `prepareFrame`
returns normally whenever its wait and its fence reset succeed, and the frame
goes on as it does when the acquire answers success and leaves the same image
index in `currentBuffer`: the final state is the same, the process is
terminated in the same cases, and the log is the same apart from the staleness
line; no call of a bring-up component (swapchain, render targets, frame
resources) is made; and when the frame completes, the command buffer is
submitted and presented and `currentFrame` is advanced. -/
theorem render_stale_acquire (env : FrameEnv) (st : VulkanExampleBase)
    (hs : env.acquireNextImage = VK_SUBOPTIMAL_KHR ∨
      env.acquireNextImage = VK_ERROR_OUT_OF_DATE_KHR)
    (hcb : st.currentBuffer < UINT32_MOD) :
    ((prepareFrame env st).aborted = false ↔
      env.waitForFences = VK_SUCCESS ∧ env.resetFences = VK_SUCCESS) ∧
    (render env st).st = (render (env.asSuccess (acquiredBuffer env st)) st).st ∧
    (render env st).aborted = (render (env.asSuccess (acquiredBuffer env st)) st).aborted ∧
    (render env st).trace.filter (fun o => o != Op.logSwapchainStale) =
      (render (env.asSuccess (acquiredBuffer env st)) st).trace ∧
    (∀ o ∈ (render env st).trace, o.component = none) ∧
    ((render env st).aborted = false →
      Op.logSwapchainStale ∈ (render env st).trace ∧
      Op.vkQueueSubmit st.currentFrame st.currentFrame st.currentFrame st.currentFrame ∈
        (render env st).trace ∧
      Op.vkQueuePresentKHR st.currentFrame (acquiredBuffer env st) ∈ (render env st).trace ∧
      (render env st).st.currentFrame = advanceFrame st.currentFrame) := by
  have hlt : acquiredBuffer env st < UINT32_MOD := by
    unfold acquiredBuffer
    split
    · exact Nat.mod_lt _ (by decide)
    · exact hcb
  have r1 : render env st = (logFirstFrame st).andThen fun s =>
      (prepareFrame env s).andThen fun s => (updateUniformBuffer s).andThen fun s =>
        (buildCommandBuffer env s).andThen fun s => submitFrame env s := rfl
  have r2 : render (env.asSuccess (acquiredBuffer env st)) st =
      (logFirstFrame st).andThen fun s =>
        (prepareFrame (env.asSuccess (acquiredBuffer env st)) s).andThen fun s =>
          (updateUniformBuffer s).andThen fun s =>
            (buildCommandBuffer env s).andThen fun s => submitFrame env s := rfl
  have key := andThen_same_right (a := logFirstFrame st)
      (p := fun o => o != Op.logSwapchainStale)
      (f := fun s => (prepareFrame env s).andThen fun s =>
        (updateUniformBuffer s).andThen fun s =>
          (buildCommandBuffer env s).andThen fun s => submitFrame env s)
      (g := fun s => (prepareFrame (env.asSuccess (acquiredBuffer env st)) s).andThen fun s =>
        (updateUniformBuffer s).andThen fun s =>
          (buildCommandBuffer env s).andThen fun s => submitFrame env s)
      (by
        intro o ho
        unfold logFirstFrame at ho
        split at ho
        · simp [vkCall, Step.trace] at ho
          subst ho
          simp
        · simp [skip, Step.trace] at ho)
      (by
        refine andThen_same_left ?_ ?_ ?_ ?_
        · exact (prepareFrame_stale_as_success env _ _ hs
            (logFirstFrame_acquiredBuffer env st) hlt).1
        · exact (prepareFrame_stale_as_success env _ _ hs
            (logFirstFrame_acquiredBuffer env st) hlt).2.1
        · exact (prepareFrame_stale_as_success env _ _ hs
            (logFirstFrame_acquiredBuffer env st) hlt).2.2
        · intro s o ho
          obtain ⟨e, he, rfl⟩ := List.mem_map.mp ho
          have := ((frameRest_sat env s).1 e he).2
          simpa using this)
  rw [← r1, ← r2] at key
  refine ⟨?_, key.1, key.2.1, key.2.2, render_no_component env st, ?_⟩
  · constructor
    · intro h
      unfold prepareFrame at h
      obtain ⟨p1, h⟩ := andThen_aborted_false h
      obtain ⟨p2, _⟩ := andThen_aborted_false h
      rw [checkedCall_aborted] at p1 p2
      exact ⟨by simpa using p1, by simpa using p2⟩
    · rintro ⟨h1, h2⟩
      rw [prepareFrame_success env st h1 h2]
  · intro hok
    obtain ⟨h1, h2, h3, h4, h5, h6⟩ := render_completes env st hok
    have ht := (render_trace_success env st h1 h2 h3 h4 h5 h6).2
    have hmem : ∀ o, o ∈ (render env st).trace.filter (fun o => o.frameStep.isSome) →
        o ∈ (render env st).trace := fun o ho => (List.mem_filter.mp ho).1
    refine ⟨?_, hmem _ (by rw [ht]; simp), hmem _ (by rw [ht]; simp),
      (render_success_state env st hok).2⟩
    rw [r1]
    have hl : (logFirstFrame st).aborted = false := by
      unfold logFirstFrame
      split <;> rfl
    refine mem_trace_andThen_right hl (mem_trace_andThen_left ?_)
    rw [prepareFrame_success env _ h1 h2]
    have hor : env.acquireNextImage = VK_ERROR_OUT_OF_DATE_KHR ∨
        env.acquireNextImage = VK_SUBOPTIMAL_KHR := hs.symm
    simp [Step.trace, hor]

/-- Witness for C25: the first frame after bring-up with a suboptimal acquire of
image 2 ends in the state in which the same frame with a successful acquire of
image 2 ends, and its log has the staleness line. -/
theorem render_stale_acquire_witness :
    (render { acquireNextImage := VK_SUBOPTIMAL_KHR, imageIndex := 2 } preparedState).st =
      (render { imageIndex := 2 } preparedState).st ∧
    Op.logSwapchainStale ∈
      (render { acquireNextImage := VK_SUBOPTIMAL_KHR, imageIndex := 2 } preparedState).trace ∧
    (render { acquireNextImage := VK_ERROR_OUT_OF_DATE_KHR, imageIndex := 2 }
      preparedState).st.currentFrame = 1 :=
  ⟨(render_stale_acquire { acquireNextImage := VK_SUBOPTIMAL_KHR, imageIndex := 2 }
      preparedState (Or.inl rfl) (by decide)).2.1,
   ((render_stale_acquire { acquireNextImage := VK_SUBOPTIMAL_KHR, imageIndex := 2 }
      preparedState (Or.inl rfl) (by decide)).2.2.2.2.2 (by decide)).1,
   by decide⟩

/-! ## The frame index outside of frames -/

theorem cf_andThen {a : Step} {f : VulkanExampleBase → Step} {c : Nat}
    (ha : a.st.currentFrame = c) (hf : ∀ s, s.currentFrame = c → (f s).st.currentFrame = c) :
    (a.andThen f).st.currentFrame = c := by
  rw [andThen_st]
  split
  · exact ha
  · exact hf _ ha

theorem cf_checkedCall (op : Op) (res : Int) (effect : VulkanExampleBase → VulkanExampleBase)
    (st : VulkanExampleBase) (heff : (effect st).currentFrame = st.currentFrame) :
    (checkedCall op res effect st).st.currentFrame = st.currentFrame := by
  by_cases h : res = VK_SUCCESS
  · subst h
    rw [checkedCall_success]
    exact heff
  · rw [checkedCall_failure _ _ _ _ h]

theorem cf_checkedCall_of {c : Nat} (op : Op) (res : Int)
    (effect : VulkanExampleBase → VulkanExampleBase) (st : VulkanExampleBase)
    (hc : st.currentFrame = c) (heff : (effect st).currentFrame = st.currentFrame) :
    (checkedCall op res effect st).st.currentFrame = c := by
  rw [cf_checkedCall _ _ _ _ heff, hc]

theorem createDevice_cf (env : BringUpEnv) (st : VulkanExampleBase) :
    (createDevice env st).st.currentFrame = st.currentFrame := by
  unfold createDevice
  refine cf_andThen (cf_checkedCall _ _ _ _ rfl) fun s hs => ?_
  refine cf_andThen ?_ fun s hs => ?_
  · split
    · exact hs
    · exact hs
  refine cf_andThen (cf_checkedCall_of _ _ _ _ hs rfl) fun s hs => ?_
  refine cf_andThen (c := st.currentFrame) hs fun s hs => ?_
  refine cf_andThen (cf_checkedCall_of _ _ _ _ hs rfl) fun s hs => ?_
  exact hs

theorem initVulkan_cf (env : BringUpEnv) (st : VulkanExampleBase) :
    (initVulkan env st).st.currentFrame = st.currentFrame := by
  unfold initVulkan createInstance createSurface
  refine cf_andThen (c := st.currentFrame) rfl fun s hs => ?_
  refine cf_andThen (cf_checkedCall_of _ _ _ _ hs rfl) fun s hs => ?_
  refine cf_andThen (cf_checkedCall_of _ _ _ _ hs rfl) fun s hs => ?_
  rw [createDevice_cf, hs]

theorem createImageViewsLoop_cf (env : BringUpEnv) (images : List Nat) (n i : Nat)
    (st : VulkanExampleBase) :
    (createImageViewsLoop env images n i st).st.currentFrame = st.currentFrame := by
  induction n generalizing i st with
  | zero => rfl
  | succ n ih =>
    unfold createImageViewsLoop
    refine cf_andThen (c := st.currentFrame) rfl fun s hs => ?_
    refine cf_andThen (cf_checkedCall_of _ _ _ _ hs rfl) fun s hs => ?_
    rw [ih, hs]

theorem createSwapChain_cf (env : BringUpEnv) (st : VulkanExampleBase) :
    (createSwapChain env st).st.currentFrame = st.currentFrame := by
  unfold createSwapChain
  refine cf_andThen (cf_checkedCall _ _ _ _ rfl) fun s hs => ?_
  refine cf_andThen (cf_checkedCall_of _ _ _ _ hs rfl) fun s hs => ?_
  refine cf_andThen (cf_checkedCall_of _ _ _ _ hs rfl) fun s hs => ?_
  refine cf_andThen ?_ fun s hs => ?_
  · split
    · exact hs
    · exact hs
  refine cf_andThen (cf_checkedCall_of _ _ _ _ hs rfl) fun s hs => ?_
  refine cf_andThen (cf_checkedCall_of _ _ _ _ hs rfl) fun s hs => ?_
  refine cf_andThen (c := st.currentFrame) hs fun s hs => ?_
  refine cf_andThen (cf_checkedCall_of _ _ _ _ hs rfl) fun s hs => ?_
  refine cf_andThen (cf_checkedCall_of _ _ _ _ hs rfl) fun s hs => ?_
  refine cf_andThen (cf_checkedCall_of _ _ _ _ hs rfl) fun s hs => ?_
  refine cf_andThen (c := st.currentFrame) hs fun s hs => ?_
  rw [createImageViewsLoop_cf, hs]

theorem createSynchronizationPrimitivesLoop_cf (env : BringUpEnv) (n i : Nat)
    (st : VulkanExampleBase) :
    (createSynchronizationPrimitivesLoop env n i st).st.currentFrame = st.currentFrame := by
  induction n generalizing i st with
  | zero => rfl
  | succ n ih =>
    unfold createSynchronizationPrimitivesLoop
    refine cf_andThen (cf_checkedCall _ _ _ _ rfl) fun s hs => ?_
    refine cf_andThen (cf_checkedCall_of _ _ _ _ hs rfl) fun s hs => ?_
    refine cf_andThen (cf_checkedCall_of _ _ _ _ hs rfl) fun s hs => ?_
    rw [ih, hs]

theorem setupDepthStencil_cf (env : BringUpEnv) (st : VulkanExampleBase) :
    (setupDepthStencil env st).st.currentFrame = st.currentFrame := by
  unfold setupDepthStencil
  refine cf_andThen (c := st.currentFrame) rfl fun s hs => ?_
  refine cf_andThen (cf_checkedCall_of _ _ _ _ hs rfl) fun s hs => ?_
  refine cf_andThen (cf_checkedCall_of _ _ _ _ hs rfl) fun s hs => ?_
  refine cf_andThen (cf_checkedCall_of _ _ _ _ hs rfl) fun s hs => ?_
  exact cf_checkedCall_of _ _ _ _ hs rfl

theorem setupFrameBufferLoop_cf (env : BringUpEnv) (n i : Nat) (st : VulkanExampleBase) :
    (setupFrameBufferLoop env n i st).st.currentFrame = st.currentFrame := by
  induction n generalizing i st with
  | zero => rfl
  | succ n ih =>
    unfold setupFrameBufferLoop
    refine cf_andThen (cf_checkedCall _ _ _ _ rfl) fun s hs => ?_
    rw [ih, hs]

theorem trianglePrepare_cf (env : BringUpEnv) (st : VulkanExampleBase) :
    (Triangle.prepare env st).st.currentFrame = st.currentFrame := by
  unfold Triangle.prepare VulkanExampleBase.prepare createCommandPool createCommandBuffers
    createSynchronizationPrimitives createPipelineCache setupRenderPass setupFrameBuffer
    createVertexBuffer
  refine cf_andThen ?_ fun s hs => ?_
  · refine cf_andThen (createSwapChain_cf env st) fun s hs => ?_
    refine cf_andThen (cf_checkedCall_of _ _ _ _ hs rfl) fun s hs => ?_
    refine cf_andThen (cf_checkedCall_of _ _ _ _ hs rfl) fun s hs => ?_
    refine cf_andThen (by rw [createSynchronizationPrimitivesLoop_cf, hs]) fun s hs => ?_
    refine cf_andThen (cf_checkedCall_of _ _ _ _ hs rfl) fun s hs => ?_
    refine cf_andThen (by rw [setupDepthStencil_cf, hs]) fun s hs => ?_
    refine cf_andThen (cf_checkedCall_of _ _ _ _ hs rfl) fun s hs => ?_
    refine cf_andThen ?_ fun s hs => ?_
    · refine cf_andThen (c := st.currentFrame) hs fun s hs => ?_
      rw [setupFrameBufferLoop_cf, hs]
    · exact hs
  refine cf_andThen ?_ fun s hs => ?_
  · refine cf_andThen (cf_checkedCall_of _ _ _ _ hs rfl) fun s hs => ?_
    refine cf_andThen (cf_checkedCall_of _ _ _ _ hs rfl) fun s hs => ?_
    exact cf_checkedCall_of _ _ _ _ hs rfl
  refine cf_andThen (cf_checkedCall_of _ _ _ _ hs rfl) fun s hs => ?_
  refine cf_andThen (cf_checkedCall_of _ _ _ _ hs rfl) fun s hs => ?_
  exact cf_checkedCall_of _ _ _ _ hs rfl

theorem handleAppCommandInternal_cf (cmd : AppCmd) (env : BringUpEnv) (st : VulkanExampleBase) :
    (handleAppCommandInternal cmd env st).st.currentFrame = st.currentFrame := by
  cases cmd with
  | APP_CMD_INIT_WINDOW =>
    simp only [handleAppCommandInternal]
    refine cf_andThen (c := st.currentFrame) rfl fun s hs => ?_
    split
    · refine cf_andThen (by rw [initVulkan_cf, hs]) fun s hs => ?_
      rw [trianglePrepare_cf, hs]
    · exact hs
  | APP_CMD_TERM_WINDOW => simp [handleAppCommandInternal, cleanup, emit, skip, Step.andThen]
  | APP_CMD_GAINED_FOCUS => simp [handleAppCommandInternal, emit, skip, Step.andThen]
  | APP_CMD_LOST_FOCUS => simp [handleAppCommandInternal, emit, skip, Step.andThen]
  | other c => simp [handleAppCommandInternal, emit]

/-- C27: the handler of the focus commands changes `paused` alone, to false on
focus gained and to true on focus lost, so that handling the same command twice
gives the state of handling it once; the handler of the window-destroyed
command changes `prepared` alone, to false; an unhandled command changes
nothing, nor does the window-created command when the window is null; no
command changes `currentFrame`. -/
theorem handleAppCommandInternal_frame_effect (env : BringUpEnv) (st : VulkanExampleBase) :
    (handleAppCommandInternal AppCmd.APP_CMD_GAINED_FOCUS env st).st =
      { st with paused := false } ∧
    (handleAppCommandInternal AppCmd.APP_CMD_LOST_FOCUS env st).st =
      { st with paused := true } ∧
    (handleAppCommandInternal AppCmd.APP_CMD_GAINED_FOCUS env
        (handleAppCommandInternal AppCmd.APP_CMD_GAINED_FOCUS env st).st).st =
      (handleAppCommandInternal AppCmd.APP_CMD_GAINED_FOCUS env st).st ∧
    (handleAppCommandInternal AppCmd.APP_CMD_LOST_FOCUS env
        (handleAppCommandInternal AppCmd.APP_CMD_LOST_FOCUS env st).st).st =
      (handleAppCommandInternal AppCmd.APP_CMD_LOST_FOCUS env st).st ∧
    (handleAppCommandInternal AppCmd.APP_CMD_TERM_WINDOW env st).st =
      { st with prepared := false } ∧
    (∀ c : Int, (handleAppCommandInternal (AppCmd.other c) env st).st = st) ∧
    (env.window = false →
      (handleAppCommandInternal AppCmd.APP_CMD_INIT_WINDOW env st).st = st) ∧
    (∀ cmd : AppCmd,
      (handleAppCommandInternal cmd env st).st.currentFrame = st.currentFrame) := by
  refine ⟨?_, ?_, ?_, ?_, ?_, ?_, ?_, fun cmd => handleAppCommandInternal_cf cmd env st⟩
  · simp [handleAppCommandInternal, emit, skip, Step.andThen]
  · simp [handleAppCommandInternal, emit, skip, Step.andThen]
  · simp [handleAppCommandInternal, emit, skip, Step.andThen]
  · simp [handleAppCommandInternal, emit, skip, Step.andThen]
  · simp [handleAppCommandInternal, cleanup, emit, skip, Step.andThen]
  · intro c
    simp [handleAppCommandInternal, emit]
  · intro hw
    simp [handleAppCommandInternal, hw, emit, Step.andThen]

/-- Witness for C27: with a null window the window-created command leaves the
state reached by bring-up and one frame as it is. -/
theorem handleAppCommandInternal_frame_effect_witness :
    (handleAppCommandInternal AppCmd.APP_CMD_INIT_WINDOW { exampleBringUp with window := false }
      stateAfterBringUp).st = stateAfterBringUp :=
  (handleAppCommandInternal_frame_effect { exampleBringUp with window := false }
    stateAfterBringUp).2.2.2.2.2.2.1 rfl

/-! ## The frame index stays in bounds -/

theorem slots_of_not_frameOp (o : Op) (h : o.isFrameOp = false) : o.slots = [] := by
  cases o <;> first | rfl | (simp [Op.isFrameOp] at h)

theorem lt_andThen {a : Step} {f : VulkanExampleBase → Step}
    (ha : a.st.currentFrame < MAX_CONCURRENT_FRAMES)
    (hf : ∀ s, s.currentFrame < MAX_CONCURRENT_FRAMES →
      (f s).st.currentFrame < MAX_CONCURRENT_FRAMES) :
    (a.andThen f).st.currentFrame < MAX_CONCURRENT_FRAMES := by
  rw [andThen_st]
  split
  · exact ha
  · exact hf _ ha

theorem render_cf_lt (env : FrameEnv) (st : VulkanExampleBase)
    (h : st.currentFrame < MAX_CONCURRENT_FRAMES) :
    (render env st).st.currentFrame < MAX_CONCURRENT_FRAMES := by
  have hcc : ∀ (op : Op) (res : Int) (effect : VulkanExampleBase → VulkanExampleBase)
      (s : VulkanExampleBase), s.currentFrame < MAX_CONCURRENT_FRAMES →
      (effect s).currentFrame = s.currentFrame →
      (checkedCall op res effect s).st.currentFrame < MAX_CONCURRENT_FRAMES := by
    intro op res effect s hs he
    rw [cf_checkedCall _ _ _ _ he]
    exact hs
  unfold render logFirstFrame prepareFrame updateUniformBuffer buildCommandBuffer submitFrame
  refine lt_andThen ?_ fun s hs => ?_
  · split
    · exact h
    · exact h
  refine lt_andThen ?_ fun s hs => ?_
  · refine lt_andThen (hcc _ _ _ _ hs rfl) fun s hs => ?_
    refine lt_andThen (hcc _ _ _ _ hs rfl) fun s hs => ?_
    refine lt_andThen ?_ fun s hs => ?_
    · simp only [vkCall]
      split
      · exact hs
      · exact hs
    · split
      · exact hs
      · exact hs
  refine lt_andThen hs fun s hs => ?_
  refine lt_andThen ?_ fun s hs => ?_
  · refine lt_andThen (hcc _ _ _ _ hs rfl) fun s hs => ?_
    refine lt_andThen (hcc _ _ _ _ hs rfl) fun s hs => ?_
    refine lt_andThen hs fun s hs => ?_
    refine lt_andThen hs fun s hs => ?_
    refine lt_andThen hs fun s hs => ?_
    refine lt_andThen hs fun s hs => ?_
    refine lt_andThen hs fun s hs => ?_
    refine lt_andThen hs fun s hs => ?_
    refine lt_andThen hs fun s hs => ?_
    refine lt_andThen hs fun s hs => ?_
    refine lt_andThen hs fun s hs => ?_
    exact hcc _ _ _ _ hs rfl
  refine lt_andThen (hcc _ _ _ _ hs rfl) fun s hs => ?_
  refine lt_andThen hs fun s hs => ?_
  simp only [vkCall]
  unfold advanceFrame MAX_CONCURRENT_FRAMES
  omega

theorem processEvent_cf (inp : LoopInput) (st : VulkanExampleBase) :
    (processEvent inp st).st.currentFrame = st.currentFrame := by
  unfold processEvent
  split
  · unfold handleAppCommand
    rw [handleAppCommandInternal_cf]
  · rfl

theorem loopBody_bounds (inp : LoopInput) (st : VulkanExampleBase)
    (h : st.currentFrame < MAX_CONCURRENT_FRAMES) :
    (loopBody inp st).st.currentFrame < MAX_CONCURRENT_FRAMES ∧
    ∀ o ∈ (loopBody inp st).trace, ∀ s ∈ o.slots, s < MAX_CONCURRENT_FRAMES := by
  have hp : (processEvent inp st).st.currentFrame < MAX_CONCURRENT_FRAMES := by
    rw [processEvent_cf]; exact h
  unfold loopBody
  refine ⟨lt_andThen hp fun s hs => ?_, ?_⟩
  · split
    · exact render_cf_lt _ _ hs
    · exact hs
  · intro o ho s hs
    rcases mem_trace_andThen ho with ho | ho
    · rw [slots_of_not_frameOp o (processEvent_noFrame inp st o ho)] at hs
      simp at hs
    · split at ho
      · obtain ⟨e, he, rfl⟩ := List.mem_map.mp ho
        rw [((render_sat inp.frame _).1 e he).1 s hs]
        exact hp
      · simp [skip, Step.trace] at ho

theorem renderLoop_bounds (inputs : List LoopInput) :
    ∀ st : VulkanExampleBase, st.currentFrame < MAX_CONCURRENT_FRAMES →
      (renderLoop inputs st).st.currentFrame < MAX_CONCURRENT_FRAMES ∧
      ∀ o ∈ (renderLoop inputs st).trace, ∀ s ∈ o.slots, s < MAX_CONCURRENT_FRAMES := by
  induction inputs with
  | nil =>
    intro st h
    refine ⟨h, ?_⟩
    intro o ho
    simp [renderLoop, skip, Step.trace] at ho
  | cons inp rest ih =>
    intro st h
    obtain ⟨b1, b2⟩ := loopBody_bounds inp st h
    have hexit : ∀ s : VulkanExampleBase, s.currentFrame < MAX_CONCURRENT_FRAMES →
        (exitRenderLoop s).st.currentFrame < MAX_CONCURRENT_FRAMES ∧
        ∀ o ∈ (exitRenderLoop s).trace, ∀ x ∈ o.slots, x < MAX_CONCURRENT_FRAMES := by
      intro s hs
      unfold exitRenderLoop
      refine ⟨?_, ?_⟩
      · refine lt_andThen hs fun s hs => ?_
        refine lt_andThen ?_ fun s hs => hs
        split
        · exact hs
        · exact hs
      · intro o ho x hx
        rcases mem_trace_andThen ho with ho | ho
        · simp [emit, Step.trace] at ho
          subst ho
          simp [Op.slots] at hx
        rcases mem_trace_andThen ho with ho | ho
        · split at ho
          · simp [emit, Step.trace] at ho
            subst ho
            simp [Op.slots] at hx
          · simp [skip, Step.trace] at ho
        · simp [cleanup, skip, Step.trace] at ho
    unfold renderLoop
    refine ⟨lt_andThen b1 fun s hs => ?_, ?_⟩
    · split
      · exact (ih s hs).1
      · exact (hexit s hs).1
    · intro o ho x hx
      rcases mem_trace_andThen ho with ho | ho
      · exact b2 o ho x hx
      · split at ho
        · exact (ih _ b1).2 o ho x hx
        · exact (hexit _ b1).2 o ho x hx

/-- C26: from a state with `currentFrame < MAX_CONCURRENT_FRAMES = 2`, in
particular from the initial state, after any sequence of loop iterations, each
delivering a lifecycle command or none and rendering a frame when `prepared`
and not `paused`, `currentFrame` is below 2, and every index into a per-slot
array (fence, semaphores, command buffer, uniform buffer) that a logged
operation uses is below 2. -/
theorem currentFrame_in_bounds (inputs : List LoopInput) (st0 : VulkanExampleBase)
    (h0 : st0.currentFrame < MAX_CONCURRENT_FRAMES) :
    (renderLoop inputs st0).st.currentFrame < MAX_CONCURRENT_FRAMES ∧
    ∀ o ∈ (renderLoop inputs st0).trace, ∀ s ∈ o.slots, s < MAX_CONCURRENT_FRAMES :=
  renderLoop_bounds inputs st0 h0

/-- Witness for C26: the run from the initial state in which a window is
created, focus is lost and a window is created again. -/
theorem currentFrame_in_bounds_witness :
    ({} : VulkanExampleBase).currentFrame = 0 ∧
    (renderLoop windowRecreatedWhilePaused {}).st.currentFrame < MAX_CONCURRENT_FRAMES ∧
    (renderLoop windowRecreatedWhilePaused {}).st.currentFrame = 1 :=
  ⟨rfl, (currentFrame_in_bounds windowRecreatedWhilePaused {} (by decide)).1, by decide⟩

/-! ## The status of the present -/

theorem render_present_status_unused (env : FrameEnv) (st : VulkanExampleBase) (status : Int) :
    render { env with queuePresent := status } st = render env st :=
  rfl

/-- C23: failing input. When the present answers out-of-date or suboptimal, the
frame is the frame of a successful present: no staleness line is logged (and
nothing else differs), whereas the same answers from the acquire are logged. -/
theorem present_staleness_not_signaled :
    render { queuePresent := VK_ERROR_OUT_OF_DATE_KHR } preparedState = render {} preparedState ∧
    render { queuePresent := VK_SUBOPTIMAL_KHR } preparedState = render {} preparedState ∧
    Op.logSwapchainStale ∉
      (render { queuePresent := VK_ERROR_OUT_OF_DATE_KHR } preparedState).trace ∧
    Op.logSwapchainStale ∉ (render { queuePresent := VK_SUBOPTIMAL_KHR } preparedState).trace ∧
    Op.vkQueuePresentKHR 0 0 ∈
      (render { queuePresent := VK_ERROR_OUT_OF_DATE_KHR } preparedState).trace ∧
    Op.logSwapchainStale ∈
      (render { acquireNextImage := VK_ERROR_OUT_OF_DATE_KHR } preparedState).trace ∧
    Op.logSwapchainStale ∈
      (render { acquireNextImage := VK_SUBOPTIMAL_KHR } preparedState).trace := by
  decide

/-! ## Framebuffers after `prepare` -/

theorem resize_length {α : Type} (l : List α) (n : Nat) (d : α) : (resize l n d).length = n := by
  simp only [resize, List.length_append, List.length_take, List.length_replicate]
  omega

theorem sat_ext_checkedCall {Q : VulkanExampleBase → Prop} {W H : Nat} (op : Op) (res : Int)
    (effect : VulkanExampleBase → VulkanExampleBase) (st : VulkanExampleBase)
    (hp : ExtentOp W H op) (hq : Q (effect st)) :
    (checkedCall op res effect st).Sat (ExtentEntry W H) Q :=
  sat_checkedCall hp (fun _ => ⟨fun _ => trivial, trivial⟩) (fun _ => hq)

theorem createImageViewsLoop_shape (env : BringUpEnv) (images : List Nat) (W H c : Nat)
    (n i : Nat) (st : VulkanExampleBase) (h : SwapchainShape W H c st) :
    (createImageViewsLoop env images n i st).Sat (ExtentEntry W H) (SwapchainShape W H c) := by
  induction n generalizing i st with
  | zero => exact sat_skip h
  | succ n ih =>
    unfold createImageViewsLoop
    refine sat_andThen (Q := SwapchainShape W H c)
      (sat_skip (by simpa [SwapchainShape] using h)) fun s hs => ?_
    refine sat_andThen (Q := SwapchainShape W H c)
      (sat_ext_checkedCall _ _ _ _ trivial (by simpa [SwapchainShape] using hs))
      fun s hs => ih _ _ hs

theorem createSwapChain_shape (env : BringUpEnv) (st : VulkanExampleBase) :
    (createSwapChain env st).Sat
      (ExtentEntry env.surfaceCaps.currentExtentWidth env.surfaceCaps.currentExtentHeight)
      (SwapchainShape env.surfaceCaps.currentExtentWidth env.surfaceCaps.currentExtentHeight
        env.swapchainImages.length) := by
  unfold createSwapChain
  refine sat_andThen (sat_ext_checkedCall (Q := fun _ => True) _ _ _ _ trivial trivial)
    fun s _ => ?_
  refine sat_andThen (sat_ext_checkedCall (Q := fun _ => True) _ _ _ _ trivial trivial)
    fun s _ => ?_
  refine sat_andThen (sat_ext_checkedCall (Q := fun _ => True) _ _ _ _ trivial trivial)
    fun s _ => ?_
  refine sat_andThen (Q := fun _ => True) ?_ fun s _ => ?_
  · split
    · refine ⟨?_, fun _ => trivial⟩
      intro e he
      simp only [undefinedRead, List.mem_singleton] at he
      subst he
      trivial
    · exact sat_skip trivial
  refine sat_andThen (sat_ext_checkedCall (Q := fun _ => True) _ _ _ _ trivial trivial)
    fun s _ => ?_
  refine sat_andThen (sat_ext_checkedCall (Q := fun _ => True) _ _ _ _ trivial trivial)
    fun s _ => ?_
  refine sat_andThen
    (Q := fun s => s.width = env.surfaceCaps.currentExtentWidth ∧
      s.height = env.surfaceCaps.currentExtentHeight) (sat_skip ⟨rfl, rfl⟩) fun s hs => ?_
  refine sat_andThen
    (Q := fun s => s.width = env.surfaceCaps.currentExtentWidth ∧
      s.height = env.surfaceCaps.currentExtentHeight)
    (sat_ext_checkedCall _ _ _ _ hs hs) fun s hs => ?_
  refine sat_andThen
    (Q := fun s => s.width = env.surfaceCaps.currentExtentWidth ∧
      s.height = env.surfaceCaps.currentExtentHeight ∧
      s.imageCount = env.swapchainImages.length)
    (sat_ext_checkedCall _ _ _ _ trivial ⟨hs.1, hs.2, rfl⟩) fun s hs => ?_
  refine sat_andThen
    (Q := fun s => s.width = env.surfaceCaps.currentExtentWidth ∧
      s.height = env.surfaceCaps.currentExtentHeight ∧
      s.imageCount = env.swapchainImages.length)
    (sat_ext_checkedCall _ _ _ _ trivial hs) fun s hs => ?_
  refine sat_andThen
    (Q := SwapchainShape env.surfaceCaps.currentExtentWidth env.surfaceCaps.currentExtentHeight
      env.swapchainImages.length)
    (sat_skip ⟨hs.1, hs.2.1, hs.2.2, by simp [resize_length, hs.2.2]⟩) fun s hs => ?_
  exact createImageViewsLoop_shape env _ _ _ _ _ _ _ hs

theorem setupFrameBufferLoop_post (env : BringUpEnv) (n : Nat) :
    ∀ (i : Nat) (st : VulkanExampleBase), i + n ≤ st.frameBuffers.length →
      (setupFrameBufferLoop env n i st).Sat (ExtentEntry st.width st.height)
        (fun s => s.swapChainBuffers = st.swapChainBuffers ∧
          s.depthStencilView = st.depthStencilView ∧ s.width = st.width ∧
          s.height = st.height ∧ s.imageCount = st.imageCount ∧
          s.frameBuffers.length = st.frameBuffers.length ∧
          (∀ j : Nat, i ≤ j → j < i + n →
            s.frameBuffers[j]? = some (some (expectedFramebuffer st j))) ∧
          (∀ j : Nat, j < i → s.frameBuffers[j]? = st.frameBuffers[j]?)) := by
  induction n with
  | zero =>
    intro i st _
    refine sat_skip ⟨rfl, rfl, rfl, rfl, rfl, rfl, ?_, fun _ _ => rfl⟩
    intro j h1 h2
    omega
  | succ n ih =>
    intro i st hlen
    unfold setupFrameBufferLoop
    refine sat_andThen
      (Q := fun s => s = { st with
        frameBuffers := st.frameBuffers.set i (some (expectedFramebuffer st i)) })
      (sat_ext_checkedCall _ _ _ _ ⟨rfl, rfl⟩ rfl) fun s hs => ?_
    subst hs
    refine sat_weaken (ih (i + 1) _ (by simp only [List.length_set]; omega)) (fun _ h => h) ?_
    rintro s ⟨a, b, c, d, e, f, g, h⟩
    simp only [List.length_set] at f
    refine ⟨a, b, c, d, e, f, ?_, ?_⟩
    · intro j h1 h2
      by_cases hj : j = i
      · subst hj
        rw [h j (by omega)]
        simp only [List.getElem?_set_self (show j < st.frameBuffers.length by omega)]
      · rw [g j (by omega) (by omega)]
        rfl
    · intro j hj
      rw [h j (by omega), List.getElem?_set_ne (by omega)]

theorem setupFrameBuffer_post (env : BringUpEnv) (W H n : Nat) (st : VulkanExampleBase)
    (h : SwapchainShape W H n st) :
    (setupFrameBuffer env st).Sat (ExtentEntry W H) (FramebuffersReady W H n) := by
  unfold setupFrameBuffer
  refine sat_andThen
    (Q := fun s => s = { st with frameBuffers := resize st.frameBuffers st.imageCount none })
    (sat_skip rfl) fun s hs => ?_
  subst hs
  obtain ⟨hw, hh, hc, hl⟩ := h
  subst hw hh
  refine sat_weaken (setupFrameBufferLoop_post env st.imageCount 0
    { st with frameBuffers := resize st.frameBuffers st.imageCount none }
    (by simp only [resize_length]; omega)) (fun _ x => x) ?_
  rintro s ⟨a, b, c, d, e, f, g, -⟩
  simp only [resize_length] at f
  refine ⟨⟨c, d, e.trans hc, by rw [a]; exact hl⟩, f.trans hc, ?_⟩
  intro j hj
  rw [g j (Nat.zero_le _) (by simp only [Nat.zero_add]; omega)]
  simp only [expectedFramebuffer, a, b, c, d]

theorem setupDepthStencil_shape (env : BringUpEnv) (W H n : Nat) (st : VulkanExampleBase)
    (h : SwapchainShape W H n st) :
    (setupDepthStencil env st).Sat (ExtentEntry W H) (SwapchainShape W H n) := by
  unfold setupDepthStencil
  refine sat_andThen (Q := SwapchainShape W H n) (sat_skip h) fun s hs => ?_
  refine sat_andThen (Q := SwapchainShape W H n)
    (sat_ext_checkedCall _ _ _ _ ⟨hs.1, hs.2.1⟩ hs) fun s hs => ?_
  refine sat_andThen (Q := SwapchainShape W H n)
    (sat_ext_checkedCall _ _ _ _ trivial hs) fun s hs => ?_
  refine sat_andThen (Q := SwapchainShape W H n)
    (sat_ext_checkedCall _ _ _ _ trivial hs) fun s hs => ?_
  exact sat_ext_checkedCall _ _ _ _ trivial hs

theorem createSynchronizationPrimitivesLoop_shape (env : BringUpEnv) (W H c : Nat)
    (n i : Nat) (st : VulkanExampleBase) (h : SwapchainShape W H c st) :
    (createSynchronizationPrimitivesLoop env n i st).Sat (ExtentEntry W H)
      (SwapchainShape W H c) := by
  induction n generalizing i st with
  | zero => exact sat_skip h
  | succ n ih =>
    unfold createSynchronizationPrimitivesLoop
    refine sat_andThen (Q := SwapchainShape W H c)
      (sat_ext_checkedCall _ _ _ _ trivial h) fun s hs => ?_
    refine sat_andThen (Q := SwapchainShape W H c)
      (sat_ext_checkedCall _ _ _ _ trivial hs) fun s hs => ?_
    refine sat_andThen (Q := SwapchainShape W H c)
      (sat_ext_checkedCall _ _ _ _ trivial hs) fun s hs => ih _ _ hs

theorem basePrepare_post (env : BringUpEnv) (st : VulkanExampleBase) :
    (VulkanExampleBase.prepare env st).Sat
      (ExtentEntry env.surfaceCaps.currentExtentWidth env.surfaceCaps.currentExtentHeight)
      (FramebuffersReady env.surfaceCaps.currentExtentWidth
        env.surfaceCaps.currentExtentHeight env.swapchainImages.length) := by
  unfold VulkanExampleBase.prepare createCommandPool createCommandBuffers
    createSynchronizationPrimitives createPipelineCache setupRenderPass
  refine sat_andThen (createSwapChain_shape env st) fun s hs => ?_
  refine sat_andThen (sat_ext_checkedCall _ _ _ _ trivial hs) fun s hs => ?_
  refine sat_andThen (sat_ext_checkedCall _ _ _ _ trivial hs) fun s hs => ?_
  refine sat_andThen (createSynchronizationPrimitivesLoop_shape env _ _ _ _ _ _ hs)
    fun s hs => ?_
  refine sat_andThen (sat_ext_checkedCall _ _ _ _ trivial hs) fun s hs => ?_
  refine sat_andThen (setupDepthStencil_shape env _ _ _ _ hs) fun s hs => ?_
  refine sat_andThen (sat_ext_checkedCall _ _ _ _ trivial hs) fun s hs => ?_
  refine sat_andThen (setupFrameBuffer_post env _ _ _ _ hs) fun s hs => ?_
  exact sat_vkCall trivial hs

theorem trianglePrepare_state (env : BringUpEnv) (st : VulkanExampleBase)
    (h : (Triangle.prepare env st).aborted = false) :
    (VulkanExampleBase.prepare env st).aborted = false ∧
    (Triangle.prepare env st).st = (VulkanExampleBase.prepare env st).st := by
  unfold Triangle.prepare at h ⊢
  obtain ⟨h1, _⟩ := andThen_aborted_false h
  refine ⟨h1, ?_⟩
  rw [andThen_st]
  simp only [h1, Bool.false_eq_true, if_false]
  simp only [createVertexBuffer, andThen_st, checkedCall_id_st, ite_self]

/-- C21: after a `prepare` that completes there is one framebuffer per
swapchain image: `frameBuffers` and `swapChainBuffers` have `imageCount`
elements; for every `i < imageCount` framebuffer `i` has exactly the attachments
`swapChainBuffers[i].view` and the depth view, and the width and height of the
extent `createSwapChain` took from the surface capabilities. The swapchain, the
depth image and every framebuffer are created with that extent, and the render
area, the viewport and the scissor of a frame rendered in the state after
`Triangle::prepare` have it too. -/
theorem framebuffers_after_prepare (env : BringUpEnv) (st : VulkanExampleBase)
    (h : (VulkanExampleBase.prepare env st).aborted = false) :
    (VulkanExampleBase.prepare env st).st.frameBuffers.length =
      (VulkanExampleBase.prepare env st).st.imageCount ∧
    (VulkanExampleBase.prepare env st).st.swapChainBuffers.length =
      (VulkanExampleBase.prepare env st).st.imageCount ∧
    (VulkanExampleBase.prepare env st).st.imageCount = env.swapchainImages.length ∧
    (VulkanExampleBase.prepare env st).st.width = env.surfaceCaps.currentExtentWidth ∧
    (VulkanExampleBase.prepare env st).st.height = env.surfaceCaps.currentExtentHeight ∧
    (∀ i : Nat, i < (VulkanExampleBase.prepare env st).st.imageCount →
      (VulkanExampleBase.prepare env st).st.frameBuffers[i]? =
        some (some
          { attachments :=
              [((VulkanExampleBase.prepare env st).st.swapChainBuffers.getD i {}).view,
               (VulkanExampleBase.prepare env st).st.depthStencilView],
            width := env.surfaceCaps.currentExtentWidth,
            height := env.surfaceCaps.currentExtentHeight })) ∧
    (∀ o ∈ (VulkanExampleBase.prepare env st).trace,
      ExtentOp env.surfaceCaps.currentExtentWidth env.surfaceCaps.currentExtentHeight o) ∧
    (∀ frame : FrameEnv, (Triangle.prepare env st).aborted = false →
      (render frame (Triangle.prepare env st).st).aborted = false →
      ∀ o ∈ [Op.vkCmdBeginRenderPass (Triangle.prepare env st).st.currentFrame
                (acquiredBuffer frame (Triangle.prepare env st).st)
                env.surfaceCaps.currentExtentWidth env.surfaceCaps.currentExtentHeight,
             Op.vkCmdSetViewport (Triangle.prepare env st).st.currentFrame
                env.surfaceCaps.currentExtentWidth env.surfaceCaps.currentExtentHeight,
             Op.vkCmdSetScissor (Triangle.prepare env st).st.currentFrame
                env.surfaceCaps.currentExtentWidth env.surfaceCaps.currentExtentHeight],
        o ∈ (render frame (Triangle.prepare env st).st).trace) := by
  have hpost := basePrepare_post env st
  obtain ⟨⟨hw, hh, hc, hl⟩, hf, hfb⟩ := hpost.2 h
  refine ⟨hf.trans hc.symm, hl.trans hc.symm, hc, hw, hh, ?_, ?_, ?_⟩
  · intro i hi
    rw [hfb i (by omega)]
    simp only [expectedFramebuffer, hw, hh]
  · intro o ho
    obtain ⟨e, he, rfl⟩ := List.mem_map.mp ho
    exact hpost.1 e he
  · intro frame ht hr o ho
    obtain ⟨_, hst⟩ := trianglePrepare_state env st ht
    obtain ⟨h1, h2, h3, h4, h5, h6⟩ := render_completes frame _ hr
    have hfil := (render_trace_success frame (Triangle.prepare env st).st h1 h2 h3 h4 h5 h6).2
    have hwt : (Triangle.prepare env st).st.width = env.surfaceCaps.currentExtentWidth := by
      rw [hst]; exact hw
    have hht : (Triangle.prepare env st).st.height = env.surfaceCaps.currentExtentHeight := by
      rw [hst]; exact hh
    rw [hwt, hht] at hfil
    have hin : o ∈ (render frame (Triangle.prepare env st).st).trace.filter
        (fun o => o.frameStep.isSome) := by
      rw [hfil]
      simp only [List.mem_cons, List.mem_singleton, List.not_mem_nil, or_false] at ho ⊢
      rcases ho with rfl | rfl | rfl <;> simp
    exact (List.mem_filter.mp hin).1

/-- Witness for C21: the bring-up with the example answers, three images of
1080 x 1920 with views 111, 112, 113 and the depth view 120. -/
theorem framebuffers_after_prepare_witness :
    (VulkanExampleBase.prepare exampleBringUp {}).aborted = false ∧
    (VulkanExampleBase.prepare exampleBringUp {}).st.frameBuffers =
      [some { attachments := [111, 120], width := 1080, height := 1920 },
       some { attachments := [112, 120], width := 1080, height := 1920 },
       some { attachments := [113, 120], width := 1080, height := 1920 }] ∧
    (VulkanExampleBase.prepare exampleBringUp {}).st.frameBuffers.length =
      (VulkanExampleBase.prepare exampleBringUp {}).st.imageCount :=
  ⟨by decide, by decide, (framebuffers_after_prepare exampleBringUp {} (by decide)).1⟩
/-! ## C24: a shader asset that cannot be opened -/

/-- C24 (fails in the code): a shader asset that cannot be opened is not
fatal.  Whatever the other answers, `loadShader` then completes and returns
`VK_NULL_HANDLE`, having logged the message that calls the failure fatal; in
`Triangle::createPipeline` with both assets missing no assertion fails and
`vkCreateGraphicsPipelines` is called with the null handle in both shader
stages.  A failing `vkCreateShaderModule` in the same function does
terminate the program. -/
theorem loadShader_missing_asset_returns_null :
    (∀ (env : PipelineEnv) (filename : String) (st : VulkanExampleBase),
      (loadShader { env with assetOpens := fun _ => false } filename st).1.aborted = false ∧
      (loadShader { env with assetOpens := fun _ => false } filename st).2 = VK_NULL_HANDLE ∧
      (loadShader { env with assetOpens := fun _ => false } filename st).1.trace =
        [Op.AAssetManager_open, Op.logCouldNotOpenShaderFile]) ∧
    (Triangle.createPipeline missingShaders preparedState).aborted = false ∧
    (Triangle.createPipeline missingShaders preparedState).trace =
      [Op.vkCreatePipelineLayout,
       Op.AAssetManager_open, Op.logCouldNotOpenShaderFile,
       Op.AAssetManager_open, Op.logCouldNotOpenShaderFile,
       Op.vkCreateGraphicsPipelines VK_NULL_HANDLE VK_NULL_HANDLE,
       Op.vkDestroyShaderModule VK_NULL_HANDLE,
       Op.vkDestroyShaderModule VK_NULL_HANDLE] ∧
    (Triangle.createPipeline brokenShaders preparedState).aborted = true ∧
    (Triangle.createPipeline brokenShaders preparedState).trace =
      [Op.vkCreatePipelineLayout, Op.AAssetManager_open, Op.vkCreateShaderModule,
       Op.logVulkanError VK_ERROR_DEVICE_LOST, Op.assertFailed] := by
  refine ⟨fun env filename st => ⟨rfl, rfl, rfl⟩, by decide, by decide, by decide, by decide⟩
/-! ## C22: the order of the destroy calls at teardown -/

theorem ranked_append {a m n b : Nat} {l1 l2 : List TeardownCall}
    (h1 : RankedWithin a m l1) (h2 : RankedWithin n b l2) (hm : m ≤ n) :
    RankedWithin a b (l1 ++ l2) := by
  obtain ⟨a1, p1, b1⟩ := h1
  obtain ⟨a2, p2, b2⟩ := h2
  refine ⟨by omega, ?_, ?_⟩
  · rw [List.pairwise_append]
    refine ⟨p1, p2, ?_⟩
    intro x hx y hy rx ry hrx hry
    have := b1 x hx rx hrx
    have := b2 y hy ry hry
    omega
  · intro x hx r hr
    rcases List.mem_append.mp hx with hx | hx
    · have := b1 x hx r hr
      omega
    · have := b2 x hx r hr
      omega

theorem ranked_const {l : List TeardownCall} (r : Nat) (h : ∀ x ∈ l, x.rank = some r) :
    RankedWithin r r l := by
  refine ⟨le_refl r, ?_, ?_⟩
  · rw [List.pairwise_iff_forall_sublist]
    intro x y hs rx ry hrx hry
    have hx := h x (hs.subset (by simp))
    have hy := h y (hs.subset (by simp))
    rw [hx] at hrx
    rw [hy] at hry
    cases hrx
    cases hry
    exact le_refl _
  · intro x hx k hk
    rw [h x hx] at hk
    cases hk
    exact ⟨le_refl _, le_refl _⟩

theorem ranked_waitIdle (lo hi : Nat) (h : lo ≤ hi) :
    RankedWithin lo hi [TeardownCall.vkDeviceWaitIdle] := by
  refine ⟨h, List.pairwise_singleton _ _, ?_⟩
  intro x hx r hr
  rw [List.mem_singleton] at hx
  subst hx
  cases hr

theorem ranked_nil (lo hi : Nat) (h : lo ≤ hi) : RankedWithin lo hi [] :=
  ⟨h, List.Pairwise.nil, fun x hx => by cases hx⟩

theorem ranked_snoc {a m b : Nat} {l1 l2 : List TeardownCall}
    (h1 : RankedWithin a m l1) (h2 : ∀ x ∈ l2, x.rank = some b) (hm : m ≤ b) :
    RankedWithin a b (l1 ++ l2) :=
  ranked_append h1 (ranked_const b h2) hm

theorem callIf_rank (c : Bool) (call : TeardownCall) (r : Nat) (h : call.rank = some r) :
    ∀ x ∈ callIf c call, x.rank = some r := by
  intro x hx
  unfold callIf at hx
  split at hx
  · rw [List.mem_singleton] at hx
    rw [hx]
    exact h
  · cases hx

theorem single_rank (call : TeardownCall) (r : Nat) (h : call.rank = some r) :
    ∀ x ∈ [call], x.rank = some r := by
  intro x hx
  rw [List.mem_singleton] at hx
  rw [hx]
  exact h

theorem triangle_ranked (h : Handles) (st : VulkanExampleBase) :
    RankedWithin 0 12 (Triangle.destructor h st) := by
  unfold Triangle.destructor
  split
  · refine ranked_snoc (m := 11) ?_ (callIf_rank _ _ _ rfl) (by decide)
    refine ranked_snoc (m := 10) ?_ (callIf_rank _ _ _ rfl) (by decide)
    refine ranked_snoc (m := 9) ?_ (callIf_rank _ _ _ rfl) (by decide)
    refine ranked_snoc (m := 8) ?_ (callIf_rank _ _ _ rfl) (by decide)
    refine ranked_append (m := 4) (n := 5) (b := 8) ?_ ?_ (by decide)
    · refine ranked_snoc (m := 3) ?_ (callIf_rank _ _ _ rfl) (by decide)
      refine ranked_snoc (m := 2) ?_ (callIf_rank _ _ _ rfl) (by decide)
      refine ranked_snoc (m := 1) ?_ (callIf_rank _ _ _ rfl) (by decide)
      refine ranked_snoc (m := 0) ?_ (callIf_rank _ _ _ rfl) (by decide)
      exact ranked_waitIdle 0 0 (le_refl 0)
    · have e : List.range MAX_CONCURRENT_FRAMES = [0, 1] := rfl
      rw [e]
      simp only [List.flatMap_cons, List.flatMap_nil, List.append_nil]
      rw [← List.append_assoc]
      refine ranked_snoc (m := 7) ?_ (callIf_rank _ _ _ rfl) (by decide)
      refine ranked_snoc (m := 6) ?_ (callIf_rank _ _ _ rfl) (by decide)
      refine ranked_snoc (m := 5) ?_ (callIf_rank _ _ _ rfl) (by decide)
      exact ranked_const 5 (callIf_rank _ _ _ rfl)
  · exact ranked_nil 0 12 (by decide)

theorem base_ranked (h : Handles) (st : VulkanExampleBase) :
    RankedWithin 13 25 (VulkanExampleBase.destructor h st) := by
  unfold VulkanExampleBase.destructor
  refine ranked_snoc (m := 24) ?_ (callIf_rank _ _ _ rfl) (by decide)
  refine ranked_snoc (m := 23) ?_ (callIf_rank _ _ _ rfl) (by decide)
  split
  · refine ranked_snoc (m := 22) ?_ (single_rank _ _ rfl) (by decide)
    refine ranked_snoc (m := 21) ?_ (callIf_rank _ _ _ rfl) (by decide)
    refine ranked_snoc (m := 20) ?_ (callIf_rank _ _ _ rfl) (by decide)
    refine ranked_snoc (m := 19) ?_ (callIf_rank _ _ _ rfl) (by decide)
    refine ranked_snoc (m := 18) ?_ ?_ (by decide)
    · refine ranked_snoc (m := 17) ?_ (callIf_rank _ _ _ rfl) (by decide)
      refine ranked_snoc (m := 16) ?_ (callIf_rank _ _ _ rfl) (by decide)
      refine ranked_snoc (m := 15) ?_ (callIf_rank _ _ _ rfl) (by decide)
      refine ranked_snoc (m := 14) ?_ (callIf_rank _ _ _ rfl) (by decide)
      refine ranked_snoc (m := 13) ?_ ?_ (by decide)
      · refine ranked_snoc (m := 13) (ranked_waitIdle 13 13 (le_refl 13)) ?_ (by decide)
        intro x hx
        obtain ⟨i, _, hi⟩ := List.mem_flatMap.mp hx
        rcases List.mem_append.mp hi with hi | hi
        · rcases List.mem_append.mp hi with hi | hi
          · exact callIf_rank _ (TeardownCall.vkDestroyFence i) 13 rfl x hi
          · exact callIf_rank _ (TeardownCall.vkDestroyPresentCompleteSemaphore i) 13 rfl x hi
        · exact callIf_rank _ (TeardownCall.vkDestroyRenderCompleteSemaphore i) 13 rfl x hi
      · intro x hx
        obtain ⟨i, _, rfl⟩ := List.mem_map.mp hx
        rfl
    · intro x hx
      obtain ⟨i, _, rfl⟩ := List.mem_map.mp hx
      rfl
  · exact ranked_nil 13 23 (by decide)

theorem deleteExample_ranked (h : Handles) (st : VulkanExampleBase) :
    RankedWithin 0 25 (deleteExample h st) :=
  ranked_append (triangle_ranked h st) (base_ranked h st) (by decide)

theorem dependsOn_rank (x y : TeardownCall) (h : x.dependsOn y = true) :
    ∃ rx ry : Nat, x.rank = some rx ∧ y.rank = some ry ∧ rx < ry := by
  unfold TeardownCall.dependsOn at h
  cases x <;>
    simp only [TeardownCall.isDeviceOwned, Bool.true_and, Bool.false_and, Bool.or_false,
      Bool.false_or, Bool.or_eq_true, beq_iff_eq, Bool.false_eq_true, or_false] at h
  all_goals try simp only [or_assoc] at h
  all_goals rcases h with rfl | rfl | rfl | rfl
  all_goals refine ⟨_, _, rfl, rfl, ?_⟩
  all_goals omega

theorem deleteExample_order (h : Handles) (st : VulkanExampleBase) (i j : Nat)
    (x y : TeardownCall) (hi : (deleteExample h st)[i]? = some x)
    (hj : (deleteExample h st)[j]? = some y) (hd : x.dependsOn y = true) : i < j := by
  obtain ⟨rx, ry, hx, hy, hlt⟩ := dependsOn_rank x y hd
  obtain ⟨_, hp, _⟩ := deleteExample_ranked h st
  obtain ⟨hil, hie⟩ := List.getElem?_eq_some_iff.mp hi
  obtain ⟨hjl, hje⟩ := List.getElem?_eq_some_iff.mp hj
  by_contra hn
  rcases Nat.lt_or_eq_of_le (Nat.le_of_not_lt hn) with hlt2 | heq
  · have := List.pairwise_iff_getElem.mp hp j i hjl hil hlt2 ry rx (by rw [hje, hy])
      (by rw [hie, hx])
    omega
  · subst heq
    rw [hie] at hje
    subst hje
    rw [hx] at hy
    cases hy
    omega

theorem holds_mem (h : Handles) (st : VulkanExampleBase) (c : TeardownCall) :
    h.holds st c = true ↔ c ∈ deleteExample h st := by
  have e : List.range MAX_CONCURRENT_FRAMES = [0, 1] := rfl
  cases hdev : st.device <;> cases c <;>
    simp [Handles.holds, deleteExample, Triangle.destructor, VulkanExampleBase.destructor,
      callIf, hdev, e, MAX_CONCURRENT_FRAMES]

/-- C22: the destructors, run by `delete vulkanExample` with a non-null device.
The first call is the device idle-wait, also in the destructor of the base
class taken alone, so that every destroy call comes after it.  The calls
made are exactly the destroy calls of the members that hold something,
among them `vkDestroyDevice`.  Whenever the object destroyed by a call `x`
depends on the object destroyed by a call `y` (every device-owned object on
the device, a framebuffer on the render pass, the depth view and the view of
its swapchain image, a swapchain image view on the swapchain, the swapchain on
the surface, the surface and the device on the instance, and so on as in
`TeardownCall.dependsOn`), every occurrence of `x` comes before every
occurrence of `y`. -/
theorem teardown_order (h : Handles) (st : VulkanExampleBase) (hdev : st.device = true) :
    (deleteExample h st)[0]? = some TeardownCall.vkDeviceWaitIdle ∧
    (VulkanExampleBase.destructor h st)[0]? = some TeardownCall.vkDeviceWaitIdle ∧
    (∀ (i : Nat) (x : TeardownCall), (deleteExample h st)[i]? = some x →
      x ≠ TeardownCall.vkDeviceWaitIdle → 0 < i) ∧
    TeardownCall.vkDestroyDevice ∈ deleteExample h st ∧
    (∀ c : TeardownCall, h.holds st c = true ↔ c ∈ deleteExample h st) ∧
    (∀ c : TeardownCall, c.isDeviceOwned = true →
      c.dependsOn TeardownCall.vkDestroyDevice = true) ∧
    (∀ (i j : Nat) (x y : TeardownCall), (deleteExample h st)[i]? = some x →
      (deleteExample h st)[j]? = some y → x.dependsOn y = true → i < j) := by
  have h0 : (deleteExample h st)[0]? = some TeardownCall.vkDeviceWaitIdle := by
    simp [deleteExample, Triangle.destructor, hdev]
  refine ⟨h0, ?_, ?_, ?_, holds_mem h st, ?_, ?_⟩
  · simp [VulkanExampleBase.destructor, hdev]
  · intro i x hi hx
    rcases Nat.eq_zero_or_pos i with hz | hz
    · subst hz
      rw [h0] at hi
      exact absurd (Option.some.inj hi).symm hx
    · exact hz
  · exact (holds_mem h st TeardownCall.vkDestroyDevice).mp hdev
  · intro c hc
    simp [TeardownCall.dependsOn, hc]
  · exact fun i j x y => deleteExample_order h st i j x y

/-- Witness for C22: teardown after a bring-up with three swapchain images, every
member holding an object. -/
theorem teardown_order_witness :
    stateAfterBringUp.device = true ∧
    (deleteExample exampleHandles stateAfterBringUp)[0]? =
      some TeardownCall.vkDeviceWaitIdle ∧
    deleteExample exampleHandles stateAfterBringUp =
      [TeardownCall.vkDeviceWaitIdle,
       TeardownCall.vkDestroyPipeline, TeardownCall.vkDestroyPipelineLayout,
       TeardownCall.vkDestroyDescriptorSetLayout, TeardownCall.vkDestroyDescriptorPool,
       TeardownCall.vkDestroyUniformBuffer 0, TeardownCall.vkFreeUniformBufferMemory 0,
       TeardownCall.vkDestroyUniformBuffer 1, TeardownCall.vkFreeUniformBufferMemory 1,
       TeardownCall.vkDestroyVertexBuffer, TeardownCall.vkFreeVertexBufferMemory,
       TeardownCall.vkDestroyIndexBuffer, TeardownCall.vkFreeIndexBufferMemory,
       TeardownCall.vkDeviceWaitIdle,
       TeardownCall.vkDestroyFence 0, TeardownCall.vkDestroyPresentCompleteSemaphore 0,
       TeardownCall.vkDestroyRenderCompleteSemaphore 0,
       TeardownCall.vkDestroyFence 1, TeardownCall.vkDestroyPresentCompleteSemaphore 1,
       TeardownCall.vkDestroyRenderCompleteSemaphore 1,
       TeardownCall.vkDestroyFramebuffer 0, TeardownCall.vkDestroyFramebuffer 1,
       TeardownCall.vkDestroyFramebuffer 2,
       TeardownCall.vkDestroyDepthStencilView, TeardownCall.vkDestroyDepthStencilImage,
       TeardownCall.vkFreeDepthStencilMemory, TeardownCall.vkDestroyRenderPass,
       TeardownCall.vkDestroySwapChainImageView 0, TeardownCall.vkDestroySwapChainImageView 1,
       TeardownCall.vkDestroySwapChainImageView 2,
       TeardownCall.vkDestroySwapchainKHR, TeardownCall.vkDestroyCommandPool,
       TeardownCall.vkDestroyPipelineCache, TeardownCall.vkDestroyDevice,
       TeardownCall.vkDestroySurfaceKHR, TeardownCall.vkDestroyInstance] :=
  ⟨by decide, (teardown_order exampleHandles stateAfterBringUp (by decide)).1, by decide⟩

/-! ## Bring-up leaves the fence cycle alone and creates the fences signaled -/

theorem checkLogs_quiet : CheckLogs FenceQuiet := by
  intro fs
  simp [FenceQuiet, Op.waitedFence, Op.submittedFence, Op.signaledFence]

theorem quiet_checkedCall (op : Op) (res : Int)
    (effect : VulkanExampleBase → VulkanExampleBase) (st : VulkanExampleBase) (w : List FenceStatus)
    (hop : FenceQuiet { op := op, fences := st.waitFences })
    (hst : st.waitFences = w) (heff : ∀ s, (effect s).waitFences = s.waitFences) :
    (checkedCall op res effect st).Sat FenceQuiet (fun s => s.waitFences = w) :=
  sat_checkedCall hop checkLogs_quiet (fun _ => by rw [heff]; exact hst)

theorem quiet_then {a : Step} {f : VulkanExampleBase → Step} {w : List FenceStatus}
    (ha : a.Sat FenceQuiet (fun s => s.waitFences = w))
    (hf : ∀ s, s.waitFences = w → (f s).Sat FenceQuiet (fun s => s.waitFences = w)) :
    (a.andThen f).Sat FenceQuiet (fun s => s.waitFences = w) :=
  sat_andThen ha hf

theorem quiet_abort (op : Op) (st : VulkanExampleBase) (w : List FenceStatus)
    (hop : FenceQuiet { op := op, fences := st.waitFences }) :
    Step.Sat { st := st, ops := [{ op := op, fences := st.waitFences }], aborted := true }
      FenceQuiet (fun s => s.waitFences = w) := by
  refine ⟨?_, by simp⟩
  intro e he
  simp only [List.mem_singleton] at he
  rw [he]
  exact hop

theorem createDevice_quiet (env : BringUpEnv) (st : VulkanExampleBase) :
    (createDevice env st).Sat FenceQuiet (fun s => s.waitFences = st.waitFences) := by
  unfold createDevice
  refine quiet_then
    (quiet_checkedCall _ _ _ _ _ ⟨rfl, rfl, rfl⟩ rfl (fun _ => rfl)) ?_
  intro s1 h1
  refine quiet_then (a := if env.physicalDevices.length > 0 then skip s1 else assertFail s1)
    ?_ ?_
  · split
    · exact sat_skip h1
    · exact quiet_abort _ _ _ ⟨rfl, rfl, rfl⟩
  intro s2 h2
  refine quiet_then
    (quiet_checkedCall _ _ _ _ _ ⟨rfl, rfl, rfl⟩ h2 (fun _ => rfl)) ?_
  intro s3 h3
  refine quiet_then (w := st.waitFences) (sat_skip h3) ?_
  intro s4 h4
  refine quiet_then
    (quiet_checkedCall _ _ _ _ _ ⟨rfl, rfl, rfl⟩ h4 (fun _ => rfl)) ?_
  intro s5 h5
  exact sat_emit ⟨rfl, rfl, rfl⟩ h5

theorem initVulkan_quiet (env : BringUpEnv) (st : VulkanExampleBase) :
    (initVulkan env st).Sat FenceQuiet (fun s => s.waitFences = st.waitFences) := by
  unfold initVulkan
  refine quiet_then (w := st.waitFences) (sat_skip rfl) ?_
  intro s1 h1
  refine quiet_then ?_ ?_
  · exact quiet_checkedCall _ _ _ _ _ ⟨rfl, rfl, rfl⟩ h1 (fun _ => rfl)
  intro s2 h2
  refine quiet_then ?_ ?_
  · exact quiet_checkedCall _ _ _ _ _ ⟨rfl, rfl, rfl⟩ h2 (fun _ => rfl)
  intro s3 h3
  rw [← h3]
  exact createDevice_quiet env s3

theorem createImageViewsLoop_quiet (env : BringUpEnv) (images : List Nat) :
    ∀ (n i : Nat) (st : VulkanExampleBase),
      (createImageViewsLoop env images n i st).Sat FenceQuiet
        (fun s => s.waitFences = st.waitFences) := by
  intro n
  induction n with
  | zero => intro i st; exact sat_skip rfl
  | succ n ih =>
    intro i st
    unfold createImageViewsLoop
    refine quiet_then (w := st.waitFences) (sat_skip rfl) ?_
    intro s1 h1
    refine quiet_then
      (quiet_checkedCall _ _ _ _ _ ⟨rfl, rfl, rfl⟩ h1 (fun _ => rfl)) ?_
    intro s2 h2
    rw [← h2]
    exact ih (i + 1) s2

theorem createSwapChain_quiet (env : BringUpEnv) (st : VulkanExampleBase) :
    (createSwapChain env st).Sat FenceQuiet (fun s => s.waitFences = st.waitFences) := by
  unfold createSwapChain
  refine quiet_then
    (quiet_checkedCall _ _ _ _ _ ⟨rfl, rfl, rfl⟩ rfl (fun _ => rfl)) ?_
  intro s1 h1
  refine quiet_then
    (quiet_checkedCall _ _ _ _ _ ⟨rfl, rfl, rfl⟩ h1 (fun _ => rfl)) ?_
  intro s2 h2
  refine quiet_then
    (quiet_checkedCall _ _ _ _ _ ⟨rfl, rfl, rfl⟩ h2 (fun _ => rfl)) ?_
  intro s3 h3
  refine quiet_then (w := st.waitFences) ?_ ?_
  · split
    · exact quiet_abort _ _ _ ⟨rfl, rfl, rfl⟩
    · exact sat_skip h3
  intro s4 h4
  refine quiet_then
    (quiet_checkedCall _ _ _ _ _ ⟨rfl, rfl, rfl⟩ h4 (fun _ => rfl)) ?_
  intro s5 h5
  refine quiet_then
    (quiet_checkedCall _ _ _ _ _ ⟨rfl, rfl, rfl⟩ h5 (fun _ => rfl)) ?_
  intro s6 h6
  refine quiet_then (w := st.waitFences) (sat_skip h6) ?_
  intro s7 h7
  refine quiet_then
    (quiet_checkedCall _ _ _ _ _ ⟨rfl, rfl, rfl⟩ h7 (fun _ => rfl)) ?_
  intro s8 h8
  refine quiet_then
    (quiet_checkedCall _ _ _ _ _ ⟨rfl, rfl, rfl⟩ h8 (fun _ => rfl)) ?_
  intro s9 h9
  refine quiet_then
    (quiet_checkedCall _ _ _ _ _ ⟨rfl, rfl, rfl⟩ h9 (fun _ => rfl)) ?_
  intro s10 h10
  refine quiet_then (w := st.waitFences) (sat_skip h10) ?_
  intro s11 h11
  rw [← h11]
  exact createImageViewsLoop_quiet env _ _ _ s11

theorem setupDepthStencil_quiet (env : BringUpEnv) (st : VulkanExampleBase) :
    (setupDepthStencil env st).Sat FenceQuiet (fun s => s.waitFences = st.waitFences) := by
  unfold setupDepthStencil
  refine quiet_then (w := st.waitFences) (sat_skip rfl) ?_
  intro s1 h1
  refine quiet_then
    (quiet_checkedCall _ _ _ _ _ ⟨rfl, rfl, rfl⟩ h1 (fun _ => rfl)) ?_
  intro s2 h2
  refine quiet_then
    (quiet_checkedCall _ _ _ _ _ ⟨rfl, rfl, rfl⟩ h2 (fun _ => rfl)) ?_
  intro s3 h3
  refine quiet_then
    (quiet_checkedCall _ _ _ _ _ ⟨rfl, rfl, rfl⟩ h3 (fun _ => rfl)) ?_
  intro s4 h4
  exact quiet_checkedCall _ _ _ _ _ ⟨rfl, rfl, rfl⟩ h4 (fun _ => rfl)

theorem setupFrameBufferLoop_quiet (env : BringUpEnv) :
    ∀ (n i : Nat) (st : VulkanExampleBase),
      (setupFrameBufferLoop env n i st).Sat FenceQuiet (fun s => s.waitFences = st.waitFences) := by
  intro n
  induction n with
  | zero => intro i st; exact sat_skip rfl
  | succ n ih =>
    intro i st
    unfold setupFrameBufferLoop
    refine quiet_then
      (quiet_checkedCall _ _ _ _ _ ⟨rfl, rfl, rfl⟩ rfl (fun _ => rfl)) ?_
    intro s1 h1
    rw [← h1]
    exact ih (i + 1) s1

theorem setupFrameBuffer_quiet (env : BringUpEnv) (st : VulkanExampleBase) :
    (setupFrameBuffer env st).Sat FenceQuiet (fun s => s.waitFences = st.waitFences) := by
  unfold setupFrameBuffer
  refine quiet_then (w := st.waitFences) (sat_skip rfl) ?_
  intro s1 h1
  rw [← h1]
  exact setupFrameBufferLoop_quiet env _ _ s1

theorem createSynchronizationPrimitives_quiet (env : BringUpEnv) (st : VulkanExampleBase)
    (hlen : st.waitFences.length = MAX_CONCURRENT_FRAMES) :
    (createSynchronizationPrimitives env st).Sat FenceQuiet
      (fun s => s.waitFences = [FenceStatus.signaled, FenceStatus.signaled]) := by
  have e : createSynchronizationPrimitives env st =
      createSynchronizationPrimitivesLoop env (1 + 1) 0 st := rfl
  have hw : (st.waitFences.set 0 FenceStatus.signaled).set 1 FenceStatus.signaled =
      [FenceStatus.signaled, FenceStatus.signaled] := by
    match hm : st.waitFences, hlen with
    | [_, _], _ => rfl
  rw [e]
  simp only [createSynchronizationPrimitivesLoop]
  refine sat_andThen
    (Q := fun s => s.waitFences = st.waitFences.set 0 FenceStatus.signaled)
    (sat_checkedCall ⟨rfl, rfl, rfl⟩ checkLogs_quiet (fun _ => rfl)) fun s1 h1 => ?_
  refine sat_andThen
    (quiet_checkedCall _ _ _ _ _ ⟨rfl, rfl, rfl⟩ h1 (fun _ => rfl)) fun s2 h2 => ?_
  refine sat_andThen
    (quiet_checkedCall _ _ _ _ _ ⟨rfl, rfl, rfl⟩ h2 (fun _ => rfl)) fun s3 h3 => ?_
  refine sat_andThen
    (Q := fun s => s.waitFences = [FenceStatus.signaled, FenceStatus.signaled])
    (sat_checkedCall ⟨rfl, rfl, rfl⟩ checkLogs_quiet (fun _ => by
      show s3.waitFences.set (0 + 1) _ = _
      rw [h3]
      exact hw)) fun s4 h4 => ?_
  refine sat_andThen
    (quiet_checkedCall _ _ _ _ _ ⟨rfl, rfl, rfl⟩ h4 (fun _ => rfl)) fun s5 h5 => ?_
  refine sat_andThen
    (quiet_checkedCall _ _ _ _ _ ⟨rfl, rfl, rfl⟩ h5 (fun _ => rfl)) fun s6 h6 => ?_
  exact sat_skip h6

theorem basePrepare_quiet (env : BringUpEnv) (st : VulkanExampleBase)
    (hlen : st.waitFences.length = MAX_CONCURRENT_FRAMES) :
    (VulkanExampleBase.prepare env st).Sat FenceQuiet
      (fun s => s.waitFences = [FenceStatus.signaled, FenceStatus.signaled]) := by
  unfold VulkanExampleBase.prepare createCommandPool createCommandBuffers createPipelineCache
    setupRenderPass
  refine sat_andThen (createSwapChain_quiet env st) fun s1 h1 => ?_
  refine sat_andThen
    (quiet_checkedCall _ _ _ _ _ ⟨rfl, rfl, rfl⟩ h1 (fun _ => rfl)) fun s2 h2 => ?_
  refine sat_andThen
    (quiet_checkedCall _ _ _ _ _ ⟨rfl, rfl, rfl⟩ h2 (fun _ => rfl)) fun s3 h3 => ?_
  refine sat_andThen
    (createSynchronizationPrimitives_quiet env s3 (by rw [h3]; exact hlen)) fun s4 h4 => ?_
  refine sat_andThen
    (quiet_checkedCall _ _ _ _ _ ⟨rfl, rfl, rfl⟩ h4 (fun _ => rfl)) fun s5 h5 => ?_
  refine sat_andThen (Q := fun s => s.waitFences = [FenceStatus.signaled, FenceStatus.signaled])
    (by rw [← h5]; exact setupDepthStencil_quiet env s5) fun s6 h6 => ?_
  refine sat_andThen
    (quiet_checkedCall _ _ _ _ _ ⟨rfl, rfl, rfl⟩ h6 (fun _ => rfl)) fun s7 h7 => ?_
  refine sat_andThen (Q := fun s => s.waitFences = [FenceStatus.signaled, FenceStatus.signaled])
    (by rw [← h7]; exact setupFrameBuffer_quiet env s7) fun s8 h8 => ?_
  exact sat_vkCall ⟨rfl, rfl, rfl⟩ h8

theorem trianglePrepare_quiet (env : BringUpEnv) (st : VulkanExampleBase)
    (hlen : st.waitFences.length = MAX_CONCURRENT_FRAMES) :
    (Triangle.prepare env st).Sat FenceQuiet
      (fun s => s.waitFences = [FenceStatus.signaled, FenceStatus.signaled]) := by
  unfold Triangle.prepare createVertexBuffer
  refine sat_andThen (basePrepare_quiet env st hlen) fun s1 h1 => ?_
  refine sat_andThen (Q := fun s => s.waitFences = [FenceStatus.signaled, FenceStatus.signaled])
    ?_ fun s2 h2 => ?_
  · refine sat_andThen
      (quiet_checkedCall _ _ _ _ _ ⟨rfl, rfl, rfl⟩ h1 (fun _ => rfl)) fun t1 g1 => ?_
    refine sat_andThen
      (quiet_checkedCall _ _ _ _ _ ⟨rfl, rfl, rfl⟩ g1 (fun _ => rfl)) fun t2 g2 => ?_
    exact quiet_checkedCall _ _ _ _ _ ⟨rfl, rfl, rfl⟩ g2 (fun _ => rfl)
  refine sat_andThen
    (quiet_checkedCall _ _ _ _ _ ⟨rfl, rfl, rfl⟩ h2 (fun _ => rfl)) fun s3 h3 => ?_
  refine sat_andThen
    (quiet_checkedCall _ _ _ _ _ ⟨rfl, rfl, rfl⟩ h3 (fun _ => rfl)) fun s4 h4 => ?_
  exact quiet_checkedCall _ _ _ _ _ ⟨rfl, rfl, rfl⟩ h4 (fun _ => rfl)

theorem bringUp_quiet (env : BringUpEnv) (st : VulkanExampleBase)
    (hw : env.window = true) (hlen : st.waitFences.length = MAX_CONCURRENT_FRAMES) :
    (handleAppCommand AppCmd.APP_CMD_INIT_WINDOW env st).Sat FenceQuiet
      (fun s => s.waitFences = [FenceStatus.signaled, FenceStatus.signaled]) := by
  unfold handleAppCommand handleAppCommandInternal
  simp only [hw, if_true]
  refine sat_andThen (Q := fun s => s.waitFences = st.waitFences)
    (sat_emit ⟨rfl, rfl, rfl⟩ rfl) fun s1 h1 => ?_
  refine sat_andThen (Q := fun s => s.waitFences = st.waitFences)
    (by rw [← h1]; exact initVulkan_quiet env s1) fun s2 h2 => ?_
  exact trianglePrepare_quiet env s2 (by rw [h2]; exact hlen)

theorem command_quiet (cmd : AppCmd) (env : BringUpEnv) (st : VulkanExampleBase)
    (h : (Event.command cmd env).isBringUp = false) :
    (handleAppCommand cmd env st).aborted = false ∧
    (handleAppCommand cmd env st).st.waitFences = st.waitFences ∧
    (handleAppCommand cmd env st).st.currentFrame = st.currentFrame ∧
    ∀ e ∈ (handleAppCommand cmd env st).ops, FenceQuiet e := by
  cases cmd with
  | APP_CMD_INIT_WINDOW =>
    have hw : env.window = false := by simpa [Event.isBringUp] using h
    simp [handleAppCommand, handleAppCommandInternal, hw, emit, Step.andThen, FenceQuiet,
      Op.waitedFence, Op.submittedFence, Op.signaledFence]
  | APP_CMD_TERM_WINDOW =>
    simp [handleAppCommand, handleAppCommandInternal, cleanup, emit, skip, Step.andThen,
      FenceQuiet, Op.waitedFence, Op.submittedFence, Op.signaledFence]
  | APP_CMD_GAINED_FOCUS =>
    simp [handleAppCommand, handleAppCommandInternal, emit, skip, Step.andThen,
      FenceQuiet, Op.waitedFence, Op.submittedFence, Op.signaledFence]
  | APP_CMD_LOST_FOCUS =>
    simp [handleAppCommand, handleAppCommandInternal, emit, skip, Step.andThen,
      FenceQuiet, Op.waitedFence, Op.submittedFence, Op.signaledFence]
  | other c =>
    simp [handleAppCommand, handleAppCommandInternal, emit,
      FenceQuiet, Op.waitedFence, Op.submittedFence, Op.signaledFence]


/-! ## Frames in flight across lifecycle commands -/

theorem fenceProtocol_quiet (fence : Nat) (w : List Op) (q : FencePhase)
    (h : ∀ o ∈ w, o.waitedFence = none ∧ o.submittedFence = none ∧ o.signaledFence = none) :
    fenceProtocol fence w q = some q := by
  induction w with
  | nil => rfl
  | cons o rest ih =>
    obtain ⟨h1, h2, h3⟩ := h o (List.mem_cons_self _ _)
    simp only [fenceProtocol, fenceStep, h1, h2, h3]
    exact ih fun x hx => h x (List.mem_cons_of_mem _ hx)

theorem quiet_trace (r : Step) (h : ∀ e ∈ r.ops, FenceQuiet e) :
    ∀ o ∈ r.trace, o.waitedFence = none ∧ o.submittedFence = none ∧ o.signaledFence = none := by
  intro o ho
  obtain ⟨e, he, rfl⟩ := List.mem_map.mp ho
  exact h e he

theorem runEvent_activity (a : Activity) (st : VulkanExampleBase) (r : Step)
    (hr : runEvent (Event.activity a) st = some r) : runActivity a st = some r := by
  cases a with
  | frame env =>
    simp only [runEvent] at hr
    split at hr
    · exact hr
    · cases hr
  | fenceSignaled slot => exact hr

theorem phaseOf_congr (fence : Nat) (s t : VulkanExampleBase)
    (h : s.waitFences = t.waitFences) : phaseOf fence s = phaseOf fence t := by
  unfold phaseOf
  rw [h]

theorem runEvent_protocol (fence : Nat) (e : Event) (st : VulkanExampleBase) (r : Step)
    (hr : runEvent e st = some r) (hok : r.aborted = false) (hnb : e.isBringUp = false)
    (hlen : st.waitFences.length = MAX_CONCURRENT_FRAMES)
    (hcf : st.currentFrame < MAX_CONCURRENT_FRAMES) :
    fenceProtocol fence r.trace (phaseOf fence st) = some (phaseOf fence r.st) ∧
    r.st.waitFences.length = MAX_CONCURRENT_FRAMES ∧
    r.st.currentFrame < MAX_CONCURRENT_FRAMES := by
  cases e with
  | activity a => exact runActivity_protocol fence a st r (runEvent_activity a st r hr) hok hlen hcf
  | command cmd env =>
    simp only [runEvent, Option.some.injEq] at hr
    subst hr
    obtain ⟨_, hw, hc, hq⟩ := command_quiet cmd env st hnb
    rw [fenceProtocol_quiet fence _ _ (quiet_trace _ hq), phaseOf_congr fence _ st hw, hw, hc]
    exact ⟨rfl, hlen, hcf⟩

theorem runEvent_accepts (fence : Nat) (e : Event) (st : VulkanExampleBase) (r : Step)
    (hr : runEvent e st = some r) (hnb : e.isBringUp = false) :
    ∃ q, fenceProtocol fence r.trace (phaseOf fence st) = some q := by
  cases e with
  | activity a => exact runActivity_accepts fence a st r (runEvent_activity a st r hr)
  | command cmd env =>
    simp only [runEvent, Option.some.injEq] at hr
    subst hr
    obtain ⟨_, _, _, hq⟩ := command_quiet cmd env st hnb
    exact ⟨_, fenceProtocol_quiet fence _ _ (quiet_trace _ hq)⟩

theorem runEvent_submitted (e : Event) (st : VulkanExampleBase) (r : Step)
    (hr : runEvent e st = some r) (hnb : e.isBringUp = false)
    (hcf : st.currentFrame < MAX_CONCURRENT_FRAMES) :
    ∀ o ∈ r.trace, ∀ f : Nat, o.submittedFence = some f → f < MAX_CONCURRENT_FRAMES := by
  intro o ho f hf
  cases e with
  | activity a =>
    exact runActivity_slots a st r (runEvent_activity a st r hr) hcf o ho f
      (submittedFence_mem_slots o f hf)
  | command cmd env =>
    simp only [runEvent, Option.some.injEq] at hr
    subst hr
    obtain ⟨_, _, _, hq⟩ := command_quiet cmd env st hnb
    rw [(quiet_trace _ hq o ho).2.1] at hf
    cases hf

theorem runEvents_accepts (fence : Nat) (events : List Event) :
    ∀ (st : VulkanExampleBase) (r : Step), runEvents events st = some r →
      (∀ e ∈ events, e.isBringUp = false) →
      st.waitFences.length = MAX_CONCURRENT_FRAMES →
      st.currentFrame < MAX_CONCURRENT_FRAMES →
      (∃ q, fenceProtocol fence r.trace (phaseOf fence st) = some q) ∧
      ∀ o ∈ r.trace, ∀ f : Nat, o.submittedFence = some f → f < MAX_CONCURRENT_FRAMES := by
  induction events with
  | nil =>
    intro st r hr _ _ _
    simp only [runEvents, Option.some.injEq] at hr
    subst hr
    exact ⟨⟨_, rfl⟩, fun o ho => by simp [skip, Step.trace] at ho⟩
  | cons e rest ih =>
    intro st r hr hnb hlen hcf
    have hne : e.isBringUp = false := hnb e (List.mem_cons_self _ _)
    have hnr : ∀ x ∈ rest, x.isBringUp = false := fun x hx => hnb x (List.mem_cons_of_mem _ hx)
    simp only [runEvents] at hr
    cases h1 : runEvent e st with
    | none => simp [h1] at hr
    | some r1 =>
      simp only [h1] at hr
      cases hab : r1.aborted with
      | true =>
        simp only [hab, if_true, Option.some.injEq] at hr
        subst hr
        exact ⟨runEvent_accepts fence e st r1 h1 hne, runEvent_submitted e st r1 h1 hne hcf⟩
      | false =>
        simp only [hab, Bool.false_eq_true, if_false] at hr
        cases h2 : runEvents rest r1.st with
        | none => simp [h2] at hr
        | some r2 =>
          simp only [h2, Option.some.injEq] at hr
          subst hr
          obtain ⟨p1, l1, c1⟩ := runEvent_protocol fence e st r1 h1 hab hne hlen hcf
          obtain ⟨⟨q, p2⟩, s2⟩ := ih r1.st r2 h2 hnr l1 c1
          have ht : Step.trace { st := r2.st, ops := r1.ops ++ r2.ops, aborted := r2.aborted } =
              r1.trace ++ r2.trace := by
            simp [Step.trace]
          rw [ht, fenceProtocol_append, p1]
          refine ⟨⟨q, p2⟩, ?_⟩
          intro o ho
          rcases List.mem_append.mp ho with ho | ho
          · exact runEvent_submitted e st r1 h1 hne hcf o ho
          · exact s2 o ho


/-- C19, as stated, fails: the window-created command is handled in every
state, re-creates both fences in the signaled state and neither waits for the
device nor resets `currentFrame`. After a bring-up and two frames whose
submissions are both pending, a second window-created command lets a third
frame pass its fence wait at once: the run has three submissions, on slots 0,
1 and 0, no fence has been signaled by the GPU and the device is never waited
for, so slot 0 has two submissions in flight and three frames are in flight. -/
theorem rebringUp_three_frames_in_flight :
    runEvents bringUpDuringFlight {} = some bringUpDuringFlightRun ∧
    bringUpDuringFlightRun.aborted = false ∧
    bringUpDuringFlightRun.trace.filter (fun o => o.submittedFence.isSome) =
      [Op.vkQueueSubmit 0 0 0 0, Op.vkQueueSubmit 1 1 1 1, Op.vkQueueSubmit 0 0 0 0] ∧
    bringUpDuringFlightRun.trace.countP (fun o => o.signaledFence.isSome) = 0 ∧
    Op.vkDeviceWaitIdle ∉ bringUpDuringFlightRun.trace ∧
    inFlight bringUpDuringFlightRun.trace 0 = 2 ∧
    inFlight bringUpDuringFlightRun.trace 1 = 1 ∧
    ¬ (inFlight bringUpDuringFlightRun.trace 0 ≤ 1) ∧
    ¬ (((List.range MAX_CONCURRENT_FRAMES).map (inFlight bringUpDuringFlightRun.trace)).sum ≤
      MAX_CONCURRENT_FRAMES) :=
  ⟨rfl, by decide, by decide, by decide, by decide, by decide, by decide, by decide, by decide⟩

/-- C19, amended: with a GPU that signals a pending fence at an arbitrary later
time and a fence wait that blocks until its fence is signaled, take any
schedule that starts with a window-created command (window non-null, so the
bring-up runs) and goes on with frames, GPU signals and lifecycle commands of
which none is a further bring-up. At every moment of its log the signals of
a fence do not outnumber the submissions on it and at most one submission on
it is not yet signaled; between two successive waits on the same fence there
is exactly one submission that signals that fence; every submission signals
the fence of slot 0 or of slot 1, so at most two frames are in flight. Runs
in which the bring-up or a frame ends in a failed assertion are covered. -/
theorem fence_bounds_after_bringUp (env0 : BringUpEnv) (events : List Event)
    (st0 : VulkanExampleBase) (r : Step)
    (hw : env0.window = true)
    (hlen : st0.waitFences.length = MAX_CONCURRENT_FRAMES)
    (hcf : st0.currentFrame < MAX_CONCURRENT_FRAMES)
    (hnb : ∀ e ∈ events, e.isBringUp = false)
    (hr : runEvents (Event.command AppCmd.APP_CMD_INIT_WINDOW env0 :: events) st0 = some r) :
    (∀ (fence n : Nat),
      (r.trace.take n).countP (fun o => o.signaledFence == some fence) ≤
        (r.trace.take n).countP (fun o => o.submittedFence == some fence) ∧
      inFlight (r.trace.take n) fence ≤ 1) ∧
    (∀ (fence : Nat) (pre mid post : List Op),
      r.trace = pre ++ Op.vkWaitForFences fence :: (mid ++ Op.vkWaitForFences fence :: post) →
      Op.vkWaitForFences fence ∉ mid →
      mid.countP (fun o => o.submittedFence == some fence) = 1) ∧
    (∀ o ∈ r.trace, ∀ (fence : Nat), o.submittedFence = some fence →
      fence < MAX_CONCURRENT_FRAMES) ∧
    (∀ n : Nat, ((List.range MAX_CONCURRENT_FRAMES).map (inFlight (r.trace.take n))).sum ≤
      MAX_CONCURRENT_FRAMES) := by
  have hb := bringUp_quiet env0 st0 hw hlen
  have hq1 := quiet_trace _ hb.1
  have key : (∀ fence, ∃ q, fenceProtocol fence r.trace FencePhase.idle = some q) ∧
      ∀ o ∈ r.trace, ∀ f : Nat, o.submittedFence = some f → f < MAX_CONCURRENT_FRAMES := by
    simp only [runEvents, runEvent] at hr
    cases hab : (handleAppCommand AppCmd.APP_CMD_INIT_WINDOW env0 st0).aborted with
    | true =>
      simp only [hab, if_true, Option.some.injEq] at hr
      subst hr
      refine ⟨fun fence => ⟨_, fenceProtocol_quiet fence _ _ hq1⟩, ?_⟩
      intro o ho f hf
      rw [(hq1 o ho).2.1] at hf
      cases hf
    | false =>
      simp only [hab, Bool.false_eq_true, if_false] at hr
      cases h2 : runEvents events (handleAppCommand AppCmd.APP_CMD_INIT_WINDOW env0 st0).st with
      | none => simp [h2] at hr
      | some r2 =>
        simp only [h2, Option.some.injEq] at hr
        subst hr
        have hf := hb.2 hab
        have hc : (handleAppCommand AppCmd.APP_CMD_INIT_WINDOW env0 st0).st.currentFrame <
            MAX_CONCURRENT_FRAMES := by
          unfold handleAppCommand
          rw [handleAppCommandInternal_cf]
          exact hcf
        have ht : Step.trace
            { st := r2.st,
              ops := (handleAppCommand AppCmd.APP_CMD_INIT_WINDOW env0 st0).ops ++ r2.ops,
              aborted := r2.aborted } =
            (handleAppCommand AppCmd.APP_CMD_INIT_WINDOW env0 st0).trace ++ r2.trace := by
          simp [Step.trace]
        rw [ht]
        refine ⟨fun fence => ?_, ?_⟩
        · obtain ⟨⟨q, p2⟩, _⟩ := runEvents_accepts fence events _ r2 h2 hnb
            (by rw [hf]; rfl) hc
          rw [phaseOf_created _ fence hf] at p2
          rw [fenceProtocol_append, fenceProtocol_quiet fence _ _ hq1]
          exact ⟨q, p2⟩
        · intro o ho f hsf
          rcases List.mem_append.mp ho with ho | ho
          · rw [(hq1 o ho).2.1] at hsf
            cases hsf
          · exact (runEvents_accepts 0 events _ r2 h2 hnb (by rw [hf]; rfl) hc).2 o ho f hsf
  exact fence_bounds_of_protocol r.trace key.1 key.2

/-- Witness for the amended C19: from the initial state, a bring-up, two frames,
a signal of fence 0, a loss and a gain of focus and a third frame form a
schedule, at whose end one submission is in flight on each fence. -/
theorem fence_bounds_after_bringUp_witness :
    (runEvents exampleEvents {}).isSome = true ∧
    inFlight ((runEvents exampleEvents {}).getD (skip {})).trace 0 = 1 ∧
    inFlight ((runEvents exampleEvents {}).getD (skip {})).trace 1 = 1 ∧
    inFlight (((runEvents exampleEvents {}).getD (skip {})).trace.take 100) 0 ≤ 1 :=
  ⟨by decide, by decide, by decide,
   ((fence_bounds_after_bringUp exampleBringUp
      [Event.activity (Activity.frame {}), Event.activity (Activity.frame {}),
       Event.activity (Activity.fenceSignaled 0),
       Event.command AppCmd.APP_CMD_LOST_FOCUS exampleBringUp,
       Event.command AppCmd.APP_CMD_GAINED_FOCUS exampleBringUp,
       Event.activity (Activity.frame {})] {}
      ((runEvents exampleEvents {}).getD (skip {})) rfl rfl (by decide) (by decide) rfl).1
        0 100).2⟩


/-! ## The calls of a bring-up that completes -/

theorem issues_left {a : Step} {f : VulkanExampleBase → Step} {p : Op → Prop}
    (h : a.Issues p) : (a.andThen f).Issues p := by
  intro hab
  obtain ⟨o, ho, hp⟩ := h (andThen_aborted_false hab).1
  exact ⟨o, mem_trace_andThen_left ho, hp⟩

theorem issues_right {a : Step} {f : VulkanExampleBase → Step} {p : Op → Prop}
    (h : (f a.st).Issues p) : (a.andThen f).Issues p := by
  intro hab
  obtain ⟨h1, h2⟩ := andThen_aborted_false hab
  obtain ⟨o, ho, hp⟩ := h h2
  exact ⟨o, mem_trace_andThen_right h1 ho, hp⟩

theorem issues_after {a : Step} {f : VulkanExampleBase → Step} {p : Op → Prop}
    {P : LogEntry → Prop} {Q : VulkanExampleBase → Prop}
    (ha : a.Sat P Q) (h : ∀ s, Q s → (f s).Issues p) : (a.andThen f).Issues p := by
  intro hab
  exact issues_right (h _ (ha.2 (andThen_aborted_false hab).1)) hab

theorem issues_checkedCall {p : Op → Prop} (op : Op) (res : Int)
    (effect : VulkanExampleBase → VulkanExampleBase) (st : VulkanExampleBase) (h : p op) :
    (checkedCall op res effect st).Issues p :=
  fun _ => ⟨op, checkedCall_mem op res effect st, h⟩

theorem createDevice_issues (env : BringUpEnv) (st : VulkanExampleBase) :
    (createDevice env st).Issues (fun o => ∃ q, o = Op.vkCreateDevice q 1) := by
  unfold createDevice
  refine issues_right (issues_right (issues_right (issues_right (issues_left ?_))))
  exact issues_checkedCall _ _ _ _ ⟨_, rfl⟩

theorem initVulkan_issues (env : BringUpEnv) (st : VulkanExampleBase) :
    (initVulkan env st).Issues (fun o => o = Op.vkCreateInstance) ∧
    (initVulkan env st).Issues (fun o => o = Op.vkCreateAndroidSurfaceKHR) ∧
    (initVulkan env st).Issues (fun o => ∃ q, o = Op.vkCreateDevice q 1) := by
  unfold initVulkan createInstance createSurface
  refine ⟨?_, ?_, ?_⟩
  · exact issues_right (issues_left (issues_checkedCall _ _ _ _ rfl))
  · exact issues_right (issues_right (issues_left (issues_checkedCall _ _ _ _ rfl)))
  · exact issues_right (issues_right (issues_right (createDevice_issues env _)))

theorem createImageViewsLoop_issues (env : BringUpEnv) (images : List Nat) (j : Nat) :
    ∀ (n i : Nat) (st : VulkanExampleBase), i ≤ j → j < i + n →
      (createImageViewsLoop env images n i st).Issues
        (fun o => ∃ f, o = Op.vkCreateImageView (images.getD j VK_NULL_HANDLE) f
          VK_IMAGE_ASPECT_COLOR_BIT) := by
  intro n
  induction n with
  | zero => intro i st h1 h2; omega
  | succ n ih =>
    intro i st h1 h2
    unfold createImageViewsLoop
    rcases Nat.eq_or_lt_of_le h1 with heq | hlt
    · subst heq
      exact issues_right (issues_left (issues_checkedCall _ _ _ _ ⟨_, rfl⟩))
    · exact issues_right (issues_right (ih (i + 1) _ hlt (by omega)))

theorem createSwapChain_issues (env : BringUpEnv) (st : VulkanExampleBase) :
    (createSwapChain env st).Issues
      (fun o => ∃ f c, o = Op.vkCreateSwapchainKHR
        (desiredImageCount env.surfaceCaps.minImageCount env.surfaceCaps.maxImageCount) f c
        env.surfaceCaps.currentExtentWidth env.surfaceCaps.currentExtentHeight) ∧
    ∀ j, j < env.swapchainImages.length →
      (createSwapChain env st).Issues
        (fun o => ∃ f, o = Op.vkCreateImageView (env.swapchainImages.getD j VK_NULL_HANDLE) f
          VK_IMAGE_ASPECT_COLOR_BIT) := by
  unfold createSwapChain
  refine ⟨?_, ?_⟩
  · refine issues_right (issues_right (issues_right (issues_right (issues_right
      (issues_right (issues_right (issues_left ?_)))))))
    exact issues_checkedCall _ _ _ _ ⟨_, _, rfl⟩
  · intro j hj
    refine issues_right (issues_right (issues_right (issues_right (issues_right
      (issues_right (issues_right (issues_right ?_)))))))
    refine issues_after (P := fun _ => True)
      (Q := fun s => s.imageCount = env.swapchainImages.length)
      (sat_checkedCall trivial (fun _ => ⟨fun _ => trivial, trivial⟩) (fun _ => rfl))
      fun s1 h1 => ?_
    refine issues_after (P := fun _ => True)
      (Q := fun s => s.imageCount = env.swapchainImages.length)
      (sat_checkedCall trivial (fun _ => ⟨fun _ => trivial, trivial⟩) (fun _ => h1))
      fun s2 h2 => ?_
    refine issues_right ?_
    exact createImageViewsLoop_issues env _ j _ 0 _ (Nat.zero_le j)
      (by show j < 0 + s2.imageCount; omega)

theorem createSynchronizationPrimitivesLoop_issues (env : BringUpEnv) (j : Nat) :
    ∀ (n i : Nat) (st : VulkanExampleBase), i ≤ j → j < i + n →
      (createSynchronizationPrimitivesLoop env n i st).Issues
        (fun o => o = Op.vkCreateFence j) ∧
      (createSynchronizationPrimitivesLoop env n i st).Issues
        (fun o => o = Op.vkCreatePresentCompleteSemaphore j) ∧
      (createSynchronizationPrimitivesLoop env n i st).Issues
        (fun o => o = Op.vkCreateRenderCompleteSemaphore j) := by
  intro n
  induction n with
  | zero => intro i st h1 h2; omega
  | succ n ih =>
    intro i st h1 h2
    unfold createSynchronizationPrimitivesLoop
    rcases Nat.eq_or_lt_of_le h1 with heq | hlt
    · subst heq
      exact ⟨issues_left (issues_checkedCall _ _ _ _ rfl),
        issues_right (issues_left (issues_checkedCall _ _ _ _ rfl)),
        issues_right (issues_right (issues_left (issues_checkedCall _ _ _ _ rfl)))⟩
    · have key := fun s => ih (i + 1) s hlt (by omega)
      exact ⟨issues_right (issues_right (issues_right (key _).1)),
        issues_right (issues_right (issues_right (key _).2.1)),
        issues_right (issues_right (issues_right (key _).2.2))⟩

theorem setupFrameBufferLoop_issues (env : BringUpEnv) (j : Nat) :
    ∀ (n i : Nat) (st : VulkanExampleBase), i ≤ j → j < i + n →
      (setupFrameBufferLoop env n i st).Issues
        (fun o => ∃ a w h, o = Op.vkCreateFramebuffer j a w h) := by
  intro n
  induction n with
  | zero => intro i st h1 h2; omega
  | succ n ih =>
    intro i st h1 h2
    unfold setupFrameBufferLoop
    rcases Nat.eq_or_lt_of_le h1 with heq | hlt
    · subst heq
      exact issues_left (issues_checkedCall _ _ _ _ ⟨_, _, _, rfl⟩)
    · exact issues_right (ih (i + 1) _ hlt (by omega))

theorem basePrepare_issues (env : BringUpEnv) (st : VulkanExampleBase) :
    (VulkanExampleBase.prepare env st).Issues
      (fun o => ∃ f c, o = Op.vkCreateSwapchainKHR
        (desiredImageCount env.surfaceCaps.minImageCount env.surfaceCaps.maxImageCount) f c
        env.surfaceCaps.currentExtentWidth env.surfaceCaps.currentExtentHeight) ∧
    (∀ j, j < env.swapchainImages.length →
      (VulkanExampleBase.prepare env st).Issues
        (fun o => ∃ f, o = Op.vkCreateImageView (env.swapchainImages.getD j VK_NULL_HANDLE) f
          VK_IMAGE_ASPECT_COLOR_BIT)) ∧
    (VulkanExampleBase.prepare env st).Issues (fun o => ∃ q, o = Op.vkCreateCommandPool q) ∧
    (VulkanExampleBase.prepare env st).Issues
      (fun o => o = Op.vkAllocateCommandBuffers MAX_CONCURRENT_FRAMES) ∧
    (∀ j, j < MAX_CONCURRENT_FRAMES →
      (VulkanExampleBase.prepare env st).Issues (fun o => o = Op.vkCreateFence j) ∧
      (VulkanExampleBase.prepare env st).Issues
        (fun o => o = Op.vkCreatePresentCompleteSemaphore j) ∧
      (VulkanExampleBase.prepare env st).Issues
        (fun o => o = Op.vkCreateRenderCompleteSemaphore j)) ∧
    (VulkanExampleBase.prepare env st).Issues (fun o => ∃ f w h, o = Op.vkCreateImage f w h) ∧
    (VulkanExampleBase.prepare env st).Issues
      (fun o => ∃ f, o = Op.vkCreateImageView env.depthImage f (depthAspectMask f)) ∧
    (VulkanExampleBase.prepare env st).Issues (fun o => ∃ c d, o = Op.vkCreateRenderPass c d) ∧
    (∀ j, j < env.swapchainImages.length →
      (VulkanExampleBase.prepare env st).Issues
        (fun o => ∃ a w h, o = Op.vkCreateFramebuffer j a w h)) ∧
    (VulkanExampleBase.prepare env st).Issues (fun o => o = Op.logPreparationComplete) := by
  refine ⟨?_, ?_, ?_, ?_, ?_, ?_, ?_, ?_, ?_, ?_⟩
  · unfold VulkanExampleBase.prepare
    exact issues_left (createSwapChain_issues env st).1
  · intro j hj
    unfold VulkanExampleBase.prepare
    exact issues_left ((createSwapChain_issues env st).2 j hj)
  · unfold VulkanExampleBase.prepare createCommandPool
    exact issues_right (issues_left (issues_checkedCall _ _ _ _ ⟨_, rfl⟩))
  · unfold VulkanExampleBase.prepare createCommandBuffers
    exact issues_right (issues_right (issues_left (issues_checkedCall _ _ _ _ rfl)))
  · intro j hj
    have key := fun s => createSynchronizationPrimitivesLoop_issues env j
      MAX_CONCURRENT_FRAMES 0 s (Nat.zero_le j) (by omega)
    unfold VulkanExampleBase.prepare createSynchronizationPrimitives
    exact ⟨issues_right (issues_right (issues_right (issues_left (key _).1))),
      issues_right (issues_right (issues_right (issues_left (key _).2.1))),
      issues_right (issues_right (issues_right (issues_left (key _).2.2)))⟩
  · unfold VulkanExampleBase.prepare setupDepthStencil
    exact issues_right (issues_right (issues_right (issues_right (issues_right (issues_left
      (issues_right (issues_left (issues_checkedCall _ _ _ _ ⟨_, _, _, rfl⟩))))))))
  · unfold VulkanExampleBase.prepare setupDepthStencil
    exact issues_right (issues_right (issues_right (issues_right (issues_right (issues_left
      (issues_right (issues_right (issues_right (issues_right
        (issues_checkedCall _ _ _ _ ⟨_, rfl⟩))))))))))
  · unfold VulkanExampleBase.prepare setupRenderPass
    exact issues_right (issues_right (issues_right (issues_right (issues_right (issues_right
      (issues_left (issues_checkedCall _ _ _ _ ⟨_, _, rfl⟩)))))))
  · intro j hj
    unfold VulkanExampleBase.prepare createCommandPool createCommandBuffers
      createSynchronizationPrimitives createPipelineCache setupRenderPass
    refine issues_after (createSwapChain_shape env st) fun s hs => ?_
    refine issues_after (sat_ext_checkedCall (W := 0) (H := 0) _ _ _ _ trivial hs) fun s hs => ?_
    refine issues_after (sat_ext_checkedCall (W := 0) (H := 0) _ _ _ _ trivial hs) fun s hs => ?_
    refine issues_after (createSynchronizationPrimitivesLoop_shape env _ _ _ _ _ _ hs)
      fun s hs => ?_
    refine issues_after (sat_ext_checkedCall (W := 0) (H := 0) _ _ _ _ trivial hs) fun s hs => ?_
    refine issues_after (setupDepthStencil_shape env _ _ _ _ hs) fun s hs => ?_
    refine issues_after (sat_ext_checkedCall (W := 0) (H := 0) _ _ _ _ trivial hs) fun s hs => ?_
    refine issues_left ?_
    unfold setupFrameBuffer
    refine issues_right ?_
    refine setupFrameBufferLoop_issues env j _ 0 _ (Nat.zero_le j) ?_
    show j < 0 + s.imageCount
    rw [hs.2.2.1]
    omega
  · unfold VulkanExampleBase.prepare
    refine issues_right (issues_right (issues_right (issues_right (issues_right (issues_right
      (issues_right (issues_right ?_)))))))
    intro _
    exact ⟨_, by simp [vkCall, Step.trace], rfl⟩

theorem issues_mem {a : Step} {p : Op → Prop} (h : a.Issues p) (hab : a.aborted = false) :
    ∃ o ∈ a.trace, p o :=
  h hab

theorem andThen_st_ok {a : Step} {f : VulkanExampleBase → Step}
    (h : (a.andThen f).aborted = false) : (a.andThen f).st = (f a.st).st := by
  rw [andThen_st, (andThen_aborted_false h).1]
  rfl

theorem basePrepare_prepared (env : BringUpEnv) (st : VulkanExampleBase) :
    (VulkanExampleBase.prepare env st).Sat (fun _ => True) (fun s => s.prepared = true) := by
  have any : ∀ a : Step, a.Sat (fun _ => True) (fun _ => True) :=
    fun a => ⟨fun _ _ => trivial, fun _ => trivial⟩
  unfold VulkanExampleBase.prepare
  refine sat_andThen (any _) fun s _ => ?_
  refine sat_andThen (any _) fun s _ => ?_
  refine sat_andThen (any _) fun s _ => ?_
  refine sat_andThen (any _) fun s _ => ?_
  refine sat_andThen (any _) fun s _ => ?_
  refine sat_andThen (any _) fun s _ => ?_
  refine sat_andThen (any _) fun s _ => ?_
  refine sat_andThen (any _) fun s _ => ?_
  exact sat_vkCall trivial rfl

/-- C12, amended: a window-created command performs bring-up whenever the native
window is non-null, in every state, whether or not bring-up has been performed
before. The handler logs the command and runs `initVulkan` and `prepare`;
`vkCreateInstance` is called in any case, and unless a checked call fails and
terminates the process, the handler creates an instance, a surface, a device,
a swapchain with a view for every image, a command pool, the command buffers,
a fence and two semaphores for each frame slot, the depth image and its view,
a render pass and a framebuffer for every image, and sets `prepared`. With a
null window it logs two lines, creates nothing and changes no field. -/
theorem initWindow_runs_bringUp (env : BringUpEnv) (st : VulkanExampleBase) :
    (env.window = true →
      handleAppCommandInternal AppCmd.APP_CMD_INIT_WINDOW env st =
        ((emit (Op.logAppCmd AppCmd.APP_CMD_INIT_WINDOW) st).andThen fun s =>
          (initVulkan env s).andThen (Triangle.prepare env)) ∧
      Op.vkCreateInstance ∈ (handleAppCommandInternal AppCmd.APP_CMD_INIT_WINDOW env st).trace ∧
      ((handleAppCommandInternal AppCmd.APP_CMD_INIT_WINDOW env st).aborted = false →
        Op.vkCreateAndroidSurfaceKHR ∈
          (handleAppCommandInternal AppCmd.APP_CMD_INIT_WINDOW env st).trace ∧
        (∃ q, Op.vkCreateDevice q 1 ∈
          (handleAppCommandInternal AppCmd.APP_CMD_INIT_WINDOW env st).trace) ∧
        (∃ f c, Op.vkCreateSwapchainKHR
          (desiredImageCount env.surfaceCaps.minImageCount env.surfaceCaps.maxImageCount) f c
          env.surfaceCaps.currentExtentWidth env.surfaceCaps.currentExtentHeight ∈
          (handleAppCommandInternal AppCmd.APP_CMD_INIT_WINDOW env st).trace) ∧
        (∀ j, j < env.swapchainImages.length →
          ∃ f, Op.vkCreateImageView (env.swapchainImages.getD j VK_NULL_HANDLE) f
            VK_IMAGE_ASPECT_COLOR_BIT ∈
            (handleAppCommandInternal AppCmd.APP_CMD_INIT_WINDOW env st).trace) ∧
        (∃ q, Op.vkCreateCommandPool q ∈
          (handleAppCommandInternal AppCmd.APP_CMD_INIT_WINDOW env st).trace) ∧
        Op.vkAllocateCommandBuffers MAX_CONCURRENT_FRAMES ∈
          (handleAppCommandInternal AppCmd.APP_CMD_INIT_WINDOW env st).trace ∧
        (∀ j, j < MAX_CONCURRENT_FRAMES →
          Op.vkCreateFence j ∈
            (handleAppCommandInternal AppCmd.APP_CMD_INIT_WINDOW env st).trace ∧
          Op.vkCreatePresentCompleteSemaphore j ∈
            (handleAppCommandInternal AppCmd.APP_CMD_INIT_WINDOW env st).trace ∧
          Op.vkCreateRenderCompleteSemaphore j ∈
            (handleAppCommandInternal AppCmd.APP_CMD_INIT_WINDOW env st).trace) ∧
        (∃ f w h, Op.vkCreateImage f w h ∈
          (handleAppCommandInternal AppCmd.APP_CMD_INIT_WINDOW env st).trace) ∧
        (∃ f, Op.vkCreateImageView env.depthImage f (depthAspectMask f) ∈
          (handleAppCommandInternal AppCmd.APP_CMD_INIT_WINDOW env st).trace) ∧
        (∃ c d, Op.vkCreateRenderPass c d ∈
          (handleAppCommandInternal AppCmd.APP_CMD_INIT_WINDOW env st).trace) ∧
        (∀ j, j < env.swapchainImages.length →
          ∃ a w h, Op.vkCreateFramebuffer j a w h ∈
            (handleAppCommandInternal AppCmd.APP_CMD_INIT_WINDOW env st).trace) ∧
        (handleAppCommandInternal AppCmd.APP_CMD_INIT_WINDOW env st).st.prepared = true)) ∧
    (env.window = false →
      handleAppCommandInternal AppCmd.APP_CMD_INIT_WINDOW env st =
        { st := st,
          ops := [{ op := Op.logAppCmd AppCmd.APP_CMD_INIT_WINDOW, fences := st.waitFences },
                  { op := Op.logWindowNull, fences := st.waitFences }],
          aborted := false }) := by
  refine ⟨?_, ?_⟩
  · intro hw
    have he : handleAppCommandInternal AppCmd.APP_CMD_INIT_WINDOW env st =
        ((emit (Op.logAppCmd AppCmd.APP_CMD_INIT_WINDOW) st).andThen fun s =>
          (initVulkan env s).andThen (Triangle.prepare env)) := by
      simp [handleAppCommandInternal, hw]
    rw [he]
    refine ⟨rfl, ?_, ?_⟩
    · refine mem_trace_andThen_right rfl (mem_trace_andThen_left ?_)
      unfold initVulkan
      refine mem_trace_andThen_right rfl (mem_trace_andThen_left ?_)
      exact checkedCall_mem _ _ _ _
    · intro hab
      have iv : ∀ {p : Op → Prop}, (∀ s, (initVulkan env s).Issues p) →
          ∃ o ∈ ((emit (Op.logAppCmd AppCmd.APP_CMD_INIT_WINDOW) st).andThen fun s =>
            (initVulkan env s).andThen (Triangle.prepare env)).trace, p o :=
        fun h => issues_mem (issues_right (issues_left (h _))) hab
      have bp : ∀ {p : Op → Prop}, (∀ s, (VulkanExampleBase.prepare env s).Issues p) →
          ∃ o ∈ ((emit (Op.logAppCmd AppCmd.APP_CMD_INIT_WINDOW) st).andThen fun s =>
            (initVulkan env s).andThen (Triangle.prepare env)).trace, p o := by
        intro p h
        refine issues_mem (issues_right (issues_right ?_)) hab
        unfold Triangle.prepare
        exact issues_left (h _)
      refine ⟨?_, ?_, ?_, ?_, ?_, ?_, ?_, ?_, ?_, ?_, ?_, ?_⟩
      · obtain ⟨o, ho, rfl⟩ := iv fun s => (initVulkan_issues env s).2.1
        exact ho
      · obtain ⟨o, ho, q, rfl⟩ := iv fun s => (initVulkan_issues env s).2.2
        exact ⟨q, ho⟩
      · obtain ⟨o, ho, f, c, rfl⟩ := bp fun s => (basePrepare_issues env s).1
        exact ⟨f, c, ho⟩
      · intro j hj
        obtain ⟨o, ho, f, rfl⟩ := bp fun s => (basePrepare_issues env s).2.1 j hj
        exact ⟨f, ho⟩
      · obtain ⟨o, ho, q, rfl⟩ := bp fun s => (basePrepare_issues env s).2.2.1
        exact ⟨q, ho⟩
      · obtain ⟨o, ho, rfl⟩ := bp fun s => (basePrepare_issues env s).2.2.2.1
        exact ho
      · intro j hj
        obtain ⟨o1, ho1, rfl⟩ := bp fun s => ((basePrepare_issues env s).2.2.2.2.1 j hj).1
        obtain ⟨o2, ho2, rfl⟩ := bp fun s => ((basePrepare_issues env s).2.2.2.2.1 j hj).2.1
        obtain ⟨o3, ho3, rfl⟩ := bp fun s => ((basePrepare_issues env s).2.2.2.2.1 j hj).2.2
        exact ⟨ho1, ho2, ho3⟩
      · obtain ⟨o, ho, f, w, h, rfl⟩ := bp fun s => (basePrepare_issues env s).2.2.2.2.2.1
        exact ⟨f, w, h, ho⟩
      · obtain ⟨o, ho, f, rfl⟩ := bp fun s => (basePrepare_issues env s).2.2.2.2.2.2.1
        exact ⟨f, ho⟩
      · obtain ⟨o, ho, c, d, rfl⟩ := bp fun s => (basePrepare_issues env s).2.2.2.2.2.2.2.1
        exact ⟨c, d, ho⟩
      · intro j hj
        obtain ⟨o, ho, a, w, h, rfl⟩ :=
          bp fun s => (basePrepare_issues env s).2.2.2.2.2.2.2.2.1 j hj
        exact ⟨a, w, h, ho⟩
      · rw [andThen_st_ok hab]
        obtain ⟨_, h2⟩ := andThen_aborted_false hab
        rw [andThen_st_ok h2]
        obtain ⟨_, h3⟩ := andThen_aborted_false h2
        obtain ⟨h4, h5⟩ := trianglePrepare_state env _ h3
        rw [h5]
        exact (basePrepare_prepared env _).2 h4
  · intro hw
    simp [handleAppCommandInternal, hw, emit, Step.andThen]

/-- Witness for the amended C12: with the example answers (window non-null) the
handler, run in the state reached by an earlier bring-up, completes and
creates a surface again. -/
theorem initWindow_runs_bringUp_witness :
    stateAfterBringUp.prepared = true ∧
    (handleAppCommandInternal AppCmd.APP_CMD_INIT_WINDOW exampleBringUp
      stateAfterBringUp).aborted = false ∧
    Op.vkCreateAndroidSurfaceKHR ∈ (handleAppCommandInternal AppCmd.APP_CMD_INIT_WINDOW
      exampleBringUp stateAfterBringUp).trace :=
  ⟨by decide, by decide,
   (((initWindow_runs_bringUp exampleBringUp stateAfterBringUp).1 rfl).2.2 (by decide)).1⟩

end VulkanDemos
